import Mathlib

/-!
# stack-vm: a shallow embedding of the machine core

The C sources keep every subsystem in file-scope state (`MEMORY`, `cpu`,
`IO_READ_FUNPTR`, `IO_WRITE_FUNPTR`, `DISK`, `disk`, `display`).  Here that state
is one record, `Machine`, and every C function is a pure function on it.

Conventions of the embedding:

* `unsigned char`, `unsigned short` and `unsigned` values are `Fin 256`,
  `Fin 65536` and `Fin 4294967296`; arithmetic is done on natural numbers or
  integers (C's integer promotion) and every conversion back to a machine type
  is an explicit reduction modulo `2^w` (`toUChar`, `toUShort`, `toUInt`).
* C's `~x` on a promoted operand is the integer `-x - 1` (`BITNOT`), C's `!x`
  is `LNOT`.
* Bit-fields are laid out least-significant bit first (the layout the disk
  status port of the specification assumes), unions little-endian.
* A function pointer is the name of the function it points to (`OpcodeFn`,
  `ReadFn`, `WriteFn`) together with the function that runs it.
* Where C leaves the order of evaluation of two arguments open, the two
  evaluations are independent (one reads at `I`, the other at `S`, neither
  writes memory); the embedding evaluates them left to right.
-/

namespace StackVM

/-! ## Machine integers -/

/-- An `unsigned char`. -/
abbrev Byte := Fin 256

/-- An `unsigned short`. -/
abbrev Short := Fin 65536

/-- An `unsigned` (32 bits). -/
abbrev Word := Fin 4294967296

/-- Conversion of a non-negative C integer to `unsigned char`. -/
def toUChar (n : Nat) : Byte := ⟨n % 256, Nat.mod_lt n (by decide)⟩

/-- Conversion of a non-negative C integer to `unsigned short`. -/
def toUShort (n : Nat) : Short := ⟨n % 65536, Nat.mod_lt n (by decide)⟩

/-- Conversion of a non-negative C integer to `unsigned`. -/
def toUInt (n : Nat) : Word := ⟨n % 4294967296, Nat.mod_lt n (by decide)⟩

/-- C's `~x` for an operand promoted to `int`. -/
def BITNOT (x : Nat) : Int := -(x : Int) - 1

/-- C's `!x`. -/
def LNOT (x : Nat) : Nat := if x = 0 then 1 else 0

/-- Conversion of a (possibly negative) C `int` to `unsigned char`. -/
def intToUChar (z : Int) : Byte :=
  ⟨(z % 256).toNat, by
    have h1 : 0 ≤ z % 256 := Int.emod_nonneg z (by decide)
    have h2 : z % 256 < 256 := Int.emod_lt_of_pos z (by decide)
    omega⟩

/-- Conversion of a (possibly negative) C `int` to `unsigned short`. -/
def intToUShort (z : Int) : Short :=
  ⟨(z % 65536).toNat, by
    have h1 : 0 ≤ z % 65536 := Int.emod_nonneg z (by decide)
    have h2 : z % 65536 < 65536 := Int.emod_lt_of_pos z (by decide)
    omega⟩

/-- Conversion of a (possibly negative) C `int` to `unsigned`. -/
def intToUInt (z : Int) : Word :=
  ⟨(z % 4294967296).toNat, by
    have h1 : 0 ≤ z % 4294967296 := Int.emod_nonneg z (by decide)
    have h2 : z % 4294967296 < 4294967296 := Int.emod_lt_of_pos z (by decide)
    omega⟩

/-- Assignment of a C integer to a one-bit unsigned bit-field keeps bit 0. -/
def toBit (n : Nat) : Bool := decide (n % 2 = 1)

/-- Value of a one-bit bit-field read as a C integer. -/
def bitVal (b : Bool) : Nat := if b then 1 else 0

/-- Value of a C comparison: 1 when it holds, 0 otherwise. -/
def cmpVal (p : Bool) : Nat := if p then 1 else 0

/-- Byte 0 of a little-endian union `{ struct { lo; hi; }; value; }`. -/
def unionLo (value : Nat) : Byte := toUChar value

/-- Byte 1 of a little-endian union `{ struct { lo; hi; }; value; }`. -/
def unionHi (value : Nat) : Byte := toUChar (value / 256)

/-- The value of the union after `lo = b`: byte 0 replaced, the rest kept. -/
def unionSetLo (value : Nat) (b : Byte) : Nat := value / 256 * 256 + b.val

/-- The value of the union after `hi = b`: byte 1 replaced, the rest kept. -/
def unionSetHi (value : Nat) (b : Byte) : Nat :=
  value / 65536 * 65536 + b.val * 256 + value % 256

/-! ## utils.h -/

/-- The macro `SHORT_LO(x)`: `((x) & 0xFF)`. -/
def SHORT_LO (x : Nat) : Nat := x &&& 0xFF

/-- The macro `SHORT_HI(x)`: `SHORT_LO((x) >> 8)`. -/
def SHORT_HI (x : Nat) : Nat := SHORT_LO (x >>> 8)

/-- The macro `TO_SHORT(lo, hi)`: `(((hi) << 8) | (lo))`. -/
def TO_SHORT (lo hi : Nat) : Nat := (hi <<< 8) ||| lo

/-! ## The machine state -/

/-- The CPU flags register `cpu.f`: six one-bit fields and the two remaining
bits of the byte `cpu.f.value`. -/
structure Flags where
  z : Bool
  c : Bool
  s : Bool
  v : Bool
  h : Bool
  i : Bool
  unused : Fin 4
  deriving DecidableEq

/-- The byte view `cpu.f.value` of the flags. -/
def Flags.value (f : Flags) : Byte :=
  toUChar (bitVal f.z + 2 * bitVal f.c + 4 * bitVal f.s + 8 * bitVal f.v
    + 16 * bitVal f.h + 32 * bitVal f.i + 64 * f.unused.val)

/-- The flags after the assignment `cpu.f.value = b`. -/
def Flags.ofValue (b : Byte) : Flags :=
  { z := toBit b.val
    c := toBit (b.val >>> 1)
    s := toBit (b.val >>> 2)
    v := toBit (b.val >>> 3)
    h := toBit (b.val >>> 4)
    i := toBit (b.val >>> 5)
    unused := ⟨b.val / 64, by have h := b.isLt; omega⟩ }

/-- The struct `cpu`: registers `a`, `b`, `s`, `i` (their `value` views) and the
flags `f`. -/
structure CPU where
  a : Short
  b : Short
  s : Short
  i : Short
  f : Flags
  deriving DecidableEq

/-- The disk status port `disk.status`: three one-bit fields and the five
remaining bits of `disk.status.value`. -/
structure DiskStatus where
  intEnable : Bool
  ready : Bool
  operation : Bool
  unused : Fin 32
  deriving DecidableEq

/-- The byte view `disk.status.value`. -/
def DiskStatus.value (st : DiskStatus) : Byte :=
  toUChar (bitVal st.intEnable + 2 * bitVal st.ready + 4 * bitVal st.operation
    + 8 * st.unused.val)

/-- The struct `disk`. -/
structure Disk where
  memoryAddress : Short
  data : Short
  status : DiskStatus
  diskAddress : Short
  sectorCount : Byte
  byteCount : Word
  deriving DecidableEq

/-- The struct `display`; `mode` is the enum `DisplayMode` (an `unsigned`),
`data` and `cursorIndex` are the `value` views of their unions. -/
structure Display where
  base : Short
  mode : Word
  cursorX : Byte
  cursorY : Byte
  cursorType : Byte
  data : Word
  cursorIndex : Word
  deriving DecidableEq

/-- The functions an entry of `IO_READ_FUNPTR` can point to. -/
inductive ReadFn where
  | IO_READ_DEFAULT
  | Disk_DataLoPortRead
  | Disk_DataHiPortRead
  | Disk_StatusPortRead
  | Display_DataLoRead
  | Display_DataHiRead
  deriving DecidableEq, Repr

/-- The functions an entry of `IO_WRITE_FUNPTR` can point to. -/
inductive WriteFn where
  | IO_WRITE_DEFAULT
  | Disk_CommandPortWrite
  | Disk_DataLoPortWrite
  | Disk_DataHiPortWrite
  | Display_CommandPortWrite
  | Display_DataLoWrite
  | Display_DataHiWrite
  deriving DecidableEq, Repr

/-- The constant `MEMORY_SIZE`. -/
def MEMORY_SIZE : Nat := 65536

/-- The constant `MEMORY_SIZE_MASK`: `(MEMORY_SIZE - 1)`. -/
def MEMORY_SIZE_MASK : Nat := MEMORY_SIZE - 1

/-- The constant `DISK_SIZE`. -/
def DISK_SIZE : Nat := 16384

/-- The constant `DISK_SIZE_MASK`: `(DISK_SIZE - 1)`. -/
def DISK_SIZE_MASK : Nat := DISK_SIZE - 1

/-- The constant `DISK_SECTOR_SIZE_SHIFT`. -/
def DISK_SECTOR_SIZE_SHIFT : Nat := 8

/-- All file-scope state of the machine core. -/
structure Machine where
  MEMORY : Fin 65536 → Byte
  cpu : CPU
  IO_READ_FUNPTR : Byte → ReadFn
  IO_WRITE_FUNPTR : Byte → WriteFn
  DISK : Fin 16384 → Byte
  disk : Disk
  display : Display

/-- The assignment `cpu.a.value = v`. -/
def Machine.setA (m : Machine) (v : Short) : Machine := { m with cpu := { m.cpu with a := v } }

/-- The assignment `cpu.b.value = v`. -/
def Machine.setB (m : Machine) (v : Short) : Machine := { m with cpu := { m.cpu with b := v } }

/-- The assignment `cpu.s.value = v`. -/
def Machine.setS (m : Machine) (v : Short) : Machine := { m with cpu := { m.cpu with s := v } }

/-- The assignment `cpu.i.value = v`. -/
def Machine.setI (m : Machine) (v : Short) : Machine := { m with cpu := { m.cpu with i := v } }

/-- The assignment `cpu.f.z = x`. -/
def Machine.setFZ (m : Machine) (x : Nat) : Machine :=
  { m with cpu := { m.cpu with f := { m.cpu.f with z := toBit x } } }

/-- The assignment `cpu.f.c = x`. -/
def Machine.setFC (m : Machine) (x : Nat) : Machine :=
  { m with cpu := { m.cpu with f := { m.cpu.f with c := toBit x } } }

/-- The assignment `cpu.f.s = x`. -/
def Machine.setFS (m : Machine) (x : Nat) : Machine :=
  { m with cpu := { m.cpu with f := { m.cpu.f with s := toBit x } } }

/-- The assignment `cpu.f.v = x`. -/
def Machine.setFV (m : Machine) (x : Nat) : Machine :=
  { m with cpu := { m.cpu with f := { m.cpu.f with v := toBit x } } }

/-- The assignment `cpu.f.h = x`. -/
def Machine.setFH (m : Machine) (x : Nat) : Machine :=
  { m with cpu := { m.cpu with f := { m.cpu.f with h := toBit x } } }

/-- The assignment `cpu.f.i = x`. -/
def Machine.setFI (m : Machine) (x : Nat) : Machine :=
  { m with cpu := { m.cpu with f := { m.cpu.f with i := toBit x } } }

/-! ## memory.c -/

/-- The index `address & MEMORY_SIZE_MASK` into `MEMORY`. -/
def memIndex (address : Short) : Fin 65536 :=
  ⟨address.val &&& MEMORY_SIZE_MASK,
    Nat.and_lt_two_pow address.val (by decide : MEMORY_SIZE_MASK < 2 ^ 16)⟩

/-- The function `Memory_GetByte`. -/
def Memory_GetByte (m : Machine) (address : Short) : Byte :=
  m.MEMORY (memIndex address)

/-- The function `Memory_SetByte`. -/
def Memory_SetByte (m : Machine) (address : Short) (value : Byte) : Machine :=
  { m with MEMORY := fun j => if j = memIndex address then value else m.MEMORY j }

/-- The function `Memory_GetShort`; the argument `address + 1` is converted to
`unsigned short`. -/
def Memory_GetShort (m : Machine) (address : Short) : Short :=
  toUShort (TO_SHORT (Memory_GetByte m address).val
    (Memory_GetByte m (toUShort (address.val + 1))).val)

/-- The function `Memory_SetShort`. -/
def Memory_SetShort (m : Machine) (address : Short) (value : Short) : Machine :=
  let m1 := Memory_SetByte m address (toUChar (SHORT_LO value.val))
  Memory_SetByte m1 (toUShort (address.val + 1)) (toUChar (SHORT_HI value.val))

/-! ## disk.c: port handlers -/

/-- The enum constant `DISK_COMMAND_ENABLE_INTERRUPTS`. -/
def DISK_COMMAND_ENABLE_INTERRUPTS : Nat := 0x00

/-- The enum constant `DISK_COMMAND_DISABLE_INTERRUPTS`. -/
def DISK_COMMAND_DISABLE_INTERRUPTS : Nat := 0x01

/-- The enum constant `DISK_COMMAND_GET_DISK_NUMBER`. -/
def DISK_COMMAND_GET_DISK_NUMBER : Nat := 0x02

/-- The enum constant `DISK_COMMAND_SET_START_SECTOR`. -/
def DISK_COMMAND_SET_START_SECTOR : Nat := 0x03

/-- The enum constant `DISK_COMMAND_SET_MEMORY_ADDRESS`. -/
def DISK_COMMAND_SET_MEMORY_ADDRESS : Nat := 0x04

/-- The enum constant `DISK_COMMAND_SET_SECTOR_COUNT`. -/
def DISK_COMMAND_SET_SECTOR_COUNT : Nat := 0x05

/-- The enum constant `DISK_COMMAND_READ_SECTORS`. -/
def DISK_COMMAND_READ_SECTORS : Nat := 0x06

/-- The enum constant `DISK_COMMAND_WRITE_SECTORS`. -/
def DISK_COMMAND_WRITE_SECTORS : Nat := 0x07

/-- The enum constant `DISK_OPERATION_READ`. -/
def DISK_OPERATION_READ : Nat := 0

/-- The enum constant `DISK_OPERATION_WRITE`. -/
def DISK_OPERATION_WRITE : Nat := 1

/-- The function `Disk_CommandPortWrite`: the `switch (value)` over the disk
commands; any other value falls to `default: break;`. -/
def Disk_CommandPortWrite (m : Machine) (value : Byte) : Machine :=
  let disk := m.disk
  if value.val = DISK_COMMAND_ENABLE_INTERRUPTS then
    { m with disk := { disk with status := { disk.status with intEnable := toBit 1 } } }
  else if value.val = DISK_COMMAND_DISABLE_INTERRUPTS then
    { m with disk := { disk with status := { disk.status with intEnable := toBit 0 } } }
  else if value.val = DISK_COMMAND_GET_DISK_NUMBER then
    let data1 := toUShort (unionSetLo disk.data.val (toUChar 0))
    let data2 := toUShort (unionSetHi data1.val (toUChar 0))
    { m with disk := { disk with data := data2 } }
  else if value.val = DISK_COMMAND_SET_START_SECTOR then
    { m with disk := { disk with
        diskAddress := toUShort ((unionLo disk.data.val).val <<< DISK_SECTOR_SIZE_SHIFT) } }
  else if value.val = DISK_COMMAND_SET_MEMORY_ADDRESS then
    { m with disk := { disk with memoryAddress := disk.data } }
  else if value.val = DISK_COMMAND_SET_SECTOR_COUNT then
    { m with disk := { disk with sectorCount := unionLo disk.data.val } }
  else if value.val = DISK_COMMAND_READ_SECTORS then
    { m with disk := { disk with
        status := { disk.status with operation := toBit DISK_OPERATION_READ }
        byteCount := toUInt (disk.sectorCount.val <<< DISK_SECTOR_SIZE_SHIFT) } }
  else if value.val = DISK_COMMAND_WRITE_SECTORS then
    { m with disk := { disk with
        status := { disk.status with operation := toBit DISK_OPERATION_WRITE }
        byteCount := toUInt (disk.sectorCount.val <<< DISK_SECTOR_SIZE_SHIFT) } }
  else
    m

/-- The function `Disk_DataLoPortRead`. -/
def Disk_DataLoPortRead (m : Machine) : Byte := unionLo m.disk.data.val

/-- The function `Disk_DataHiPortRead`. -/
def Disk_DataHiPortRead (m : Machine) : Byte := unionHi m.disk.data.val

/-- The function `Disk_DataLoPortWrite`. -/
def Disk_DataLoPortWrite (m : Machine) (value : Byte) : Machine :=
  { m with disk := { m.disk with data := toUShort (unionSetLo m.disk.data.val value) } }

/-- The function `Disk_DataHiPortWrite`. -/
def Disk_DataHiPortWrite (m : Machine) (value : Byte) : Machine :=
  { m with disk := { m.disk with data := toUShort (unionSetHi m.disk.data.val value) } }

/-- The function `Disk_StatusPortRead`. -/
def Disk_StatusPortRead (m : Machine) : Byte := m.disk.status.value

/-! ## display.c: port handlers -/

/-- The macro `DISPLAY_MODE_COUNT_MASK`. -/
def DISPLAY_MODE_COUNT_MASK : Nat := 7

/-- The array `DISPLAY_MEMORY_SIZE`. -/
def DISPLAY_MEMORY_SIZE : List Nat := [1000, 2000, 4000, 8000, 8000, 32000, 8000, 32000]

/-- The array `DISPLAY_WIDTH`. -/
def DISPLAY_WIDTH : List Nat := [40, 40, 80, 80, 320, 320, 320, 320]

/-- The array `DISPLAY_HEIGHT`. -/
def DISPLAY_HEIGHT : List Nat := [25, 25, 50, 50, 200, 200, 200, 200]

/-- The lookup `TABLE[display.mode]` in one of the three mode tables.  A read
past the eight entries is undefined in C; the embedding gives 0 there. -/
def modeLookup (table : List Nat) (mode : Word) : Nat := table.getD mode.val 0

/-- The enum constant `DISPLAY_COMMAND_GET_MEMORY_SIZE`. -/
def DISPLAY_COMMAND_GET_MEMORY_SIZE : Nat := 0x00

/-- The enum constant `DISPLAY_COMMAND_GET_WIDTH`. -/
def DISPLAY_COMMAND_GET_WIDTH : Nat := 0x01

/-- The enum constant `DISPLAY_COMMAND_GET_HEIGHT`. -/
def DISPLAY_COMMAND_GET_HEIGHT : Nat := 0x02

/-- The enum constant `DISPLAY_COMMAND_GET_MEMORY_BASE`. -/
def DISPLAY_COMMAND_GET_MEMORY_BASE : Nat := 0x10

/-- The enum constant `DISPLAY_COMMAND_GET_MODE`. -/
def DISPLAY_COMMAND_GET_MODE : Nat := 0x11

/-- The enum constant `DISPLAY_COMMAND_GET_CURSOR_INDEX`. -/
def DISPLAY_COMMAND_GET_CURSOR_INDEX : Nat := 0x12

/-- The enum constant `DISPLAY_COMMAND_GET_CURSOR_X`. -/
def DISPLAY_COMMAND_GET_CURSOR_X : Nat := 0x13

/-- The enum constant `DISPLAY_COMMAND_GET_CURSOR_Y`. -/
def DISPLAY_COMMAND_GET_CURSOR_Y : Nat := 0x14

/-- The enum constant `DISPLAY_COMMAND_GET_CURSOR_POS`. -/
def DISPLAY_COMMAND_GET_CURSOR_POS : Nat := 0x15

/-- The enum constant `DISPLAY_COMMAND_GET_CURSOR_TYPE`. -/
def DISPLAY_COMMAND_GET_CURSOR_TYPE : Nat := 0x16

/-- The enum constant `DISPLAY_COMMAND_SET_MEMORY_BASE`. -/
def DISPLAY_COMMAND_SET_MEMORY_BASE : Nat := 0x20

/-- The enum constant `DISPLAY_COMMAND_SET_MODE`. -/
def DISPLAY_COMMAND_SET_MODE : Nat := 0x21

/-- The enum constant `DISPLAY_COMMAND_SET_CURSOR_INDEX`. -/
def DISPLAY_COMMAND_SET_CURSOR_INDEX : Nat := 0x22

/-- The enum constant `DISPLAY_COMMAND_SET_CURSOR_X`. -/
def DISPLAY_COMMAND_SET_CURSOR_X : Nat := 0x23

/-- The enum constant `DISPLAY_COMMAND_SET_CURSOR_Y`. -/
def DISPLAY_COMMAND_SET_CURSOR_Y : Nat := 0x24

/-- The enum constant `DISPLAY_COMMAND_SET_CURSOR_POS`. -/
def DISPLAY_COMMAND_SET_CURSOR_POS : Nat := 0x25

/-- The enum constant `DISPLAY_COMMAND_SET_CURSOR_TYPE`. -/
def DISPLAY_COMMAND_SET_CURSOR_TYPE : Nat := 0x26

/-- The statement `display.data.lo = b; display.data.hi = b;`. -/
def Display.publishByte (d : Display) (b : Byte) : Display :=
  let data1 := toUInt (unionSetLo d.data.val b)
  { d with data := toUInt (unionSetHi data1.val b) }

/-- The statement
`display.cursorIndex.value = display.cursorY * DISPLAY_WIDTH[display.mode] + display.cursorX;`. -/
def Display.updateCursorIndex (d : Display) : Display :=
  { d with cursorIndex := toUInt (d.cursorY.val * modeLookup DISPLAY_WIDTH d.mode + d.cursorX.val) }

/-- The function `Display_CommandPortWrite`: the `switch (byte)` over the
display commands.  The switch has the fourteen cases below (there is none for
`GET_MEMORY_BASE`, `GET_CURSOR_POS`, `SET_MEMORY_BASE`); any other byte falls to
`default: break;`. -/
def Display_CommandPortWrite (m : Machine) (byte : Byte) : Machine :=
  let d := m.display
  if byte.val = DISPLAY_COMMAND_GET_MEMORY_SIZE then
    { m with display := { d with data := toUInt (modeLookup DISPLAY_MEMORY_SIZE d.mode) } }
  else if byte.val = DISPLAY_COMMAND_GET_WIDTH then
    { m with display := { d with data := toUInt (modeLookup DISPLAY_WIDTH d.mode) } }
  else if byte.val = DISPLAY_COMMAND_GET_HEIGHT then
    { m with display := { d with data := toUInt (modeLookup DISPLAY_HEIGHT d.mode) } }
  else if byte.val = DISPLAY_COMMAND_GET_MODE then
    { m with display := d.publishByte (toUChar d.mode.val) }
  else if byte.val = DISPLAY_COMMAND_GET_CURSOR_INDEX then
    { m with display := { d with data := d.cursorIndex } }
  else if byte.val = DISPLAY_COMMAND_GET_CURSOR_X then
    { m with display := d.publishByte d.cursorX }
  else if byte.val = DISPLAY_COMMAND_GET_CURSOR_Y then
    { m with display := d.publishByte d.cursorY }
  else if byte.val = DISPLAY_COMMAND_GET_CURSOR_TYPE then
    { m with display := d.publishByte d.cursorType }
  else if byte.val = DISPLAY_COMMAND_SET_MODE then
    { m with display := { d with
        mode := toUInt ((unionLo d.data.val).val &&& DISPLAY_MODE_COUNT_MASK) } }
  else if byte.val = DISPLAY_COMMAND_SET_CURSOR_INDEX then
    let d1 := { d with cursorX := toUChar (d.data.val % modeLookup DISPLAY_WIDTH d.mode) }
    let d2 := { d1 with cursorY := toUChar (d1.data.val / modeLookup DISPLAY_WIDTH d1.mode) }
    let d3 := { d2 with cursorY := toUChar (d2.cursorY.val % modeLookup DISPLAY_HEIGHT d2.mode) }
    { m with display := d3.updateCursorIndex }
  else if byte.val = DISPLAY_COMMAND_SET_CURSOR_X then
    let d1 := { d with
      cursorX := toUChar ((unionLo d.data.val).val % modeLookup DISPLAY_WIDTH d.mode) }
    { m with display := d1.updateCursorIndex }
  else if byte.val = DISPLAY_COMMAND_SET_CURSOR_Y then
    let d1 := { d with
      cursorY := toUChar ((unionLo d.data.val).val % modeLookup DISPLAY_HEIGHT d.mode) }
    { m with display := d1.updateCursorIndex }
  else if byte.val = DISPLAY_COMMAND_SET_CURSOR_POS then
    let d1 := { d with
      cursorX := toUChar ((unionLo d.data.val).val % modeLookup DISPLAY_WIDTH d.mode) }
    let d2 := { d1 with
      cursorY := toUChar ((unionHi d1.data.val).val % modeLookup DISPLAY_HEIGHT d1.mode) }
    { m with display := d2.updateCursorIndex }
  else if byte.val = DISPLAY_COMMAND_SET_CURSOR_TYPE then
    { m with display := { d with cursorType := unionLo d.data.val } }
  else
    m

/-- The function `Display_DataLoRead`. -/
def Display_DataLoRead (m : Machine) : Byte := unionLo m.display.data.val

/-- The function `Display_DataHiRead`. -/
def Display_DataHiRead (m : Machine) : Byte := unionHi m.display.data.val

/-- The function `Display_DataLoWrite`. -/
def Display_DataLoWrite (m : Machine) (byte : Byte) : Machine :=
  { m with display := { m.display with data := toUInt (unionSetLo m.display.data.val byte) } }

/-- The function `Display_DataHiWrite`. -/
def Display_DataHiWrite (m : Machine) (byte : Byte) : Machine :=
  { m with display := { m.display with data := toUInt (unionSetHi m.display.data.val byte) } }

/-! ## io.c -/

/-- The function `IO_READ_DEFAULT`. -/
def IO_READ_DEFAULT (_m : Machine) : Byte := toUChar 0

/-- The function `IO_WRITE_DEFAULT`. -/
def IO_WRITE_DEFAULT (m : Machine) (_value : Byte) : Machine := m

/-- The call `funcptr()` through a read function pointer. -/
def ReadFn.run : ReadFn → Machine → Byte
  | .IO_READ_DEFAULT => StackVM.IO_READ_DEFAULT
  | .Disk_DataLoPortRead => StackVM.Disk_DataLoPortRead
  | .Disk_DataHiPortRead => StackVM.Disk_DataHiPortRead
  | .Disk_StatusPortRead => StackVM.Disk_StatusPortRead
  | .Display_DataLoRead => StackVM.Display_DataLoRead
  | .Display_DataHiRead => StackVM.Display_DataHiRead

/-- The call `funcptr(value)` through a write function pointer. -/
def WriteFn.run : WriteFn → Machine → Byte → Machine
  | .IO_WRITE_DEFAULT => StackVM.IO_WRITE_DEFAULT
  | .Disk_CommandPortWrite => StackVM.Disk_CommandPortWrite
  | .Disk_DataLoPortWrite => StackVM.Disk_DataLoPortWrite
  | .Disk_DataHiPortWrite => StackVM.Disk_DataHiPortWrite
  | .Display_CommandPortWrite => StackVM.Display_CommandPortWrite
  | .Display_DataLoWrite => StackVM.Display_DataLoWrite
  | .Display_DataHiWrite => StackVM.Display_DataHiWrite

/-- The function `IO_Init`: every port gets the default handlers. -/
def IO_Init (m : Machine) : Machine :=
  { m with
    IO_READ_FUNPTR := fun _ => ReadFn.IO_READ_DEFAULT
    IO_WRITE_FUNPTR := fun _ => WriteFn.IO_WRITE_DEFAULT }

/-- The function `IO_RegisterRead`. -/
def IO_RegisterRead (m : Machine) (port : Byte) (funcptr : ReadFn) : Machine :=
  { m with IO_READ_FUNPTR := fun p => if p = port then funcptr else m.IO_READ_FUNPTR p }

/-- The function `IO_RegisterWrite`. -/
def IO_RegisterWrite (m : Machine) (port : Byte) (funcptr : WriteFn) : Machine :=
  { m with IO_WRITE_FUNPTR := fun p => if p = port then funcptr else m.IO_WRITE_FUNPTR p }

/-- The function `IO_Read`. -/
def IO_Read (m : Machine) (port : Byte) : Byte := (m.IO_READ_FUNPTR port).run m

/-- The function `IO_Write`. -/
def IO_Write (m : Machine) (port : Byte) (value : Byte) : Machine :=
  (m.IO_WRITE_FUNPTR port).run m value

/-! ## cpu.c: fetch, stack and addressing helpers -/

/-- The function `CPU_FetchByte`: `return Memory_GetByte(cpu.i.value++);`. -/
def CPU_FetchByte (m : Machine) : Byte × Machine :=
  (Memory_GetByte m m.cpu.i, m.setI (toUShort (m.cpu.i.val + 1)))

/-- The function `CPU_FetchShort`. -/
def CPU_FetchShort (m : Machine) : Short × Machine :=
  let (lo, m1) := CPU_FetchByte m
  let (hi, m2) := CPU_FetchByte m1
  (toUShort (TO_SHORT lo.val hi.val), m2)

/-- The function `CPU_PushByte`: `Memory_SetByte(--cpu.s.value, value);`. -/
def CPU_PushByte (m : Machine) (value : Byte) : Machine :=
  let m1 := m.setS (intToUShort ((m.cpu.s.val : Int) - 1))
  Memory_SetByte m1 m1.cpu.s value

/-- The function `CPU_PopByte`: `return Memory_GetByte(cpu.s.value++);`. -/
def CPU_PopByte (m : Machine) : Byte × Machine :=
  (Memory_GetByte m m.cpu.s, m.setS (toUShort (m.cpu.s.val + 1)))

/-- The function `CPU_PushShort`. -/
def CPU_PushShort (m : Machine) (value : Short) : Machine :=
  let m1 := CPU_PushByte m (toUChar (SHORT_HI value.val))
  CPU_PushByte m1 (toUChar (SHORT_LO value.val))

/-- The function `CPU_PopShort`. -/
def CPU_PopShort (m : Machine) : Short × Machine :=
  let (lo, m1) := CPU_PopByte m
  let (hi, m2) := CPU_PopByte m1
  (toUShort (TO_SHORT lo.val hi.val), m2)

/-- The macro `CPU_ADDRESS_D`: `CPU_FetchShort()`. -/
def CPU_ADDRESS_D (m : Machine) : Short × Machine := CPU_FetchShort m

/-- The macro `CPU_ADDRESS_RA`: `cpu.a.value`. -/
def CPU_ADDRESS_RA (m : Machine) : Short × Machine := (m.cpu.a, m)

/-- The macro `CPU_ADDRESS_RB`: `cpu.b.value`. -/
def CPU_ADDRESS_RB (m : Machine) : Short × Machine := (m.cpu.b, m)

/-- The macro `CPU_ADDRESS_XA`: `(cpu.a.value + CPU_FetchShort())`, converted to the
`unsigned short` parameter it is passed to. -/
def CPU_ADDRESS_XA (m : Machine) : Short × Machine :=
  let (d, m1) := CPU_FetchShort m
  (toUShort (m1.cpu.a.val + d.val), m1)

/-- The macro `CPU_ADDRESS_XB`: `(cpu.b.value + CPU_FetchShort())`, converted to the
`unsigned short` parameter it is passed to. -/
def CPU_ADDRESS_XB (m : Machine) : Short × Machine :=
  let (d, m1) := CPU_FetchShort m
  (toUShort (m1.cpu.b.val + d.val), m1)

/-- The macro `CPU_ADDRESS_YA`: `Memory_GetShort(cpu.a.value + CPU_FetchShort())`. -/
def CPU_ADDRESS_YA (m : Machine) : Short × Machine :=
  let (d, m1) := CPU_FetchShort m
  (Memory_GetShort m1 (toUShort (m1.cpu.a.val + d.val)), m1)

/-- The macro `CPU_ADDRESS_YB`: `Memory_GetShort(cpu.b.value + CPU_FetchShort())`. -/
def CPU_ADDRESS_YB (m : Machine) : Short × Machine :=
  let (d, m1) := CPU_FetchShort m
  (Memory_GetShort m1 (toUShort (m1.cpu.b.val + d.val)), m1)

/-! ## cpu.c: 8-bit ALU helper functions -/

/-- The function `CPU_ADB`. -/
def CPU_ADB (m : Machine) (a b : Byte) : Byte × Machine :=
  let result : Short := toUShort (a.val + b.val + bitVal m.cpu.f.c)
  let resultByte : Byte := toUChar result.val
  let m1 := m.setFZ (LNOT resultByte.val)
  let m2 := m1.setFC (cmpVal (decide (result.val > 0xFF)))
  let m3 := m2.setFS (resultByte.val >>> 7)
  let m4 := m3.setFV 0
  (resultByte, m4)

/-- The function `CPU_SUB`: `return CPU_ADB(a, ~b);`. -/
def CPU_SUB (m : Machine) (a b : Byte) : Byte × Machine :=
  CPU_ADB m a (intToUChar (BITNOT b.val))

/-- The function `CPU_ANB`: `resultByte = a & b`. -/
def CPU_ANB (m : Machine) (a b : Byte) : Byte × Machine :=
  let resultByte : Byte := toUChar (a.val &&& b.val)
  let m1 := m.setFZ (LNOT resultByte.val)
  let m2 := m1.setFC 0
  let m3 := m2.setFS (resultByte.val >>> 7)
  let m4 := m3.setFV 0
  (resultByte, m4)

/-- The function `CPU_ORB`: `resultByte = a | b`. -/
def CPU_ORB (m : Machine) (a b : Byte) : Byte × Machine :=
  let resultByte : Byte := toUChar (a.val ||| b.val)
  let m1 := m.setFZ (LNOT resultByte.val)
  let m2 := m1.setFC 0
  let m3 := m2.setFS (resultByte.val >>> 7)
  let m4 := m3.setFV 0
  (resultByte, m4)

/-- The function `CPU_XRB`: `resultByte = a ^ b`. -/
def CPU_XRB (m : Machine) (a b : Byte) : Byte × Machine :=
  let resultByte : Byte := toUChar (a.val ^^^ b.val)
  let m1 := m.setFZ (LNOT resultByte.val)
  let m2 := m1.setFC 0
  let m3 := m2.setFS (resultByte.val >>> 7)
  let m4 := m3.setFV 0
  (resultByte, m4)

/-- The function `CPU_IVB`: `resultByte = ~a`. -/
def CPU_IVB (m : Machine) (a : Byte) : Byte × Machine :=
  let resultByte : Byte := intToUChar (BITNOT a.val)
  let m1 := m.setFZ (LNOT resultByte.val)
  let m2 := m1.setFC 0
  let m3 := m2.setFS (resultByte.val >>> 7)
  let m4 := m3.setFV 0
  (resultByte, m4)

/-- The function `CPU_RLB`: `resultByte = (a << 1) | cpu.f.c`. -/
def CPU_RLB (m : Machine) (a : Byte) : Byte × Machine :=
  let resultByte : Byte := toUChar ((a.val <<< 1) ||| bitVal m.cpu.f.c)
  let m1 := m.setFZ (LNOT resultByte.val)
  let m2 := m1.setFC (a.val >>> 7)
  let m3 := m2.setFS (resultByte.val >>> 7)
  let m4 := m3.setFV 0
  (resultByte, m4)

/-- The function `CPU_RRB`: `resultByte = (a >> 1) | (cpu.f.c << 7)`. -/
def CPU_RRB (m : Machine) (a : Byte) : Byte × Machine :=
  let resultByte : Byte := toUChar ((a.val >>> 1) ||| (bitVal m.cpu.f.c <<< 7))
  let m1 := m.setFZ (LNOT resultByte.val)
  let m2 := m1.setFC (a.val &&& 1)
  let m3 := m2.setFS (resultByte.val >>> 7)
  let m4 := m3.setFV 0
  (resultByte, m4)

/-! ## cpu.c: 16-bit ALU helper functions -/

/-- The function `CPU_ADS`. -/
def CPU_ADS (m : Machine) (a b : Short) : Short × Machine :=
  let result : Word := toUInt (a.val + b.val + bitVal m.cpu.f.c)
  let resultShort : Short := toUShort result.val
  let m1 := m.setFZ (LNOT resultShort.val)
  let m2 := m1.setFC (cmpVal (decide (result.val > 0xFFFF)))
  let m3 := m2.setFS (resultShort.val >>> 15)
  let m4 := m3.setFV 0
  (resultShort, m4)

/-- The function `CPU_SUS`: `return CPU_ADS(a, ~b);`. -/
def CPU_SUS (m : Machine) (a b : Short) : Short × Machine :=
  CPU_ADS m a (intToUShort (BITNOT b.val))

/-- The function `CPU_ANS`: `resultShort = a & b`. -/
def CPU_ANS (m : Machine) (a b : Short) : Short × Machine :=
  let resultShort : Short := toUShort (a.val &&& b.val)
  let m1 := m.setFZ (LNOT resultShort.val)
  let m2 := m1.setFC 0
  let m3 := m2.setFS (resultShort.val >>> 15)
  let m4 := m3.setFV 0
  (resultShort, m4)

/-- The function `CPU_ORS`: `resultShort = a | b`. -/
def CPU_ORS (m : Machine) (a b : Short) : Short × Machine :=
  let resultShort : Short := toUShort (a.val ||| b.val)
  let m1 := m.setFZ (LNOT resultShort.val)
  let m2 := m1.setFC 0
  let m3 := m2.setFS (resultShort.val >>> 15)
  let m4 := m3.setFV 0
  (resultShort, m4)

/-- The function `CPU_XRS`: `resultShort = a ^ b`. -/
def CPU_XRS (m : Machine) (a b : Short) : Short × Machine :=
  let resultShort : Short := toUShort (a.val ^^^ b.val)
  let m1 := m.setFZ (LNOT resultShort.val)
  let m2 := m1.setFC 0
  let m3 := m2.setFS (resultShort.val >>> 15)
  let m4 := m3.setFV 0
  (resultShort, m4)

/-- The function `CPU_IVS`: `resultShort = ~a`. -/
def CPU_IVS (m : Machine) (a : Short) : Short × Machine :=
  let resultShort : Short := intToUShort (BITNOT a.val)
  let m1 := m.setFZ (LNOT resultShort.val)
  let m2 := m1.setFC 0
  let m3 := m2.setFS (resultShort.val >>> 15)
  let m4 := m3.setFV 0
  (resultShort, m4)

/-- The function `CPU_RLS`: `resultShort = (a << 1) | cpu.f.c`. -/
def CPU_RLS (m : Machine) (a : Short) : Short × Machine :=
  let resultShort : Short := toUShort ((a.val <<< 1) ||| bitVal m.cpu.f.c)
  let m1 := m.setFZ (LNOT resultShort.val)
  let m2 := m1.setFC (a.val >>> 15)
  let m3 := m2.setFS (resultShort.val >>> 15)
  let m4 := m3.setFV 0
  (resultShort, m4)

/-- The function `CPU_RRS`: `resultShort = (a >> 1) | (cpu.f.c << 7)`. -/
def CPU_RRS (m : Machine) (a : Short) : Short × Machine :=
  let resultShort : Short := toUShort ((a.val >>> 1) ||| (bitVal m.cpu.f.c <<< 7))
  let m1 := m.setFZ (LNOT resultShort.val)
  let m2 := m1.setFC (a.val &&& 1)
  let m3 := m2.setFS (resultShort.val >>> 15)
  let m4 := m3.setFV 0
  (resultShort, m4)

/-! ## cpu.c: load instructions -/

/-- `cpu.a.value = CPU_FetchShort();` -/
def CPU_Opcode_LDAI (m : Machine) : Machine :=
  let (value, m1) := CPU_FetchShort m
  m1.setA value

/-- `cpu.b.value = CPU_FetchShort();` -/
def CPU_Opcode_LDBI (m : Machine) : Machine :=
  let (value, m1) := CPU_FetchShort m
  m1.setB value

/-- `cpu.s.value = CPU_FetchShort();` -/
def CPU_Opcode_LDSI (m : Machine) : Machine :=
  let (value, m1) := CPU_FetchShort m
  m1.setS value

/-- `cpu.a.value = Memory_GetShort(CPU_ADDRESS_D);` -/
def CPU_Opcode_LDAD (m : Machine) : Machine :=
  let (address, m1) := CPU_ADDRESS_D m
  m1.setA (Memory_GetShort m1 address)

/-- `cpu.b.value = Memory_GetShort(CPU_ADDRESS_D);` -/
def CPU_Opcode_LDBD (m : Machine) : Machine :=
  let (address, m1) := CPU_ADDRESS_D m
  m1.setB (Memory_GetShort m1 address)

/-- `cpu.s.value = Memory_GetShort(CPU_ADDRESS_D);` -/
def CPU_Opcode_LDSD (m : Machine) : Machine :=
  let (address, m1) := CPU_ADDRESS_D m
  m1.setS (Memory_GetShort m1 address)

/-- `cpu.a.value = Memory_GetShort(CPU_ADDRESS_RA);` -/
def CPU_Opcode_LDARA (m : Machine) : Machine :=
  let (address, m1) := CPU_ADDRESS_RA m
  m1.setA (Memory_GetShort m1 address)

/-- `cpu.b.value = Memory_GetShort(CPU_ADDRESS_RA);` -/
def CPU_Opcode_LDBRA (m : Machine) : Machine :=
  let (address, m1) := CPU_ADDRESS_RA m
  m1.setB (Memory_GetShort m1 address)

/-- `cpu.s.value = Memory_GetShort(CPU_ADDRESS_RA);` -/
def CPU_Opcode_LDSRA (m : Machine) : Machine :=
  let (address, m1) := CPU_ADDRESS_RA m
  m1.setS (Memory_GetShort m1 address)

/-- `cpu.a.value = Memory_GetShort(CPU_ADDRESS_RB);` -/
def CPU_Opcode_LDARB (m : Machine) : Machine :=
  let (address, m1) := CPU_ADDRESS_RB m
  m1.setA (Memory_GetShort m1 address)

/-- `cpu.b.value = Memory_GetShort(CPU_ADDRESS_RB);` -/
def CPU_Opcode_LDBRB (m : Machine) : Machine :=
  let (address, m1) := CPU_ADDRESS_RB m
  m1.setB (Memory_GetShort m1 address)

/-- `cpu.s.value = Memory_GetShort(CPU_ADDRESS_RB);` -/
def CPU_Opcode_LDSRB (m : Machine) : Machine :=
  let (address, m1) := CPU_ADDRESS_RB m
  m1.setS (Memory_GetShort m1 address)

/-- `cpu.a.value = Memory_GetShort(CPU_ADDRESS_XA);` -/
def CPU_Opcode_LDAXA (m : Machine) : Machine :=
  let (address, m1) := CPU_ADDRESS_XA m
  m1.setA (Memory_GetShort m1 address)

/-- `cpu.b.value = Memory_GetShort(CPU_ADDRESS_XA);` -/
def CPU_Opcode_LDBXA (m : Machine) : Machine :=
  let (address, m1) := CPU_ADDRESS_XA m
  m1.setB (Memory_GetShort m1 address)

/-- `cpu.s.value = Memory_GetShort(CPU_ADDRESS_XA);` -/
def CPU_Opcode_LDSXA (m : Machine) : Machine :=
  let (address, m1) := CPU_ADDRESS_XA m
  m1.setS (Memory_GetShort m1 address)

/-- `cpu.a.value = Memory_GetShort(CPU_ADDRESS_XB);` -/
def CPU_Opcode_LDAXB (m : Machine) : Machine :=
  let (address, m1) := CPU_ADDRESS_XB m
  m1.setA (Memory_GetShort m1 address)

/-- `cpu.b.value = Memory_GetShort(CPU_ADDRESS_XB);` -/
def CPU_Opcode_LDBXB (m : Machine) : Machine :=
  let (address, m1) := CPU_ADDRESS_XB m
  m1.setB (Memory_GetShort m1 address)

/-- `cpu.s.value = Memory_GetShort(CPU_ADDRESS_XB);` -/
def CPU_Opcode_LDSXB (m : Machine) : Machine :=
  let (address, m1) := CPU_ADDRESS_XB m
  m1.setS (Memory_GetShort m1 address)

/-- `cpu.a.value = Memory_GetShort(CPU_ADDRESS_YA);` -/
def CPU_Opcode_LDAYA (m : Machine) : Machine :=
  let (address, m1) := CPU_ADDRESS_YA m
  m1.setA (Memory_GetShort m1 address)

/-- `cpu.b.value = Memory_GetShort(CPU_ADDRESS_YA);` -/
def CPU_Opcode_LDBYA (m : Machine) : Machine :=
  let (address, m1) := CPU_ADDRESS_YA m
  m1.setB (Memory_GetShort m1 address)

/-- `cpu.s.value = Memory_GetShort(CPU_ADDRESS_YA);` -/
def CPU_Opcode_LDSYA (m : Machine) : Machine :=
  let (address, m1) := CPU_ADDRESS_YA m
  m1.setS (Memory_GetShort m1 address)

/-- `cpu.a.value = Memory_GetShort(CPU_ADDRESS_YB);` -/
def CPU_Opcode_LDAYB (m : Machine) : Machine :=
  let (address, m1) := CPU_ADDRESS_YB m
  m1.setA (Memory_GetShort m1 address)

/-- `cpu.b.value = Memory_GetShort(CPU_ADDRESS_YB);` -/
def CPU_Opcode_LDBYB (m : Machine) : Machine :=
  let (address, m1) := CPU_ADDRESS_YB m
  m1.setB (Memory_GetShort m1 address)

/-- `cpu.s.value = Memory_GetShort(CPU_ADDRESS_YB);` -/
def CPU_Opcode_LDSYB (m : Machine) : Machine :=
  let (address, m1) := CPU_ADDRESS_YB m
  m1.setS (Memory_GetShort m1 address)

/-! ## cpu.c: store instructions -/

/-- `Memory_SetShort(CPU_FetchShort(), cpu.a.value);` -/
def CPU_Opcode_STAD (m : Machine) : Machine :=
  let (address, m1) := CPU_FetchShort m
  Memory_SetShort m1 address m1.cpu.a

/-- `Memory_SetShort(CPU_FetchShort(), cpu.b.value);` -/
def CPU_Opcode_STBD (m : Machine) : Machine :=
  let (address, m1) := CPU_FetchShort m
  Memory_SetShort m1 address m1.cpu.b

/-- `Memory_SetShort(CPU_FetchShort(), cpu.s.value);` -/
def CPU_Opcode_STSD (m : Machine) : Machine :=
  let (address, m1) := CPU_FetchShort m
  Memory_SetShort m1 address m1.cpu.s

/-- `Memory_SetShort(CPU_ADDRESS_RA, cpu.a.value);` -/
def CPU_Opcode_STARA (m : Machine) : Machine :=
  let (address, m1) := CPU_ADDRESS_RA m
  Memory_SetShort m1 address m1.cpu.a

/-- `Memory_SetShort(CPU_ADDRESS_RA, cpu.b.value);` -/
def CPU_Opcode_STBRA (m : Machine) : Machine :=
  let (address, m1) := CPU_ADDRESS_RA m
  Memory_SetShort m1 address m1.cpu.b

/-- `Memory_SetShort(CPU_ADDRESS_RA, cpu.s.value);` -/
def CPU_Opcode_STSRA (m : Machine) : Machine :=
  let (address, m1) := CPU_ADDRESS_RA m
  Memory_SetShort m1 address m1.cpu.s

/-- `Memory_SetShort(CPU_ADDRESS_RB, cpu.a.value);` -/
def CPU_Opcode_STARB (m : Machine) : Machine :=
  let (address, m1) := CPU_ADDRESS_RB m
  Memory_SetShort m1 address m1.cpu.a

/-- `Memory_SetShort(CPU_ADDRESS_RB, cpu.b.value);` -/
def CPU_Opcode_STBRB (m : Machine) : Machine :=
  let (address, m1) := CPU_ADDRESS_RB m
  Memory_SetShort m1 address m1.cpu.b

/-- `Memory_SetShort(CPU_ADDRESS_RB, cpu.s.value);` -/
def CPU_Opcode_STSRB (m : Machine) : Machine :=
  let (address, m1) := CPU_ADDRESS_RB m
  Memory_SetShort m1 address m1.cpu.s

/-- `Memory_SetShort(CPU_ADDRESS_XA, cpu.a.value);` -/
def CPU_Opcode_STAXA (m : Machine) : Machine :=
  let (address, m1) := CPU_ADDRESS_XA m
  Memory_SetShort m1 address m1.cpu.a

/-- `Memory_SetShort(CPU_ADDRESS_XA, cpu.b.value);` -/
def CPU_Opcode_STBXA (m : Machine) : Machine :=
  let (address, m1) := CPU_ADDRESS_XA m
  Memory_SetShort m1 address m1.cpu.b

/-- `Memory_SetShort(CPU_ADDRESS_XA, cpu.s.value);` -/
def CPU_Opcode_STSXA (m : Machine) : Machine :=
  let (address, m1) := CPU_ADDRESS_XA m
  Memory_SetShort m1 address m1.cpu.s

/-- `Memory_SetShort(CPU_ADDRESS_XB, cpu.a.value);` -/
def CPU_Opcode_STAXB (m : Machine) : Machine :=
  let (address, m1) := CPU_ADDRESS_XB m
  Memory_SetShort m1 address m1.cpu.a

/-- `Memory_SetShort(CPU_ADDRESS_XB, cpu.b.value);` -/
def CPU_Opcode_STBXB (m : Machine) : Machine :=
  let (address, m1) := CPU_ADDRESS_XB m
  Memory_SetShort m1 address m1.cpu.b

/-- `Memory_SetShort(CPU_ADDRESS_XB, cpu.s.value);` -/
def CPU_Opcode_STSXB (m : Machine) : Machine :=
  let (address, m1) := CPU_ADDRESS_XB m
  Memory_SetShort m1 address m1.cpu.s

/-- `Memory_SetShort(CPU_ADDRESS_YA, cpu.a.value);` -/
def CPU_Opcode_STAYA (m : Machine) : Machine :=
  let (address, m1) := CPU_ADDRESS_YA m
  Memory_SetShort m1 address m1.cpu.a

/-- `Memory_SetShort(CPU_ADDRESS_YA, cpu.b.value);` -/
def CPU_Opcode_STBYA (m : Machine) : Machine :=
  let (address, m1) := CPU_ADDRESS_YA m
  Memory_SetShort m1 address m1.cpu.b

/-- `Memory_SetShort(CPU_ADDRESS_YA, cpu.s.value);` -/
def CPU_Opcode_STSYA (m : Machine) : Machine :=
  let (address, m1) := CPU_ADDRESS_YA m
  Memory_SetShort m1 address m1.cpu.s

/-- `Memory_SetShort(CPU_ADDRESS_YB, cpu.a.value);` -/
def CPU_Opcode_STAYB (m : Machine) : Machine :=
  let (address, m1) := CPU_ADDRESS_YB m
  Memory_SetShort m1 address m1.cpu.a

/-- `Memory_SetShort(CPU_ADDRESS_YB, cpu.b.value);` -/
def CPU_Opcode_STBYB (m : Machine) : Machine :=
  let (address, m1) := CPU_ADDRESS_YB m
  Memory_SetShort m1 address m1.cpu.b

/-- `Memory_SetShort(CPU_ADDRESS_YB, cpu.s.value);` -/
def CPU_Opcode_STSYB (m : Machine) : Machine :=
  let (address, m1) := CPU_ADDRESS_YB m
  Memory_SetShort m1 address m1.cpu.s

/-! ## cpu.c: move instructions -/

/-- `cpu.a.value = cpu.b.value;` -/
def CPU_Opcode_MVAB (m : Machine) : Machine := m.setA m.cpu.b

/-- `cpu.a.value = cpu.s.value;` -/
def CPU_Opcode_MVAS (m : Machine) : Machine := m.setA m.cpu.s

/-- `cpu.a.value = cpu.i.value;` -/
def CPU_Opcode_MVAI (m : Machine) : Machine := m.setA m.cpu.i

/-- `cpu.b.value = cpu.a.value;` -/
def CPU_Opcode_MVBA (m : Machine) : Machine := m.setB m.cpu.a

/-- `cpu.b.value = cpu.s.value;` -/
def CPU_Opcode_MVBS (m : Machine) : Machine := m.setB m.cpu.s

/-- `cpu.b.value = cpu.i.value;` -/
def CPU_Opcode_MVBI (m : Machine) : Machine := m.setB m.cpu.i

/-- `cpu.s.value = cpu.a.value;` -/
def CPU_Opcode_MVSA (m : Machine) : Machine := m.setS m.cpu.a

/-- `cpu.s.value = cpu.b.value;` -/
def CPU_Opcode_MVSB (m : Machine) : Machine := m.setS m.cpu.b

/-- `cpu.s.value = cpu.i.value;` -/
def CPU_Opcode_MVSI (m : Machine) : Machine := m.setS m.cpu.i

/-- `cpu.i.value = cpu.a.value;` -/
def CPU_Opcode_MVIA (m : Machine) : Machine := m.setI m.cpu.a

/-- `cpu.i.value = cpu.b.value;` -/
def CPU_Opcode_MVIB (m : Machine) : Machine := m.setI m.cpu.b

/-- `cpu.i.value = cpu.s.value;` -/
def CPU_Opcode_MVIS (m : Machine) : Machine := m.setI m.cpu.s

/-! ## cpu.c: push instructions -/

/-- `CPU_PushByte(CPU_FetchByte());` -/
def CPU_Opcode_PUBI (m : Machine) : Machine :=
  let (value, m1) := CPU_FetchByte m
  CPU_PushByte m1 value

/-- `CPU_PushByte(Memory_GetByte(CPU_ADDRESS_D));` -/
def CPU_Opcode_PUBD (m : Machine) : Machine :=
  let (address, m1) := CPU_ADDRESS_D m
  CPU_PushByte m1 (Memory_GetByte m1 address)

/-- `CPU_PushByte(Memory_GetByte(CPU_ADDRESS_RA));` -/
def CPU_Opcode_PUBRA (m : Machine) : Machine :=
  let (address, m1) := CPU_ADDRESS_RA m
  CPU_PushByte m1 (Memory_GetByte m1 address)

/-- `CPU_PushByte(Memory_GetByte(CPU_ADDRESS_RB));` -/
def CPU_Opcode_PUBRB (m : Machine) : Machine :=
  let (address, m1) := CPU_ADDRESS_RB m
  CPU_PushByte m1 (Memory_GetByte m1 address)

/-- `CPU_PushByte(Memory_GetByte(CPU_ADDRESS_XA));` -/
def CPU_Opcode_PUBXA (m : Machine) : Machine :=
  let (address, m1) := CPU_ADDRESS_XA m
  CPU_PushByte m1 (Memory_GetByte m1 address)

/-- `CPU_PushByte(Memory_GetByte(CPU_ADDRESS_XB));` -/
def CPU_Opcode_PUBXB (m : Machine) : Machine :=
  let (address, m1) := CPU_ADDRESS_XB m
  CPU_PushByte m1 (Memory_GetByte m1 address)

/-- `CPU_PushByte(Memory_GetByte(CPU_ADDRESS_YA));` -/
def CPU_Opcode_PUBYA (m : Machine) : Machine :=
  let (address, m1) := CPU_ADDRESS_YA m
  CPU_PushByte m1 (Memory_GetByte m1 address)

/-- `CPU_PushByte(Memory_GetByte(CPU_ADDRESS_YB));` -/
def CPU_Opcode_PUBYB (m : Machine) : Machine :=
  let (address, m1) := CPU_ADDRESS_YB m
  CPU_PushByte m1 (Memory_GetByte m1 address)

/-- `CPU_PushShort(CPU_FetchShort());` -/
def CPU_Opcode_PUSI (m : Machine) : Machine :=
  let (value, m1) := CPU_FetchShort m
  CPU_PushShort m1 value

/-- `CPU_PushShort(Memory_GetShort(CPU_ADDRESS_D));` -/
def CPU_Opcode_PUSD (m : Machine) : Machine :=
  let (address, m1) := CPU_ADDRESS_D m
  CPU_PushShort m1 (Memory_GetShort m1 address)

/-- `CPU_PushShort(Memory_GetShort(CPU_ADDRESS_RA));` -/
def CPU_Opcode_PUSRA (m : Machine) : Machine :=
  let (address, m1) := CPU_ADDRESS_RA m
  CPU_PushShort m1 (Memory_GetShort m1 address)

/-- `CPU_PushShort(Memory_GetShort(CPU_ADDRESS_RB));` -/
def CPU_Opcode_PUSRB (m : Machine) : Machine :=
  let (address, m1) := CPU_ADDRESS_RB m
  CPU_PushShort m1 (Memory_GetShort m1 address)

/-- `CPU_PushShort(Memory_GetShort(CPU_ADDRESS_XA));` -/
def CPU_Opcode_PUSXA (m : Machine) : Machine :=
  let (address, m1) := CPU_ADDRESS_XA m
  CPU_PushShort m1 (Memory_GetShort m1 address)

/-- `CPU_PushShort(Memory_GetShort(CPU_ADDRESS_XB));` -/
def CPU_Opcode_PUSXB (m : Machine) : Machine :=
  let (address, m1) := CPU_ADDRESS_XB m
  CPU_PushShort m1 (Memory_GetShort m1 address)

/-- `CPU_PushShort(Memory_GetShort(CPU_ADDRESS_YA));` -/
def CPU_Opcode_PUSYA (m : Machine) : Machine :=
  let (address, m1) := CPU_ADDRESS_YA m
  CPU_PushShort m1 (Memory_GetShort m1 address)

/-- `CPU_PushShort(Memory_GetShort(CPU_ADDRESS_YB));` -/
def CPU_Opcode_PUSYB (m : Machine) : Machine :=
  let (address, m1) := CPU_ADDRESS_YB m
  CPU_PushShort m1 (Memory_GetShort m1 address)

/-- `CPU_PushShort(cpu.a.value);` -/
def CPU_Opcode_PUA (m : Machine) : Machine := CPU_PushShort m m.cpu.a

/-- `CPU_PushShort(cpu.b.value);` -/
def CPU_Opcode_PUB (m : Machine) : Machine := CPU_PushShort m m.cpu.b

/-- `CPU_PushShort(cpu.s.value);` -/
def CPU_Opcode_PUS (m : Machine) : Machine := CPU_PushShort m m.cpu.s

/-- `CPU_PushShort(cpu.i.value);` -/
def CPU_Opcode_PUI (m : Machine) : Machine := CPU_PushShort m m.cpu.i

/-- `CPU_PushByte(cpu.f.value);` -/
def CPU_Opcode_PUF (m : Machine) : Machine := CPU_PushByte m m.cpu.f.value

/-! ## cpu.c: pop instructions -/

/-- `Memory_SetByte(CPU_ADDRESS_D, CPU_PopByte());` -/
def CPU_Opcode_POBD (m : Machine) : Machine :=
  let (address, m1) := CPU_ADDRESS_D m
  let (value, m2) := CPU_PopByte m1
  Memory_SetByte m2 address value

/-- `Memory_SetByte(CPU_ADDRESS_RA, CPU_PopByte());` -/
def CPU_Opcode_POBRA (m : Machine) : Machine :=
  let (address, m1) := CPU_ADDRESS_RA m
  let (value, m2) := CPU_PopByte m1
  Memory_SetByte m2 address value

/-- `Memory_SetByte(CPU_ADDRESS_RB, CPU_PopByte());` -/
def CPU_Opcode_POBRB (m : Machine) : Machine :=
  let (address, m1) := CPU_ADDRESS_RB m
  let (value, m2) := CPU_PopByte m1
  Memory_SetByte m2 address value

/-- `Memory_SetByte(CPU_ADDRESS_XA, CPU_PopByte());` -/
def CPU_Opcode_POBXA (m : Machine) : Machine :=
  let (address, m1) := CPU_ADDRESS_XA m
  let (value, m2) := CPU_PopByte m1
  Memory_SetByte m2 address value

/-- `Memory_SetByte(CPU_ADDRESS_XB, CPU_PopByte());` -/
def CPU_Opcode_POBXB (m : Machine) : Machine :=
  let (address, m1) := CPU_ADDRESS_XB m
  let (value, m2) := CPU_PopByte m1
  Memory_SetByte m2 address value

/-- `Memory_SetByte(CPU_ADDRESS_YA, CPU_PopByte());` -/
def CPU_Opcode_POBYA (m : Machine) : Machine :=
  let (address, m1) := CPU_ADDRESS_YA m
  let (value, m2) := CPU_PopByte m1
  Memory_SetByte m2 address value

/-- `Memory_SetByte(CPU_ADDRESS_YB, CPU_PopByte());` -/
def CPU_Opcode_POBYB (m : Machine) : Machine :=
  let (address, m1) := CPU_ADDRESS_YB m
  let (value, m2) := CPU_PopByte m1
  Memory_SetByte m2 address value

/-- `Memory_SetShort(CPU_ADDRESS_D, CPU_PopShort());` -/
def CPU_Opcode_POSD (m : Machine) : Machine :=
  let (address, m1) := CPU_ADDRESS_D m
  let (value, m2) := CPU_PopShort m1
  Memory_SetShort m2 address value

/-- `Memory_SetShort(CPU_ADDRESS_RA, CPU_PopShort());` -/
def CPU_Opcode_POSRA (m : Machine) : Machine :=
  let (address, m1) := CPU_ADDRESS_RA m
  let (value, m2) := CPU_PopShort m1
  Memory_SetShort m2 address value

/-- `Memory_SetShort(CPU_ADDRESS_RB, CPU_PopShort());` -/
def CPU_Opcode_POSRB (m : Machine) : Machine :=
  let (address, m1) := CPU_ADDRESS_RB m
  let (value, m2) := CPU_PopShort m1
  Memory_SetShort m2 address value

/-- `Memory_SetShort(CPU_ADDRESS_XA, CPU_PopShort());` -/
def CPU_Opcode_POSXA (m : Machine) : Machine :=
  let (address, m1) := CPU_ADDRESS_XA m
  let (value, m2) := CPU_PopShort m1
  Memory_SetShort m2 address value

/-- `Memory_SetShort(CPU_ADDRESS_XB, CPU_PopShort());` -/
def CPU_Opcode_POSXB (m : Machine) : Machine :=
  let (address, m1) := CPU_ADDRESS_XB m
  let (value, m2) := CPU_PopShort m1
  Memory_SetShort m2 address value

/-- `Memory_SetShort(CPU_ADDRESS_YA, CPU_PopShort());` -/
def CPU_Opcode_POSYA (m : Machine) : Machine :=
  let (address, m1) := CPU_ADDRESS_YA m
  let (value, m2) := CPU_PopShort m1
  Memory_SetShort m2 address value

/-- `Memory_SetShort(CPU_ADDRESS_YB, CPU_PopShort());` -/
def CPU_Opcode_POSYB (m : Machine) : Machine :=
  let (address, m1) := CPU_ADDRESS_YB m
  let (value, m2) := CPU_PopShort m1
  Memory_SetShort m2 address value

/-- `cpu.a.value = CPU_PopShort();` -/
def CPU_Opcode_POA (m : Machine) : Machine :=
  let (value, m1) := CPU_PopShort m
  m1.setA value

/-- `cpu.b.value = CPU_PopShort();` -/
def CPU_Opcode_POB (m : Machine) : Machine :=
  let (value, m1) := CPU_PopShort m
  m1.setB value

/-- `cpu.s.value = CPU_PopShort();` -/
def CPU_Opcode_POS (m : Machine) : Machine :=
  let (value, m1) := CPU_PopShort m
  m1.setS value

/-- `cpu.i.value = CPU_PopShort();` -/
def CPU_Opcode_POI (m : Machine) : Machine :=
  let (value, m1) := CPU_PopShort m
  m1.setI value

/-- `cpu.f.value = CPU_PopByte();` -/
def CPU_Opcode_POF (m : Machine) : Machine :=
  let (value, m1) := CPU_PopByte m
  { m1 with cpu := { m1.cpu with f := Flags.ofValue value } }

/-! ## cpu.c: stack instructions -/

/-- `CPU_PushByte(Memory_GetByte(cpu.s.value));` -/
def CPU_Opcode_DTS (m : Machine) : Machine := CPU_PushByte m (Memory_GetByte m m.cpu.s)

/-- The function `CPU_Opcode_STS`. -/
def CPU_Opcode_STS (m : Machine) : Machine :=
  let top1 := Memory_GetByte m m.cpu.s
  let top2 := Memory_GetByte m (toUShort (m.cpu.s.val + 1))
  let m1 := Memory_SetByte m m.cpu.s top2
  Memory_SetByte m1 (toUShort (m1.cpu.s.val + 1)) top1

/-! ## cpu.c: indexing register instructions -/

/-- `cpu.a.value++;` -/
def CPU_Opcode_IRA (m : Machine) : Machine := m.setA (toUShort (m.cpu.a.val + 1))

/-- `cpu.b.value++;` -/
def CPU_Opcode_IRB (m : Machine) : Machine := m.setB (toUShort (m.cpu.b.val + 1))

/-- `cpu.s.value++;` -/
def CPU_Opcode_IRS (m : Machine) : Machine := m.setS (toUShort (m.cpu.s.val + 1))

/-- `cpu.a.value--;` -/
def CPU_Opcode_DRA (m : Machine) : Machine :=
  m.setA (intToUShort ((m.cpu.a.val : Int) - 1))

/-- `cpu.b.value--;` -/
def CPU_Opcode_DRB (m : Machine) : Machine :=
  m.setB (intToUShort ((m.cpu.b.val : Int) - 1))

/-- `cpu.s.value--;` -/
def CPU_Opcode_DRS (m : Machine) : Machine :=
  m.setS (intToUShort ((m.cpu.s.val : Int) - 1))

/-! ## cpu.c: 8-bit ALU instructions -/

/-- The function `CPU_Opcode_ADB`. -/
def CPU_Opcode_ADB (m : Machine) : Machine :=
  let (a, m1) := CPU_PopByte m
  let (b, m2) := CPU_PopByte m1
  let (r, m3) := CPU_ADB m2 a b
  CPU_PushByte m3 r

/-- The function `CPU_Opcode_SUB`. -/
def CPU_Opcode_SUB (m : Machine) : Machine :=
  let (a, m1) := CPU_PopByte m
  let (b, m2) := CPU_PopByte m1
  let (r, m3) := CPU_SUB m2 a b
  CPU_PushByte m3 r

/-- The function `CPU_Opcode_ANB`. -/
def CPU_Opcode_ANB (m : Machine) : Machine :=
  let (a, m1) := CPU_PopByte m
  let (b, m2) := CPU_PopByte m1
  let (r, m3) := CPU_ANB m2 a b
  CPU_PushByte m3 r

/-- The function `CPU_Opcode_ORB`. -/
def CPU_Opcode_ORB (m : Machine) : Machine :=
  let (a, m1) := CPU_PopByte m
  let (b, m2) := CPU_PopByte m1
  let (r, m3) := CPU_ORB m2 a b
  CPU_PushByte m3 r

/-- The function `CPU_Opcode_XRB`. -/
def CPU_Opcode_XRB (m : Machine) : Machine :=
  let (a, m1) := CPU_PopByte m
  let (b, m2) := CPU_PopByte m1
  let (r, m3) := CPU_XRB m2 a b
  CPU_PushByte m3 r

/-- The function `CPU_Opcode_CPB`: the result of `CPU_SUB` is discarded. -/
def CPU_Opcode_CPB (m : Machine) : Machine :=
  let (a, m1) := CPU_PopByte m
  let (b, m2) := CPU_PopByte m1
  let m3 := m2.setFC 1
  (CPU_SUB m3 a b).2

/-- The function `CPU_Opcode_IVB`. -/
def CPU_Opcode_IVB (m : Machine) : Machine :=
  let (a, m1) := CPU_PopByte m
  let (r, m2) := CPU_IVB m1 a
  CPU_PushByte m2 r

/-- The function `CPU_Opcode_ICB`. -/
def CPU_Opcode_ICB (m : Machine) : Machine :=
  let (a, m1) := CPU_PopByte m
  let m2 := m1.setFC 0
  let (r, m3) := CPU_ADB m2 a (toUChar 1)
  CPU_PushByte m3 r

/-- The function `CPU_Opcode_DCB`. -/
def CPU_Opcode_DCB (m : Machine) : Machine :=
  let (a, m1) := CPU_PopByte m
  let m2 := m1.setFC 1
  let (r, m3) := CPU_SUB m2 a (toUChar 1)
  CPU_PushByte m3 r

/-- The function `CPU_Opcode_RLB`. -/
def CPU_Opcode_RLB (m : Machine) : Machine :=
  let (a, m1) := CPU_PopByte m
  let (r, m2) := CPU_RLB m1 a
  CPU_PushByte m2 r

/-- The function `CPU_Opcode_RRB`. -/
def CPU_Opcode_RRB (m : Machine) : Machine :=
  let (a, m1) := CPU_PopByte m
  let (r, m2) := CPU_RRB m1 a
  CPU_PushByte m2 r

/-- The function `CPU_Opcode_SLB`. -/
def CPU_Opcode_SLB (m : Machine) : Machine :=
  let (a, m1) := CPU_PopByte m
  let m2 := m1.setFC 0
  let (r, m3) := CPU_RLB m2 a
  CPU_PushByte m3 r

/-- The function `CPU_Opcode_SRB`. -/
def CPU_Opcode_SRB (m : Machine) : Machine :=
  let (a, m1) := CPU_PopByte m
  let m2 := m1.setFC 0
  let (r, m3) := CPU_RRB m2 a
  CPU_PushByte m3 r

/-- The function `CPU_Opcode_SAB`. -/
def CPU_Opcode_SAB (m : Machine) : Machine :=
  let (a, m1) := CPU_PopByte m
  let m2 := m1.setFC 1
  let (r, m3) := CPU_RRB m2 a
  CPU_PushByte m3 r

/-! ## cpu.c: 16-bit ALU instructions -/

/-- The function `CPU_Opcode_ADS`. -/
def CPU_Opcode_ADS (m : Machine) : Machine :=
  let (a, m1) := CPU_PopShort m
  let (b, m2) := CPU_PopShort m1
  let (r, m3) := CPU_ADS m2 a b
  CPU_PushShort m3 r

/-- The function `CPU_Opcode_SUS`. -/
def CPU_Opcode_SUS (m : Machine) : Machine :=
  let (a, m1) := CPU_PopShort m
  let (b, m2) := CPU_PopShort m1
  let (r, m3) := CPU_SUS m2 a b
  CPU_PushShort m3 r

/-- The function `CPU_Opcode_ANS`. -/
def CPU_Opcode_ANS (m : Machine) : Machine :=
  let (a, m1) := CPU_PopShort m
  let (b, m2) := CPU_PopShort m1
  let (r, m3) := CPU_ANS m2 a b
  CPU_PushShort m3 r

/-- The function `CPU_Opcode_ORS`. -/
def CPU_Opcode_ORS (m : Machine) : Machine :=
  let (a, m1) := CPU_PopShort m
  let (b, m2) := CPU_PopShort m1
  let (r, m3) := CPU_ORS m2 a b
  CPU_PushShort m3 r

/-- The function `CPU_Opcode_XRS`. -/
def CPU_Opcode_XRS (m : Machine) : Machine :=
  let (a, m1) := CPU_PopShort m
  let (b, m2) := CPU_PopShort m1
  let (r, m3) := CPU_XRS m2 a b
  CPU_PushShort m3 r

/-- The function `CPU_Opcode_CPS`: the result of `CPU_SUS` is discarded. -/
def CPU_Opcode_CPS (m : Machine) : Machine :=
  let (a, m1) := CPU_PopShort m
  let (b, m2) := CPU_PopShort m1
  let m3 := m2.setFC 1
  (CPU_SUS m3 a b).2

/-- The function `CPU_Opcode_IVS`. -/
def CPU_Opcode_IVS (m : Machine) : Machine :=
  let (a, m1) := CPU_PopShort m
  let (r, m2) := CPU_IVS m1 a
  CPU_PushShort m2 r

/-- The function `CPU_Opcode_ICS`. -/
def CPU_Opcode_ICS (m : Machine) : Machine :=
  let (a, m1) := CPU_PopShort m
  let m2 := m1.setFC 0
  let (r, m3) := CPU_ADS m2 a (toUShort 1)
  CPU_PushShort m3 r

/-- The function `CPU_Opcode_DCS`. -/
def CPU_Opcode_DCS (m : Machine) : Machine :=
  let (a, m1) := CPU_PopShort m
  let m2 := m1.setFC 1
  let (r, m3) := CPU_SUS m2 a (toUShort 1)
  CPU_PushShort m3 r

/-- The function `CPU_Opcode_RLS`. -/
def CPU_Opcode_RLS (m : Machine) : Machine :=
  let (a, m1) := CPU_PopShort m
  let (r, m2) := CPU_RLS m1 a
  CPU_PushShort m2 r

/-- The function `CPU_Opcode_RRS`. -/
def CPU_Opcode_RRS (m : Machine) : Machine :=
  let (a, m1) := CPU_PopShort m
  let (r, m2) := CPU_RRS m1 a
  CPU_PushShort m2 r

/-- The function `CPU_Opcode_SLS`. -/
def CPU_Opcode_SLS (m : Machine) : Machine :=
  let (a, m1) := CPU_PopShort m
  let m2 := m1.setFC 0
  let (r, m3) := CPU_RLS m2 a
  CPU_PushShort m3 r

/-- The function `CPU_Opcode_SRS`. -/
def CPU_Opcode_SRS (m : Machine) : Machine :=
  let (a, m1) := CPU_PopShort m
  let m2 := m1.setFC 0
  let (r, m3) := CPU_RRS m2 a
  CPU_PushShort m3 r

/-- The function `CPU_Opcode_SAS`. -/
def CPU_Opcode_SAS (m : Machine) : Machine :=
  let (a, m1) := CPU_PopShort m
  let m2 := m1.setFC 1
  let (r, m3) := CPU_RRS m2 a
  CPU_PushShort m3 r

/-! ## cpu.c: status flag instructions -/

/-- `cpu.f.z = 1;` -/
def CPU_Opcode_SFZ (m : Machine) : Machine := m.setFZ 1

/-- `cpu.f.c = 1;` -/
def CPU_Opcode_SFC (m : Machine) : Machine := m.setFC 1

/-- `cpu.f.s = 1;` -/
def CPU_Opcode_SFS (m : Machine) : Machine := m.setFS 1

/-- `cpu.f.v = 1;` -/
def CPU_Opcode_SFV (m : Machine) : Machine := m.setFV 1

/-- `cpu.f.z = 0;` -/
def CPU_Opcode_CFZ (m : Machine) : Machine := m.setFZ 0

/-- `cpu.f.c = 0;` -/
def CPU_Opcode_CFC (m : Machine) : Machine := m.setFC 0

/-- `cpu.f.s = 0;` -/
def CPU_Opcode_CFS (m : Machine) : Machine := m.setFS 0

/-- `cpu.f.v = 0;` -/
def CPU_Opcode_CFV (m : Machine) : Machine := m.setFV 0

/-- `cpu.f.i = 1;` -/
def CPU_Opcode_EI (m : Machine) : Machine := m.setFI 1

/-- `cpu.f.i = 0;` -/
def CPU_Opcode_DI (m : Machine) : Machine := m.setFI 0

/-- `cpu.f.h = 1;` -/
def CPU_Opcode_HT (m : Machine) : Machine := m.setFH 1

/-! ## cpu.c: branching instructions -/

/-- The function `CPU_Util_CA`. -/
def CPU_Util_CA (m : Machine) (address : Short) : Machine :=
  let m1 := CPU_PushShort m m.cpu.i
  m1.setI address

/-- The function `CPU_Util_CondJM`. -/
def CPU_Util_CondJM (m : Machine) (condition : Byte) : Machine :=
  let (address, m1) := CPU_FetchShort m
  if condition.val ≠ 0 then m1.setI address else m1

/-- The function `CPU_Util_CondCA`. -/
def CPU_Util_CondCA (m : Machine) (condition : Byte) : Machine :=
  let (address, m1) := CPU_FetchShort m
  if condition.val ≠ 0 then
    let m2 := CPU_PushShort m1 m1.cpu.i
    m2.setI address
  else m1

/-- `cpu.i.value = CPU_FetchShort();` -/
def CPU_Opcode_JM (m : Machine) : Machine :=
  let (address, m1) := CPU_FetchShort m
  m1.setI address

/-- The function `CPU_Opcode_CA`. -/
def CPU_Opcode_CA (m : Machine) : Machine :=
  let (address, m1) := CPU_FetchShort m
  CPU_Util_CA m1 address

/-- `cpu.i.value = CPU_PopShort();` -/
def CPU_Opcode_RT (m : Machine) : Machine :=
  let (address, m1) := CPU_PopShort m
  m1.setI address

/-- `CPU_Util_CA(0x0000);` -/
def CPU_Opcode_SIA (m : Machine) : Machine := CPU_Util_CA m (toUShort 0x0000)

/-- `CPU_Util_CA(0x0008);` -/
def CPU_Opcode_SIB (m : Machine) : Machine := CPU_Util_CA m (toUShort 0x0008)

/-- `CPU_Util_CA(0x0010);` -/
def CPU_Opcode_SIC (m : Machine) : Machine := CPU_Util_CA m (toUShort 0x0010)

/-- `CPU_Util_CA(0x0018);` -/
def CPU_Opcode_SID (m : Machine) : Machine := CPU_Util_CA m (toUShort 0x0018)

/-- `CPU_Util_CA(0x0020);` -/
def CPU_Opcode_SIE (m : Machine) : Machine := CPU_Util_CA m (toUShort 0x0020)

/-- `CPU_Util_CA(0x0028);` -/
def CPU_Opcode_SIF (m : Machine) : Machine := CPU_Util_CA m (toUShort 0x0028)

/-- `CPU_Util_CA(0x0030);` -/
def CPU_Opcode_SIG (m : Machine) : Machine := CPU_Util_CA m (toUShort 0x0030)

/-- `CPU_Util_CA(0x0038);` -/
def CPU_Opcode_SIH (m : Machine) : Machine := CPU_Util_CA m (toUShort 0x0038)

/-! ## cpu.c: conditional branching instructions -/

/-- `CPU_Util_CondJM(cpu.f.z);` -/
def CPU_Opcode_JMZ (m : Machine) : Machine :=
  CPU_Util_CondJM m (toUChar (bitVal m.cpu.f.z))

/-- `CPU_Util_CondJM(cpu.f.c);` -/
def CPU_Opcode_JMC (m : Machine) : Machine :=
  CPU_Util_CondJM m (toUChar (bitVal m.cpu.f.c))

/-- `CPU_Util_CondJM(cpu.f.s);` -/
def CPU_Opcode_JMS (m : Machine) : Machine :=
  CPU_Util_CondJM m (toUChar (bitVal m.cpu.f.s))

/-- `CPU_Util_CondJM(cpu.f.v);` -/
def CPU_Opcode_JMV (m : Machine) : Machine :=
  CPU_Util_CondJM m (toUChar (bitVal m.cpu.f.v))

/-- `CPU_Util_CondJM(!cpu.f.z);` -/
def CPU_Opcode_JMNZ (m : Machine) : Machine :=
  CPU_Util_CondJM m (toUChar (LNOT (bitVal m.cpu.f.z)))

/-- `CPU_Util_CondJM(!cpu.f.c);` -/
def CPU_Opcode_JMNC (m : Machine) : Machine :=
  CPU_Util_CondJM m (toUChar (LNOT (bitVal m.cpu.f.c)))

/-- `CPU_Util_CondJM(!cpu.f.s);` -/
def CPU_Opcode_JMNS (m : Machine) : Machine :=
  CPU_Util_CondJM m (toUChar (LNOT (bitVal m.cpu.f.s)))

/-- `CPU_Util_CondJM(!cpu.f.v);` -/
def CPU_Opcode_JMNV (m : Machine) : Machine :=
  CPU_Util_CondJM m (toUChar (LNOT (bitVal m.cpu.f.v)))

/-- `CPU_Util_CondCA(cpu.f.z);` -/
def CPU_Opcode_CAZ (m : Machine) : Machine :=
  CPU_Util_CondCA m (toUChar (bitVal m.cpu.f.z))

/-- `CPU_Util_CondCA(cpu.f.c);` -/
def CPU_Opcode_CAC (m : Machine) : Machine :=
  CPU_Util_CondCA m (toUChar (bitVal m.cpu.f.c))

/-- `CPU_Util_CondCA(cpu.f.s);` -/
def CPU_Opcode_CAS (m : Machine) : Machine :=
  CPU_Util_CondCA m (toUChar (bitVal m.cpu.f.s))

/-- `CPU_Util_CondCA(cpu.f.v);` -/
def CPU_Opcode_CAV (m : Machine) : Machine :=
  CPU_Util_CondCA m (toUChar (bitVal m.cpu.f.v))

/-- `CPU_Util_CondCA(!cpu.f.z);` -/
def CPU_Opcode_CANZ (m : Machine) : Machine :=
  CPU_Util_CondCA m (toUChar (LNOT (bitVal m.cpu.f.z)))

/-- `CPU_Util_CondCA(!cpu.f.c);` -/
def CPU_Opcode_CANC (m : Machine) : Machine :=
  CPU_Util_CondCA m (toUChar (LNOT (bitVal m.cpu.f.c)))

/-- `CPU_Util_CondCA(!cpu.f.s);` -/
def CPU_Opcode_CANS (m : Machine) : Machine :=
  CPU_Util_CondCA m (toUChar (LNOT (bitVal m.cpu.f.s)))

/-- `CPU_Util_CondCA(!cpu.f.v);` -/
def CPU_Opcode_CANV (m : Machine) : Machine :=
  CPU_Util_CondCA m (toUChar (LNOT (bitVal m.cpu.f.v)))

/-- `if (cpu.f.z) cpu.i.value = CPU_PopShort();` -/
def CPU_Opcode_RTZ (m : Machine) : Machine :=
  if bitVal m.cpu.f.z ≠ 0 then
    let (address, m1) := CPU_PopShort m
    m1.setI address
  else m

/-- `if (cpu.f.c) cpu.i.value = CPU_PopShort();` -/
def CPU_Opcode_RTC (m : Machine) : Machine :=
  if bitVal m.cpu.f.c ≠ 0 then
    let (address, m1) := CPU_PopShort m
    m1.setI address
  else m

/-- `if (cpu.f.s) cpu.i.value = CPU_PopShort();` -/
def CPU_Opcode_RTS (m : Machine) : Machine :=
  if bitVal m.cpu.f.s ≠ 0 then
    let (address, m1) := CPU_PopShort m
    m1.setI address
  else m

/-- `if (cpu.f.v) cpu.i.value = CPU_PopShort();` -/
def CPU_Opcode_RTV (m : Machine) : Machine :=
  if bitVal m.cpu.f.v ≠ 0 then
    let (address, m1) := CPU_PopShort m
    m1.setI address
  else m

/-- `if (!cpu.f.z) cpu.i.value = CPU_PopShort();` -/
def CPU_Opcode_RTNZ (m : Machine) : Machine :=
  if LNOT (bitVal m.cpu.f.z) ≠ 0 then
    let (address, m1) := CPU_PopShort m
    m1.setI address
  else m

/-- `if (!cpu.f.c) cpu.i.value = CPU_PopShort();` -/
def CPU_Opcode_RTNC (m : Machine) : Machine :=
  if LNOT (bitVal m.cpu.f.c) ≠ 0 then
    let (address, m1) := CPU_PopShort m
    m1.setI address
  else m

/-- `if (!cpu.f.s) cpu.i.value = CPU_PopShort();` -/
def CPU_Opcode_RTNS (m : Machine) : Machine :=
  if LNOT (bitVal m.cpu.f.s) ≠ 0 then
    let (address, m1) := CPU_PopShort m
    m1.setI address
  else m

/-- `if (!cpu.f.v) cpu.i.value = CPU_PopShort();` -/
def CPU_Opcode_RTNV (m : Machine) : Machine :=
  if LNOT (bitVal m.cpu.f.v) ≠ 0 then
    let (address, m1) := CPU_PopShort m
    m1.setI address
  else m

/-! ## cpu.c: I/O port instructions -/

/-- `CPU_PushByte(IO_Read(CPU_FetchByte()));` -/
def CPU_Opcode_IPB (m : Machine) : Machine :=
  let (port, m1) := CPU_FetchByte m
  CPU_PushByte m1 (IO_Read m1 port)

/-- `IO_Write(CPU_FetchByte(), CPU_PopByte());` -/
def CPU_Opcode_OPB (m : Machine) : Machine :=
  let (port, m1) := CPU_FetchByte m
  let (value, m2) := CPU_PopByte m1
  IO_Write m2 port value

/-- The function `CPU_Opcode_IPS`. -/
def CPU_Opcode_IPS (m : Machine) : Machine :=
  let (port, m1) := CPU_FetchByte m
  let m2 := CPU_PushByte m1 (IO_Read m1 (toUChar (port.val + 1)))
  CPU_PushByte m2 (IO_Read m2 port)

/-- The function `CPU_Opcode_OPS`. -/
def CPU_Opcode_OPS (m : Machine) : Machine :=
  let (port, m1) := CPU_FetchByte m
  let (lo, m2) := CPU_PopByte m1
  let m3 := IO_Write m2 port lo
  let (hi, m4) := CPU_PopByte m3
  IO_Write m4 (toUChar (port.val + 1)) hi

/-! ## cpu.c: miscellaneous instructions -/

/-- The function `CPU_Opcode_NO`: `return;`. -/
def CPU_Opcode_NO (m : Machine) : Machine := m

/-! ## cpu.c: the opcode table and `CPU_Execute` -/

/-- The functions an entry of the table `CPU_Opcode` can point to: `X` stands for
the C function `CPU_Opcode_X`. -/
inductive OpcodeFn where
  | LDAI | LDBI | LDSI | LDAD | LDBD | LDSD | LDARA | LDBRA | LDSRA | LDARB | LDBRB | LDSRB
  | LDAXA | LDBXA | LDSXA | LDAXB | LDBXB | LDSXB | LDAYA | LDBYA | LDSYA | LDAYB | LDBYB | LDSYB
  | STAD | STBD | STSD | STARA | STBRA | STSRA | STARB | STBRB | STSRB | STAXA | STBXA | STSXA
  | STAXB | STBXB | STSXB | STAYA | STBYA | STSYA | STAYB | STBYB | STSYB | MVAB | MVAS | MVAI
  | MVBA | MVBS | MVBI | MVSA | MVSB | MVSI | MVIA | MVIB | MVIS | PUBI | PUBD | PUBRA | PUBRB
  | PUBXA | PUBXB | PUBYA | PUBYB | PUSI | PUSD | PUSRA | PUSRB | PUSXA | PUSXB | PUSYA | PUSYB
  | PUA | PUB | PUS | PUI | PUF | POBD | POBRA | POBRB | POBXA | POBXB | POBYA | POBYB | POSD
  | POSRA | POSRB | POSXA | POSXB | POSYA | POSYB | POA | POB | POS | POI | POF | DTS | STS | IRA
  | IRB | IRS | DRA | DRB | DRS | ADB | SUB | ANB | ORB | XRB | CPB | IVB | ICB | DCB | RLB | RRB
  | SLB | SRB | SAB | ADS | SUS | ANS | ORS | XRS | CPS | IVS | ICS | DCS | RLS | RRS | SLS | SRS
  | SAS | SFZ | SFC | SFS | SFV | CFZ | CFC | CFS | CFV | EI | DI | HT | JM | CA | RT | SIA | SIB
  | SIC | SID | SIE | SIF | SIG | SIH | JMZ | JMC | JMS | JMV | JMNZ | JMNC | JMNS | JMNV | CAZ
  | CAC | CAS | CAV | CANZ | CANC | CANS | CANV | RTZ | RTC | RTS | RTV | RTNZ | RTNC | RTNS
  | RTNV | IPB | OPB | IPS | OPS | NO
  deriving DecidableEq, Repr

/-- The call `funcptr()` through an entry of the opcode table. -/
def OpcodeFn.run : OpcodeFn → Machine → Machine
  | .LDAI => CPU_Opcode_LDAI
  | .LDBI => CPU_Opcode_LDBI
  | .LDSI => CPU_Opcode_LDSI
  | .LDAD => CPU_Opcode_LDAD
  | .LDBD => CPU_Opcode_LDBD
  | .LDSD => CPU_Opcode_LDSD
  | .LDARA => CPU_Opcode_LDARA
  | .LDBRA => CPU_Opcode_LDBRA
  | .LDSRA => CPU_Opcode_LDSRA
  | .LDARB => CPU_Opcode_LDARB
  | .LDBRB => CPU_Opcode_LDBRB
  | .LDSRB => CPU_Opcode_LDSRB
  | .LDAXA => CPU_Opcode_LDAXA
  | .LDBXA => CPU_Opcode_LDBXA
  | .LDSXA => CPU_Opcode_LDSXA
  | .LDAXB => CPU_Opcode_LDAXB
  | .LDBXB => CPU_Opcode_LDBXB
  | .LDSXB => CPU_Opcode_LDSXB
  | .LDAYA => CPU_Opcode_LDAYA
  | .LDBYA => CPU_Opcode_LDBYA
  | .LDSYA => CPU_Opcode_LDSYA
  | .LDAYB => CPU_Opcode_LDAYB
  | .LDBYB => CPU_Opcode_LDBYB
  | .LDSYB => CPU_Opcode_LDSYB
  | .STAD => CPU_Opcode_STAD
  | .STBD => CPU_Opcode_STBD
  | .STSD => CPU_Opcode_STSD
  | .STARA => CPU_Opcode_STARA
  | .STBRA => CPU_Opcode_STBRA
  | .STSRA => CPU_Opcode_STSRA
  | .STARB => CPU_Opcode_STARB
  | .STBRB => CPU_Opcode_STBRB
  | .STSRB => CPU_Opcode_STSRB
  | .STAXA => CPU_Opcode_STAXA
  | .STBXA => CPU_Opcode_STBXA
  | .STSXA => CPU_Opcode_STSXA
  | .STAXB => CPU_Opcode_STAXB
  | .STBXB => CPU_Opcode_STBXB
  | .STSXB => CPU_Opcode_STSXB
  | .STAYA => CPU_Opcode_STAYA
  | .STBYA => CPU_Opcode_STBYA
  | .STSYA => CPU_Opcode_STSYA
  | .STAYB => CPU_Opcode_STAYB
  | .STBYB => CPU_Opcode_STBYB
  | .STSYB => CPU_Opcode_STSYB
  | .MVAB => CPU_Opcode_MVAB
  | .MVAS => CPU_Opcode_MVAS
  | .MVAI => CPU_Opcode_MVAI
  | .MVBA => CPU_Opcode_MVBA
  | .MVBS => CPU_Opcode_MVBS
  | .MVBI => CPU_Opcode_MVBI
  | .MVSA => CPU_Opcode_MVSA
  | .MVSB => CPU_Opcode_MVSB
  | .MVSI => CPU_Opcode_MVSI
  | .MVIA => CPU_Opcode_MVIA
  | .MVIB => CPU_Opcode_MVIB
  | .MVIS => CPU_Opcode_MVIS
  | .PUBI => CPU_Opcode_PUBI
  | .PUBD => CPU_Opcode_PUBD
  | .PUBRA => CPU_Opcode_PUBRA
  | .PUBRB => CPU_Opcode_PUBRB
  | .PUBXA => CPU_Opcode_PUBXA
  | .PUBXB => CPU_Opcode_PUBXB
  | .PUBYA => CPU_Opcode_PUBYA
  | .PUBYB => CPU_Opcode_PUBYB
  | .PUSI => CPU_Opcode_PUSI
  | .PUSD => CPU_Opcode_PUSD
  | .PUSRA => CPU_Opcode_PUSRA
  | .PUSRB => CPU_Opcode_PUSRB
  | .PUSXA => CPU_Opcode_PUSXA
  | .PUSXB => CPU_Opcode_PUSXB
  | .PUSYA => CPU_Opcode_PUSYA
  | .PUSYB => CPU_Opcode_PUSYB
  | .PUA => CPU_Opcode_PUA
  | .PUB => CPU_Opcode_PUB
  | .PUS => CPU_Opcode_PUS
  | .PUI => CPU_Opcode_PUI
  | .PUF => CPU_Opcode_PUF
  | .POBD => CPU_Opcode_POBD
  | .POBRA => CPU_Opcode_POBRA
  | .POBRB => CPU_Opcode_POBRB
  | .POBXA => CPU_Opcode_POBXA
  | .POBXB => CPU_Opcode_POBXB
  | .POBYA => CPU_Opcode_POBYA
  | .POBYB => CPU_Opcode_POBYB
  | .POSD => CPU_Opcode_POSD
  | .POSRA => CPU_Opcode_POSRA
  | .POSRB => CPU_Opcode_POSRB
  | .POSXA => CPU_Opcode_POSXA
  | .POSXB => CPU_Opcode_POSXB
  | .POSYA => CPU_Opcode_POSYA
  | .POSYB => CPU_Opcode_POSYB
  | .POA => CPU_Opcode_POA
  | .POB => CPU_Opcode_POB
  | .POS => CPU_Opcode_POS
  | .POI => CPU_Opcode_POI
  | .POF => CPU_Opcode_POF
  | .DTS => CPU_Opcode_DTS
  | .STS => CPU_Opcode_STS
  | .IRA => CPU_Opcode_IRA
  | .IRB => CPU_Opcode_IRB
  | .IRS => CPU_Opcode_IRS
  | .DRA => CPU_Opcode_DRA
  | .DRB => CPU_Opcode_DRB
  | .DRS => CPU_Opcode_DRS
  | .ADB => CPU_Opcode_ADB
  | .SUB => CPU_Opcode_SUB
  | .ANB => CPU_Opcode_ANB
  | .ORB => CPU_Opcode_ORB
  | .XRB => CPU_Opcode_XRB
  | .CPB => CPU_Opcode_CPB
  | .IVB => CPU_Opcode_IVB
  | .ICB => CPU_Opcode_ICB
  | .DCB => CPU_Opcode_DCB
  | .RLB => CPU_Opcode_RLB
  | .RRB => CPU_Opcode_RRB
  | .SLB => CPU_Opcode_SLB
  | .SRB => CPU_Opcode_SRB
  | .SAB => CPU_Opcode_SAB
  | .ADS => CPU_Opcode_ADS
  | .SUS => CPU_Opcode_SUS
  | .ANS => CPU_Opcode_ANS
  | .ORS => CPU_Opcode_ORS
  | .XRS => CPU_Opcode_XRS
  | .CPS => CPU_Opcode_CPS
  | .IVS => CPU_Opcode_IVS
  | .ICS => CPU_Opcode_ICS
  | .DCS => CPU_Opcode_DCS
  | .RLS => CPU_Opcode_RLS
  | .RRS => CPU_Opcode_RRS
  | .SLS => CPU_Opcode_SLS
  | .SRS => CPU_Opcode_SRS
  | .SAS => CPU_Opcode_SAS
  | .SFZ => CPU_Opcode_SFZ
  | .SFC => CPU_Opcode_SFC
  | .SFS => CPU_Opcode_SFS
  | .SFV => CPU_Opcode_SFV
  | .CFZ => CPU_Opcode_CFZ
  | .CFC => CPU_Opcode_CFC
  | .CFS => CPU_Opcode_CFS
  | .CFV => CPU_Opcode_CFV
  | .EI => CPU_Opcode_EI
  | .DI => CPU_Opcode_DI
  | .HT => CPU_Opcode_HT
  | .JM => CPU_Opcode_JM
  | .CA => CPU_Opcode_CA
  | .RT => CPU_Opcode_RT
  | .SIA => CPU_Opcode_SIA
  | .SIB => CPU_Opcode_SIB
  | .SIC => CPU_Opcode_SIC
  | .SID => CPU_Opcode_SID
  | .SIE => CPU_Opcode_SIE
  | .SIF => CPU_Opcode_SIF
  | .SIG => CPU_Opcode_SIG
  | .SIH => CPU_Opcode_SIH
  | .JMZ => CPU_Opcode_JMZ
  | .JMC => CPU_Opcode_JMC
  | .JMS => CPU_Opcode_JMS
  | .JMV => CPU_Opcode_JMV
  | .JMNZ => CPU_Opcode_JMNZ
  | .JMNC => CPU_Opcode_JMNC
  | .JMNS => CPU_Opcode_JMNS
  | .JMNV => CPU_Opcode_JMNV
  | .CAZ => CPU_Opcode_CAZ
  | .CAC => CPU_Opcode_CAC
  | .CAS => CPU_Opcode_CAS
  | .CAV => CPU_Opcode_CAV
  | .CANZ => CPU_Opcode_CANZ
  | .CANC => CPU_Opcode_CANC
  | .CANS => CPU_Opcode_CANS
  | .CANV => CPU_Opcode_CANV
  | .RTZ => CPU_Opcode_RTZ
  | .RTC => CPU_Opcode_RTC
  | .RTS => CPU_Opcode_RTS
  | .RTV => CPU_Opcode_RTV
  | .RTNZ => CPU_Opcode_RTNZ
  | .RTNC => CPU_Opcode_RTNC
  | .RTNS => CPU_Opcode_RTNS
  | .RTNV => CPU_Opcode_RTNV
  | .IPB => CPU_Opcode_IPB
  | .OPB => CPU_Opcode_OPB
  | .IPS => CPU_Opcode_IPS
  | .OPS => CPU_Opcode_OPS
  | .NO => CPU_Opcode_NO

/-- The initialiser of the array `CPU_Opcode[256]`, entry by entry. -/
def CPU_Opcode : List OpcodeFn := [
  OpcodeFn.LDAI, OpcodeFn.LDBI, OpcodeFn.LDSI, OpcodeFn.LDAD, OpcodeFn.LDBD, OpcodeFn.LDSD,
  OpcodeFn.LDARA, OpcodeFn.LDBRA, OpcodeFn.LDSRA, OpcodeFn.LDARB, OpcodeFn.LDBRB, OpcodeFn.LDSRB,
  OpcodeFn.LDAXA, OpcodeFn.LDBXA, OpcodeFn.LDSXA, OpcodeFn.LDAXB, OpcodeFn.LDBXB, OpcodeFn.LDSXB,
  OpcodeFn.LDAYA, OpcodeFn.LDBYA, OpcodeFn.LDSYA, OpcodeFn.LDAYB, OpcodeFn.LDBYB, OpcodeFn.LDSYB,
  OpcodeFn.STAD, OpcodeFn.STBD, OpcodeFn.STSD, OpcodeFn.STARA, OpcodeFn.STBRA, OpcodeFn.STSRA,
  OpcodeFn.STARB, OpcodeFn.STBRB, OpcodeFn.STSRB, OpcodeFn.STAXA, OpcodeFn.STBXA, OpcodeFn.STSXA,
  OpcodeFn.STAXB, OpcodeFn.STBXB, OpcodeFn.STSXB, OpcodeFn.STAYA, OpcodeFn.STBYA, OpcodeFn.STSYA,
  OpcodeFn.STAYB, OpcodeFn.STBYB, OpcodeFn.STSYB, OpcodeFn.MVAB, OpcodeFn.MVAS, OpcodeFn.MVAI,
  OpcodeFn.MVBA, OpcodeFn.MVBS, OpcodeFn.MVBI, OpcodeFn.MVSA, OpcodeFn.MVSB, OpcodeFn.MVSI,
  OpcodeFn.MVIA, OpcodeFn.MVIB, OpcodeFn.MVIS, OpcodeFn.PUBI, OpcodeFn.PUBD, OpcodeFn.PUBRA,
  OpcodeFn.PUBRB, OpcodeFn.PUBXA, OpcodeFn.PUBXB, OpcodeFn.PUBYA, OpcodeFn.PUBYB, OpcodeFn.PUSI,
  OpcodeFn.PUSD, OpcodeFn.PUSRA, OpcodeFn.PUSRB, OpcodeFn.PUSXA, OpcodeFn.PUSXB, OpcodeFn.PUSYA,
  OpcodeFn.PUSYB, OpcodeFn.PUA, OpcodeFn.PUB, OpcodeFn.PUS, OpcodeFn.PUI, OpcodeFn.PUF,
  OpcodeFn.POBD, OpcodeFn.POBRA, OpcodeFn.POBRB, OpcodeFn.POBXA, OpcodeFn.POBXB, OpcodeFn.POBYA,
  OpcodeFn.POBYB, OpcodeFn.POSD, OpcodeFn.POSRA, OpcodeFn.POSRB, OpcodeFn.POSXA, OpcodeFn.POSXB,
  OpcodeFn.POSYA, OpcodeFn.POSYB, OpcodeFn.POA, OpcodeFn.POB, OpcodeFn.POS, OpcodeFn.POI,
  OpcodeFn.POF, OpcodeFn.DTS, OpcodeFn.STS, OpcodeFn.IRA, OpcodeFn.IRB, OpcodeFn.IRS,
  OpcodeFn.DRA, OpcodeFn.DRB, OpcodeFn.DRS, OpcodeFn.ADB, OpcodeFn.SUB, OpcodeFn.ANB,
  OpcodeFn.ORB, OpcodeFn.XRB, OpcodeFn.CPB, OpcodeFn.IVB, OpcodeFn.ICB, OpcodeFn.DCB,
  OpcodeFn.RLB, OpcodeFn.RRB, OpcodeFn.SLB, OpcodeFn.SRB, OpcodeFn.SAB, OpcodeFn.ADS,
  OpcodeFn.SUS, OpcodeFn.ANS, OpcodeFn.ORS, OpcodeFn.XRS, OpcodeFn.CPS, OpcodeFn.IVS,
  OpcodeFn.ICS, OpcodeFn.DCS, OpcodeFn.RLS, OpcodeFn.RRS, OpcodeFn.SLS, OpcodeFn.SRS,
  OpcodeFn.SAS, OpcodeFn.SFZ, OpcodeFn.SFC, OpcodeFn.SFS, OpcodeFn.SFV, OpcodeFn.CFZ,
  OpcodeFn.CFC, OpcodeFn.CFS, OpcodeFn.CFV, OpcodeFn.EI, OpcodeFn.DI, OpcodeFn.HT, OpcodeFn.JM,
  OpcodeFn.CA, OpcodeFn.RT, OpcodeFn.SIA, OpcodeFn.SIB, OpcodeFn.SIC, OpcodeFn.SID, OpcodeFn.SIE,
  OpcodeFn.SIF, OpcodeFn.SIG, OpcodeFn.SIH, OpcodeFn.JMZ, OpcodeFn.JMC, OpcodeFn.JMS,
  OpcodeFn.JMV, OpcodeFn.JMNZ, OpcodeFn.JMNC, OpcodeFn.JMNS, OpcodeFn.JMNV, OpcodeFn.CAZ,
  OpcodeFn.CAC, OpcodeFn.CAS, OpcodeFn.CAV, OpcodeFn.CANZ, OpcodeFn.CANC, OpcodeFn.CANS,
  OpcodeFn.CANV, OpcodeFn.RTZ, OpcodeFn.RTC, OpcodeFn.RTS, OpcodeFn.RTV, OpcodeFn.RTNZ,
  OpcodeFn.RTNC, OpcodeFn.RTNS, OpcodeFn.RTNV, OpcodeFn.IPB, OpcodeFn.OPB, OpcodeFn.IPS,
  OpcodeFn.OPS, OpcodeFn.NO, OpcodeFn.NO, OpcodeFn.NO, OpcodeFn.NO, OpcodeFn.NO, OpcodeFn.NO,
  OpcodeFn.NO, OpcodeFn.NO, OpcodeFn.NO, OpcodeFn.NO, OpcodeFn.NO, OpcodeFn.NO, OpcodeFn.NO,
  OpcodeFn.NO, OpcodeFn.NO, OpcodeFn.NO, OpcodeFn.NO, OpcodeFn.NO, OpcodeFn.NO, OpcodeFn.NO,
  OpcodeFn.NO, OpcodeFn.NO, OpcodeFn.NO, OpcodeFn.NO, OpcodeFn.NO, OpcodeFn.NO, OpcodeFn.NO,
  OpcodeFn.NO, OpcodeFn.NO, OpcodeFn.NO, OpcodeFn.NO, OpcodeFn.NO, OpcodeFn.NO, OpcodeFn.NO,
  OpcodeFn.NO, OpcodeFn.NO, OpcodeFn.NO, OpcodeFn.NO, OpcodeFn.NO, OpcodeFn.NO, OpcodeFn.NO,
  OpcodeFn.NO, OpcodeFn.NO, OpcodeFn.NO, OpcodeFn.NO, OpcodeFn.NO, OpcodeFn.NO, OpcodeFn.NO,
  OpcodeFn.NO, OpcodeFn.NO, OpcodeFn.NO, OpcodeFn.NO, OpcodeFn.NO, OpcodeFn.NO, OpcodeFn.NO,
  OpcodeFn.NO, OpcodeFn.NO, OpcodeFn.NO, OpcodeFn.NO, OpcodeFn.NO, OpcodeFn.NO, OpcodeFn.NO,
  OpcodeFn.NO, OpcodeFn.NO, OpcodeFn.NO, OpcodeFn.NO, OpcodeFn.NO, OpcodeFn.NO, OpcodeFn.NO,
  OpcodeFn.NO, OpcodeFn.NO, OpcodeFn.NO, OpcodeFn.NO]

set_option maxRecDepth 8192 in
/-- The function `CPU_Execute`: `CPU_Opcode[CPU_FetchByte()]();`.  The table has
256 entries, so the fetched byte always indexes inside it. -/
def CPU_Execute (m : Machine) : Machine :=
  let (opcode, m1) := CPU_FetchByte m
  (CPU_Opcode.get ⟨opcode.val, Nat.lt_of_lt_of_eq opcode.isLt (by rfl)⟩).run m1

/-- The function `CPU_Init`: registers and flags are reset. -/
def CPU_Init (m : Machine) : Machine :=
  { m with cpu := { a := toUShort 0, b := toUShort 0, s := toUShort 0, i := toUShort 0,
                    f := Flags.ofValue (toUChar 0) } }
/-! ## Sequences of stack operations -/

/-- The calls `CPU_PushByte(v_1); ...; CPU_PushByte(v_n);` in this order. -/
def pushBytes : List Byte → Machine → Machine
  | [], m => m
  | v :: vs, m => pushBytes vs (CPU_PushByte m v)

/-- The results of `n` successive calls of `CPU_PopByte()`, first call first, and
the machine they leave. -/
def popBytes : Nat → Machine → List Byte × Machine
  | 0, m => ([], m)
  | n + 1, m =>
    let (v, m1) := CPU_PopByte m
    let (vs, m2) := popBytes n m1
    (v :: vs, m2)

/-- A concrete machine for examples: memory, registers, flags, disk and display
all zero, every port bound to the default handlers (the state `IO_Init` leaves). -/
def zeroMachine : Machine :=
  { MEMORY := fun _ => 0
    cpu := { a := 0, b := 0, s := 0, i := 0, f := Flags.ofValue 0 }
    IO_READ_FUNPTR := fun _ => ReadFn.IO_READ_DEFAULT
    IO_WRITE_FUNPTR := fun _ => WriteFn.IO_WRITE_DEFAULT
    DISK := fun _ => 0
    disk := { memoryAddress := 0, data := 0,
              status := { intEnable := false, ready := false, operation := false, unused := 0 },
              diskAddress := 0, sectorCount := 0, byteCount := 0 }
    display := { base := 0, mode := 0, cursorX := 0, cursorY := 0, cursorType := 0,
                 data := 0, cursorIndex := 0 } }

/-- The byte on top of the stack: `MEMORY[S]`. -/
def stackTop (m : Machine) : Byte := Memory_GetByte m m.cpu.s

/-- The byte below the top of the stack: `MEMORY[S + 1]`, the address taken
modulo `2^16`. -/
def stackNext (m : Machine) : Byte := Memory_GetByte m (toUShort (m.cpu.s.val + 1))

/-- The add-with-carry scenario: `ADB` (0x69) at `I = 0`, `S = 0x1000` with 0x01 on
top of 0xFF, carry clear. -/
def adbExample : Machine :=
  { zeroMachine with
    MEMORY := fun j => if j = 0x0000 then 0x69 else if j = 0x1000 then 0x01
      else if j = 0x1001 then 0xFF else 0
    cpu := { zeroMachine.cpu with s := 0x1000 } }

/-- The short on top of the stack: low byte at `S`, high byte at `S + 1`. -/
def stackTopShort (m : Machine) : Short := Memory_GetShort m m.cpu.s

/-- The short below the top short of the stack: low byte at `S + 2`. -/
def stackNextShort (m : Machine) : Short := Memory_GetShort m (toUShort (m.cpu.s.val + 2))

/-- What the specification says of the flags `f` after an ALU operation of result
`result` whose most significant bit has index `msb`, the flags before being `f0`:
`Z` tells whether the result is zero, the `S` flag is the result's most
significant bit, `V` is clear, `H` and `E` (the field `i`) are as before. -/
def FlagsAfterALU (msb : Nat) (f0 : Flags) (result : Nat) (f : Flags) : Prop :=
  f.z = decide (result = 0) ∧ f.s = result.testBit msb ∧ f.v = false
    ∧ f.h = f0.h ∧ f.i = f0.i

/-- The result of the 8-bit ALU instruction with opcode `k` executed on `m`: for
`CPB` (0x6E), which pushes nothing, the discarded difference `(a - b) mod 256` of
the stack top `a` and the next byte `b`; for the others the byte the instruction
leaves on top of the stack. -/
def aluResult8 (k : Byte) (m : Machine) : Byte :=
  if k.val = 0x6E then intToUChar (((stackTop m).val : Int) - ((stackNext m).val : Int))
  else stackTop (CPU_Execute m)

/-- The result of the 16-bit ALU instruction with opcode `k` executed on `m`: for
`CPS` (0x7C), which pushes nothing, the discarded difference `(a - b) mod 2^16` of
the top short `a` and the next short `b`; for the others the short the instruction
leaves on top of the stack. -/
def aluResult16 (k : Byte) (m : Machine) : Short :=
  if k.val = 0x7C then
    intToUShort (((stackTopShort m).val : Int) - ((stackNextShort m).val : Int))
  else stackTopShort (CPU_Execute m)

/-- The call / return scenario: `CA 0x0250; RT` at 0x0100, `RT` at 0x0250,
`I = 0x0100`, `S = 0x1000`. -/
def caExample : Machine :=
  { zeroMachine with
    MEMORY := fun j => if j = 0x0100 then 0x91 else if j = 0x0101 then 0x50
      else if j = 0x0102 then 0x02 else if j = 0x0103 then 0x92
      else if j = 0x0250 then 0x92 else 0
    cpu := { zeroMachine.cpu with s := 0x1000, i := 0x0100 } }

/-- The flag test of a conditional branch, by the position `j` of its mnemonic
suffix in the order `Z, C, S, V, NZ, NC, NS, NV` of the opcode map: flag set for
the first four, flag clear for the last four. -/
def branchTest (j : Nat) (f : Flags) : Bool :=
  match j with
  | 0 => f.z
  | 1 => f.c
  | 2 => f.s
  | 3 => f.v
  | 4 => !f.z
  | 5 => !f.c
  | 6 => !f.s
  | _ => !f.v

/-- A conditional jump scenario: `JMNZ 0x0250` (0x9F) at 0x0100 with every flag
clear, so the branch is taken. -/
def jmnzExample : Machine :=
  { zeroMachine with
    MEMORY := fun j => if j = 0x0100 then 0x9F else if j = 0x0101 then 0x50
      else if j = 0x0102 then 0x02 else 0
    cpu := { zeroMachine.cpu with s := 0x1000, i := 0x0100 } }

/-- The opcode map of the specification (§6), line by line: first opcode, last
opcode and the instructions in the listed order, the abbreviated lines written
out (`X` standing for the handler of mnemonic `X`). -/
def specOpcodeMap : List (Nat × Nat × List OpcodeFn) :=
  [ (0x00, 0x17, [.LDAI, .LDBI, .LDSI, .LDAD, .LDBD, .LDSD, .LDARA, .LDBRA, .LDSRA,
      .LDARB, .LDBRB, .LDSRB, .LDAXA, .LDBXA, .LDSXA, .LDAXB, .LDBXB, .LDSXB,
      .LDAYA, .LDBYA, .LDSYA, .LDAYB, .LDBYB, .LDSYB]),
    (0x18, 0x2C, [.STAD, .STBD, .STSD, .STARA, .STBRA, .STSRA, .STARB, .STBRB, .STSRB,
      .STAXA, .STBXA, .STSXA, .STAXB, .STBXB, .STSXB, .STAYA, .STBYA, .STSYA,
      .STAYB, .STBYB, .STSYB]),
    (0x2D, 0x38, [.MVAB, .MVAS, .MVAI, .MVBA, .MVBS, .MVBI, .MVSA, .MVSB, .MVSI,
      .MVIA, .MVIB, .MVIS]),
    (0x39, 0x40, [.PUBI, .PUBD, .PUBRA, .PUBRB, .PUBXA, .PUBXB, .PUBYA, .PUBYB]),
    (0x41, 0x48, [.PUSI, .PUSD, .PUSRA, .PUSRB, .PUSXA, .PUSXB, .PUSYA, .PUSYB]),
    (0x49, 0x4D, [.PUA, .PUB, .PUS, .PUI, .PUF]),
    (0x4E, 0x54, [.POBD, .POBRA, .POBRB, .POBXA, .POBXB, .POBYA, .POBYB]),
    (0x55, 0x5B, [.POSD, .POSRA, .POSRB, .POSXA, .POSXB, .POSYA, .POSYB]),
    (0x5C, 0x60, [.POA, .POB, .POS, .POI, .POF]),
    (0x61, 0x61, [.DTS]),
    (0x62, 0x62, [.STS]),
    (0x63, 0x68, [.IRA, .IRB, .IRS, .DRA, .DRB, .DRS]),
    (0x69, 0x76, [.ADB, .SUB, .ANB, .ORB, .XRB, .CPB, .IVB, .ICB, .DCB, .RLB, .RRB,
      .SLB, .SRB, .SAB]),
    (0x77, 0x84, [.ADS, .SUS, .ANS, .ORS, .XRS, .CPS, .IVS, .ICS, .DCS, .RLS, .RRS,
      .SLS, .SRS, .SAS]),
    (0x85, 0x8C, [.SFZ, .SFC, .SFS, .SFV, .CFZ, .CFC, .CFS, .CFV]),
    (0x8D, 0x8D, [.EI]),
    (0x8E, 0x8E, [.DI]),
    (0x8F, 0x8F, [.HT]),
    (0x90, 0x90, [.JM]),
    (0x91, 0x91, [.CA]),
    (0x92, 0x92, [.RT]),
    (0x93, 0x9A, [.SIA, .SIB, .SIC, .SID, .SIE, .SIF, .SIG, .SIH]),
    (0x9B, 0xA2, [.JMZ, .JMC, .JMS, .JMV, .JMNZ, .JMNC, .JMNS, .JMNV]),
    (0xA3, 0xAA, [.CAZ, .CAC, .CAS, .CAV, .CANZ, .CANC, .CANS, .CANV]),
    (0xAB, 0xB2, [.RTZ, .RTC, .RTS, .RTV, .RTNZ, .RTNC, .RTNS, .RTNV]),
    (0xB3, 0xB6, [.IPB, .OPB, .IPS, .OPS]) ]

/-- The instruction the opcode map of the specification lists at opcode `k`, if
`k` lies on one of its lines 0x00..0xB6. -/
def specOpcodeAt (k : Nat) : Option OpcodeFn :=
  match specOpcodeMap.find? (fun g => decide (g.1 ≤ k ∧ k ≤ g.2.1)) with
  | some g => g.2.2.get? (k - g.1)
  | none => none

/-- A machine whose memory holds the unused opcode 0xFF everywhere, with `I` at
the last address 0xFFFF. -/
def noExample : Machine :=
  { zeroMachine with
    MEMORY := fun _ => 0xFF
    cpu := { zeroMachine.cpu with a := 0x1234, s := 0x1000, i := 0xFFFF } }

/-- The immediate load and store scenario: `LDAI 0x0042; STAD 0x0010` at 0x0000,
`I = 0`. -/
def ldaiExample : Machine :=
  { zeroMachine with
    MEMORY := fun j => if j = 0x0000 then 0x00 else if j = 0x0001 then 0x42
      else if j = 0x0002 then 0x00 else if j = 0x0003 then 0x18
      else if j = 0x0004 then 0x10 else if j = 0x0005 then 0x00 else 0 }

/-- The index register of an indexed addressing mode: `A` for `x = 0`, `B`
otherwise. -/
def indexReg (x : Nat) (m : Machine) : Short := if x = 0 then m.cpu.a else m.cpu.b

/-- The destination register of a load: `A` for `r = 0`, `B` for `r = 1`, `S`
otherwise. -/
def destReg (r : Nat) (m : Machine) : Short :=
  if r = 0 then m.cpu.a else if r = 1 then m.cpu.b else m.cpu.s

/-- The value an indexed load fetches, `ea` being the effective address
`(X + d) mod 2^16`: the short at `ea` for the `X` modes (`y = 0`), the short at the
address stored at `ea` for the `Y` modes. -/
def indexedOperand (y : Nat) (m : Machine) (ea : Short) : Short :=
  if y = 0 then Memory_GetShort m ea else Memory_GetShort m (Memory_GetShort m ea)

/-- An indexed load scenario: `LDSYA 0x0010` (0x14) at 0x0100 with `A = 0xFFF8`, so
the effective address wraps to 0x0008; the short there is 0x0300 and the short at
0x0300 is 0xBEEF. -/
def ldsyaExample : Machine :=
  { zeroMachine with
    MEMORY := fun j => if j = 0x0100 then 0x14 else if j = 0x0101 then 0x10
      else if j = 0x0102 then 0x00 else if j = 0x0008 then 0x00
      else if j = 0x0009 then 0x03 else if j = 0x0300 then 0xEF
      else if j = 0x0301 then 0xBE else 0
    cpu := { zeroMachine.cpu with a := 0xFFF8, b := 0x0007, s := 0x1000, i := 0x0100 } }

/-- The third byte of the stack: `MEMORY[S + 2]`, the address taken modulo `2^16`. -/
def stackThird (m : Machine) : Byte := Memory_GetByte m (toUShort (m.cpu.s.val + 2))

/-- The stack duplicate scenario: `DTS` (0x61) at `I = 0`, `S = 0x1000` with 0x11 on
top of 0x22. -/
def dtsExample : Machine :=
  { zeroMachine with
    MEMORY := fun j => if j = 0x0000 then 0x61 else if j = 0x1000 then 0x11
      else if j = 0x1001 then 0x22 else 0
    cpu := { zeroMachine.cpu with s := 0x1000 } }

/-- The stack swap scenario: `STS` (0x62) at `I = 0`, `S = 0x1000` with 0x11 on top
of 0x22. -/
def stsExample : Machine :=
  { zeroMachine with
    MEMORY := fun j => if j = 0x0000 then 0x62 else if j = 0x1000 then 0x11
      else if j = 0x1001 then 0x22 else 0
    cpu := { zeroMachine.cpu with s := 0x1000 } }

/-- The rotate round-trip scenario: `RLB; RRB` (0x72, 0x73) at `I = 0`, `S = 0x1000`
with 0xB5 on top of the stack, carry set. -/
def rotateExample : Machine :=
  { zeroMachine with
    MEMORY := fun j => if j = 0x0000 then 0x72 else if j = 0x0001 then 0x73
      else if j = 0x1000 then 0xB5 else 0
    cpu := { zeroMachine.cpu with s := 0x1000, f := { zeroMachine.cpu.f with c := true } } }

/-- The double inversion scenario: `IVB; IVB` (0x6F, 0x6F) at `I = 0`, `S = 0x1000`
with 0xB5 on top of the stack. -/
def invertExample : Machine :=
  { zeroMachine with
    MEMORY := fun j => if j = 0x0000 then 0x6F else if j = 0x0001 then 0x6F
      else if j = 0x1000 then 0xB5 else 0
    cpu := { zeroMachine.cpu with s := 0x1000 } }

/-- The byte after the opcode at the instruction pointer: the port operand of an I/O
instruction. -/
def operandByte (m : Machine) : Byte := Memory_GetByte m (toUShort (m.cpu.i.val + 1))

/-- One call of `IO_RegisterRead` or `IO_RegisterWrite`. -/
inductive Registration where
  | read (port : Byte) (funcptr : ReadFn)
  | write (port : Byte) (funcptr : WriteFn)

/-- The port a registration binds. -/
def Registration.port : Registration → Byte
  | .read port _ => port
  | .write port _ => port

/-- The registration carried out on a machine. -/
def Registration.apply (m : Machine) : Registration → Machine
  | .read port funcptr => IO_RegisterRead m port funcptr
  | .write port funcptr => IO_RegisterWrite m port funcptr

/-- A sequence of registrations carried out in order. -/
def registerAll : List Registration → Machine → Machine
  | [], m => m
  | r :: rs, m => registerAll rs (r.apply m)

/-! ## disk.c, display.c, main.c: initialisation -/

/-- The enum constant `DISK_PORT_COMMAND`. -/
def DISK_PORT_COMMAND : Byte := 0x20

/-- The enum constant `DISK_PORT_DATA_LO`. -/
def DISK_PORT_DATA_LO : Byte := 0x21

/-- The enum constant `DISK_PORT_DATA_HI`. -/
def DISK_PORT_DATA_HI : Byte := 0x22

/-- The enum constant `DISK_PORT_STATUS`. -/
def DISK_PORT_STATUS : Byte := 0x23

/-- The enum constant `DISPLAY_PORT_COMMAND`. -/
def DISPLAY_PORT_COMMAND : Byte := 0x30

/-- The enum constant `DISPLAY_PORT_DATA_LO`. -/
def DISPLAY_PORT_DATA_LO : Byte := 0x31

/-- The enum constant `DISPLAY_PORT_DATA_HI`. -/
def DISPLAY_PORT_DATA_HI : Byte := 0x32

/-- The enum constant `DISPLAY_MODE_TEXT_40_30_2`. -/
def DISPLAY_MODE_TEXT_40_30_2 : Nat := 0x00

/-- The function `Disk_Init`: `disk.status.intEnable = 0; disk.status.ready = 1;
return 1;`.  It calls neither `IO_RegisterRead` nor `IO_RegisterWrite`. -/
def Disk_Init (m : Machine) : Machine :=
  let m1 := { m with disk := { m.disk with status := { m.disk.status with intEnable := toBit 0 } } }
  { m1 with disk := { m1.disk with status := { m1.disk.status with ready := toBit 1 } } }

/-- The function `Display_Init`, `windowCreated` telling whether `SDL_CreateWindow`
returned a window: if not, the function returns 0 (`none`) before anything else;
otherwise it registers the five display port functions, sets the mode and
returns 1. -/
def Display_Init (windowCreated : Bool) (m : Machine) : Option Machine :=
  if windowCreated = false then none
  else
    let m1 := IO_RegisterWrite m DISPLAY_PORT_COMMAND WriteFn.Display_CommandPortWrite
    let m2 := IO_RegisterRead m1 DISPLAY_PORT_DATA_LO ReadFn.Display_DataLoRead
    let m3 := IO_RegisterRead m2 DISPLAY_PORT_DATA_HI ReadFn.Display_DataHiRead
    let m4 := IO_RegisterWrite m3 DISPLAY_PORT_DATA_LO WriteFn.Display_DataLoWrite
    let m5 := IO_RegisterWrite m4 DISPLAY_PORT_DATA_HI WriteFn.Display_DataHiWrite
    some { m5 with display := { m5.display with mode := toUInt DISPLAY_MODE_TEXT_40_30_2 } }

/-- The initialisation of `SDL_AppInit` in main.c: `CPU_Init`, `Memory_Init` (which
does nothing), `IO_Init`, `Disk_Init`, `Display_Init`, in this order; `sdlReady` tells
whether `SDL_Init` succeeded. -/
def SDL_AppInit (sdlReady windowCreated : Bool) (m : Machine) : Option Machine :=
  if sdlReady = false then none
  else Display_Init windowCreated (Disk_Init (IO_Init (CPU_Init m)))

/-- A 16-bit port I/O scenario: the display data ports 0x31 / 0x32 bound as
`Display_Init` binds them; `OPS 0x31; IPS 0x31` at `I = 0`; `S = 0x1000` with the short
0x1234 on the stack (0x34 on top of 0x12). -/
def opsExample : Machine :=
  { zeroMachine with
    MEMORY := fun j => if j = 0x0000 then 0xB6 else if j = 0x0001 then 0x31
      else if j = 0x0002 then 0xB5 else if j = 0x0003 then 0x31
      else if j = 0x1000 then 0x34 else if j = 0x1001 then 0x12 else 0
    cpu := { zeroMachine.cpu with s := 0x1000 }
    IO_READ_FUNPTR := fun p => if p = 0x31 then ReadFn.Display_DataLoRead
      else if p = 0x32 then ReadFn.Display_DataHiRead else ReadFn.IO_READ_DEFAULT
    IO_WRITE_FUNPTR := fun p => if p = 0x31 then WriteFn.Display_DataLoWrite
      else if p = 0x32 then WriteFn.Display_DataHiWrite else WriteFn.IO_WRITE_DEFAULT }

/-- A state transformer that looks at the disk and the display only and changes
nothing else: run on a machine `m2` that has the disk and display of `m`, it leaves
`m2` with the disk and display it leaves when run on `m`, and the rest of `m2` as it
is. -/
def PeriphOnly (F : Machine → Machine) : Prop :=
  ∀ m m2 : Machine, m2.disk = m.disk → m2.display = m.display →
    F m2 = { m2 with disk := (F m).disk, display := (F m).display }


/-- A port output scenario: `OPB 0x20` (opcode 0xB4) at `I = 0`, `S = 0x1000` with the
byte 0x5A on top of the stack; all ports have the default handlers. -/
def opbExample : Machine :=
  { zeroMachine with
    MEMORY := fun j => if j = 0x0000 then 0xB4 else if j = 0x0001 then 0x20
      else if j = 0x1000 then 0x5A else 0
    cpu := { zeroMachine.cpu with s := 0x1000 } }

/-- A machine whose memory holds the first unused opcode 0xB7 everywhere, with
`I = 0x0200`. -/
def firstUnusedExample : Machine :=
  { zeroMachine with
    MEMORY := fun _ => 0xB7
    cpu := { zeroMachine.cpu with a := 0x1234, s := 0x1000, i := 0x0200 } }

/-- A halt scenario: the program `HT; LDAI 0x1234` at address 0, `I = 0`, all flags
clear. -/
def haltExample : Machine :=
  { zeroMachine with
    MEMORY := fun j => if j = 0x0000 then 0x8F else if j = 0x0001 then 0x00
      else if j = 0x0002 then 0x34 else if j = 0x0003 then 0x12 else 0
    cpu := { zeroMachine.cpu with s := 0x1000 } }

/-- The halt scenario after its `HT`: the halt flag `H` is 1 and `I = 1` points at
`LDAI 0x1234`. -/
def haltedExample : Machine :=
  { haltExample with
    cpu := { haltExample.cpu with i := 0x0001, f := { haltExample.cpu.f with h := true } } }

/-! ## disk.c: the transfer engine -/

/-- The index `((addr) & DISK_SIZE_MASK)` of the macros `DISK_GETBYTE` and
`DISK_SETBYTE`. -/
def diskIndex (addr : Nat) : Fin 16384 :=
  ⟨addr &&& DISK_SIZE_MASK, Nat.and_lt_two_pow addr (by decide : DISK_SIZE_MASK < 2 ^ 14)⟩

/-- The macro `DISK_GETBYTE(addr)`. -/
def DISK_GETBYTE (m : Machine) (addr : Nat) : Byte := m.DISK (diskIndex addr)

/-- The macro `DISK_SETBYTE(addr, byte)`. -/
def DISK_SETBYTE (m : Machine) (addr : Nat) (byte : Byte) : Machine :=
  { m with DISK := fun j => if j = diskIndex addr then byte else m.DISK j }

/-- The function `Disk_ReadByte`: `ready = !byteCount` first, then
`Memory_SetByte(disk.memoryAddress.value++, DISK_GETBYTE(disk.diskAddress++));`, then
`disk.byteCount--`. -/
def Disk_ReadByte (m : Machine) : Machine :=
  let m1 := { m with disk := { m.disk with
    status := { m.disk.status with ready := toBit (LNOT m.disk.byteCount.val) } } }
  let address := m1.disk.memoryAddress
  let m2 := { m1 with disk := { m1.disk with memoryAddress := toUShort (address.val + 1) } }
  let diskAddress := m2.disk.diskAddress
  let m3 := { m2 with disk := { m2.disk with diskAddress := toUShort (diskAddress.val + 1) } }
  let m4 := Memory_SetByte m3 address (DISK_GETBYTE m3 diskAddress.val)
  { m4 with disk := { m4.disk with byteCount := intToUInt ((m4.disk.byteCount.val : Int) - 1) } }

/-- The function `Disk_WriteByte`: `ready = !byteCount` first, then
`DISK_SETBYTE(disk.diskAddress++, Memory_GetByte(disk.memoryAddress.value++));`, then
`disk.byteCount--`. -/
def Disk_WriteByte (m : Machine) : Machine :=
  let m1 := { m with disk := { m.disk with
    status := { m.disk.status with ready := toBit (LNOT m.disk.byteCount.val) } } }
  let diskAddress := m1.disk.diskAddress
  let m2 := { m1 with disk := { m1.disk with diskAddress := toUShort (diskAddress.val + 1) } }
  let address := m2.disk.memoryAddress
  let m3 := { m2 with disk := { m2.disk with memoryAddress := toUShort (address.val + 1) } }
  let m4 := DISK_SETBYTE m3 diskAddress.val (Memory_GetByte m3 address)
  { m4 with disk := { m4.disk with byteCount := intToUInt ((m4.disk.byteCount.val : Int) - 1) } }

/-- The array `Disk_Operation` of two function pointers: `Disk_ReadByte`,
`Disk_WriteByte`. -/
def Disk_Operation : Fin 2 → Machine → Machine
  | 0 => Disk_ReadByte
  | 1 => Disk_WriteByte

/-- The function `Disk_Update`: `if (disk.status.ready) return;` and then
`Disk_Operation[disk.status.operation]();`. -/
def Disk_Update (m : Machine) : Machine :=
  if bitVal m.disk.status.ready ≠ 0 then m
  else Disk_Operation ⟨bitVal m.disk.status.operation,
    by cases m.disk.status.operation <;> decide⟩ m

/-- The machine after `n` calls of `Disk_Update` (`n` ticks). -/
def diskTicks : Nat → Machine → Machine
  | 0, m => m
  | n + 1, m => diskTicks n (Disk_Update m)

/-- Ticking until the disk is ready: `Disk_Update` is called while
`disk.status.ready` is 0, at most `fuel` times. -/
def diskTickUntilReady : Nat → Machine → Machine
  | 0, m => m
  | fuel + 1, m => if m.disk.status.ready = true then m
      else diskTickUntilReady fuel (Disk_Update m)

/-- The host stages the 16-bit parameter `v` into the disk `DATA` register (low byte,
then high byte) and writes the command byte `c`. -/
def diskCommand (m : Machine) (c : Byte) (v : Short) : Machine :=
  Disk_CommandPortWrite
    (Disk_DataHiPortWrite (Disk_DataLoPortWrite m (toUChar (SHORT_LO v.val)))
      (toUChar (SHORT_HI v.val))) c

/-- The host stages the 16-bit parameter `v` into the display `DATA` register (low
byte, then high byte) and writes the command byte `c`. -/
def displayCommand (m : Machine) (c : Byte) (v : Short) : Machine :=
  Display_CommandPortWrite
    (Display_DataHiWrite (Display_DataLoWrite m (toUChar (SHORT_LO v.val)))
      (toUChar (SHORT_HI v.val))) c

/-- The 16-bit `DATA` register of the display as the host reads it through the two
data ports. -/
def displayData (m : Machine) : Nat :=
  TO_SHORT (Display_DataLoRead m).val (Display_DataHiRead m).val

/-- The commands the display command handler has names for, by group:
0x00..0x02, 0x10..0x16, 0x20..0x26. -/
def displayCommandKnown (c : Byte) : Bool :=
  decide (c.val ≤ 0x02) || decide (0x10 ≤ c.val ∧ c.val ≤ 0x16)
    || decide (0x20 ≤ c.val ∧ c.val ≤ 0x26)

/-- The mode table of the specification (section 4.5), modes 0..7: width, height and
memory size in bytes. -/
def specModeTable : List (Nat × Nat × Nat) :=
  [(40, 25, 1000), (40, 25, 2000), (80, 50, 4000), (80, 50, 8000),
   (320, 200, 8000), (320, 200, 32000), (320, 200, 8000), (320, 200, 32000)]

/-- The line of the mode table for mode `k` (zeros past the table). -/
def specMode (k : Nat) : Nat × Nat × Nat := specModeTable.getD k (0, 0, 0)

/-- The host writes `v` to the display port `DATA_LO` and issues `SET_MODE`. -/
def displaySetMode (m : Machine) (v : Byte) : Machine :=
  Display_CommandPortWrite (Display_DataLoWrite m v) (toUChar DISPLAY_COMMAND_SET_MODE)

/-- The cursor index agrees with the cursor position:
`cursor_index = cursor_y * width + cursor_x` for the current mode. -/
def cursorIndexOk (d : Display) : Prop :=
  d.cursorIndex.val = d.cursorY.val * modeLookup DISPLAY_WIDTH d.mode + d.cursorX.val

/-- The cursor column lies inside the current mode: `cursor_x < width`. -/
def cursorXInRange (d : Display) : Prop := d.cursorX.val < modeLookup DISPLAY_WIDTH d.mode

/-- The cursor row lies inside the current mode: `cursor_y < height`. -/
def cursorYInRange (d : Display) : Prop := d.cursorY.val < modeLookup DISPLAY_HEIGHT d.mode

/-- A display reached by commands from the zero machine: `SET_MODE` 2 (80 x 50),
`SET_CURSOR_Y` 40, `SET_MODE` 0 (40 x 25).  The cursor row 40 is left over from the
taller mode. -/
def staleCursorExample : Machine :=
  displaySetMode (displayCommand (displaySetMode zeroMachine 2) 0x24 40) 0

/-- A display in mode 4 (320 x 200), reached from the zero machine by `SET_MODE` 4. -/
def pixelModeExample : Machine := displaySetMode zeroMachine 4

/-- A 16-bit rotate scenario: `RRS` (opcode 0x81) at `I = 0`, the short 0x8001 on top
of the stack at `S = 0x1000`, carry set. -/
def rrsExample : Machine :=
  { zeroMachine with
    MEMORY := fun j => if j = 0x0000 then 0x81
      else if j = 0x1000 then 0x01 else if j = 0x1001 then 0x80 else 0
    cpu := { zeroMachine.cpu with s := 0x1000, f := { zeroMachine.cpu.f with c := true } } }

/-- A 16-bit shift scenario: `SRS` (opcode 0x83) at `I = 0`, the short 0x8001 on top
of the stack at `S = 0x1000`, carry set. -/
def srsExample : Machine :=
  { rrsExample with
    MEMORY := fun j => if j = 0x0000 then 0x83
      else if j = 0x1000 then 0x01 else if j = 0x1001 then 0x80 else 0 }

/-- A busy disk about to read the last byte of the last sector: `diskAddress = 0x3FFF`,
`memoryAddress = 0x8000`, `byteCount = 1`, `operation = READ`, `ready = 0`; the disk
byte 0x3FFF holds 0xEF. -/
def lastByteExample : Machine :=
  { zeroMachine with
    DISK := fun x => if x = 0x3FFF then 0xEF else 0
    disk := { zeroMachine.disk with
      memoryAddress := 0x8000, diskAddress := 0x3FFF, byteCount := 1 } }

/-- The host sets up a transfer of `n` sectors between disk sector `K` and memory
address `M` and starts it with the command `op` (`READ_SECTORS` or `WRITE_SECTORS`):
`SET_START_SECTOR K`, `SET_MEMORY_ADDRESS M`, `SET_SECTOR_COUNT n`, then `op`. -/
def diskStartTransfer (m : Machine) (K : Byte) (M : Short) (n : Byte) (op : Byte) : Machine :=
  let m1 := Disk_CommandPortWrite (Disk_DataLoPortWrite m K)
    (toUChar DISK_COMMAND_SET_START_SECTOR)
  let m2 := diskCommand m1 (toUChar DISK_COMMAND_SET_MEMORY_ADDRESS) M
  let m3 := Disk_CommandPortWrite (Disk_DataLoPortWrite m2 n)
    (toUChar DISK_COMMAND_SET_SECTOR_COUNT)
  Disk_CommandPortWrite m3 op

/-- The read scenario of the specification on a busy disk: the disk holds 0xDE, 0xAD,
0xBE, 0xEF at 0..3 and 0x99 at 0x100 (the first byte of sector 1); the host asks for
one sector, from sector 0, to be read to 0x8000. -/
def readExample : Machine :=
  diskStartTransfer
    { zeroMachine with
      DISK := fun x => if x = 0 then 0xDE else if x = 1 then 0xAD else if x = 2 then 0xBE
        else if x = 3 then 0xEF else if x = 0x100 then 0x99 else 0 }
    0 0x8000 1 (toUChar DISK_COMMAND_READ_SECTORS)

/-- The round trip of the disk protocol with a fixed number of ticks per transfer:
the host starts a write of `n` sectors from memory address `M` to sector `K` and
`Disk_Update` runs `ticks` times; then the host starts a read of `n` sectors from
sector `K` to memory address `M2` and `Disk_Update` runs `ticks` times. -/
def diskRoundTrip (ticks : Nat) (m : Machine) (K : Byte) (M M2 : Short) (n : Byte) : Machine :=
  let w := diskTicks ticks
    (diskStartTransfer m K M n (toUChar DISK_COMMAND_WRITE_SECTORS))
  diskTicks ticks (diskStartTransfer w K M2 n (toUChar DISK_COMMAND_READ_SECTORS))

/-- The round trip of the disk protocol, ticking until the disk is ready after each of
the two commands (at most `fuel` ticks each). -/
def diskRoundTripUntilReady (fuel : Nat) (m : Machine) (K : Byte) (M M2 : Short) (n : Byte) :
    Machine :=
  let w := diskTickUntilReady fuel
    (diskStartTransfer m K M n (toUChar DISK_COMMAND_WRITE_SECTORS))
  diskTickUntilReady fuel (diskStartTransfer w K M2 n (toUChar DISK_COMMAND_READ_SECTORS))

/-- A machine with the byte 1 at memory address 0 and zeros elsewhere, after
`Disk_Init`: the disk is ready. -/
def initExample : Machine :=
  Disk_Init { zeroMachine with MEMORY := fun j => if j = 0x0000 then 1 else 0 }

/-- A machine with the byte 1 at memory address 0 and zeros elsewhere, its disk busy
(`ready = 0`). -/
def busyExample : Machine :=
  { zeroMachine with MEMORY := fun j => if j = 0x0000 then 1 else 0 }

/-! ## Scenarios for the compare and shift instructions -/

/-- A compare scenario: `CPB` (opcode 0x6E) at `I = 0`, `S = 0x1000` with 0x10 on top
of 0x20, carry clear. -/
def cpbExample : Machine :=
  { zeroMachine with
    MEMORY := fun j => if j = 0x0000 then 0x6E else if j = 0x1000 then 0x10
      else if j = 0x1001 then 0x20 else 0
    cpu := { zeroMachine.cpu with s := 0x1000 } }

/-- A shift scenario: `SAB` (opcode 0x76) at `I = 0`, `S = 0x1000` with 0x41 on top of
the stack, carry clear. -/
def sabExample : Machine :=
  { zeroMachine with
    MEMORY := fun j => if j = 0x0000 then 0x76 else if j = 0x1000 then 0x41 else 0
    cpu := { zeroMachine.cpu with s := 0x1000 } }

/-- The arithmetic right shift by one of a byte read as a signed number: the floor of
half its signed value, as a byte (the sign bit is replicated). -/
def arithShiftRight8 (a : Byte) : Byte :=
  intToUChar (Int.fdiv (if a.val < 128 then (a.val : Int) else (a.val : Int) - 256) 2)

/-- Two chained 8-bit adds: `CPU_ADB` on the low bytes of `a` and `b`, then `CPU_ADB` on
their high bytes with the carry the first add left.  The result is the low byte, the
high byte and the machine after the second add. -/
def addBytesChained (m : Machine) (a b : Short) : Byte × Byte × Machine :=
  let (lo, m1) := CPU_ADB m (toUChar (SHORT_LO a.val)) (toUChar (SHORT_LO b.val))
  let (hi, m2) := CPU_ADB m1 (toUChar (SHORT_HI a.val)) (toUChar (SHORT_HI b.val))
  (lo, hi, m2)

/-! ## Sequences of accesses to a peripheral -/

/-- One access to the display: a byte written to the command handler or to one of the
two data-port handlers. -/
inductive DisplayEvent where
  | command (v : Byte)
  | dataLo (v : Byte)
  | dataHi (v : Byte)
  deriving DecidableEq, Repr

/-- The machine after one access to the display. -/
def DisplayEvent.apply : DisplayEvent → Machine → Machine
  | .command v, m => Display_CommandPortWrite m v
  | .dataLo v, m => Display_DataLoWrite m v
  | .dataHi v, m => Display_DataHiWrite m v

/-- The machine after a sequence of accesses to the display, in order. -/
def displayRun (evs : List DisplayEvent) (m : Machine) : Machine :=
  evs.foldl (fun n e => e.apply n) m

/-- One access to the disk: a byte written to the command handler or to one of the two
data-port handlers, or a call of `Disk_Update`. -/
inductive DiskEvent where
  | command (v : Byte)
  | dataLo (v : Byte)
  | dataHi (v : Byte)
  | update
  deriving DecidableEq, Repr

/-- The machine after one access to the disk. -/
def DiskEvent.apply : DiskEvent → Machine → Machine
  | .command v, m => Disk_CommandPortWrite m v
  | .dataLo v, m => Disk_DataLoPortWrite m v
  | .dataHi v, m => Disk_DataHiPortWrite m v
  | .update, m => Disk_Update m

/-- The machine after a sequence of accesses to the disk, in order. -/
def diskRun (evs : List DiskEvent) (m : Machine) : Machine :=
  evs.foldl (fun n e => e.apply n) m

/-! ## display.c: drawing in the 16-colour pixel modes -/

/-- The constant `WINDOW_W`. -/
def WINDOW_W : Nat := 640

/-- The constant `WINDOW_H`. -/
def WINDOW_H : Nat := 400

/-- The constant `WINDOW_HW`: `(WINDOW_W >> 1)`. -/
def WINDOW_HW : Nat := WINDOW_W >>> 1

/-- The constant `WINDOW_HH`: `(WINDOW_H >> 1)`. -/
def WINDOW_HH : Nat := WINDOW_H >>> 1

/-- The array `DISPLAY_PALETTE`. -/
def DISPLAY_PALETTE : List Nat :=
  [0x00000000, 0x00000080, 0x00008000, 0x00008080, 0x00800000, 0x00800080, 0x00808000,
   0x00808080, 0x00C0C0C0, 0x000000FF, 0x0000FF00, 0x0000FFFF, 0x00FF0000, 0x00FF00FF,
   0x00FFFF00, 0x00FFFFFF]

/-- The pixels of the window surface: the array `(unsigned*) SURFACE->pixels`, by pixel
index. -/
abbrev Surface := Nat → Word

/-- The macro `SDL_min(x, y)`: `(((x) < (y)) ? (x) : (y))`. -/
def SDL_min (x y : Nat) : Nat := if x < y then x else y

/-- The function `Display_SetPixelDouble`; `w` is the surface width `SURFACE->w` in
pixels.  The two loops write `pixel` at `pixels + j` for `j = 0, 1` and move `pixels` on
by `w`, twice. -/
def Display_SetPixelDouble (w : Nat) (s : Surface) (x y pixel : Word) : Surface :=
  let x1 : Word := toUInt (SDL_min x.val (WINDOW_HW - 1) <<< 1)
  let y1 : Word := toUInt (SDL_min y.val (WINDOW_HH - 1) <<< 1)
  let pixels : Nat := (toUInt (y1.val * w)).val + x1.val
  ((List.range 2).foldl
    (fun (st : Nat × Surface) (_ : Nat) =>
      (st.1 + w,
       (List.range 2).foldl
        (fun (s2 : Surface) (j : Nat) => fun k => if k = st.1 + j then pixel else s2 k) st.2))
    (pixels, s)).2

/-- The body of the inner loop of `Display_DrawPixel16` at row `i` and column `j`; the
state is the counter `pixelIndex` and the surface. -/
def Display_DrawPixel16_body (w : Nat) (m : Machine) (st : Word × Surface) (i j : Nat) :
    Word × Surface :=
  let pixelIndex := st.1
  let address : Word := toUInt ((pixelIndex.val >>> 1) + m.display.base.val)
  let shift : Byte := toUChar (4 &&& (intToUInt (-(((pixelIndex.val &&& 1 : Nat) : Int)))).val)
  let pixelIndex1 : Word := toUInt (pixelIndex.val + 1)
  let pixel : Byte :=
    toUChar (((Memory_GetByte m (toUShort address.val)).val >>> shift.val) &&& 15)
  (pixelIndex1,
   Display_SetPixelDouble w st.2 (toUInt j) (toUInt i)
    (toUInt (DISPLAY_PALETTE.getD pixel.val 0)))

/-- The function `Display_DrawPixel16`: the two loops over the rows and the columns of
the current mode, `pixelIndex` starting at 0; the result is the surface. -/
def Display_DrawPixel16 (w : Nat) (m : Machine) (s : Surface) : Surface :=
  ((List.range (modeLookup DISPLAY_HEIGHT m.display.mode)).foldl
    (fun (st : Word × Surface) (i : Nat) =>
      (List.range (modeLookup DISPLAY_WIDTH m.display.mode)).foldl
        (fun (st2 : Word × Surface) (j : Nat) => Display_DrawPixel16_body w m st2 i j) st)
    (toUInt 0, s)).2

/-- The functions an entry of `Display_DrawFunction` can point to. -/
inductive DrawFn where
  | Display_DrawTextDoubleMono
  | Display_DrawTextDouble16
  | Display_DrawTextMono
  | Display_DrawText16
  | Display_DrawPixelMono
  | Display_DrawPixel16
  deriving DecidableEq, Repr

/-- The array `Display_DrawFunction`, indexed by the mode. -/
def Display_DrawFunction : List DrawFn :=
  [DrawFn.Display_DrawTextDoubleMono, DrawFn.Display_DrawTextDouble16,
   DrawFn.Display_DrawTextMono, DrawFn.Display_DrawText16, DrawFn.Display_DrawPixelMono,
   DrawFn.Display_DrawPixel16, DrawFn.Display_DrawPixelMono, DrawFn.Display_DrawPixel16]

/-- The palette index of the logical pixel `(x, y)` of a 16-colour pixel mode as the
specification gives it: two pixels per byte, the byte at
`(base + (y·320 + x) div 2) mod 2^16`; the low nibble is the left pixel (`x` even), the
high nibble the right pixel (`x` odd). -/
def specPixel16 (m : Machine) (x y : Nat) : Nat :=
  if x % 2 = 0
  then (m.MEMORY (toUShort (m.display.base.val + (y * 320 + x) / 2))).val % 16
  else (m.MEMORY (toUShort (m.display.base.val + (y * 320 + x) / 2))).val / 16

/-- The surface after the first `p` logical pixels of a 16-colour pixel frame (row by
row) have been drawn on `s`: host pixel `k` of the 640 x 400 surface belongs to the
logical pixel `(k mod 640 div 2, k div 1280)`. -/
def surfaceAfter16 (m : Machine) (s : Surface) (p : Nat) : Surface :=
  fun k =>
    if k < 256000 ∧ k / 1280 * 320 + k % 640 / 2 < p
    then toUInt (DISPLAY_PALETTE.getD (specPixel16 m (k % 640 / 2) (k / 1280)) 0)
    else s k

/-- A machine in mode 5 (320 x 200, 16 colours) with the byte 0x21 at the start of video
memory (base 0): the first pixel has colour 1, the second colour 2. -/
def pixel16Example : Machine :=
  displaySetMode { zeroMachine with MEMORY := fun j => if j = 0x0000 then 0x21 else 0 } 5
/-! # Theorems -/

/-! ## Arithmetic facts about the machine integers -/

@[simp] theorem toUChar_val (n : Nat) : (toUChar n).val = n % 256 := rfl

@[simp] theorem toUShort_val (n : Nat) : (toUShort n).val = n % 65536 := rfl

@[simp] theorem toUInt_val (n : Nat) : (toUInt n).val = n % 4294967296 := rfl

theorem intToUChar_val (z : Int) : (intToUChar z).val = (z % 256).toNat := rfl

theorem intToUShort_val (z : Int) : (intToUShort z).val = (z % 65536).toNat := rfl

@[simp] theorem toUChar_of_val (b : Byte) : toUChar b.val = b :=
  Fin.ext (Nat.mod_eq_of_lt b.isLt)

@[simp] theorem toUShort_of_val (a : Short) : toUShort a.val = a :=
  Fin.ext (Nat.mod_eq_of_lt a.isLt)

theorem SHORT_LO_eq (x : Nat) : SHORT_LO x = x % 256 := by
  have h := Nat.and_pow_two_sub_one_eq_mod x 8
  simpa [SHORT_LO] using h

theorem SHORT_HI_eq (x : Nat) : SHORT_HI x = x / 256 % 256 := by
  rw [SHORT_HI, SHORT_LO_eq, Nat.shiftRight_eq_div_pow]

theorem TO_SHORT_eq (lo hi : Nat) (h : lo < 256) : TO_SHORT lo hi = hi * 256 + lo := by
  have h2 := Nat.mul_add_lt_is_or (show lo < 2 ^ 8 from h) hi
  rw [TO_SHORT, Nat.shiftLeft_eq, Nat.mul_comm]
  exact h2.symm

/-- Two bytes `lo`, `hi` combined by `TO_SHORT` and converted to `unsigned short`. -/
theorem toUShort_TO_SHORT (lo hi : Byte) :
    (toUShort (TO_SHORT lo.val hi.val)).val = hi.val * 256 + lo.val := by
  rw [toUShort_val, TO_SHORT_eq _ _ lo.isLt]
  have h1 := lo.isLt
  have h2 := hi.isLt
  omega

/-- Splitting a short with `SHORT_LO` / `SHORT_HI` and recombining gives it back. -/
theorem toUShort_TO_SHORT_split (v : Short) :
    toUShort (TO_SHORT (toUChar (SHORT_LO v.val)).val (toUChar (SHORT_HI v.val)).val) = v := by
  apply Fin.ext
  rw [toUShort_TO_SHORT]
  simp only [toUChar_val, SHORT_LO_eq, SHORT_HI_eq]
  have h := v.isLt
  omega

theorem memIndex_eq (a : Short) : memIndex a = a := by
  apply Fin.ext
  have h := Nat.and_pow_two_sub_one_of_lt_two_pow (show a.val < 2 ^ 16 from a.isLt)
  simpa [memIndex, MEMORY_SIZE_MASK, MEMORY_SIZE] using h

/-- The successor address is never the address itself. -/
theorem toUShort_succ_ne (a : Short) : toUShort (a.val + 1) ≠ a := by
  intro h
  have h2 := congrArg Fin.val h
  have h3 := a.isLt
  simp only [toUShort_val] at h2
  omega

/-- Decrementing and then incrementing a 16-bit register restores it. -/
theorem toUShort_succ_pred (a : Short) :
    toUShort ((intToUShort ((a.val : Int) - 1)).val + 1) = a := by
  apply Fin.ext
  have h := a.isLt
  simp only [toUShort_val, intToUShort_val]
  omega

/-- The predecessor address is never the address itself. -/
theorem intToUShort_pred_ne (a : Short) : intToUShort ((a.val : Int) - 1) ≠ a := by
  intro h
  have h2 := congrArg Fin.val h
  have h3 := a.isLt
  simp only [intToUShort_val] at h2
  omega

/-! ## Memory accessors -/

theorem Memory_GetByte_eq (m : Machine) (a : Short) : Memory_GetByte m a = m.MEMORY a := by
  rw [Memory_GetByte, memIndex_eq]

theorem Memory_SetByte_eq (m : Machine) (a : Short) (v : Byte) :
    Memory_SetByte m a v = { m with MEMORY := fun j => if j = a then v else m.MEMORY j } := by
  rw [Memory_SetByte, memIndex_eq]

theorem Memory_GetShort_val (m : Machine) (a : Short) :
    (Memory_GetShort m a).val
      = (m.MEMORY (toUShort (a.val + 1))).val * 256 + (m.MEMORY a).val := by
  rw [Memory_GetShort, toUShort_TO_SHORT, Memory_GetByte_eq, Memory_GetByte_eq]

/-- C1: for every 16-bit address `a` and every byte `v`, `Memory_SetByte(a, v)`
followed by `Memory_GetByte(a)` returns `v`, whatever the machine state before. -/
theorem Memory_GetByte_SetByte (m : Machine) (a : Short) (v : Byte) :
    Memory_GetByte (Memory_SetByte m a v) a = v := by
  simp [Memory_GetByte, Memory_SetByte]

/-- C2: for every 16-bit address `a` (also `a = 0xFFFF`, where the high byte lands
at address 0) and every 16-bit value `v`, `Memory_SetShort(a, v)` followed by
`Memory_GetShort(a)` returns `v`; the low byte of `v` is stored at `a` and the
high byte at `(a + 1) mod 2^16`. -/
theorem Memory_GetShort_SetShort (m : Machine) (a v : Short) :
    Memory_GetShort (Memory_SetShort m a v) a = v
    ∧ (Memory_GetByte (Memory_SetShort m a v) a).val = v.val % 256
    ∧ (Memory_GetByte (Memory_SetShort m a v) (toUShort (a.val + 1))).val = v.val / 256
    ∧ (toUShort (a.val + 1)).val = (a.val + 1) % 2 ^ 16
    ∧ (a.val = 0xFFFF → (toUShort (a.val + 1)).val = 0) := by
  have hne := toUShort_succ_ne a
  have hlo : (Memory_SetShort m a v).MEMORY a = toUChar (SHORT_LO v.val) := by
    simp [Memory_SetShort, Memory_SetByte_eq, hne.symm]
  have hhi : (Memory_SetShort m a v).MEMORY (toUShort (a.val + 1))
      = toUChar (SHORT_HI v.val) := by
    simp [Memory_SetShort, Memory_SetByte_eq]
  have hv := v.isLt
  refine ⟨?_, ?_, ?_, ?_, ?_⟩
  · apply Fin.ext
    rw [Memory_GetShort_val, hlo, hhi]
    simp only [toUChar_val, SHORT_LO_eq, SHORT_HI_eq]
    omega
  · rw [Memory_GetByte_eq, hlo]
    simp only [toUChar_val, SHORT_LO_eq]
    omega
  · rw [Memory_GetByte_eq, hhi]
    simp only [toUChar_val, SHORT_HI_eq]
    omega
  · simp
  · intro h
    simp [h]

/-! ## The stack -/

theorem CPU_PushByte_eq (m : Machine) (v : Byte) :
    CPU_PushByte m v =
      { m with
        cpu := { m.cpu with s := intToUShort ((m.cpu.s.val : Int) - 1) }
        MEMORY := fun j => if j = intToUShort ((m.cpu.s.val : Int) - 1) then v else m.MEMORY j } := by
  simp [CPU_PushByte, Memory_SetByte_eq, Machine.setS]

theorem CPU_PopByte_eq (m : Machine) :
    CPU_PopByte m
      = (m.MEMORY m.cpu.s, { m with cpu := { m.cpu with s := toUShort (m.cpu.s.val + 1) } }) := by
  simp [CPU_PopByte, Memory_GetByte_eq, Machine.setS]

/-- Popping right after a push returns the pushed byte and restores the stack
pointer.  -/
theorem CPU_PopByte_PushByte (m : Machine) (v : Byte) :
    (CPU_PopByte (CPU_PushByte m v)).1 = v
    ∧ (CPU_PopByte (CPU_PushByte m v)).2.cpu.s = m.cpu.s := by
  constructor
  · simp [CPU_PopByte_eq, CPU_PushByte_eq]
  · simp only [CPU_PopByte_eq, CPU_PushByte_eq]
    exact toUShort_succ_pred _

/-- `n` pops read memory only: they leave everything but `S`, which advances by `n`. -/
theorem popBytes_snd (n : Nat) (m : Machine) :
    (popBytes n m).2 = { m with cpu := { m.cpu with s := toUShort (m.cpu.s.val + n) } } := by
  induction n generalizing m with
  | zero => simp [popBytes]
  | succ n ih =>
    simp only [popBytes, CPU_PopByte_eq, ih]
    congr 2
    apply Fin.ext
    simp only [toUShort_val]
    omega

/-- The last of `n + 1` pops reads the cell that `S` points to after the first `n`. -/
theorem popBytes_succ_fst (n : Nat) (m : Machine) :
    (popBytes (n + 1) m).1
      = (popBytes n m).1 ++ [(popBytes n m).2.MEMORY (popBytes n m).2.cpu.s] := by
  induction n generalizing m with
  | zero => simp [popBytes, CPU_PopByte_eq]
  | succ n ih =>
    have h := ih (CPU_PopByte m).2
    simp only [popBytes] at h ⊢
    simp only [h, List.cons_append]

/-- Pushing a list that ends in `x` ends with the push of `x`. -/
theorem pushBytes_concat (xs : List Byte) (x : Byte) (m : Machine) :
    pushBytes (xs ++ [x]) m = CPU_PushByte (pushBytes xs m) x := by
  induction xs generalizing m with
  | nil => rfl
  | cons y ys ih =>
    show pushBytes (ys ++ [x]) (CPU_PushByte m y) = _
    exact ih _

/-- Each push moves `S` down by one, modulo `2^16`. -/
theorem pushBytes_s (vs : List Byte) (m : Machine) :
    (pushBytes vs m).cpu.s.val = (m.cpu.s.val + 65535 * vs.length) % 65536 := by
  induction vs generalizing m with
  | nil =>
    have h := m.cpu.s.isLt
    simp only [pushBytes, List.length_nil]
    omega
  | cons v vs ih =>
    have h := m.cpu.s.isLt
    simp only [pushBytes, ih, CPU_PushByte_eq, List.length_cons, intToUShort_val]
    omega

/-- A cell that lies at least `vs.length` pushes below the stack pointer (going
round the 64 KiB address space) is not written by pushing `vs`. -/
theorem pushBytes_MEMORY_of_le (vs : List Byte) (m : Machine) (a : Short)
    (h : vs.length ≤ (m.cpu.s.val + 65535 - a.val) % 65536) :
    (pushBytes vs m).MEMORY a = m.MEMORY a := by
  induction vs generalizing m with
  | nil => rfl
  | cons v vs ih =>
    have hs := m.cpu.s.isLt
    have ha := a.isLt
    simp only [List.length_cons] at h
    have hne : a ≠ intToUShort ((m.cpu.s.val : Int) - 1) := by
      intro he
      have h2 := congrArg Fin.val he
      simp only [intToUShort_val] at h2
      omega
    have h3 : vs.length ≤ ((CPU_PushByte m v).cpu.s.val + 65535 - a.val) % 65536 := by
      simp only [CPU_PushByte_eq, intToUShort_val]
      omega
    rw [pushBytes, ih _ h3]
    simp [CPU_PushByte_eq, hne]

/-- C3 (amended): for any initial stack pointer and any sequence of at most 65536
bytes `v_1 .. v_n`, `push_byte(v_1) .. push_byte(v_n)` followed by `n` calls of
`pop_byte()` returns `v_n, .., v_1` and leaves `S` at its initial value. -/
theorem popBytes_pushBytes (vs : List Byte) (m : Machine) (hlen : vs.length ≤ 65536) :
    (popBytes vs.length (pushBytes vs m)).1 = vs.reverse
    ∧ (popBytes vs.length (pushBytes vs m)).2.cpu.s = m.cpu.s := by
  constructor
  · induction vs generalizing m with
    | nil => simp [popBytes]
    | cons v vs ih =>
      simp only [List.length_cons] at hlen
      have hs := m.cpu.s.isLt
      have hX := pushBytes_s vs (CPU_PushByte m v)
      have htop : toUShort ((pushBytes vs (CPU_PushByte m v)).cpu.s.val + vs.length)
          = (CPU_PushByte m v).cpu.s := by
        apply Fin.ext
        have h1 := (CPU_PushByte m v).cpu.s.isLt
        simp only [toUShort_val, hX]
        omega
      have hkeep := pushBytes_MEMORY_of_le vs (CPU_PushByte m v) (CPU_PushByte m v).cpu.s
        (by have h1 := (CPU_PushByte m v).cpu.s.isLt; omega)
      rw [List.length_cons, pushBytes, popBytes_succ_fst, ih _ (by omega), popBytes_snd,
        List.reverse_cons]
      simp only [htop, hkeep]
      simp [CPU_PushByte_eq]
  · have hs := m.cpu.s.isLt
    rw [popBytes_snd]
    apply Fin.ext
    simp only [toUShort_val, pushBytes_s]
    omega

/-- C3, witness: three bytes pushed on the zero machine (so `S` wraps from 0 to
0xFFFD) come back in reverse order. -/
theorem popBytes_pushBytes_witness :
    [(0x11 : Byte), 0x22, 0x33].length ≤ 65536
    ∧ (popBytes [(0x11 : Byte), 0x22, 0x33].length
        (pushBytes [0x11, 0x22, 0x33] zeroMachine)).1 = [(0x11 : Byte), 0x22, 0x33].reverse
    ∧ (popBytes [(0x11 : Byte), 0x22, 0x33].length
        (pushBytes [0x11, 0x22, 0x33] zeroMachine)).2.cpu.s = zeroMachine.cpu.s :=
  ⟨by decide, popBytes_pushBytes [0x11, 0x22, 0x33] zeroMachine (by decide)⟩

/-- When 65537 bytes are pushed, the last of the 65537 pops reads the cell the
last push wrote: it returns the last byte pushed, not the first. -/
theorem popBytes_pushBytes_getLast (x y : Byte) (xs : List Byte) (m : Machine)
    (hlen : xs.length = 65535) :
    (popBytes (x :: (xs ++ [y])).length (pushBytes (x :: (xs ++ [y])) m)).1.getLast?
      = some y := by
  have hl : (xs ++ [y]).length = 65536 := by
    rw [List.length_append, hlen, List.length_singleton]
  have hs : ∀ a : Short, toUShort (a.val + 65536) = a := fun a =>
    Fin.ext (by have h := a.isLt; simp only [toUShort_val]; omega)
  rw [List.length_cons, popBytes_succ_fst, List.getLast?_concat, popBytes_snd, pushBytes,
    pushBytes_concat]
  simp only [hl, hs]
  simp [CPU_PushByte_eq]

/-- C3, counterexample: the claim for sequences of any length fails.  Pushing the
65537 bytes `1, 0, .., 0` on the zero machine wraps the stack once round the
64 KiB memory, so the last push overwrites the first byte, and the 65537 pops do
not return the reversed sequence (the last pop returns 0, not 1). -/
theorem popBytes_pushBytes_wraps :
    (popBytes ((1 : Byte) :: (List.replicate 65535 0 ++ [0])).length
        (pushBytes ((1 : Byte) :: (List.replicate 65535 0 ++ [0])) zeroMachine)).1
      ≠ ((1 : Byte) :: (List.replicate 65535 0 ++ [0])).reverse := by
  intro h
  have h2 := congrArg List.getLast? h
  rw [popBytes_pushBytes_getLast _ _ _ _ (List.length_replicate _ _), List.getLast?_reverse,
    List.head?_cons] at h2
  exact absurd (Option.some.inj h2) (by decide)

theorem CPU_PushShort_eq (m : Machine) (v : Short) :
    CPU_PushShort m v =
      { m with
        cpu := { m.cpu with s := intToUShort ((m.cpu.s.val : Int) - 2) }
        MEMORY := fun j =>
          if j = intToUShort ((m.cpu.s.val : Int) - 2) then toUChar (SHORT_LO v.val)
          else if j = intToUShort ((m.cpu.s.val : Int) - 1) then toUChar (SHORT_HI v.val)
          else m.MEMORY j } := by
  have h2 : intToUShort (((intToUShort ((m.cpu.s.val : Int) - 1)).val : Int) - 1)
      = intToUShort ((m.cpu.s.val : Int) - 2) := by
    apply Fin.ext
    have h := m.cpu.s.isLt
    simp only [intToUShort_val]
    omega
  simp only [CPU_PushShort, CPU_PushByte_eq, h2]

theorem CPU_PopShort_eq (m : Machine) :
    CPU_PopShort m
      = (toUShort (TO_SHORT (m.MEMORY m.cpu.s).val (m.MEMORY (toUShort (m.cpu.s.val + 1))).val),
         { m with cpu := { m.cpu with s := toUShort (m.cpu.s.val + 2) } }) := by
  have h2 : toUShort ((toUShort (m.cpu.s.val + 1)).val + 1) = toUShort (m.cpu.s.val + 2) := by
    apply Fin.ext
    simp only [toUShort_val]
    omega
  simp only [CPU_PopShort, CPU_PopByte_eq, h2]

/-- Two below, then one up, is one below. -/
theorem toUShort_pred2_succ (a : Short) :
    toUShort ((intToUShort ((a.val : Int) - 2)).val + 1) = intToUShort ((a.val : Int) - 1) := by
  apply Fin.ext
  have h := a.isLt
  simp only [toUShort_val, intToUShort_val]
  omega

/-- Two below, then two up, is the address itself. -/
theorem toUShort_pred2_add2 (a : Short) :
    toUShort ((intToUShort ((a.val : Int) - 2)).val + 2) = a := by
  apply Fin.ext
  have h := a.isLt
  simp only [toUShort_val, intToUShort_val]
  omega

/-- The two cells of a pushed short are distinct. -/
theorem intToUShort_pred_ne_pred2 (a : Short) :
    intToUShort ((a.val : Int) - 1) ≠ intToUShort ((a.val : Int) - 2) := by
  intro h
  have h2 := congrArg Fin.val h
  have h3 := a.isLt
  simp only [intToUShort_val] at h2
  omega

/-- C4: for every 16-bit value `v` and every stack pointer (also one that wraps
around 0), `CPU_PushShort(v)` followed by `CPU_PopShort()` returns `v` and restores
`S`; after the push `S` is two lower (modulo `2^16`), the low byte of `v` is at `S`
and the high byte at `S + 1`. -/
theorem CPU_PopShort_PushShort (m : Machine) (v : Short) :
    (CPU_PopShort (CPU_PushShort m v)).1 = v
    ∧ (CPU_PopShort (CPU_PushShort m v)).2.cpu.s = m.cpu.s
    ∧ (CPU_PushShort m v).cpu.s = intToUShort ((m.cpu.s.val : Int) - 2)
    ∧ (Memory_GetByte (CPU_PushShort m v) (CPU_PushShort m v).cpu.s).val = v.val % 256
    ∧ (Memory_GetByte (CPU_PushShort m v)
        (toUShort ((CPU_PushShort m v).cpu.s.val + 1))).val = v.val / 256 := by
  have hv := v.isLt
  have hne := intToUShort_pred_ne_pred2 m.cpu.s
  refine ⟨?_, ?_, ?_, ?_, ?_⟩
  · rw [CPU_PopShort_eq, CPU_PushShort_eq]
    simp only [toUShort_pred2_succ, if_true, if_neg hne]
    exact toUShort_TO_SHORT_split v
  · rw [CPU_PopShort_eq, CPU_PushShort_eq]
    exact toUShort_pred2_add2 _
  · rw [CPU_PushShort_eq]
  · rw [Memory_GetByte_eq, CPU_PushShort_eq]
    simp only [if_true, toUChar_val, SHORT_LO_eq]
    omega
  · rw [Memory_GetByte_eq, CPU_PushShort_eq]
    simp only [toUShort_pred2_succ, if_true, if_neg hne, toUChar_val, SHORT_HI_eq]
    omega

/-! ## Flags -/

@[simp] theorem toBit_zero : toBit 0 = false := rfl

@[simp] theorem toBit_one : toBit 1 = true := rfl

@[simp] theorem toBit_LNOT (n : Nat) : toBit (LNOT n) = decide (n = 0) := by
  by_cases h : n = 0 <;> simp [LNOT, toBit, h]

@[simp] theorem toBit_cmpVal (p : Bool) : toBit (cmpVal p) = p := by
  cases p <;> rfl

@[simp] theorem toBit_bitVal (p : Bool) : toBit (bitVal p) = p := by
  cases p <;> rfl

theorem bitVal_le (p : Bool) : bitVal p ≤ 1 := by
  cases p <;> simp [bitVal]

/-- The value `x >> i` assigned to a one-bit field is bit `i` of `x`. -/
theorem toBit_shiftRight (x i : Nat) : toBit (x >>> i) = x.testBit i := by
  rw [toBit, Nat.shiftRight_eq_div_pow, Nat.testBit_to_div_mod]

/-! ## Dispatch -/

set_option maxRecDepth 8192 in
/-- The opcode table has exactly 256 entries. -/
theorem CPU_Opcode_length : CPU_Opcode.length = 256 := by rfl

theorem CPU_FetchByte_eq (m : Machine) :
    CPU_FetchByte m = (m.MEMORY m.cpu.i, m.setI (toUShort (m.cpu.i.val + 1))) := by
  rw [CPU_FetchByte, Memory_GetByte_eq]

theorem CPU_Execute_eq (m : Machine) :
    CPU_Execute m
      = (CPU_Opcode.getD (CPU_FetchByte m).1.val OpcodeFn.NO).run (CPU_FetchByte m).2 := by
  unfold CPU_Execute
  simp only [List.get_eq_getElem]
  rw [List.getD_eq_getElem]

/-- Executing at an instruction pointer that holds opcode byte `k` runs the table
entry `k` on the machine left by the opcode fetch. -/
theorem CPU_Execute_of_opcode (m : Machine) (k : Byte) (f : OpcodeFn)
    (hk : Memory_GetByte m m.cpu.i = k) (hf : CPU_Opcode.getD k.val OpcodeFn.NO = f) :
    CPU_Execute m = f.run (CPU_FetchByte m).2 := by
  rw [CPU_Execute_eq]
  have h1 : (CPU_FetchByte m).1 = k := hk
  rw [h1, hf]

/-- The same, the opcode byte given by its numeric value. -/
theorem CPU_Execute_of_opcode_val (m : Machine) (n : Nat) (f : OpcodeFn)
    (hk : (Memory_GetByte m m.cpu.i).val = n) (hf : CPU_Opcode.getD n OpcodeFn.NO = f) :
    CPU_Execute m = f.run (CPU_FetchByte m).2 :=
  CPU_Execute_of_opcode m (Memory_GetByte m m.cpu.i) f rfl (by rw [hk]; exact hf)

/-! ## The 8-bit adder -/

theorem CPU_ADB_eq (m : Machine) (a b : Byte) :
    CPU_ADB m a b =
      (toUChar (a.val + b.val + bitVal m.cpu.f.c),
       { m with cpu := { m.cpu with f := { m.cpu.f with
          z := decide ((toUChar (a.val + b.val + bitVal m.cpu.f.c)).val = 0)
          c := decide (a.val + b.val + bitVal m.cpu.f.c > 0xFF)
          s := (toUChar (a.val + b.val + bitVal m.cpu.f.c)).val.testBit 7
          v := false } } }) := by
  have ha := a.isLt
  have hb := b.isLt
  have hc := bitVal_le m.cpu.f.c
  have h1 : (a.val + b.val + bitVal m.cpu.f.c) % 65536 = a.val + b.val + bitVal m.cpu.f.c :=
    Nat.mod_eq_of_lt (by omega)
  simp only [CPU_ADB, Machine.setFZ, Machine.setFC, Machine.setFS, Machine.setFV, toUShort_val,
    h1, toBit_LNOT, toBit_cmpVal, toBit_zero, toBit_shiftRight]

/-- C5: for every machine state whose instruction pointer holds opcode 0x69 (ADB),
with `a` the byte on top of the stack, `b` the next byte and `C` the carry flag:
executing it raises `S` by one, leaves `(a + b + C) mod 256` on top of the stack and
sets `C = (a + b + C > 0xFF)`, `Z = (result = 0)`, `S-flag = bit 7 of the result`,
`V = 0`. -/
theorem CPU_Execute_ADB (m : Machine) (hop : Memory_GetByte m m.cpu.i = 0x69) :
    (CPU_Execute m).cpu.s = toUShort (m.cpu.s.val + 1)
    ∧ stackTop (CPU_Execute m)
        = toUChar ((stackTop m).val + (stackNext m).val + bitVal m.cpu.f.c)
    ∧ (stackTop (CPU_Execute m)).val
        = ((stackTop m).val + (stackNext m).val + bitVal m.cpu.f.c) % 256
    ∧ (CPU_Execute m).cpu.f.c
        = decide ((stackTop m).val + (stackNext m).val + bitVal m.cpu.f.c > 0xFF)
    ∧ (CPU_Execute m).cpu.f.z = decide ((stackTop (CPU_Execute m)).val = 0)
    ∧ (CPU_Execute m).cpu.f.s = (stackTop (CPU_Execute m)).val.testBit 7
    ∧ (CPU_Execute m).cpu.f.v = false := by
  have hs1 : intToUShort (((toUShort ((toUShort (m.cpu.s.val + 1)).val + 1)).val : Int) - 1)
      = toUShort (m.cpu.s.val + 1) := by
    apply Fin.ext
    simp only [toUShort_val, intToUShort_val]
    omega
  have hex : CPU_Execute m = CPU_Opcode_ADB (CPU_FetchByte m).2 :=
    CPU_Execute_of_opcode m 0x69 OpcodeFn.ADB hop (by decide)
  rw [hex]
  simp only [stackTop, stackNext, Memory_GetByte_eq, CPU_Opcode_ADB, CPU_FetchByte_eq,
    CPU_PopByte_eq, CPU_ADB_eq, CPU_PushByte_eq, Machine.setI, hs1, if_true, toUChar_val]
  simp

/-- C5, witness: the scenario `ADB` with 0x01 on top of 0xFF and carry clear. -/
theorem CPU_Execute_ADB_witness :
    Memory_GetByte adbExample adbExample.cpu.i = 0x69
    ∧ ((CPU_Execute adbExample).cpu.s = toUShort (adbExample.cpu.s.val + 1)
    ∧ stackTop (CPU_Execute adbExample)
        = toUChar ((stackTop adbExample).val + (stackNext adbExample).val
            + bitVal adbExample.cpu.f.c)
    ∧ (stackTop (CPU_Execute adbExample)).val
        = ((stackTop adbExample).val + (stackNext adbExample).val
            + bitVal adbExample.cpu.f.c) % 256
    ∧ (CPU_Execute adbExample).cpu.f.c
        = decide ((stackTop adbExample).val + (stackNext adbExample).val
            + bitVal adbExample.cpu.f.c > 0xFF)
    ∧ (CPU_Execute adbExample).cpu.f.z = decide ((stackTop (CPU_Execute adbExample)).val = 0)
    ∧ (CPU_Execute adbExample).cpu.f.s = (stackTop (CPU_Execute adbExample)).val.testBit 7
    ∧ (CPU_Execute adbExample).cpu.f.v = false) :=
  ⟨by decide, CPU_Execute_ADB adbExample (by decide)⟩

set_option maxRecDepth 8192 in
/-- The add-with-carry scenario, evaluated: the result on top of the stack is 0x00
and the flags are `Z = 1`, `C = 1`, `S = 0`, `V = 0`. -/
theorem CPU_Execute_adbExample :
    stackTop (CPU_Execute adbExample) = 0x00
    ∧ (CPU_Execute adbExample).cpu.s = 0x1001
    ∧ (CPU_Execute adbExample).cpu.f.z = true
    ∧ (CPU_Execute adbExample).cpu.f.c = true
    ∧ (CPU_Execute adbExample).cpu.f.s = false
    ∧ (CPU_Execute adbExample).cpu.f.v = false := by
  decide

/-! ## Flags after the ALU instructions -/

theorem stackTop_PushByte (m : Machine) (r : Byte) : stackTop (CPU_PushByte m r) = r := by
  simp [stackTop, Memory_GetByte_eq, CPU_PushByte_eq]

theorem stackTopShort_PushShort (m : Machine) (r : Short) :
    stackTopShort (CPU_PushShort m r) = r := by
  have hne := intToUShort_pred_ne_pred2 m.cpu.s
  have hr := r.isLt
  apply Fin.ext
  rw [stackTopShort, Memory_GetShort_val, CPU_PushShort_eq]
  simp only [toUShort_pred2_succ, if_true, if_neg hne, toUChar_val, SHORT_LO_eq, SHORT_HI_eq]
  omega

@[simp] theorem CPU_PushByte_f (m : Machine) (r : Byte) : (CPU_PushByte m r).cpu.f = m.cpu.f := by
  simp [CPU_PushByte_eq]

@[simp] theorem CPU_PushShort_f (m : Machine) (r : Short) :
    (CPU_PushShort m r).cpu.f = m.cpu.f := by
  simp [CPU_PushShort_eq]

/-- The flags after each 8-bit ALU instruction that pushes its result, the result
being the value it leaves on top of the stack. -/
theorem alu8_flags (F : Machine → Machine)
    (hF : F ∈ [CPU_Opcode_ADB, CPU_Opcode_SUB, CPU_Opcode_ANB, CPU_Opcode_ORB, CPU_Opcode_XRB,
      CPU_Opcode_IVB, CPU_Opcode_ICB, CPU_Opcode_DCB, CPU_Opcode_RLB, CPU_Opcode_RRB,
      CPU_Opcode_SLB, CPU_Opcode_SRB, CPU_Opcode_SAB])
    (m : Machine) :
    FlagsAfterALU 7 m.cpu.f (stackTop (F m)).val (F m).cpu.f := by
  simp only [List.mem_cons, List.mem_singleton, List.not_mem_nil, or_false] at hF
  rcases hF with h | h | h | h | h | h | h | h | h | h | h | h | h <;> subst h <;>
    simp [CPU_Opcode_ADB, CPU_Opcode_SUB, CPU_Opcode_ANB, CPU_Opcode_ORB, CPU_Opcode_XRB,
      CPU_Opcode_IVB, CPU_Opcode_ICB, CPU_Opcode_DCB, CPU_Opcode_RLB, CPU_Opcode_RRB,
      CPU_Opcode_SLB, CPU_Opcode_SRB, CPU_Opcode_SAB,
      CPU_ADB, CPU_SUB, CPU_ANB, CPU_ORB, CPU_XRB, CPU_IVB, CPU_RLB, CPU_RRB,
      CPU_PopByte_eq, stackTop_PushByte, FlagsAfterALU,
      Machine.setFZ, Machine.setFC, Machine.setFS, Machine.setFV, toBit_shiftRight]

/-- The flags after each 16-bit ALU instruction that pushes its result, the result
being the value it leaves on top of the stack. -/
theorem alu16_flags (F : Machine → Machine)
    (hF : F ∈ [CPU_Opcode_ADS, CPU_Opcode_SUS, CPU_Opcode_ANS, CPU_Opcode_ORS, CPU_Opcode_XRS,
      CPU_Opcode_IVS, CPU_Opcode_ICS, CPU_Opcode_DCS, CPU_Opcode_RLS, CPU_Opcode_RRS,
      CPU_Opcode_SLS, CPU_Opcode_SRS, CPU_Opcode_SAS])
    (m : Machine) :
    FlagsAfterALU 15 m.cpu.f (stackTopShort (F m)).val (F m).cpu.f := by
  simp only [List.mem_cons, List.mem_singleton, List.not_mem_nil, or_false] at hF
  rcases hF with h | h | h | h | h | h | h | h | h | h | h | h | h <;> subst h <;>
    simp [CPU_Opcode_ADS, CPU_Opcode_SUS, CPU_Opcode_ANS, CPU_Opcode_ORS, CPU_Opcode_XRS,
      CPU_Opcode_IVS, CPU_Opcode_ICS, CPU_Opcode_DCS, CPU_Opcode_RLS, CPU_Opcode_RRS,
      CPU_Opcode_SLS, CPU_Opcode_SRS, CPU_Opcode_SAS,
      CPU_ADS, CPU_SUS, CPU_ANS, CPU_ORS, CPU_XRS, CPU_IVS, CPU_RLS, CPU_RRS,
      CPU_PopShort_eq, stackTopShort_PushShort, FlagsAfterALU,
      Machine.setFZ, Machine.setFC, Machine.setFS, Machine.setFV, toBit_shiftRight]

/-- With the carry set, `CPU_SUB(a, b)` computes the difference `(a - b) mod 256`. -/
theorem CPU_SUB_fst_of_carry (m : Machine) (a b : Byte) (hc : m.cpu.f.c = true) :
    (CPU_SUB m a b).1 = intToUChar ((a.val : Int) - (b.val : Int)) := by
  have ha := a.isLt
  have hb := b.isLt
  apply Fin.ext
  simp only [CPU_SUB, CPU_ADB, hc, bitVal, BITNOT, toUChar_val, toUShort_val, intToUChar_val,
    if_true]
  omega

/-- With the carry set, `CPU_SUS(a, b)` computes the difference `(a - b) mod 2^16`. -/
theorem CPU_SUS_fst_of_carry (m : Machine) (a b : Short) (hc : m.cpu.f.c = true) :
    (CPU_SUS m a b).1 = intToUShort ((a.val : Int) - (b.val : Int)) := by
  have ha := a.isLt
  have hb := b.isLt
  apply Fin.ext
  simp only [CPU_SUS, CPU_ADS, hc, bitVal, BITNOT, toUShort_val, toUInt_val, intToUShort_val,
    if_true]
  omega

theorem CPU_SUB_flags (m : Machine) (a b : Byte) :
    FlagsAfterALU 7 m.cpu.f (CPU_SUB m a b).1.val (CPU_SUB m a b).2.cpu.f := by
  simp [FlagsAfterALU, CPU_SUB, CPU_ADB, Machine.setFZ, Machine.setFC, Machine.setFS,
    Machine.setFV, toBit_shiftRight]

theorem CPU_SUS_flags (m : Machine) (a b : Short) :
    FlagsAfterALU 15 m.cpu.f (CPU_SUS m a b).1.val (CPU_SUS m a b).2.cpu.f := by
  simp [FlagsAfterALU, CPU_SUS, CPU_ADS, Machine.setFZ, Machine.setFC, Machine.setFS,
    Machine.setFV, toBit_shiftRight]

/-- The flags after `CPB`, the result being the discarded difference. -/
theorem CPB_flags (m : Machine) :
    FlagsAfterALU 7 m.cpu.f
      (intToUChar (((stackTop m).val : Int) - ((stackNext m).val : Int))).val
      (CPU_Opcode_CPB m).cpu.f := by
  have h := CPU_SUB_flags ((CPU_PopByte (CPU_PopByte m).2).2.setFC 1) (CPU_PopByte m).1
    (CPU_PopByte (CPU_PopByte m).2).1
  rw [CPU_SUB_fst_of_carry _ _ _ (by simp [Machine.setFC])] at h
  simpa [CPU_Opcode_CPB, CPU_PopByte_eq, stackTop, stackNext, Memory_GetByte_eq,
    Machine.setFC, FlagsAfterALU] using h

/-- The flags after `CPS`, the result being the discarded difference. -/
theorem CPS_flags (m : Machine) :
    FlagsAfterALU 15 m.cpu.f
      (intToUShort (((stackTopShort m).val : Int) - ((stackNextShort m).val : Int))).val
      (CPU_Opcode_CPS m).cpu.f := by
  have h := CPU_SUS_flags ((CPU_PopShort (CPU_PopShort m).2).2.setFC 1) (CPU_PopShort m).1
    (CPU_PopShort (CPU_PopShort m).2).1
  rw [CPU_SUS_fst_of_carry _ _ _ (by simp [Machine.setFC])] at h
  have h3 : toUShort ((toUShort (m.cpu.s.val + 2)).val + 1) = toUShort (m.cpu.s.val + 2 + 1) := by
    apply Fin.ext
    simp only [toUShort_val]
    omega
  simpa [CPU_Opcode_CPS, CPU_PopShort_eq, stackTopShort, stackNextShort, Memory_GetShort,
    Memory_GetByte_eq, Machine.setFC, FlagsAfterALU, h3] using h

/-- C6: after every ALU instruction (the 14 8-bit opcodes 0x69..0x76 and the 14
16-bit opcodes 0x77..0x84), for every machine state (so every operand values and
incoming flags): `Z` equals `(result = 0)`, the `S` flag equals the most significant
bit of the result (bit 7 for 8-bit, bit 15 for 16-bit), `V` is 0, and the `H` and `E`
flags are unchanged; for `CPB` / `CPS` the result is the discarded difference, for the
others the value left on top of the stack. -/
theorem CPU_Execute_ALU_flags (m : Machine) (k : Byte) (hop : Memory_GetByte m m.cpu.i = k) :
    (0x69 ≤ k.val ∧ k.val ≤ 0x76 →
      (CPU_Execute m).cpu.f.z = decide ((aluResult8 k m).val = 0)
      ∧ (CPU_Execute m).cpu.f.s = (aluResult8 k m).val.testBit 7
      ∧ (CPU_Execute m).cpu.f.v = false
      ∧ (CPU_Execute m).cpu.f.h = m.cpu.f.h
      ∧ (CPU_Execute m).cpu.f.i = m.cpu.f.i)
    ∧ (0x77 ≤ k.val ∧ k.val ≤ 0x84 →
      (CPU_Execute m).cpu.f.z = decide ((aluResult16 k m).val = 0)
      ∧ (CPU_Execute m).cpu.f.s = (aluResult16 k m).val.testBit 15
      ∧ (CPU_Execute m).cpu.f.v = false
      ∧ (CPU_Execute m).cpu.f.h = m.cpu.f.h
      ∧ (CPU_Execute m).cpu.f.i = m.cpu.f.i) := by
  obtain ⟨kv, hkv⟩ := k
  constructor
  · rintro ⟨h1, h2⟩
    show FlagsAfterALU 7 m.cpu.f (aluResult8 ⟨kv, hkv⟩ m).val (CPU_Execute m).cpu.f
    simp only at h1 h2
    unfold aluResult8
    interval_cases kv <;> simp only [Nat.reduceEqDiff, if_true, if_false]
    · rw [CPU_Execute_of_opcode m _ OpcodeFn.ADB hop
        (show CPU_Opcode.getD 105 OpcodeFn.NO = OpcodeFn.ADB by decide)]
      exact alu8_flags CPU_Opcode_ADB (by simp) (CPU_FetchByte m).2
    · rw [CPU_Execute_of_opcode m _ OpcodeFn.SUB hop
        (show CPU_Opcode.getD 106 OpcodeFn.NO = OpcodeFn.SUB by decide)]
      exact alu8_flags CPU_Opcode_SUB (by simp) (CPU_FetchByte m).2
    · rw [CPU_Execute_of_opcode m _ OpcodeFn.ANB hop
        (show CPU_Opcode.getD 107 OpcodeFn.NO = OpcodeFn.ANB by decide)]
      exact alu8_flags CPU_Opcode_ANB (by simp) (CPU_FetchByte m).2
    · rw [CPU_Execute_of_opcode m _ OpcodeFn.ORB hop
        (show CPU_Opcode.getD 108 OpcodeFn.NO = OpcodeFn.ORB by decide)]
      exact alu8_flags CPU_Opcode_ORB (by simp) (CPU_FetchByte m).2
    · rw [CPU_Execute_of_opcode m _ OpcodeFn.XRB hop
        (show CPU_Opcode.getD 109 OpcodeFn.NO = OpcodeFn.XRB by decide)]
      exact alu8_flags CPU_Opcode_XRB (by simp) (CPU_FetchByte m).2
    · rw [CPU_Execute_of_opcode m _ OpcodeFn.CPB hop
        (show CPU_Opcode.getD 110 OpcodeFn.NO = OpcodeFn.CPB by decide)]
      exact CPB_flags (CPU_FetchByte m).2
    · rw [CPU_Execute_of_opcode m _ OpcodeFn.IVB hop
        (show CPU_Opcode.getD 111 OpcodeFn.NO = OpcodeFn.IVB by decide)]
      exact alu8_flags CPU_Opcode_IVB (by simp) (CPU_FetchByte m).2
    · rw [CPU_Execute_of_opcode m _ OpcodeFn.ICB hop
        (show CPU_Opcode.getD 112 OpcodeFn.NO = OpcodeFn.ICB by decide)]
      exact alu8_flags CPU_Opcode_ICB (by simp) (CPU_FetchByte m).2
    · rw [CPU_Execute_of_opcode m _ OpcodeFn.DCB hop
        (show CPU_Opcode.getD 113 OpcodeFn.NO = OpcodeFn.DCB by decide)]
      exact alu8_flags CPU_Opcode_DCB (by simp) (CPU_FetchByte m).2
    · rw [CPU_Execute_of_opcode m _ OpcodeFn.RLB hop
        (show CPU_Opcode.getD 114 OpcodeFn.NO = OpcodeFn.RLB by decide)]
      exact alu8_flags CPU_Opcode_RLB (by simp) (CPU_FetchByte m).2
    · rw [CPU_Execute_of_opcode m _ OpcodeFn.RRB hop
        (show CPU_Opcode.getD 115 OpcodeFn.NO = OpcodeFn.RRB by decide)]
      exact alu8_flags CPU_Opcode_RRB (by simp) (CPU_FetchByte m).2
    · rw [CPU_Execute_of_opcode m _ OpcodeFn.SLB hop
        (show CPU_Opcode.getD 116 OpcodeFn.NO = OpcodeFn.SLB by decide)]
      exact alu8_flags CPU_Opcode_SLB (by simp) (CPU_FetchByte m).2
    · rw [CPU_Execute_of_opcode m _ OpcodeFn.SRB hop
        (show CPU_Opcode.getD 117 OpcodeFn.NO = OpcodeFn.SRB by decide)]
      exact alu8_flags CPU_Opcode_SRB (by simp) (CPU_FetchByte m).2
    · rw [CPU_Execute_of_opcode m _ OpcodeFn.SAB hop
        (show CPU_Opcode.getD 118 OpcodeFn.NO = OpcodeFn.SAB by decide)]
      exact alu8_flags CPU_Opcode_SAB (by simp) (CPU_FetchByte m).2
  · rintro ⟨h1, h2⟩
    show FlagsAfterALU 15 m.cpu.f (aluResult16 ⟨kv, hkv⟩ m).val (CPU_Execute m).cpu.f
    simp only at h1 h2
    unfold aluResult16
    interval_cases kv <;> simp only [Nat.reduceEqDiff, if_true, if_false]
    · rw [CPU_Execute_of_opcode m _ OpcodeFn.ADS hop
        (show CPU_Opcode.getD 119 OpcodeFn.NO = OpcodeFn.ADS by decide)]
      exact alu16_flags CPU_Opcode_ADS (by simp) (CPU_FetchByte m).2
    · rw [CPU_Execute_of_opcode m _ OpcodeFn.SUS hop
        (show CPU_Opcode.getD 120 OpcodeFn.NO = OpcodeFn.SUS by decide)]
      exact alu16_flags CPU_Opcode_SUS (by simp) (CPU_FetchByte m).2
    · rw [CPU_Execute_of_opcode m _ OpcodeFn.ANS hop
        (show CPU_Opcode.getD 121 OpcodeFn.NO = OpcodeFn.ANS by decide)]
      exact alu16_flags CPU_Opcode_ANS (by simp) (CPU_FetchByte m).2
    · rw [CPU_Execute_of_opcode m _ OpcodeFn.ORS hop
        (show CPU_Opcode.getD 122 OpcodeFn.NO = OpcodeFn.ORS by decide)]
      exact alu16_flags CPU_Opcode_ORS (by simp) (CPU_FetchByte m).2
    · rw [CPU_Execute_of_opcode m _ OpcodeFn.XRS hop
        (show CPU_Opcode.getD 123 OpcodeFn.NO = OpcodeFn.XRS by decide)]
      exact alu16_flags CPU_Opcode_XRS (by simp) (CPU_FetchByte m).2
    · rw [CPU_Execute_of_opcode m _ OpcodeFn.CPS hop
        (show CPU_Opcode.getD 124 OpcodeFn.NO = OpcodeFn.CPS by decide)]
      exact CPS_flags (CPU_FetchByte m).2
    · rw [CPU_Execute_of_opcode m _ OpcodeFn.IVS hop
        (show CPU_Opcode.getD 125 OpcodeFn.NO = OpcodeFn.IVS by decide)]
      exact alu16_flags CPU_Opcode_IVS (by simp) (CPU_FetchByte m).2
    · rw [CPU_Execute_of_opcode m _ OpcodeFn.ICS hop
        (show CPU_Opcode.getD 126 OpcodeFn.NO = OpcodeFn.ICS by decide)]
      exact alu16_flags CPU_Opcode_ICS (by simp) (CPU_FetchByte m).2
    · rw [CPU_Execute_of_opcode m _ OpcodeFn.DCS hop
        (show CPU_Opcode.getD 127 OpcodeFn.NO = OpcodeFn.DCS by decide)]
      exact alu16_flags CPU_Opcode_DCS (by simp) (CPU_FetchByte m).2
    · rw [CPU_Execute_of_opcode m _ OpcodeFn.RLS hop
        (show CPU_Opcode.getD 128 OpcodeFn.NO = OpcodeFn.RLS by decide)]
      exact alu16_flags CPU_Opcode_RLS (by simp) (CPU_FetchByte m).2
    · rw [CPU_Execute_of_opcode m _ OpcodeFn.RRS hop
        (show CPU_Opcode.getD 129 OpcodeFn.NO = OpcodeFn.RRS by decide)]
      exact alu16_flags CPU_Opcode_RRS (by simp) (CPU_FetchByte m).2
    · rw [CPU_Execute_of_opcode m _ OpcodeFn.SLS hop
        (show CPU_Opcode.getD 130 OpcodeFn.NO = OpcodeFn.SLS by decide)]
      exact alu16_flags CPU_Opcode_SLS (by simp) (CPU_FetchByte m).2
    · rw [CPU_Execute_of_opcode m _ OpcodeFn.SRS hop
        (show CPU_Opcode.getD 131 OpcodeFn.NO = OpcodeFn.SRS by decide)]
      exact alu16_flags CPU_Opcode_SRS (by simp) (CPU_FetchByte m).2
    · rw [CPU_Execute_of_opcode m _ OpcodeFn.SAS hop
        (show CPU_Opcode.getD 132 OpcodeFn.NO = OpcodeFn.SAS by decide)]
      exact alu16_flags CPU_Opcode_SAS (by simp) (CPU_FetchByte m).2

/-- C6, witness: the `ADB` scenario (opcode 0x69 at `I`, in the 8-bit range). -/
theorem CPU_Execute_ALU_flags_witness :
    Memory_GetByte adbExample adbExample.cpu.i = 0x69
    ∧ (0x69 ≤ (0x69 : Byte).val ∧ (0x69 : Byte).val ≤ 0x76)
    ∧ ((CPU_Execute adbExample).cpu.f.z = decide ((aluResult8 0x69 adbExample).val = 0)
      ∧ (CPU_Execute adbExample).cpu.f.s = (aluResult8 0x69 adbExample).val.testBit 7
      ∧ (CPU_Execute adbExample).cpu.f.v = false
      ∧ (CPU_Execute adbExample).cpu.f.h = adbExample.cpu.f.h
      ∧ (CPU_Execute adbExample).cpu.f.i = adbExample.cpu.f.i) :=
  ⟨by decide, by decide, (CPU_Execute_ALU_flags adbExample 0x69 (by decide)).1 (by decide)⟩

/-! ## Call and return -/

theorem CPU_FetchShort_eq (m : Machine) :
    CPU_FetchShort m
      = (toUShort (TO_SHORT (m.MEMORY m.cpu.i).val (m.MEMORY (toUShort (m.cpu.i.val + 1))).val),
         m.setI (toUShort (m.cpu.i.val + 2))) := by
  have h2 : toUShort ((toUShort (m.cpu.i.val + 1)).val + 1) = toUShort (m.cpu.i.val + 2) := by
    apply Fin.ext
    simp only [toUShort_val]
    omega
  simp only [CPU_FetchShort, CPU_FetchByte_eq, Machine.setI, h2]

/-- The operand of a three-byte instruction at `p`: the short at `p + 1`. -/
theorem operand_eq (m : Machine) (addr : Short)
    (hlo : (Memory_GetByte m (toUShort (m.cpu.i.val + 1))).val = addr.val % 256)
    (hhi : (Memory_GetByte m (toUShort (m.cpu.i.val + 2))).val = addr.val / 256) :
    toUShort (TO_SHORT (m.MEMORY (toUShort (m.cpu.i.val + 1))).val
      (m.MEMORY (toUShort ((toUShort (m.cpu.i.val + 1)).val + 1))).val) = addr := by
  have h2 : toUShort ((toUShort (m.cpu.i.val + 1)).val + 1) = toUShort (m.cpu.i.val + 2) := by
    apply Fin.ext
    simp only [toUShort_val]
    omega
  have ha := addr.isLt
  rw [Memory_GetByte_eq] at hlo hhi
  apply Fin.ext
  rw [h2, toUShort_TO_SHORT, hlo, hhi]
  omega

/-- After the opcode fetch and the operand fetch the instruction pointer is three
further. -/
theorem toUShort_add1_add2 (p : Short) :
    toUShort ((toUShort (p.val + 1)).val + 2) = toUShort (p.val + 3) := by
  apply Fin.ext
  simp only [toUShort_val]
  omega

/-- The machine a `CA addr` at the instruction pointer leaves. -/
theorem CPU_Execute_CA_eq (m : Machine) (addr : Short)
    (hop : Memory_GetByte m m.cpu.i = 0x91)
    (hlo : (Memory_GetByte m (toUShort (m.cpu.i.val + 1))).val = addr.val % 256)
    (hhi : (Memory_GetByte m (toUShort (m.cpu.i.val + 2))).val = addr.val / 256) :
    CPU_Execute m
      = (CPU_PushShort (m.setI (toUShort (m.cpu.i.val + 3))) (toUShort (m.cpu.i.val + 3))).setI
          addr := by
  rw [CPU_Execute_of_opcode m 0x91 OpcodeFn.CA hop (by decide)]
  have hoper := operand_eq m addr hlo hhi
  show CPU_Opcode_CA (CPU_FetchByte m).2 = _
  simp only [CPU_Opcode_CA, CPU_Util_CA, CPU_FetchByte_eq, CPU_FetchShort_eq,
    Machine.setI, hoper, toUShort_add1_add2]

/-- The machine an `RT` at the instruction pointer leaves: `I` is the short popped
from the stack. -/
theorem CPU_Execute_RT_eq (m : Machine) (hop : Memory_GetByte m m.cpu.i = 0x92) :
    (CPU_Execute m).cpu.i = stackTopShort m
    ∧ (CPU_Execute m).cpu.s = toUShort (m.cpu.s.val + 2) := by
  rw [CPU_Execute_of_opcode m 0x92 OpcodeFn.RT hop (by decide)]
  show (CPU_Opcode_RT (CPU_FetchByte m).2).cpu.i = _ ∧ (CPU_Opcode_RT (CPU_FetchByte m).2).cpu.s = _
  simp [CPU_Opcode_RT, CPU_PopShort_eq, CPU_FetchByte_eq, Machine.setI,
    stackTopShort, Memory_GetShort, Memory_GetByte_eq]

/-- C7: for every machine state with `CA addr` at the instruction pointer `p` (opcode
0x91 at `p`, the low and high byte of `addr` at `p + 1` and `p + 2`) and stack pointer
`s`: executing it yields `I = addr`, `S = s - 2`, and the low and high byte of `p + 3`
at `S` and `S + 1` (so the short on top of the stack is the address after the `CA`);
if the byte at `addr` is then the `RT` opcode 0x92, executing it yields `I = p + 3`
and `S = s`.  All register arithmetic is modulo `2^16`. -/
theorem CPU_Execute_CA_RT (m : Machine) (addr : Short)
    (hop : Memory_GetByte m m.cpu.i = 0x91)
    (hlo : (Memory_GetByte m (toUShort (m.cpu.i.val + 1))).val = addr.val % 256)
    (hhi : (Memory_GetByte m (toUShort (m.cpu.i.val + 2))).val = addr.val / 256) :
    (CPU_Execute m).cpu.i = addr
    ∧ (CPU_Execute m).cpu.s = intToUShort ((m.cpu.s.val : Int) - 2)
    ∧ (stackTop (CPU_Execute m)).val = (toUShort (m.cpu.i.val + 3)).val % 256
    ∧ (stackNext (CPU_Execute m)).val = (toUShort (m.cpu.i.val + 3)).val / 256
    ∧ stackTopShort (CPU_Execute m) = toUShort (m.cpu.i.val + 3)
    ∧ (Memory_GetByte (CPU_Execute m) addr = 0x92 →
        (CPU_Execute (CPU_Execute m)).cpu.i = toUShort (m.cpu.i.val + 3)
        ∧ (CPU_Execute (CPU_Execute m)).cpu.s = m.cpu.s) := by
  have hca := CPU_Execute_CA_eq m addr hop hlo hhi
  have hne := intToUShort_pred_ne_pred2 m.cpu.s
  have hi : (CPU_Execute m).cpu.i = addr := by rw [hca]; rfl
  have hs : (CPU_Execute m).cpu.s = intToUShort ((m.cpu.s.val : Int) - 2) := by
    rw [hca, CPU_PushShort_eq]; rfl
  have htop : stackTopShort (CPU_Execute m) = toUShort (m.cpu.i.val + 3) := by
    rw [hca]
    exact stackTopShort_PushShort _ _
  have hp := (toUShort (m.cpu.i.val + 3)).isLt
  refine ⟨hi, hs, ?_, ?_, htop, ?_⟩
  · rw [hca, stackTop, Memory_GetByte_eq, CPU_PushShort_eq]
    simp only [Machine.setI, if_true, toUChar_val, SHORT_LO_eq]
    omega
  · rw [hca, stackNext, Memory_GetByte_eq, CPU_PushShort_eq]
    simp only [Machine.setI, toUShort_pred2_succ, if_true, if_neg hne, toUChar_val,
      SHORT_HI_eq]
    omega
  · intro hrt
    rw [← hi] at hrt
    have h := CPU_Execute_RT_eq (CPU_Execute m) hrt
    rw [htop, hs, toUShort_pred2_add2] at h
    exact h

/-- C7, witness: `CA 0x0250` at 0x0100 with `S = 0x1000`. -/
theorem CPU_Execute_CA_RT_witness :
    Memory_GetByte caExample caExample.cpu.i = 0x91
    ∧ (Memory_GetByte caExample (toUShort (caExample.cpu.i.val + 1))).val
        = (0x0250 : Short).val % 256
    ∧ (Memory_GetByte caExample (toUShort (caExample.cpu.i.val + 2))).val
        = (0x0250 : Short).val / 256
    ∧ ((CPU_Execute caExample).cpu.i = 0x0250
      ∧ (CPU_Execute caExample).cpu.s = intToUShort ((caExample.cpu.s.val : Int) - 2)
      ∧ (stackTop (CPU_Execute caExample)).val
          = (toUShort (caExample.cpu.i.val + 3)).val % 256
      ∧ (stackNext (CPU_Execute caExample)).val
          = (toUShort (caExample.cpu.i.val + 3)).val / 256
      ∧ stackTopShort (CPU_Execute caExample) = toUShort (caExample.cpu.i.val + 3)
      ∧ (Memory_GetByte (CPU_Execute caExample) 0x0250 = 0x92 →
          (CPU_Execute (CPU_Execute caExample)).cpu.i = toUShort (caExample.cpu.i.val + 3)
          ∧ (CPU_Execute (CPU_Execute caExample)).cpu.s = caExample.cpu.s)) :=
  ⟨by decide, by decide, by decide,
    CPU_Execute_CA_RT caExample 0x0250 (by decide) (by decide) (by decide)⟩

set_option maxRecDepth 8192 in
/-- The call / return scenario, evaluated: after `CA`, `I = 0x0250`, `S = 0x0FFE` and
the bytes at 0x0FFE, 0x0FFF are 0x03, 0x01; after the `RT` at 0x0250, `I = 0x0103` and
`S = 0x1000`. -/
theorem CPU_Execute_caExample :
    (CPU_Execute caExample).cpu.i = 0x0250
    ∧ (CPU_Execute caExample).cpu.s = 0x0FFE
    ∧ Memory_GetByte (CPU_Execute caExample) 0x0FFE = 0x03
    ∧ Memory_GetByte (CPU_Execute caExample) 0x0FFF = 0x01
    ∧ Memory_GetByte (CPU_Execute caExample) 0x0250 = 0x92
    ∧ (CPU_Execute (CPU_Execute caExample)).cpu.i = 0x0103
    ∧ (CPU_Execute (CPU_Execute caExample)).cpu.s = 0x1000 := by
  decide

/-! ## Conditional branches -/

theorem CPU_Util_CondJM_eq (m : Machine) (c : Byte) :
    CPU_Util_CondJM m c
      = if c.val ≠ 0 then CPU_Opcode_JM m else m.setI (toUShort (m.cpu.i.val + 2)) := by
  simp only [CPU_Util_CondJM, CPU_Opcode_JM, CPU_FetchShort_eq]

theorem CPU_Util_CondCA_eq (m : Machine) (c : Byte) :
    CPU_Util_CondCA m c
      = if c.val ≠ 0 then CPU_Opcode_CA m else m.setI (toUShort (m.cpu.i.val + 2)) := by
  simp only [CPU_Util_CondCA, CPU_Opcode_CA, CPU_Util_CA, CPU_FetchShort_eq]

theorem cond_flag (b : Bool) : ((toUChar (bitVal b)).val ≠ 0) = (b = true) := by
  cases b <;> simp [bitVal]

theorem cond_not_flag (b : Bool) : ((toUChar (LNOT (bitVal b))).val ≠ 0) = ((!b) = true) := by
  cases b <;> simp [bitVal, LNOT]

theorem cond_not_flag_nat (b : Bool) : (LNOT (bitVal b) ≠ 0) = ((!b) = true) := by
  cases b <;> simp [bitVal, LNOT]

theorem cond_flag_nat (b : Bool) : (bitVal b ≠ 0) = (b = true) := by
  cases b <;> simp [bitVal]

/-- After the opcode fetch, a skipped operand leaves `I` three further. -/
theorem setI_setI_add2 (m : Machine) :
    (m.setI (toUShort (m.cpu.i.val + 1))).setI
        (toUShort ((m.setI (toUShort (m.cpu.i.val + 1))).cpu.i.val + 2))
      = m.setI (toUShort (m.cpu.i.val + 3)) := by
  simp only [Machine.setI, toUShort_add1_add2]

/-- C8: for every conditional branch opcode (`JMc` 0x9B + j, `CAc` 0xA3 + j, `RTc`
0xAB + j, the tests `j = 0..7` in the order `Z, C, S, V, NZ, NC, NS, NV`) and every
machine state: if the tested flag condition holds, the resulting state is that of
the handler of the unconditional `JM` / `CA` / `RT` run after the opcode fetch (which
is what executing opcode 0x90 / 0x91 / 0x92 does, last three parts); if it does not
hold, nothing changes except `I`, which advances by 3 for `JMc` and `CAc` and by 1 for
`RTc`. -/
theorem CPU_Execute_conditional (m : Machine) (j : Nat) (hj : j < 8) :
    ((Memory_GetByte m m.cpu.i).val = 0x9B + j →
      CPU_Execute m = if branchTest j m.cpu.f = true
        then CPU_Opcode_JM (CPU_FetchByte m).2 else m.setI (toUShort (m.cpu.i.val + 3)))
    ∧ ((Memory_GetByte m m.cpu.i).val = 0xA3 + j →
      CPU_Execute m = if branchTest j m.cpu.f = true
        then CPU_Opcode_CA (CPU_FetchByte m).2 else m.setI (toUShort (m.cpu.i.val + 3)))
    ∧ ((Memory_GetByte m m.cpu.i).val = 0xAB + j →
      CPU_Execute m = if branchTest j m.cpu.f = true
        then CPU_Opcode_RT (CPU_FetchByte m).2 else m.setI (toUShort (m.cpu.i.val + 1)))
    ∧ ((Memory_GetByte m m.cpu.i).val = 0x90 →
      CPU_Execute m = CPU_Opcode_JM (CPU_FetchByte m).2)
    ∧ ((Memory_GetByte m m.cpu.i).val = 0x91 →
      CPU_Execute m = CPU_Opcode_CA (CPU_FetchByte m).2)
    ∧ ((Memory_GetByte m m.cpu.i).val = 0x92 →
      CPU_Execute m = CPU_Opcode_RT (CPU_FetchByte m).2) := by
  refine ⟨?_, ?_, ?_, ?_, ?_, ?_⟩
  · intro hop
    interval_cases j
    · show CPU_Execute m = if m.cpu.f.z = true then CPU_Opcode_JM (CPU_FetchByte m).2
        else m.setI (toUShort (m.cpu.i.val + 3))
      rw [CPU_Execute_of_opcode_val m _ OpcodeFn.JMZ hop (by decide)]
      show CPU_Opcode_JMZ (CPU_FetchByte m).2 = _
      simp only [CPU_Opcode_JMZ, CPU_Util_CondJM_eq, CPU_Util_CondCA_eq, CPU_Opcode_RT,
        CPU_FetchByte_eq, setI_setI_add2, cond_flag, cond_not_flag, cond_flag_nat,
        cond_not_flag_nat]
      rfl
    · show CPU_Execute m = if m.cpu.f.c = true then CPU_Opcode_JM (CPU_FetchByte m).2
        else m.setI (toUShort (m.cpu.i.val + 3))
      rw [CPU_Execute_of_opcode_val m _ OpcodeFn.JMC hop (by decide)]
      show CPU_Opcode_JMC (CPU_FetchByte m).2 = _
      simp only [CPU_Opcode_JMC, CPU_Util_CondJM_eq, CPU_Util_CondCA_eq, CPU_Opcode_RT,
        CPU_FetchByte_eq, setI_setI_add2, cond_flag, cond_not_flag, cond_flag_nat,
        cond_not_flag_nat]
      rfl
    · show CPU_Execute m = if m.cpu.f.s = true then CPU_Opcode_JM (CPU_FetchByte m).2
        else m.setI (toUShort (m.cpu.i.val + 3))
      rw [CPU_Execute_of_opcode_val m _ OpcodeFn.JMS hop (by decide)]
      show CPU_Opcode_JMS (CPU_FetchByte m).2 = _
      simp only [CPU_Opcode_JMS, CPU_Util_CondJM_eq, CPU_Util_CondCA_eq, CPU_Opcode_RT,
        CPU_FetchByte_eq, setI_setI_add2, cond_flag, cond_not_flag, cond_flag_nat,
        cond_not_flag_nat]
      rfl
    · show CPU_Execute m = if m.cpu.f.v = true then CPU_Opcode_JM (CPU_FetchByte m).2
        else m.setI (toUShort (m.cpu.i.val + 3))
      rw [CPU_Execute_of_opcode_val m _ OpcodeFn.JMV hop (by decide)]
      show CPU_Opcode_JMV (CPU_FetchByte m).2 = _
      simp only [CPU_Opcode_JMV, CPU_Util_CondJM_eq, CPU_Util_CondCA_eq, CPU_Opcode_RT,
        CPU_FetchByte_eq, setI_setI_add2, cond_flag, cond_not_flag, cond_flag_nat,
        cond_not_flag_nat]
      rfl
    · show CPU_Execute m = if (!m.cpu.f.z) = true then CPU_Opcode_JM (CPU_FetchByte m).2
        else m.setI (toUShort (m.cpu.i.val + 3))
      rw [CPU_Execute_of_opcode_val m _ OpcodeFn.JMNZ hop (by decide)]
      show CPU_Opcode_JMNZ (CPU_FetchByte m).2 = _
      simp only [CPU_Opcode_JMNZ, CPU_Util_CondJM_eq, CPU_Util_CondCA_eq, CPU_Opcode_RT,
        CPU_FetchByte_eq, setI_setI_add2, cond_flag, cond_not_flag, cond_flag_nat,
        cond_not_flag_nat]
      rfl
    · show CPU_Execute m = if (!m.cpu.f.c) = true then CPU_Opcode_JM (CPU_FetchByte m).2
        else m.setI (toUShort (m.cpu.i.val + 3))
      rw [CPU_Execute_of_opcode_val m _ OpcodeFn.JMNC hop (by decide)]
      show CPU_Opcode_JMNC (CPU_FetchByte m).2 = _
      simp only [CPU_Opcode_JMNC, CPU_Util_CondJM_eq, CPU_Util_CondCA_eq, CPU_Opcode_RT,
        CPU_FetchByte_eq, setI_setI_add2, cond_flag, cond_not_flag, cond_flag_nat,
        cond_not_flag_nat]
      rfl
    · show CPU_Execute m = if (!m.cpu.f.s) = true then CPU_Opcode_JM (CPU_FetchByte m).2
        else m.setI (toUShort (m.cpu.i.val + 3))
      rw [CPU_Execute_of_opcode_val m _ OpcodeFn.JMNS hop (by decide)]
      show CPU_Opcode_JMNS (CPU_FetchByte m).2 = _
      simp only [CPU_Opcode_JMNS, CPU_Util_CondJM_eq, CPU_Util_CondCA_eq, CPU_Opcode_RT,
        CPU_FetchByte_eq, setI_setI_add2, cond_flag, cond_not_flag, cond_flag_nat,
        cond_not_flag_nat]
      rfl
    · show CPU_Execute m = if (!m.cpu.f.v) = true then CPU_Opcode_JM (CPU_FetchByte m).2
        else m.setI (toUShort (m.cpu.i.val + 3))
      rw [CPU_Execute_of_opcode_val m _ OpcodeFn.JMNV hop (by decide)]
      show CPU_Opcode_JMNV (CPU_FetchByte m).2 = _
      simp only [CPU_Opcode_JMNV, CPU_Util_CondJM_eq, CPU_Util_CondCA_eq, CPU_Opcode_RT,
        CPU_FetchByte_eq, setI_setI_add2, cond_flag, cond_not_flag, cond_flag_nat,
        cond_not_flag_nat]
      rfl
  · intro hop
    interval_cases j
    · show CPU_Execute m = if m.cpu.f.z = true then CPU_Opcode_CA (CPU_FetchByte m).2
        else m.setI (toUShort (m.cpu.i.val + 3))
      rw [CPU_Execute_of_opcode_val m _ OpcodeFn.CAZ hop (by decide)]
      show CPU_Opcode_CAZ (CPU_FetchByte m).2 = _
      simp only [CPU_Opcode_CAZ, CPU_Util_CondJM_eq, CPU_Util_CondCA_eq, CPU_Opcode_RT,
        CPU_FetchByte_eq, setI_setI_add2, cond_flag, cond_not_flag, cond_flag_nat,
        cond_not_flag_nat]
      rfl
    · show CPU_Execute m = if m.cpu.f.c = true then CPU_Opcode_CA (CPU_FetchByte m).2
        else m.setI (toUShort (m.cpu.i.val + 3))
      rw [CPU_Execute_of_opcode_val m _ OpcodeFn.CAC hop (by decide)]
      show CPU_Opcode_CAC (CPU_FetchByte m).2 = _
      simp only [CPU_Opcode_CAC, CPU_Util_CondJM_eq, CPU_Util_CondCA_eq, CPU_Opcode_RT,
        CPU_FetchByte_eq, setI_setI_add2, cond_flag, cond_not_flag, cond_flag_nat,
        cond_not_flag_nat]
      rfl
    · show CPU_Execute m = if m.cpu.f.s = true then CPU_Opcode_CA (CPU_FetchByte m).2
        else m.setI (toUShort (m.cpu.i.val + 3))
      rw [CPU_Execute_of_opcode_val m _ OpcodeFn.CAS hop (by decide)]
      show CPU_Opcode_CAS (CPU_FetchByte m).2 = _
      simp only [CPU_Opcode_CAS, CPU_Util_CondJM_eq, CPU_Util_CondCA_eq, CPU_Opcode_RT,
        CPU_FetchByte_eq, setI_setI_add2, cond_flag, cond_not_flag, cond_flag_nat,
        cond_not_flag_nat]
      rfl
    · show CPU_Execute m = if m.cpu.f.v = true then CPU_Opcode_CA (CPU_FetchByte m).2
        else m.setI (toUShort (m.cpu.i.val + 3))
      rw [CPU_Execute_of_opcode_val m _ OpcodeFn.CAV hop (by decide)]
      show CPU_Opcode_CAV (CPU_FetchByte m).2 = _
      simp only [CPU_Opcode_CAV, CPU_Util_CondJM_eq, CPU_Util_CondCA_eq, CPU_Opcode_RT,
        CPU_FetchByte_eq, setI_setI_add2, cond_flag, cond_not_flag, cond_flag_nat,
        cond_not_flag_nat]
      rfl
    · show CPU_Execute m = if (!m.cpu.f.z) = true then CPU_Opcode_CA (CPU_FetchByte m).2
        else m.setI (toUShort (m.cpu.i.val + 3))
      rw [CPU_Execute_of_opcode_val m _ OpcodeFn.CANZ hop (by decide)]
      show CPU_Opcode_CANZ (CPU_FetchByte m).2 = _
      simp only [CPU_Opcode_CANZ, CPU_Util_CondJM_eq, CPU_Util_CondCA_eq, CPU_Opcode_RT,
        CPU_FetchByte_eq, setI_setI_add2, cond_flag, cond_not_flag, cond_flag_nat,
        cond_not_flag_nat]
      rfl
    · show CPU_Execute m = if (!m.cpu.f.c) = true then CPU_Opcode_CA (CPU_FetchByte m).2
        else m.setI (toUShort (m.cpu.i.val + 3))
      rw [CPU_Execute_of_opcode_val m _ OpcodeFn.CANC hop (by decide)]
      show CPU_Opcode_CANC (CPU_FetchByte m).2 = _
      simp only [CPU_Opcode_CANC, CPU_Util_CondJM_eq, CPU_Util_CondCA_eq, CPU_Opcode_RT,
        CPU_FetchByte_eq, setI_setI_add2, cond_flag, cond_not_flag, cond_flag_nat,
        cond_not_flag_nat]
      rfl
    · show CPU_Execute m = if (!m.cpu.f.s) = true then CPU_Opcode_CA (CPU_FetchByte m).2
        else m.setI (toUShort (m.cpu.i.val + 3))
      rw [CPU_Execute_of_opcode_val m _ OpcodeFn.CANS hop (by decide)]
      show CPU_Opcode_CANS (CPU_FetchByte m).2 = _
      simp only [CPU_Opcode_CANS, CPU_Util_CondJM_eq, CPU_Util_CondCA_eq, CPU_Opcode_RT,
        CPU_FetchByte_eq, setI_setI_add2, cond_flag, cond_not_flag, cond_flag_nat,
        cond_not_flag_nat]
      rfl
    · show CPU_Execute m = if (!m.cpu.f.v) = true then CPU_Opcode_CA (CPU_FetchByte m).2
        else m.setI (toUShort (m.cpu.i.val + 3))
      rw [CPU_Execute_of_opcode_val m _ OpcodeFn.CANV hop (by decide)]
      show CPU_Opcode_CANV (CPU_FetchByte m).2 = _
      simp only [CPU_Opcode_CANV, CPU_Util_CondJM_eq, CPU_Util_CondCA_eq, CPU_Opcode_RT,
        CPU_FetchByte_eq, setI_setI_add2, cond_flag, cond_not_flag, cond_flag_nat,
        cond_not_flag_nat]
      rfl
  · intro hop
    interval_cases j
    · show CPU_Execute m = if m.cpu.f.z = true then CPU_Opcode_RT (CPU_FetchByte m).2
        else m.setI (toUShort (m.cpu.i.val + 1))
      rw [CPU_Execute_of_opcode_val m _ OpcodeFn.RTZ hop (by decide)]
      show CPU_Opcode_RTZ (CPU_FetchByte m).2 = _
      simp only [CPU_Opcode_RTZ, CPU_Util_CondJM_eq, CPU_Util_CondCA_eq, CPU_Opcode_RT,
        CPU_FetchByte_eq, setI_setI_add2, cond_flag, cond_not_flag, cond_flag_nat,
        cond_not_flag_nat]
      rfl
    · show CPU_Execute m = if m.cpu.f.c = true then CPU_Opcode_RT (CPU_FetchByte m).2
        else m.setI (toUShort (m.cpu.i.val + 1))
      rw [CPU_Execute_of_opcode_val m _ OpcodeFn.RTC hop (by decide)]
      show CPU_Opcode_RTC (CPU_FetchByte m).2 = _
      simp only [CPU_Opcode_RTC, CPU_Util_CondJM_eq, CPU_Util_CondCA_eq, CPU_Opcode_RT,
        CPU_FetchByte_eq, setI_setI_add2, cond_flag, cond_not_flag, cond_flag_nat,
        cond_not_flag_nat]
      rfl
    · show CPU_Execute m = if m.cpu.f.s = true then CPU_Opcode_RT (CPU_FetchByte m).2
        else m.setI (toUShort (m.cpu.i.val + 1))
      rw [CPU_Execute_of_opcode_val m _ OpcodeFn.RTS hop (by decide)]
      show CPU_Opcode_RTS (CPU_FetchByte m).2 = _
      simp only [CPU_Opcode_RTS, CPU_Util_CondJM_eq, CPU_Util_CondCA_eq, CPU_Opcode_RT,
        CPU_FetchByte_eq, setI_setI_add2, cond_flag, cond_not_flag, cond_flag_nat,
        cond_not_flag_nat]
      rfl
    · show CPU_Execute m = if m.cpu.f.v = true then CPU_Opcode_RT (CPU_FetchByte m).2
        else m.setI (toUShort (m.cpu.i.val + 1))
      rw [CPU_Execute_of_opcode_val m _ OpcodeFn.RTV hop (by decide)]
      show CPU_Opcode_RTV (CPU_FetchByte m).2 = _
      simp only [CPU_Opcode_RTV, CPU_Util_CondJM_eq, CPU_Util_CondCA_eq, CPU_Opcode_RT,
        CPU_FetchByte_eq, setI_setI_add2, cond_flag, cond_not_flag, cond_flag_nat,
        cond_not_flag_nat]
      rfl
    · show CPU_Execute m = if (!m.cpu.f.z) = true then CPU_Opcode_RT (CPU_FetchByte m).2
        else m.setI (toUShort (m.cpu.i.val + 1))
      rw [CPU_Execute_of_opcode_val m _ OpcodeFn.RTNZ hop (by decide)]
      show CPU_Opcode_RTNZ (CPU_FetchByte m).2 = _
      simp only [CPU_Opcode_RTNZ, CPU_Util_CondJM_eq, CPU_Util_CondCA_eq, CPU_Opcode_RT,
        CPU_FetchByte_eq, setI_setI_add2, cond_flag, cond_not_flag, cond_flag_nat,
        cond_not_flag_nat]
      rfl
    · show CPU_Execute m = if (!m.cpu.f.c) = true then CPU_Opcode_RT (CPU_FetchByte m).2
        else m.setI (toUShort (m.cpu.i.val + 1))
      rw [CPU_Execute_of_opcode_val m _ OpcodeFn.RTNC hop (by decide)]
      show CPU_Opcode_RTNC (CPU_FetchByte m).2 = _
      simp only [CPU_Opcode_RTNC, CPU_Util_CondJM_eq, CPU_Util_CondCA_eq, CPU_Opcode_RT,
        CPU_FetchByte_eq, setI_setI_add2, cond_flag, cond_not_flag, cond_flag_nat,
        cond_not_flag_nat]
      rfl
    · show CPU_Execute m = if (!m.cpu.f.s) = true then CPU_Opcode_RT (CPU_FetchByte m).2
        else m.setI (toUShort (m.cpu.i.val + 1))
      rw [CPU_Execute_of_opcode_val m _ OpcodeFn.RTNS hop (by decide)]
      show CPU_Opcode_RTNS (CPU_FetchByte m).2 = _
      simp only [CPU_Opcode_RTNS, CPU_Util_CondJM_eq, CPU_Util_CondCA_eq, CPU_Opcode_RT,
        CPU_FetchByte_eq, setI_setI_add2, cond_flag, cond_not_flag, cond_flag_nat,
        cond_not_flag_nat]
      rfl
    · show CPU_Execute m = if (!m.cpu.f.v) = true then CPU_Opcode_RT (CPU_FetchByte m).2
        else m.setI (toUShort (m.cpu.i.val + 1))
      rw [CPU_Execute_of_opcode_val m _ OpcodeFn.RTNV hop (by decide)]
      show CPU_Opcode_RTNV (CPU_FetchByte m).2 = _
      simp only [CPU_Opcode_RTNV, CPU_Util_CondJM_eq, CPU_Util_CondCA_eq, CPU_Opcode_RT,
        CPU_FetchByte_eq, setI_setI_add2, cond_flag, cond_not_flag, cond_flag_nat,
        cond_not_flag_nat]
      rfl
  · intro hop
    exact CPU_Execute_of_opcode_val m _ OpcodeFn.JM hop (by decide)
  · intro hop
    exact CPU_Execute_of_opcode_val m _ OpcodeFn.CA hop (by decide)
  · intro hop
    exact CPU_Execute_of_opcode_val m _ OpcodeFn.RT hop (by decide)

/-- C8, witness: `JMNZ 0x0250` (opcode 0x9F = 0x9B + 4) with `Z` clear: the test
`NZ` holds and the jump is taken. -/
theorem CPU_Execute_conditional_witness :
    4 < 8
    ∧ (Memory_GetByte jmnzExample jmnzExample.cpu.i).val = 0x9B + 4
    ∧ branchTest 4 jmnzExample.cpu.f = true
    ∧ CPU_Execute jmnzExample = (if branchTest 4 jmnzExample.cpu.f = true
        then CPU_Opcode_JM (CPU_FetchByte jmnzExample).2
        else jmnzExample.setI (toUShort (jmnzExample.cpu.i.val + 3))) :=
  ⟨by decide, by decide, by decide,
    (CPU_Execute_conditional jmnzExample 4 (by decide)).1 (by decide)⟩

set_option maxRecDepth 8192 in
/-- The conditional jump example, evaluated: `I = 0x0250`, `S` unchanged. -/
theorem CPU_Execute_jmnzExample :
    (CPU_Execute jmnzExample).cpu.i = 0x0250
    ∧ (CPU_Execute jmnzExample).cpu.s = 0x1000 := by
  decide

/-! ## The opcode table against the opcode map -/

set_option maxRecDepth 16384 in
/-- Every line of the transcribed opcode map has as many instructions as its
opcode range, and the table agrees with the map at every opcode 0x00..0xB6. -/
theorem CPU_Opcode_eq_spec :
    (∀ g ∈ specOpcodeMap, g.2.2.length = g.2.1 - g.1 + 1)
    ∧ ∀ k : Fin 256, k.val ≤ 0xB6 → specOpcodeAt k.val = some (CPU_Opcode.getD k.val OpcodeFn.NO) := by
  decide

/-- C9: `CPU_Execute` dispatches each opcode byte `k` in 0x00..0xB6 to exactly the
instruction that the opcode map of the specification lists at `k`: the handler of
that instruction runs on the machine left by the opcode fetch.  The last part spells
out the map at the opcodes the claim names. -/
theorem CPU_Execute_dispatch (m : Machine) (k : Byte) (hk : k.val ≤ 0xB6)
    (hop : Memory_GetByte m m.cpu.i = k) :
    (∃ f, specOpcodeAt k.val = some f ∧ CPU_Opcode.get? k.val = some f
      ∧ CPU_Execute m = f.run (CPU_FetchByte m).2)
    ∧ (specOpcodeAt 0x00 = some OpcodeFn.LDAI ∧ specOpcodeAt 0x18 = some OpcodeFn.STAD
      ∧ specOpcodeAt 0x2D = some OpcodeFn.MVAB ∧ specOpcodeAt 0x39 = some OpcodeFn.PUBI
      ∧ specOpcodeAt 0x41 = some OpcodeFn.PUSI ∧ specOpcodeAt 0x49 = some OpcodeFn.PUA
      ∧ specOpcodeAt 0x4E = some OpcodeFn.POBD ∧ specOpcodeAt 0x55 = some OpcodeFn.POSD
      ∧ specOpcodeAt 0x5C = some OpcodeFn.POA ∧ specOpcodeAt 0x61 = some OpcodeFn.DTS
      ∧ specOpcodeAt 0x62 = some OpcodeFn.STS ∧ specOpcodeAt 0x63 = some OpcodeFn.IRA
      ∧ specOpcodeAt 0x69 = some OpcodeFn.ADB ∧ specOpcodeAt 0x77 = some OpcodeFn.ADS
      ∧ specOpcodeAt 0x85 = some OpcodeFn.SFZ ∧ specOpcodeAt 0x8D = some OpcodeFn.EI
      ∧ specOpcodeAt 0x8E = some OpcodeFn.DI ∧ specOpcodeAt 0x8F = some OpcodeFn.HT
      ∧ specOpcodeAt 0x90 = some OpcodeFn.JM ∧ specOpcodeAt 0x91 = some OpcodeFn.CA
      ∧ specOpcodeAt 0x92 = some OpcodeFn.RT ∧ specOpcodeAt 0x93 = some OpcodeFn.SIA
      ∧ specOpcodeAt 0x9B = some OpcodeFn.JMZ ∧ specOpcodeAt 0xA3 = some OpcodeFn.CAZ
      ∧ specOpcodeAt 0xAB = some OpcodeFn.RTZ ∧ specOpcodeAt 0xB3 = some OpcodeFn.IPB
      ∧ specOpcodeAt 0xB4 = some OpcodeFn.OPB ∧ specOpcodeAt 0xB5 = some OpcodeFn.IPS
      ∧ specOpcodeAt 0xB6 = some OpcodeFn.OPS) := by
  constructor
  · refine ⟨CPU_Opcode.getD k.val OpcodeFn.NO, CPU_Opcode_eq_spec.2 k hk, ?_,
      CPU_Execute_of_opcode m k _ hop rfl⟩
    have hlt : k.val < CPU_Opcode.length := by rw [CPU_Opcode_length]; exact k.isLt
    rw [List.get?_eq_getElem?, List.getElem?_eq_getElem hlt, List.getD_eq_getElem _ _ hlt]
  · decide

/-- C9, witness: the `ADB` scenario (opcode 0x69 at `I`); the map lists `ADB` there
and `CPU_Execute` runs `CPU_Opcode_ADB` after the opcode fetch. -/
theorem CPU_Execute_dispatch_witness :
    (0x69 : Byte).val ≤ 0xB6
    ∧ Memory_GetByte adbExample adbExample.cpu.i = 0x69
    ∧ ∃ f, specOpcodeAt (0x69 : Byte).val = some f ∧ CPU_Opcode.get? (0x69 : Byte).val = some f
      ∧ CPU_Execute adbExample = f.run (CPU_FetchByte adbExample).2 :=
  ⟨by decide, by decide, (CPU_Execute_dispatch adbExample 0x69 (by decide) (by decide)).1⟩

/-! ## Unused opcodes -/

set_option maxRecDepth 16384 in
/-- Every table entry from 0xB7 on is `CPU_Opcode_NO`. -/
theorem CPU_Opcode_NO_range :
    ∀ k : Fin 256, 0xB7 ≤ k.val → CPU_Opcode.getD k.val OpcodeFn.NO = OpcodeFn.NO := by
  decide

/-- C10: for every opcode byte `k` in 0xB7..0xFF and every machine state,
`CPU_Execute` on `k` is a no-op: the machine is unchanged except that `I` advances by
exactly 1 modulo `2^16`; in particular registers `A`, `B`, `S`, all flags, memory and
the peripheral state (port bindings, disk, display) are unchanged.  `CPU_Execute` is a
total function and the table has an entry for each of the 256 byte values: no opcode
faults. -/
theorem CPU_Execute_unused (m : Machine) (k : Byte) (hk : 0xB7 ≤ k.val)
    (hop : Memory_GetByte m m.cpu.i = k) :
    CPU_Execute m = m.setI (toUShort (m.cpu.i.val + 1))
    ∧ (CPU_Execute m).cpu.i.val = (m.cpu.i.val + 1) % 2 ^ 16
    ∧ (CPU_Execute m).cpu.a = m.cpu.a
    ∧ (CPU_Execute m).cpu.b = m.cpu.b
    ∧ (CPU_Execute m).cpu.s = m.cpu.s
    ∧ (CPU_Execute m).cpu.f = m.cpu.f
    ∧ (CPU_Execute m).MEMORY = m.MEMORY
    ∧ (CPU_Execute m).IO_READ_FUNPTR = m.IO_READ_FUNPTR
    ∧ (CPU_Execute m).IO_WRITE_FUNPTR = m.IO_WRITE_FUNPTR
    ∧ (CPU_Execute m).DISK = m.DISK
    ∧ (CPU_Execute m).disk = m.disk
    ∧ (CPU_Execute m).display = m.display
    ∧ CPU_Opcode.length = 256 := by
  have hex : CPU_Execute m = m.setI (toUShort (m.cpu.i.val + 1)) := by
    rw [CPU_Execute_of_opcode m k OpcodeFn.NO hop (CPU_Opcode_NO_range k hk), CPU_FetchByte_eq]
    rfl
  rw [hex]
  exact ⟨rfl, rfl, rfl, rfl, rfl, rfl, rfl, rfl, rfl, rfl, rfl, rfl, CPU_Opcode_length⟩

/-- C10, witness: opcode 0xFF at `I = 0xFFFF`; `I` wraps to 0. -/
theorem CPU_Execute_unused_witness :
    0xB7 ≤ (0xFF : Byte).val
    ∧ Memory_GetByte noExample noExample.cpu.i = 0xFF
    ∧ (CPU_Execute noExample = noExample.setI (toUShort (noExample.cpu.i.val + 1))
    ∧ (CPU_Execute noExample).cpu.i.val = (noExample.cpu.i.val + 1) % 2 ^ 16
    ∧ (CPU_Execute noExample).cpu.a = noExample.cpu.a
    ∧ (CPU_Execute noExample).cpu.b = noExample.cpu.b
    ∧ (CPU_Execute noExample).cpu.s = noExample.cpu.s
    ∧ (CPU_Execute noExample).cpu.f = noExample.cpu.f
    ∧ (CPU_Execute noExample).MEMORY = noExample.MEMORY
    ∧ (CPU_Execute noExample).IO_READ_FUNPTR = noExample.IO_READ_FUNPTR
    ∧ (CPU_Execute noExample).IO_WRITE_FUNPTR = noExample.IO_WRITE_FUNPTR
    ∧ (CPU_Execute noExample).DISK = noExample.DISK
    ∧ (CPU_Execute noExample).disk = noExample.disk
    ∧ (CPU_Execute noExample).display = noExample.display
    ∧ CPU_Opcode.length = 256) :=
  ⟨by decide, by decide, CPU_Execute_unused noExample 0xFF (by decide) (by decide)⟩

set_option maxRecDepth 8192 in
/-- The unused-opcode example, evaluated: `I` wraps from 0xFFFF to 0, `A` and `S`
keep their values. -/
theorem CPU_Execute_noExample :
    (CPU_Execute noExample).cpu.i = 0x0000
    ∧ (CPU_Execute noExample).cpu.a = 0x1234
    ∧ (CPU_Execute noExample).cpu.s = 0x1000 := by
  decide

/-! ## Immediate load and direct store -/

/-- The operand fetch of a three-byte instruction at `p`: it yields the short at
`p + 1` and leaves `I = p + 3`. -/
theorem CPU_FetchShort_operand (m : Machine) (x : Short)
    (hlo : (Memory_GetByte m (toUShort (m.cpu.i.val + 1))).val = x.val % 256)
    (hhi : (Memory_GetByte m (toUShort (m.cpu.i.val + 2))).val = x.val / 256) :
    CPU_FetchShort (CPU_FetchByte m).2 = (x, m.setI (toUShort (m.cpu.i.val + 3))) := by
  have hoper := operand_eq m x hlo hhi
  simp only [CPU_FetchByte_eq, CPU_FetchShort_eq, Machine.setI, hoper, toUShort_add1_add2]

/-- The machine an `LDAI v` at the instruction pointer leaves. -/
theorem CPU_Execute_LDAI_eq (m : Machine) (v : Short)
    (hop : Memory_GetByte m m.cpu.i = 0x00)
    (hlo : (Memory_GetByte m (toUShort (m.cpu.i.val + 1))).val = v.val % 256)
    (hhi : (Memory_GetByte m (toUShort (m.cpu.i.val + 2))).val = v.val / 256) :
    CPU_Execute m = (m.setI (toUShort (m.cpu.i.val + 3))).setA v := by
  rw [CPU_Execute_of_opcode m 0x00 OpcodeFn.LDAI hop (by decide)]
  show CPU_Opcode_LDAI (CPU_FetchByte m).2 = _
  simp only [CPU_Opcode_LDAI, CPU_FetchShort_operand m v hlo hhi]

/-- The machine an `STAD d` at the instruction pointer leaves. -/
theorem CPU_Execute_STAD_eq (m : Machine) (d : Short)
    (hop : Memory_GetByte m m.cpu.i = 0x18)
    (hlo : (Memory_GetByte m (toUShort (m.cpu.i.val + 1))).val = d.val % 256)
    (hhi : (Memory_GetByte m (toUShort (m.cpu.i.val + 2))).val = d.val / 256) :
    CPU_Execute m = Memory_SetShort (m.setI (toUShort (m.cpu.i.val + 3))) d m.cpu.a := by
  rw [CPU_Execute_of_opcode m 0x18 OpcodeFn.STAD hop (by decide)]
  show CPU_Opcode_STAD (CPU_FetchByte m).2 = _
  simp only [CPU_Opcode_STAD, CPU_FetchShort_operand m d hlo hhi]
  rfl

/-- What `Memory_SetShort` leaves at the two cells it writes, and that it touches
nothing but memory. -/
theorem Memory_SetShort_spec (m : Machine) (a v : Short) :
    (Memory_GetByte (Memory_SetShort m a v) a).val = v.val % 256
    ∧ (Memory_GetByte (Memory_SetShort m a v) (toUShort (a.val + 1))).val = v.val / 256
    ∧ (Memory_SetShort m a v).cpu = m.cpu := by
  have hne := toUShort_succ_ne a
  have hv := v.isLt
  refine ⟨?_, ?_, rfl⟩
  · simp only [Memory_GetByte_eq, Memory_SetShort, Memory_SetByte_eq, if_neg hne.symm, if_true,
      toUChar_val, SHORT_LO_eq]
    omega
  · simp only [Memory_GetByte_eq, Memory_SetShort, Memory_SetByte_eq, if_true, toUChar_val,
      SHORT_HI_eq]
    omega

/-- C13: for every 16-bit value `v` and direct address `d`, starting at instruction
pointer `p` with the bytes `LDAI lo(v) hi(v) STAD lo(d) hi(d)` in memory (addresses
modulo `2^16`): after one `CPU_Execute`, `A = v` and `I = p + 3` with `B`, `S`, flags
and memory unchanged (the machine is the old one but for `A` and `I`); after a second
`CPU_Execute`, `memory[d] = lo(v)`, `memory[d + 1] = hi(v)`, `I = p + 6` and `A`, `B`,
`S`, flags are unchanged. -/
theorem CPU_Execute_LDAI_STAD (m : Machine) (v d : Short)
    (h0 : Memory_GetByte m m.cpu.i = 0x00)
    (h1 : (Memory_GetByte m (toUShort (m.cpu.i.val + 1))).val = v.val % 256)
    (h2 : (Memory_GetByte m (toUShort (m.cpu.i.val + 2))).val = v.val / 256)
    (h3 : Memory_GetByte m (toUShort (m.cpu.i.val + 3)) = 0x18)
    (h4 : (Memory_GetByte m (toUShort (m.cpu.i.val + 4))).val = d.val % 256)
    (h5 : (Memory_GetByte m (toUShort (m.cpu.i.val + 5))).val = d.val / 256) :
    (CPU_Execute m = (m.setI (toUShort (m.cpu.i.val + 3))).setA v
      ∧ (CPU_Execute m).cpu.a = v
      ∧ (CPU_Execute m).cpu.i = toUShort (m.cpu.i.val + 3)
      ∧ (CPU_Execute m).cpu.b = m.cpu.b
      ∧ (CPU_Execute m).cpu.s = m.cpu.s
      ∧ (CPU_Execute m).cpu.f = m.cpu.f
      ∧ (CPU_Execute m).MEMORY = m.MEMORY)
    ∧ ((Memory_GetByte (CPU_Execute (CPU_Execute m)) d).val = v.val % 256
      ∧ (Memory_GetByte (CPU_Execute (CPU_Execute m)) (toUShort (d.val + 1))).val
          = v.val / 256
      ∧ (CPU_Execute (CPU_Execute m)).cpu.i = toUShort (m.cpu.i.val + 6)
      ∧ (CPU_Execute (CPU_Execute m)).cpu.a = v
      ∧ (CPU_Execute (CPU_Execute m)).cpu.b = m.cpu.b
      ∧ (CPU_Execute (CPU_Execute m)).cpu.s = m.cpu.s
      ∧ (CPU_Execute (CPU_Execute m)).cpu.f = m.cpu.f) := by
  have hld := CPU_Execute_LDAI_eq m v h0 h1 h2
  have e4 : toUShort ((toUShort (m.cpu.i.val + 3)).val + 1) = toUShort (m.cpu.i.val + 4) := by
    apply Fin.ext; simp only [toUShort_val]; omega
  have e5 : toUShort ((toUShort (m.cpu.i.val + 3)).val + 2) = toUShort (m.cpu.i.val + 5) := by
    apply Fin.ext; simp only [toUShort_val]; omega
  have e6 : toUShort ((toUShort (m.cpu.i.val + 3)).val + 3) = toUShort (m.cpu.i.val + 6) := by
    apply Fin.ext; simp only [toUShort_val]; omega
  have hst := CPU_Execute_STAD_eq ((m.setI (toUShort (m.cpu.i.val + 3))).setA v) d h3
    (by rw [← h4]; show (Memory_GetByte _ (toUShort ((toUShort (m.cpu.i.val + 3)).val + 1))).val = _
        rw [e4]; rfl)
    (by rw [← h5]; show (Memory_GetByte _ (toUShort ((toUShort (m.cpu.i.val + 3)).val + 2))).val = _
        rw [e5]; rfl)
  rw [hld, hst]
  have hspec := Memory_SetShort_spec
    ((((m.setI (toUShort (m.cpu.i.val + 3))).setA v)).setI
      (toUShort ((((m.setI (toUShort (m.cpu.i.val + 3))).setA v)).cpu.i.val + 3))) d v
  refine ⟨⟨rfl, rfl, rfl, rfl, rfl, rfl, rfl⟩, hspec.1, hspec.2.1, ?_, ?_, ?_, ?_, ?_⟩
  · exact e6
  · rfl
  · rfl
  · rfl
  · rfl

/-- C13, witness: the program `00 42 00 18 10 00` at 0x0000 (`v = 0x0042`,
`d = 0x0010`). -/
theorem CPU_Execute_LDAI_STAD_witness :
    (Memory_GetByte ldaiExample ldaiExample.cpu.i = 0x00
      ∧ (Memory_GetByte ldaiExample (toUShort (ldaiExample.cpu.i.val + 1))).val
          = (0x0042 : Short).val % 256
      ∧ (Memory_GetByte ldaiExample (toUShort (ldaiExample.cpu.i.val + 2))).val
          = (0x0042 : Short).val / 256
      ∧ Memory_GetByte ldaiExample (toUShort (ldaiExample.cpu.i.val + 3)) = 0x18
      ∧ (Memory_GetByte ldaiExample (toUShort (ldaiExample.cpu.i.val + 4))).val
          = (0x0010 : Short).val % 256
      ∧ (Memory_GetByte ldaiExample (toUShort (ldaiExample.cpu.i.val + 5))).val
          = (0x0010 : Short).val / 256)
    ∧ (CPU_Execute ldaiExample).cpu.a = 0x0042
    ∧ (CPU_Execute ldaiExample).cpu.i = toUShort (ldaiExample.cpu.i.val + 3)
    ∧ (Memory_GetByte (CPU_Execute (CPU_Execute ldaiExample)) 0x0010).val
        = (0x0042 : Short).val % 256
    ∧ (Memory_GetByte (CPU_Execute (CPU_Execute ldaiExample))
        (toUShort ((0x0010 : Short).val + 1))).val = (0x0042 : Short).val / 256
    ∧ (CPU_Execute (CPU_Execute ldaiExample)).cpu.i = toUShort (ldaiExample.cpu.i.val + 6) :=
  have h := CPU_Execute_LDAI_STAD ldaiExample 0x0042 0x0010 (by decide) (by decide) (by decide)
    (by decide) (by decide) (by decide)
  ⟨by decide, h.1.2.1, h.1.2.2.1, h.2.1, h.2.2.1, h.2.2.2.1⟩

set_option maxRecDepth 8192 in
/-- The immediate load and store scenario, evaluated: after one step `A = 0x0042`,
`I = 0x0003`; after the second step the bytes at 0x0010, 0x0011 are 0x42, 0x00 and
`I = 0x0006`. -/
theorem CPU_Execute_ldaiExample :
    (CPU_Execute ldaiExample).cpu.a = 0x0042
    ∧ (CPU_Execute ldaiExample).cpu.i = 0x0003
    ∧ Memory_GetByte (CPU_Execute (CPU_Execute ldaiExample)) 0x0010 = 0x42
    ∧ Memory_GetByte (CPU_Execute (CPU_Execute ldaiExample)) 0x0011 = 0x00
    ∧ (CPU_Execute (CPU_Execute ldaiExample)).cpu.i = 0x0006 := by
  decide

/-! ## Indexed and double-indirect loads -/

/-- C14: for every destination register `r` (0, 1, 2 for `A`, `B`, `S`), index
register `x` (0, 1 for `A`, `B`), 16-bit displacement `d` and machine state: the
load with opcode `0x0C + 6 * y + 3 * x + r` (`LD r X{A|B}` for `y = 0`, `LD r Y{A|B}`
for `y = 1`) loads `r` with `get_short((X + d) mod 2^16)`, respectively
`get_short(get_short((X + d) mod 2^16))`, `X` being the index register's value before
the instruction; `I` advances by 3 and no other register, flag or memory byte
changes. -/
theorem CPU_Execute_LD_indexed (m : Machine) (y x r : Nat) (hy : y < 2) (hx : x < 2)
    (hr : r < 3) (d : Short)
    (hop : (Memory_GetByte m m.cpu.i).val = 0x0C + 6 * y + 3 * x + r)
    (hlo : (Memory_GetByte m (toUShort (m.cpu.i.val + 1))).val = d.val % 256)
    (hhi : (Memory_GetByte m (toUShort (m.cpu.i.val + 2))).val = d.val / 256) :
    destReg r (CPU_Execute m)
        = indexedOperand y m (toUShort ((indexReg x m).val + d.val))
    ∧ (CPU_Execute m).cpu.i = toUShort (m.cpu.i.val + 3)
    ∧ (r ≠ 0 → (CPU_Execute m).cpu.a = m.cpu.a)
    ∧ (r ≠ 1 → (CPU_Execute m).cpu.b = m.cpu.b)
    ∧ (r ≠ 2 → (CPU_Execute m).cpu.s = m.cpu.s)
    ∧ (CPU_Execute m).cpu.f = m.cpu.f
    ∧ (CPU_Execute m).MEMORY = m.MEMORY
    ∧ (CPU_Execute m).IO_READ_FUNPTR = m.IO_READ_FUNPTR
    ∧ (CPU_Execute m).IO_WRITE_FUNPTR = m.IO_WRITE_FUNPTR
    ∧ (CPU_Execute m).DISK = m.DISK
    ∧ (CPU_Execute m).disk = m.disk
    ∧ (CPU_Execute m).display = m.display := by
  have hf := CPU_FetchShort_operand m d hlo hhi
  interval_cases y
  · interval_cases x
    · interval_cases r
      · have heq : CPU_Execute m = (m.setI (toUShort (m.cpu.i.val + 3))).setA
            (Memory_GetShort m (toUShort (m.cpu.a.val + d.val))) := by
          rw [CPU_Execute_of_opcode_val m _ OpcodeFn.LDAXA hop (by decide)]
          show CPU_Opcode_LDAXA (CPU_FetchByte m).2 = _
          simp only [CPU_Opcode_LDAXA, CPU_ADDRESS_XA, hf]
          rfl
        rw [heq]
        exact ⟨rfl, rfl, fun h => absurd rfl h, fun _ => rfl, fun _ => rfl,
          rfl, rfl, rfl, rfl, rfl, rfl, rfl⟩
      · have heq : CPU_Execute m = (m.setI (toUShort (m.cpu.i.val + 3))).setB
            (Memory_GetShort m (toUShort (m.cpu.a.val + d.val))) := by
          rw [CPU_Execute_of_opcode_val m _ OpcodeFn.LDBXA hop (by decide)]
          show CPU_Opcode_LDBXA (CPU_FetchByte m).2 = _
          simp only [CPU_Opcode_LDBXA, CPU_ADDRESS_XA, hf]
          rfl
        rw [heq]
        exact ⟨rfl, rfl, fun _ => rfl, fun h => absurd rfl h, fun _ => rfl,
          rfl, rfl, rfl, rfl, rfl, rfl, rfl⟩
      · have heq : CPU_Execute m = (m.setI (toUShort (m.cpu.i.val + 3))).setS
            (Memory_GetShort m (toUShort (m.cpu.a.val + d.val))) := by
          rw [CPU_Execute_of_opcode_val m _ OpcodeFn.LDSXA hop (by decide)]
          show CPU_Opcode_LDSXA (CPU_FetchByte m).2 = _
          simp only [CPU_Opcode_LDSXA, CPU_ADDRESS_XA, hf]
          rfl
        rw [heq]
        exact ⟨rfl, rfl, fun _ => rfl, fun _ => rfl, fun h => absurd rfl h,
          rfl, rfl, rfl, rfl, rfl, rfl, rfl⟩
    · interval_cases r
      · have heq : CPU_Execute m = (m.setI (toUShort (m.cpu.i.val + 3))).setA
            (Memory_GetShort m (toUShort (m.cpu.b.val + d.val))) := by
          rw [CPU_Execute_of_opcode_val m _ OpcodeFn.LDAXB hop (by decide)]
          show CPU_Opcode_LDAXB (CPU_FetchByte m).2 = _
          simp only [CPU_Opcode_LDAXB, CPU_ADDRESS_XB, hf]
          rfl
        rw [heq]
        exact ⟨rfl, rfl, fun h => absurd rfl h, fun _ => rfl, fun _ => rfl,
          rfl, rfl, rfl, rfl, rfl, rfl, rfl⟩
      · have heq : CPU_Execute m = (m.setI (toUShort (m.cpu.i.val + 3))).setB
            (Memory_GetShort m (toUShort (m.cpu.b.val + d.val))) := by
          rw [CPU_Execute_of_opcode_val m _ OpcodeFn.LDBXB hop (by decide)]
          show CPU_Opcode_LDBXB (CPU_FetchByte m).2 = _
          simp only [CPU_Opcode_LDBXB, CPU_ADDRESS_XB, hf]
          rfl
        rw [heq]
        exact ⟨rfl, rfl, fun _ => rfl, fun h => absurd rfl h, fun _ => rfl,
          rfl, rfl, rfl, rfl, rfl, rfl, rfl⟩
      · have heq : CPU_Execute m = (m.setI (toUShort (m.cpu.i.val + 3))).setS
            (Memory_GetShort m (toUShort (m.cpu.b.val + d.val))) := by
          rw [CPU_Execute_of_opcode_val m _ OpcodeFn.LDSXB hop (by decide)]
          show CPU_Opcode_LDSXB (CPU_FetchByte m).2 = _
          simp only [CPU_Opcode_LDSXB, CPU_ADDRESS_XB, hf]
          rfl
        rw [heq]
        exact ⟨rfl, rfl, fun _ => rfl, fun _ => rfl, fun h => absurd rfl h,
          rfl, rfl, rfl, rfl, rfl, rfl, rfl⟩
  · interval_cases x
    · interval_cases r
      · have heq : CPU_Execute m = (m.setI (toUShort (m.cpu.i.val + 3))).setA
            (Memory_GetShort m (Memory_GetShort m (toUShort (m.cpu.a.val + d.val)))) := by
          rw [CPU_Execute_of_opcode_val m _ OpcodeFn.LDAYA hop (by decide)]
          show CPU_Opcode_LDAYA (CPU_FetchByte m).2 = _
          simp only [CPU_Opcode_LDAYA, CPU_ADDRESS_YA, hf]
          rfl
        rw [heq]
        exact ⟨rfl, rfl, fun h => absurd rfl h, fun _ => rfl, fun _ => rfl,
          rfl, rfl, rfl, rfl, rfl, rfl, rfl⟩
      · have heq : CPU_Execute m = (m.setI (toUShort (m.cpu.i.val + 3))).setB
            (Memory_GetShort m (Memory_GetShort m (toUShort (m.cpu.a.val + d.val)))) := by
          rw [CPU_Execute_of_opcode_val m _ OpcodeFn.LDBYA hop (by decide)]
          show CPU_Opcode_LDBYA (CPU_FetchByte m).2 = _
          simp only [CPU_Opcode_LDBYA, CPU_ADDRESS_YA, hf]
          rfl
        rw [heq]
        exact ⟨rfl, rfl, fun _ => rfl, fun h => absurd rfl h, fun _ => rfl,
          rfl, rfl, rfl, rfl, rfl, rfl, rfl⟩
      · have heq : CPU_Execute m = (m.setI (toUShort (m.cpu.i.val + 3))).setS
            (Memory_GetShort m (Memory_GetShort m (toUShort (m.cpu.a.val + d.val)))) := by
          rw [CPU_Execute_of_opcode_val m _ OpcodeFn.LDSYA hop (by decide)]
          show CPU_Opcode_LDSYA (CPU_FetchByte m).2 = _
          simp only [CPU_Opcode_LDSYA, CPU_ADDRESS_YA, hf]
          rfl
        rw [heq]
        exact ⟨rfl, rfl, fun _ => rfl, fun _ => rfl, fun h => absurd rfl h,
          rfl, rfl, rfl, rfl, rfl, rfl, rfl⟩
    · interval_cases r
      · have heq : CPU_Execute m = (m.setI (toUShort (m.cpu.i.val + 3))).setA
            (Memory_GetShort m (Memory_GetShort m (toUShort (m.cpu.b.val + d.val)))) := by
          rw [CPU_Execute_of_opcode_val m _ OpcodeFn.LDAYB hop (by decide)]
          show CPU_Opcode_LDAYB (CPU_FetchByte m).2 = _
          simp only [CPU_Opcode_LDAYB, CPU_ADDRESS_YB, hf]
          rfl
        rw [heq]
        exact ⟨rfl, rfl, fun h => absurd rfl h, fun _ => rfl, fun _ => rfl,
          rfl, rfl, rfl, rfl, rfl, rfl, rfl⟩
      · have heq : CPU_Execute m = (m.setI (toUShort (m.cpu.i.val + 3))).setB
            (Memory_GetShort m (Memory_GetShort m (toUShort (m.cpu.b.val + d.val)))) := by
          rw [CPU_Execute_of_opcode_val m _ OpcodeFn.LDBYB hop (by decide)]
          show CPU_Opcode_LDBYB (CPU_FetchByte m).2 = _
          simp only [CPU_Opcode_LDBYB, CPU_ADDRESS_YB, hf]
          rfl
        rw [heq]
        exact ⟨rfl, rfl, fun _ => rfl, fun h => absurd rfl h, fun _ => rfl,
          rfl, rfl, rfl, rfl, rfl, rfl, rfl⟩
      · have heq : CPU_Execute m = (m.setI (toUShort (m.cpu.i.val + 3))).setS
            (Memory_GetShort m (Memory_GetShort m (toUShort (m.cpu.b.val + d.val)))) := by
          rw [CPU_Execute_of_opcode_val m _ OpcodeFn.LDSYB hop (by decide)]
          show CPU_Opcode_LDSYB (CPU_FetchByte m).2 = _
          simp only [CPU_Opcode_LDSYB, CPU_ADDRESS_YB, hf]
          rfl
        rw [heq]
        exact ⟨rfl, rfl, fun _ => rfl, fun _ => rfl, fun h => absurd rfl h,
          rfl, rfl, rfl, rfl, rfl, rfl, rfl⟩

/-- C14, witness: `LDSYA 0x0010` with `A = 0xFFF8` (opcode 0x14 = 0x0C + 6 + 0 + 2): the
effective address wraps to 0x0008. -/
theorem CPU_Execute_LD_indexed_witness :
    (1 < 2 ∧ 0 < 2 ∧ 2 < 3
      ∧ (Memory_GetByte ldsyaExample ldsyaExample.cpu.i).val = 0x0C + 6 * 1 + 3 * 0 + 2
      ∧ (Memory_GetByte ldsyaExample (toUShort (ldsyaExample.cpu.i.val + 1))).val
          = (0x0010 : Short).val % 256
      ∧ (Memory_GetByte ldsyaExample (toUShort (ldsyaExample.cpu.i.val + 2))).val
          = (0x0010 : Short).val / 256)
    ∧ destReg 2 (CPU_Execute ldsyaExample)
        = indexedOperand 1 ldsyaExample
            (toUShort ((indexReg 0 ldsyaExample).val + (0x0010 : Short).val))
    ∧ (CPU_Execute ldsyaExample).cpu.i = toUShort (ldsyaExample.cpu.i.val + 3) :=
  have h := CPU_Execute_LD_indexed ldsyaExample 1 0 2 (by decide) (by decide) (by decide)
    0x0010 (by decide) (by decide) (by decide)
  ⟨by decide, h.1, h.2.1⟩

set_option maxRecDepth 8192 in
/-- The indexed load example, evaluated: `S = 0xBEEF`, `I = 0x0103`, `A` and `B`
unchanged. -/
theorem CPU_Execute_ldsyaExample :
    (CPU_Execute ldsyaExample).cpu.s = 0xBEEF
    ∧ (CPU_Execute ldsyaExample).cpu.i = 0x0103
    ∧ (CPU_Execute ldsyaExample).cpu.a = 0xFFF8
    ∧ (CPU_Execute ldsyaExample).cpu.b = 0x0007 := by
  decide

/-! ## Stack duplicate and swap -/

/-- One below, then two up, is one above. -/
theorem toUShort_pred_add2 (a : Short) :
    toUShort ((intToUShort ((a.val : Int) - 1)).val + 2) = toUShort (a.val + 1) := by
  apply Fin.ext
  have h := a.isLt
  simp only [toUShort_val, intToUShort_val]
  omega

/-- The cell above the top is not the cell below the top. -/
theorem toUShort_succ_ne_pred (a : Short) :
    toUShort (a.val + 1) ≠ intToUShort ((a.val : Int) - 1) := by
  intro h
  have h2 := congrArg Fin.val h
  have h3 := a.isLt
  simp only [toUShort_val, intToUShort_val] at h2
  omega

/-- C16: for every machine state, with `t = memory[S]` and `n = memory[S + 1]` (`S + 1`
modulo `2^16`): `DTS` decrements `S` by 1 and leaves the top three bytes `t, t, n`,
writing only the new top cell; `STS` leaves `S` unchanged and exchanges the two top
bytes to `n, t`, writing only these two cells; neither handler changes a flag, another
register or another memory byte (both equations give the whole machine).  Executing
opcode 0x61 / 0x62 runs the handler after the opcode fetch, which advances `I` by 1. -/
theorem CPU_Opcode_DTS_STS (m : Machine) :
    (CPU_Opcode_DTS m =
        { m with
          cpu := { m.cpu with s := intToUShort ((m.cpu.s.val : Int) - 1) }
          MEMORY := fun j =>
            if j = intToUShort ((m.cpu.s.val : Int) - 1) then stackTop m else m.MEMORY j }
      ∧ stackTop (CPU_Opcode_DTS m) = stackTop m
      ∧ stackNext (CPU_Opcode_DTS m) = stackTop m
      ∧ stackThird (CPU_Opcode_DTS m) = stackNext m)
    ∧ (CPU_Opcode_STS m =
        { m with
          MEMORY := fun j =>
            if j = toUShort (m.cpu.s.val + 1) then stackTop m
            else if j = m.cpu.s then stackNext m else m.MEMORY j }
      ∧ stackTop (CPU_Opcode_STS m) = stackNext m
      ∧ stackNext (CPU_Opcode_STS m) = stackTop m)
    ∧ (Memory_GetByte m m.cpu.i = 0x61 →
        CPU_Execute m = CPU_Opcode_DTS (m.setI (toUShort (m.cpu.i.val + 1))))
    ∧ (Memory_GetByte m m.cpu.i = 0x62 →
        CPU_Execute m = CPU_Opcode_STS (m.setI (toUShort (m.cpu.i.val + 1)))) := by
  have hne1 := intToUShort_pred_ne m.cpu.s
  have hne2 := toUShort_succ_ne m.cpu.s
  have hne3 := toUShort_succ_ne_pred m.cpu.s
  have hdts : CPU_Opcode_DTS m =
      { m with
        cpu := { m.cpu with s := intToUShort ((m.cpu.s.val : Int) - 1) }
        MEMORY := fun j =>
          if j = intToUShort ((m.cpu.s.val : Int) - 1) then stackTop m else m.MEMORY j } := by
    simp only [CPU_Opcode_DTS, CPU_PushByte_eq, stackTop]
  have hsts : CPU_Opcode_STS m =
      { m with
        MEMORY := fun j =>
          if j = toUShort (m.cpu.s.val + 1) then stackTop m
          else if j = m.cpu.s then stackNext m else m.MEMORY j } := by
    simp only [CPU_Opcode_STS, Memory_SetByte_eq, stackTop, stackNext]
  refine ⟨⟨hdts, ?_, ?_, ?_⟩, ⟨hsts, ?_, ?_⟩, ?_, ?_⟩
  · rw [hdts]
    simp [stackTop, Memory_GetByte_eq]
  · rw [hdts]
    simp [stackTop, stackNext, Memory_GetByte_eq, toUShort_succ_pred, hne1.symm]
  · rw [hdts]
    simp [stackThird, stackNext, Memory_GetByte_eq, toUShort_pred_add2, hne3]
  · rw [hsts]
    simp [stackTop, stackNext, Memory_GetByte_eq, hne2.symm]
  · rw [hsts]
    simp [stackTop, stackNext, Memory_GetByte_eq]
  · intro hop
    rw [CPU_Execute_of_opcode m 0x61 OpcodeFn.DTS hop (by decide), CPU_FetchByte_eq]
    rfl
  · intro hop
    rw [CPU_Execute_of_opcode m 0x62 OpcodeFn.STS hop (by decide), CPU_FetchByte_eq]
    rfl

set_option maxRecDepth 8192 in
/-- The stack duplicate and swap scenario, evaluated (`t = 0x11`, `n = 0x22`): after
`DTS` the top three bytes are 0x11, 0x11, 0x22 and `S = 0x0FFF`; after `STS` on the
original state the top two bytes are 0x22, 0x11 and `S = 0x1000`. -/
theorem CPU_Execute_dtsExample_stsExample :
    (Memory_GetByte dtsExample dtsExample.cpu.i = 0x61
      ∧ (CPU_Execute dtsExample).cpu.s = 0x0FFF
      ∧ stackTop (CPU_Execute dtsExample) = 0x11
      ∧ stackNext (CPU_Execute dtsExample) = 0x11
      ∧ stackThird (CPU_Execute dtsExample) = 0x22)
    ∧ (Memory_GetByte stsExample stsExample.cpu.i = 0x62
      ∧ (CPU_Execute stsExample).cpu.s = 0x1000
      ∧ stackTop (CPU_Execute stsExample) = 0x22
      ∧ stackNext (CPU_Execute stsExample) = 0x11) := by
  decide

/-! ## Rotate and invert round trips -/

set_option maxRecDepth 8192 in
/-- Rotating a byte left through the carry and the result right through the carry
left by the first rotation gives the byte and the carry back. -/
theorem rotate_byte_roundtrip :
    ∀ (a : Byte) (c : Bool),
      toUChar (((toUChar ((a.val <<< 1) ||| bitVal c)).val >>> 1)
          ||| (bitVal (toBit (a.val >>> 7)) <<< 7)) = a
      ∧ toBit ((toUChar ((a.val <<< 1) ||| bitVal c)).val &&& 1) = c := by
  decide

theorem CPU_RLB_eq (m : Machine) (a : Byte) :
    CPU_RLB m a =
      (toUChar ((a.val <<< 1) ||| bitVal m.cpu.f.c),
       { m with cpu := { m.cpu with f := { m.cpu.f with
          z := decide ((toUChar ((a.val <<< 1) ||| bitVal m.cpu.f.c)).val = 0)
          c := toBit (a.val >>> 7)
          s := (toUChar ((a.val <<< 1) ||| bitVal m.cpu.f.c)).val.testBit 7
          v := false } } }) := by
  simp only [CPU_RLB, Machine.setFZ, Machine.setFC, Machine.setFS, Machine.setFV,
    toBit_LNOT, toBit_zero, toBit_shiftRight]

theorem CPU_RRB_eq (m : Machine) (a : Byte) :
    CPU_RRB m a =
      (toUChar ((a.val >>> 1) ||| (bitVal m.cpu.f.c <<< 7)),
       { m with cpu := { m.cpu with f := { m.cpu.f with
          z := decide ((toUChar ((a.val >>> 1) ||| (bitVal m.cpu.f.c <<< 7))).val = 0)
          c := toBit (a.val &&& 1)
          s := (toUChar ((a.val >>> 1) ||| (bitVal m.cpu.f.c <<< 7))).val.testBit 7
          v := false } } }) := by
  simp only [CPU_RRB, Machine.setFZ, Machine.setFC, Machine.setFS, Machine.setFV,
    toBit_LNOT, toBit_zero, toBit_shiftRight]

/-- One up, then one down, is the address itself. -/
theorem intToUShort_succ_pred (a : Short) :
    intToUShort (((toUShort (a.val + 1)).val : Int) - 1) = a := by
  apply Fin.ext
  have h := a.isLt
  simp only [toUShort_val, intToUShort_val]
  omega

/-- What the handler of `RLB` leaves: the rotated byte on top, the old bit 7 in the
carry, `S` unchanged. -/
theorem CPU_Opcode_RLB_spec (n : Machine) :
    stackTop (CPU_Opcode_RLB n) = toUChar (((stackTop n).val <<< 1) ||| bitVal n.cpu.f.c)
    ∧ (CPU_Opcode_RLB n).cpu.f.c = toBit ((stackTop n).val >>> 7)
    ∧ (CPU_Opcode_RLB n).cpu.s = n.cpu.s := by
  simp only [CPU_Opcode_RLB, CPU_PopByte_eq, CPU_RLB_eq, CPU_PushByte_eq,
    intToUShort_succ_pred, stackTop, Memory_GetByte_eq, if_true, and_self]

/-- What the handler of `RRB` leaves: the rotated byte on top, the old bit 0 in the
carry, `S` unchanged. -/
theorem CPU_Opcode_RRB_spec (n : Machine) :
    stackTop (CPU_Opcode_RRB n)
        = toUChar (((stackTop n).val >>> 1) ||| (bitVal n.cpu.f.c <<< 7))
    ∧ (CPU_Opcode_RRB n).cpu.f.c = toBit ((stackTop n).val &&& 1)
    ∧ (CPU_Opcode_RRB n).cpu.s = n.cpu.s := by
  simp only [CPU_Opcode_RRB, CPU_PopByte_eq, CPU_RRB_eq, CPU_PushByte_eq,
    intToUShort_succ_pred, stackTop, Memory_GetByte_eq, if_true, and_self]

/-- `RRB` after `RLB`, the instruction pointer set to any value in between. -/
theorem CPU_Opcode_RRB_RLB_setI (n : Machine) (i2 : Short) :
    stackTop (CPU_Opcode_RRB ((CPU_Opcode_RLB n).setI i2)) = stackTop n
    ∧ (CPU_Opcode_RRB ((CPU_Opcode_RLB n).setI i2)).cpu.f.c = n.cpu.f.c
    ∧ (CPU_Opcode_RRB ((CPU_Opcode_RLB n).setI i2)).cpu.s = n.cpu.s := by
  have h1 := CPU_Opcode_RLB_spec n
  have h2 := CPU_Opcode_RRB_spec ((CPU_Opcode_RLB n).setI i2)
  have ht : stackTop ((CPU_Opcode_RLB n).setI i2) = stackTop (CPU_Opcode_RLB n) := rfl
  have hc : ((CPU_Opcode_RLB n).setI i2).cpu.f.c = (CPU_Opcode_RLB n).cpu.f.c := rfl
  have hs : ((CPU_Opcode_RLB n).setI i2).cpu.s = (CPU_Opcode_RLB n).cpu.s := rfl
  rw [ht, hc, hs, h1.1, h1.2.1, h1.2.2] at h2
  have hb := rotate_byte_roundtrip (stackTop n) n.cpu.f.c
  rw [hb.1, hb.2] at h2
  exact h2

/-- C17: for every byte `a` and every carry-in `c` (every machine state): `CPU_RLB` on
`a` and then `CPU_RRB` on the result, with the carry left by `CPU_RLB`, returns `a` and
leaves `C = c`; so the handler of `RLB` followed by the handler of `RRB` leaves the
byte on top of the stack, `C` and `S` as they were, and so does executing opcode 0x72
(`RLB`) and then opcode 0x73 (`RRB`). -/
theorem CPU_RLB_RRB_roundtrip (m : Machine) :
    (∀ a : Byte,
      (CPU_RRB (CPU_RLB m a).2 (CPU_RLB m a).1).1 = a
      ∧ (CPU_RRB (CPU_RLB m a).2 (CPU_RLB m a).1).2.cpu.f.c = m.cpu.f.c)
    ∧ (stackTop (CPU_Opcode_RRB (CPU_Opcode_RLB m)) = stackTop m
      ∧ (CPU_Opcode_RRB (CPU_Opcode_RLB m)).cpu.f.c = m.cpu.f.c
      ∧ (CPU_Opcode_RRB (CPU_Opcode_RLB m)).cpu.s = m.cpu.s)
    ∧ (Memory_GetByte m m.cpu.i = 0x72 →
        Memory_GetByte (CPU_Execute m) (CPU_Execute m).cpu.i = 0x73 →
        stackTop (CPU_Execute (CPU_Execute m)) = stackTop m
        ∧ (CPU_Execute (CPU_Execute m)).cpu.f.c = m.cpu.f.c
        ∧ (CPU_Execute (CPU_Execute m)).cpu.s = m.cpu.s) := by
  refine ⟨?_, ?_, ?_⟩
  · intro a
    have hb := rotate_byte_roundtrip a m.cpu.f.c
    simp only [CPU_RLB_eq, CPU_RRB_eq, hb.1, hb.2, and_self]
  · exact CPU_Opcode_RRB_RLB_setI m (CPU_Opcode_RLB m).cpu.i
  · intro h1 h2
    have e1 : CPU_Execute m = CPU_Opcode_RLB (CPU_FetchByte m).2 :=
      CPU_Execute_of_opcode m 0x72 OpcodeFn.RLB h1 (by decide)
    have e2 : CPU_Execute (CPU_Execute m) = CPU_Opcode_RRB (CPU_FetchByte (CPU_Execute m)).2 :=
      CPU_Execute_of_opcode (CPU_Execute m) 0x73 OpcodeFn.RRB h2 (by decide)
    rw [e2, CPU_FetchByte_eq, e1, CPU_FetchByte_eq]
    exact CPU_Opcode_RRB_RLB_setI (m.setI (toUShort (m.cpu.i.val + 1))) _

set_option maxRecDepth 8192 in
/-- The rotate round-trip scenario, evaluated: `RLB` on 0xB5 with the carry set leaves
0x6B and the carry set (bit 7 of 0xB5); `RRB` then leaves 0xB5 and the carry set. -/
theorem CPU_Execute_rotateExample :
    stackTop (CPU_Execute rotateExample) = 0x6B
    ∧ (CPU_Execute rotateExample).cpu.f.c = true
    ∧ stackTop (CPU_Execute (CPU_Execute rotateExample)) = 0xB5
    ∧ (CPU_Execute (CPU_Execute rotateExample)).cpu.f.c = true
    ∧ (CPU_Execute (CPU_Execute rotateExample)).cpu.s = 0x1000 := by
  decide

theorem CPU_IVB_fst (m : Machine) (a : Byte) : (CPU_IVB m a).1 = intToUChar (BITNOT a.val) :=
  rfl

theorem CPU_IVS_fst (m : Machine) (a : Short) : (CPU_IVS m a).1 = intToUShort (BITNOT a.val) :=
  rfl

/-- Inverting a byte twice gives it back. -/
theorem invert_byte_twice (x : Byte) :
    intToUChar (BITNOT (intToUChar (BITNOT x.val)).val) = x := by
  apply Fin.ext
  have h := x.isLt
  simp only [intToUChar_val, BITNOT]
  omega

/-- Inverting a short twice gives it back. -/
theorem invert_short_twice (x : Short) :
    intToUShort (BITNOT (intToUShort (BITNOT x.val)).val) = x := by
  apply Fin.ext
  have h := x.isLt
  simp only [intToUShort_val, BITNOT]
  omega

/-- Two up, then two down, is the address itself. -/
theorem intToUShort_add2_pred2 (a : Short) :
    intToUShort (((toUShort (a.val + 2)).val : Int) - 2) = a := by
  apply Fin.ext
  have h := a.isLt
  simp only [toUShort_val, intToUShort_val]
  omega

/-- What the handler of `IVB` leaves: the inverted byte on top, `S` unchanged. -/
theorem CPU_Opcode_IVB_spec (n : Machine) :
    stackTop (CPU_Opcode_IVB n) = intToUChar (BITNOT (stackTop n).val)
    ∧ (CPU_Opcode_IVB n).cpu.s = n.cpu.s := by
  constructor
  · have h : CPU_Opcode_IVB n = CPU_PushByte (CPU_IVB (CPU_PopByte n).2 (CPU_PopByte n).1).2
        (CPU_IVB (CPU_PopByte n).2 (CPU_PopByte n).1).1 := rfl
    rw [h, stackTop_PushByte, CPU_IVB_fst, CPU_PopByte_eq, stackTop, Memory_GetByte_eq]
  · simp only [CPU_Opcode_IVB, CPU_PopByte_eq, CPU_PushByte_eq, CPU_IVB, Machine.setFZ,
      Machine.setFC, Machine.setFS, Machine.setFV, intToUShort_succ_pred]

/-- What the handler of `IVS` leaves: the inverted short on top, `S` unchanged. -/
theorem CPU_Opcode_IVS_spec (n : Machine) :
    stackTopShort (CPU_Opcode_IVS n) = intToUShort (BITNOT (stackTopShort n).val)
    ∧ (CPU_Opcode_IVS n).cpu.s = n.cpu.s := by
  constructor
  · have h : CPU_Opcode_IVS n = CPU_PushShort (CPU_IVS (CPU_PopShort n).2 (CPU_PopShort n).1).2
        (CPU_IVS (CPU_PopShort n).2 (CPU_PopShort n).1).1 := rfl
    rw [h, stackTopShort_PushShort, CPU_IVS_fst, CPU_PopShort_eq]
    simp only [stackTopShort, Memory_GetShort, Memory_GetByte_eq]
  · simp only [CPU_Opcode_IVS, CPU_PopShort_eq, CPU_PushShort_eq, CPU_IVS, Machine.setFZ,
      Machine.setFC, Machine.setFS, Machine.setFV, intToUShort_add2_pred2]

/-- `IVB` twice, the instruction pointer set to any value in between. -/
theorem CPU_Opcode_IVB_IVB_setI (n : Machine) (i2 : Short) :
    stackTop (CPU_Opcode_IVB ((CPU_Opcode_IVB n).setI i2)) = stackTop n
    ∧ (CPU_Opcode_IVB ((CPU_Opcode_IVB n).setI i2)).cpu.s = n.cpu.s := by
  have h1 := CPU_Opcode_IVB_spec n
  have h2 := CPU_Opcode_IVB_spec ((CPU_Opcode_IVB n).setI i2)
  have ht : stackTop ((CPU_Opcode_IVB n).setI i2) = stackTop (CPU_Opcode_IVB n) := rfl
  have hs : ((CPU_Opcode_IVB n).setI i2).cpu.s = (CPU_Opcode_IVB n).cpu.s := rfl
  rw [ht, hs, h1.1, h1.2, invert_byte_twice] at h2
  exact h2

/-- `IVS` twice, the instruction pointer set to any value in between. -/
theorem CPU_Opcode_IVS_IVS_setI (n : Machine) (i2 : Short) :
    stackTopShort (CPU_Opcode_IVS ((CPU_Opcode_IVS n).setI i2)) = stackTopShort n
    ∧ (CPU_Opcode_IVS ((CPU_Opcode_IVS n).setI i2)).cpu.s = n.cpu.s := by
  have h1 := CPU_Opcode_IVS_spec n
  have h2 := CPU_Opcode_IVS_spec ((CPU_Opcode_IVS n).setI i2)
  have ht : stackTopShort ((CPU_Opcode_IVS n).setI i2) = stackTopShort (CPU_Opcode_IVS n) :=
    rfl
  have hs : ((CPU_Opcode_IVS n).setI i2).cpu.s = (CPU_Opcode_IVS n).cpu.s := rfl
  rw [ht, hs, h1.1, h1.2, invert_short_twice] at h2
  exact h2

/-- C18: for every byte `x`, `CPU_IVB` applied twice returns `x`, and the handler of
`IVB` run twice (also by executing opcode 0x6F twice) leaves the byte on top of the
stack and the stack pointer as they were; the same holds for `CPU_IVS` and the handler
of `IVS` (opcode 0x7D) on every 16-bit `x`.  The flags may differ. -/
theorem CPU_IVB_IVS_involutive (m : Machine) :
    (∀ (m2 : Machine) (x : Byte), (CPU_IVB m2 (CPU_IVB m x).1).1 = x)
    ∧ (stackTop (CPU_Opcode_IVB (CPU_Opcode_IVB m)) = stackTop m
      ∧ (CPU_Opcode_IVB (CPU_Opcode_IVB m)).cpu.s = m.cpu.s)
    ∧ (Memory_GetByte m m.cpu.i = 0x6F →
        Memory_GetByte (CPU_Execute m) (CPU_Execute m).cpu.i = 0x6F →
        stackTop (CPU_Execute (CPU_Execute m)) = stackTop m
        ∧ (CPU_Execute (CPU_Execute m)).cpu.s = m.cpu.s)
    ∧ (∀ (m2 : Machine) (x : Short), (CPU_IVS m2 (CPU_IVS m x).1).1 = x)
    ∧ (stackTopShort (CPU_Opcode_IVS (CPU_Opcode_IVS m)) = stackTopShort m
      ∧ (CPU_Opcode_IVS (CPU_Opcode_IVS m)).cpu.s = m.cpu.s)
    ∧ (Memory_GetByte m m.cpu.i = 0x7D →
        Memory_GetByte (CPU_Execute m) (CPU_Execute m).cpu.i = 0x7D →
        stackTopShort (CPU_Execute (CPU_Execute m)) = stackTopShort m
        ∧ (CPU_Execute (CPU_Execute m)).cpu.s = m.cpu.s) := by
  refine ⟨?_, ?_, ?_, ?_, ?_, ?_⟩
  · intro m2 x
    rw [CPU_IVB_fst, CPU_IVB_fst, invert_byte_twice]
  · exact CPU_Opcode_IVB_IVB_setI m (CPU_Opcode_IVB m).cpu.i
  · intro h1 h2
    have e1 : CPU_Execute m = CPU_Opcode_IVB (CPU_FetchByte m).2 :=
      CPU_Execute_of_opcode m 0x6F OpcodeFn.IVB h1 (by decide)
    have e2 : CPU_Execute (CPU_Execute m) = CPU_Opcode_IVB (CPU_FetchByte (CPU_Execute m)).2 :=
      CPU_Execute_of_opcode (CPU_Execute m) 0x6F OpcodeFn.IVB h2 (by decide)
    rw [e2, CPU_FetchByte_eq, e1, CPU_FetchByte_eq]
    exact CPU_Opcode_IVB_IVB_setI (m.setI (toUShort (m.cpu.i.val + 1))) _
  · intro m2 x
    rw [CPU_IVS_fst, CPU_IVS_fst, invert_short_twice]
  · exact CPU_Opcode_IVS_IVS_setI m (CPU_Opcode_IVS m).cpu.i
  · intro h1 h2
    have e1 : CPU_Execute m = CPU_Opcode_IVS (CPU_FetchByte m).2 :=
      CPU_Execute_of_opcode m 0x7D OpcodeFn.IVS h1 (by decide)
    have e2 : CPU_Execute (CPU_Execute m) = CPU_Opcode_IVS (CPU_FetchByte (CPU_Execute m)).2 :=
      CPU_Execute_of_opcode (CPU_Execute m) 0x7D OpcodeFn.IVS h2 (by decide)
    rw [e2, CPU_FetchByte_eq, e1, CPU_FetchByte_eq]
    exact CPU_Opcode_IVS_IVS_setI (m.setI (toUShort (m.cpu.i.val + 1))) _

set_option maxRecDepth 8192 in
/-- The double inversion scenario, evaluated: `IVB` on 0xB5 leaves 0x4A, a second `IVB`
leaves 0xB5 again, `S = 0x1000` throughout. -/
theorem CPU_Execute_invertExample :
    stackTop (CPU_Execute invertExample) = 0x4A
    ∧ (CPU_Execute invertExample).cpu.s = 0x1000
    ∧ stackTop (CPU_Execute (CPU_Execute invertExample)) = 0xB5
    ∧ (CPU_Execute (CPU_Execute invertExample)).cpu.s = 0x1000 := by
  decide

/-! ## The I/O fabric -/

/-- A read handler looks at the port tables, the disk and the display only. -/
theorem IO_Read_eq_of (m m2 : Machine) (p : Byte)
    (h1 : m2.IO_READ_FUNPTR p = m.IO_READ_FUNPTR p) (h2 : m2.disk = m.disk)
    (h3 : m2.display = m.display) : IO_Read m2 p = IO_Read m p := by
  unfold IO_Read
  rw [h1]
  cases m.IO_READ_FUNPTR p <;>
    simp only [ReadFn.run, IO_READ_DEFAULT, Disk_DataLoPortRead, Disk_DataHiPortRead,
      Disk_StatusPortRead, Display_DataLoRead, Display_DataHiRead, h2, h3]

theorem PeriphOnly.ite_of (c : Prop) [Decidable c] {A B : Machine → Machine}
    (hA : PeriphOnly A) (hB : PeriphOnly B) :
    PeriphOnly (fun m => if c then A m else B m) := by
  intro m m2 h2 h3
  by_cases hc : c
  · simp only [if_pos hc]
    exact hA m m2 h2 h3
  · simp only [if_neg hc]
    exact hB m m2 h2 h3

theorem Disk_CommandPortWrite_periphOnly (v : Byte) :
    PeriphOnly (fun m => Disk_CommandPortWrite m v) := by
  unfold Disk_CommandPortWrite
  simp only []
  repeat' apply PeriphOnly.ite_of
  all_goals
    intro m m2 h2 h3
    obtain ⟨mem2, cpu2, rd2, wr2, dk2, disk2, disp2⟩ := m2
    simp only at h2 h3
    subst h2 h3
    rfl

theorem Display_CommandPortWrite_periphOnly (v : Byte) :
    PeriphOnly (fun m => Display_CommandPortWrite m v) := by
  unfold Display_CommandPortWrite
  simp only []
  repeat' apply PeriphOnly.ite_of
  all_goals
    intro m m2 h2 h3
    obtain ⟨mem2, cpu2, rd2, wr2, dk2, disk2, disp2⟩ := m2
    simp only at h2 h3
    subst h2 h3
    rfl

/-- Every write handler looks at the disk and the display only, and changes nothing
else. -/
theorem WriteFn_run_periphOnly (f : WriteFn) (v : Byte) : PeriphOnly (fun m => f.run m v) := by
  cases f
  · intro m m2 h2 h3
    obtain ⟨mem2, cpu2, rd2, wr2, dk2, disk2, disp2⟩ := m2
    simp only at h2 h3
    subst h2 h3
    rfl
  · exact Disk_CommandPortWrite_periphOnly v
  · intro m m2 h2 h3
    obtain ⟨mem2, cpu2, rd2, wr2, dk2, disk2, disp2⟩ := m2
    simp only at h2 h3
    subst h2 h3
    rfl
  · intro m m2 h2 h3
    obtain ⟨mem2, cpu2, rd2, wr2, dk2, disk2, disp2⟩ := m2
    simp only at h2 h3
    subst h2 h3
    rfl
  · exact Display_CommandPortWrite_periphOnly v
  · intro m m2 h2 h3
    obtain ⟨mem2, cpu2, rd2, wr2, dk2, disk2, disp2⟩ := m2
    simp only at h2 h3
    subst h2 h3
    rfl
  · intro m m2 h2 h3
    obtain ⟨mem2, cpu2, rd2, wr2, dk2, disk2, disp2⟩ := m2
    simp only at h2 h3
    subst h2 h3
    rfl

/-- A port write on a machine `m2` that has the handler of port `p`, the disk and the
display of `m` leaves `m2` with the disk and display the write leaves on `m`. -/
theorem IO_Write_eq_of (m m2 : Machine) (p v : Byte)
    (h1 : m2.IO_WRITE_FUNPTR p = m.IO_WRITE_FUNPTR p) (h2 : m2.disk = m.disk)
    (h3 : m2.display = m.display) :
    IO_Write m2 p v
      = { m2 with disk := (IO_Write m p v).disk, display := (IO_Write m p v).display } := by
  unfold IO_Write
  rw [h1]
  exact WriteFn_run_periphOnly (m.IO_WRITE_FUNPTR p) v m m2 h2 h3

/-- A port write leaves the CPU, memory, the port tables and the disk contents as
they are. -/
theorem IO_Write_frame (m : Machine) (p v : Byte) :
    (IO_Write m p v).cpu = m.cpu ∧ (IO_Write m p v).MEMORY = m.MEMORY
    ∧ (IO_Write m p v).IO_READ_FUNPTR = m.IO_READ_FUNPTR
    ∧ (IO_Write m p v).IO_WRITE_FUNPTR = m.IO_WRITE_FUNPTR
    ∧ (IO_Write m p v).DISK = m.DISK := by
  rw [IO_Write_eq_of m m p v rfl rfl rfl]
  exact ⟨rfl, rfl, rfl, rfl, rfl⟩

/-- Registrations on other ports leave the two table entries of port `p` as they
are. -/
theorem registerAll_tables (rs : List Registration) (m : Machine) (p : Byte)
    (hp : ∀ r ∈ rs, r.port ≠ p) :
    (registerAll rs m).IO_READ_FUNPTR p = m.IO_READ_FUNPTR p
    ∧ (registerAll rs m).IO_WRITE_FUNPTR p = m.IO_WRITE_FUNPTR p := by
  induction rs generalizing m with
  | nil => exact ⟨rfl, rfl⟩
  | cons r rs ih =>
    have hr : r.port ≠ p := hp r (List.mem_cons_self r rs)
    have h := ih (r.apply m) (fun x hx => hp x (List.mem_cons_of_mem r hx))
    rw [registerAll, h.1, h.2]
    cases r with
    | read q f =>
      have hne : p ≠ q := fun e => hr e.symm
      simp [Registration.apply, IO_RegisterRead, hne]
    | write q f =>
      have hne : p ≠ q := fun e => hr e.symm
      simp [Registration.apply, IO_RegisterWrite, hne]

/-- A port whose read entry is the default handler reads 0. -/
theorem IO_Read_default (n : Machine) (p : Byte)
    (h : n.IO_READ_FUNPTR p = ReadFn.IO_READ_DEFAULT) : IO_Read n p = 0 := by
  rw [IO_Read, h]
  rfl

/-- A write to a port whose write entry is the default handler changes nothing. -/
theorem IO_Write_default (n : Machine) (p v : Byte)
    (h : n.IO_WRITE_FUNPTR p = WriteFn.IO_WRITE_DEFAULT) : IO_Write n p v = n := by
  rw [IO_Write, h]
  rfl

/-- A registration on another port does not change what port `p` does. -/
theorem Registration_apply_other (n : Machine) (r : Registration) (p : Byte)
    (hr : r.port ≠ p) :
    IO_Read (r.apply n) p = IO_Read n p
    ∧ ∀ v, IO_Write (r.apply n) p v = r.apply (IO_Write n p v) := by
  have hne : p ≠ r.port := fun e => hr e.symm
  cases r with
  | read q f =>
    have hq : p ≠ q := hne
    constructor
    · exact IO_Read_eq_of n _ p (by simp [Registration.apply, IO_RegisterRead, hq]) rfl rfl
    · intro v
      have hfr := IO_Write_frame n p v
      rw [IO_Write_eq_of n (Registration.apply n (Registration.read q f)) p v rfl rfl rfl]
      simp only [Registration.apply, IO_RegisterRead, hfr.1, hfr.2.1, hfr.2.2.1, hfr.2.2.2.1,
        hfr.2.2.2.2]
  | write q f =>
    have hq : p ≠ q := hne
    constructor
    · exact IO_Read_eq_of n _ p rfl rfl rfl
    · intro v
      have hfr := IO_Write_frame n p v
      rw [IO_Write_eq_of n (Registration.apply n (Registration.write q f)) p v
        (by simp [Registration.apply, IO_RegisterWrite, hq]) rfl rfl]
      simp only [Registration.apply, IO_RegisterWrite, hfr.1, hfr.2.1, hfr.2.2.1, hfr.2.2.2.1,
        hfr.2.2.2.2]

/-- C19: after `IO_Init` and any sequence of registrations none of which is on port
`p`: `IO_Read(p)` returns 0 and `IO_Write(p, v)` changes no state, for every byte `v`
(as on every machine whose entries for `p` are the default handlers); and a
registration on one port does not change the behaviour of any other port `p`: reads of
`p` return the same byte, and writes to `p` have the same effect. -/
theorem IO_unbound_port (m : Machine) (rs : List Registration) (p : Byte)
    (hp : ∀ r ∈ rs, r.port ≠ p) :
    IO_Read (registerAll rs (IO_Init m)) p = 0
    ∧ (∀ v, IO_Write (registerAll rs (IO_Init m)) p v = registerAll rs (IO_Init m))
    ∧ (∀ n : Machine, n.IO_READ_FUNPTR p = ReadFn.IO_READ_DEFAULT → IO_Read n p = 0)
    ∧ (∀ n : Machine, n.IO_WRITE_FUNPTR p = WriteFn.IO_WRITE_DEFAULT →
        ∀ v, IO_Write n p v = n)
    ∧ (∀ (n : Machine) (r : Registration), r.port ≠ p →
        IO_Read (r.apply n) p = IO_Read n p
        ∧ ∀ v, IO_Write (r.apply n) p v = r.apply (IO_Write n p v)) := by
  have ht := registerAll_tables rs (IO_Init m) p hp
  refine ⟨?_, ?_, fun n h => IO_Read_default n p h, fun n h v => IO_Write_default n p v h,
    fun n r hr => Registration_apply_other n r p hr⟩
  · exact IO_Read_default _ p (by rw [ht.1]; rfl)
  · intro v
    exact IO_Write_default _ p v (by rw [ht.2]; rfl)

/-- C19, witness: after `IO_Init` and the registration of two display handlers on
ports 0x31 and 0x30, port 0x20 reads 0 and discards writes. -/
theorem IO_unbound_port_witness :
    (∀ r ∈ [Registration.read 0x31 ReadFn.Display_DataLoRead,
        Registration.write 0x30 WriteFn.Display_CommandPortWrite], r.port ≠ 0x20)
    ∧ IO_Read (registerAll [Registration.read 0x31 ReadFn.Display_DataLoRead,
        Registration.write 0x30 WriteFn.Display_CommandPortWrite] (IO_Init zeroMachine)) 0x20 = 0
    ∧ (∀ v, IO_Write (registerAll [Registration.read 0x31 ReadFn.Display_DataLoRead,
        Registration.write 0x30 WriteFn.Display_CommandPortWrite] (IO_Init zeroMachine)) 0x20 v
        = registerAll [Registration.read 0x31 ReadFn.Display_DataLoRead,
        Registration.write 0x30 WriteFn.Display_CommandPortWrite] (IO_Init zeroMachine)) :=
  have h := IO_unbound_port zeroMachine [Registration.read 0x31 ReadFn.Display_DataLoRead,
    Registration.write 0x30 WriteFn.Display_CommandPortWrite] 0x20 (by decide)
  ⟨by decide, h.1, h.2.1⟩

/-! ## 16-bit port I/O -/

/-- The two fetches of a two-byte instruction: the opcode fetch and the operand
fetch, which yields the byte after the opcode and leaves `I` two further. -/
theorem CPU_FetchByte_operand (m : Machine) :
    CPU_FetchByte (CPU_FetchByte m).2 = (operandByte m, m.setI (toUShort (m.cpu.i.val + 2))) := by
  have e : toUShort ((toUShort (m.cpu.i.val + 1)).val + 1) = toUShort (m.cpu.i.val + 2) := by
    apply Fin.ext
    simp only [toUShort_val]
    omega
  simp only [CPU_FetchByte_eq, operandByte, Memory_GetByte_eq, Machine.setI, e]

/-- Two below, then two up, through the single steps. -/
theorem toUShort_pred_pred_add2 (a : Short) :
    toUShort ((intToUShort (((intToUShort ((a.val : Int) - 1)).val : Int) - 1)).val + 2) = a := by
  apply Fin.ext
  have h := a.isLt
  simp only [toUShort_val, intToUShort_val]
  omega

/-- A pop of a short after the pushes of its high and low byte. -/
theorem CPU_PopShort_PushByte_PushByte (n : Machine) (hi lo : Byte) :
    (CPU_PopShort (CPU_PushByte (CPU_PushByte n hi) lo)).1 = toUShort (TO_SHORT lo.val hi.val)
    ∧ (CPU_PopShort (CPU_PushByte (CPU_PushByte n hi) lo)).2.cpu.s = n.cpu.s := by
  have h1 := toUShort_succ_pred (intToUShort ((n.cpu.s.val : Int) - 1))
  have h2 := intToUShort_pred_ne (intToUShort ((n.cpu.s.val : Int) - 1))
  constructor
  · simp only [CPU_PopShort_eq, CPU_PushByte_eq, h1, if_true, if_neg h2.symm]
  · simp only [CPU_PopShort_eq, CPU_PushByte_eq, toUShort_pred_pred_add2]

/-- The machine an `IPS` at the instruction pointer leaves. -/
theorem CPU_Execute_IPS_eq (m : Machine) (hop : Memory_GetByte m m.cpu.i = 0xB5) :
    CPU_Execute m
      = CPU_PushByte
          (CPU_PushByte (m.setI (toUShort (m.cpu.i.val + 2)))
            (IO_Read m (toUChar ((operandByte m).val + 1))))
          (IO_Read m (operandByte m)) := by
  rw [CPU_Execute_of_opcode m 0xB5 OpcodeFn.IPS hop (by decide)]
  show CPU_Opcode_IPS (CPU_FetchByte m).2 = _
  simp only [CPU_Opcode_IPS, CPU_FetchByte_operand]
  rw [IO_Read_eq_of m (m.setI (toUShort (m.cpu.i.val + 2))) _ rfl rfl rfl,
    IO_Read_eq_of m (CPU_PushByte (m.setI (toUShort (m.cpu.i.val + 2))) _) _ rfl rfl rfl]

/-- The machine an `OPS` at the instruction pointer leaves. -/
theorem CPU_Execute_OPS_eq (m : Machine) (hop : Memory_GetByte m m.cpu.i = 0xB6) :
    CPU_Execute m
      = IO_Write
          (IO_Write ((m.setI (toUShort (m.cpu.i.val + 2))).setS (toUShort (m.cpu.s.val + 2)))
            (operandByte m) (stackTop m))
          (toUChar ((operandByte m).val + 1)) (stackNext m) := by
  have e : toUShort ((toUShort (m.cpu.s.val + 1)).val + 1) = toUShort (m.cpu.s.val + 2) := by
    apply Fin.ext
    simp only [toUShort_val]
    omega
  rw [CPU_Execute_of_opcode m 0xB6 OpcodeFn.OPS hop (by decide)]
  show CPU_Opcode_OPS (CPU_FetchByte m).2 = _
  simp only [CPU_Opcode_OPS, CPU_FetchByte_operand, CPU_PopByte_eq]
  rw [IO_Write_eq_of m ((m.setI (toUShort (m.cpu.i.val + 2))).setS (toUShort (m.cpu.s.val + 2)))
      (operandByte m) (stackTop m) rfl rfl rfl,
    IO_Write_eq_of m
      { m.setI (toUShort (m.cpu.i.val + 2)) with
        cpu := { (m.setI (toUShort (m.cpu.i.val + 2))).cpu with
          s := toUShort ((m.setI (toUShort (m.cpu.i.val + 2))).cpu.s.val + 1) } }
      (operandByte m) ((m.setI (toUShort (m.cpu.i.val + 2))).MEMORY
        (m.setI (toUShort (m.cpu.i.val + 2))).cpu.s) rfl rfl rfl]
  simp only [Machine.setI, Machine.setS, stackTop, stackNext, Memory_GetByte_eq, e]

/-- C15: 16-bit port I/O is little-endian across `(p, p + 1)`, `p + 1` taken modulo 256.
For every machine state with `IPS p` at the instruction pointer (opcode 0xB5, then
`p`): the result is the push of `in(p + 1)` followed by the push of `in(p)`, so a
following `CPU_PopShort` yields `in(p) | (in(p + 1) << 8)` and restores `S`.  For every
state with `OPS p` at the instruction pointer (opcode 0xB6, then `p`): the byte on top
of the stack is written to port `p`, then the next byte to port `p + 1`, `S` rising by
2; so after `CPU_PushShort(v)` an `OPS p` delivers `lo(v)` to `p` and `hi(v)` to
`p + 1`. -/
theorem CPU_Execute_IPS_OPS (m : Machine) :
    (Memory_GetByte m m.cpu.i = 0xB5 →
      CPU_Execute m
        = CPU_PushByte
            (CPU_PushByte (m.setI (toUShort (m.cpu.i.val + 2)))
              (IO_Read m (toUChar ((operandByte m).val + 1))))
            (IO_Read m (operandByte m))
      ∧ (CPU_PopShort (CPU_Execute m)).1
          = toUShort (TO_SHORT (IO_Read m (operandByte m)).val
              (IO_Read m (toUChar ((operandByte m).val + 1))).val)
      ∧ (CPU_PopShort (CPU_Execute m)).1.val
          = (IO_Read m (operandByte m)).val
            + (IO_Read m (toUChar ((operandByte m).val + 1))).val * 256
      ∧ (CPU_PopShort (CPU_Execute m)).2.cpu.s = m.cpu.s)
    ∧ (Memory_GetByte m m.cpu.i = 0xB6 →
      CPU_Execute m
        = IO_Write
            (IO_Write ((m.setI (toUShort (m.cpu.i.val + 2))).setS (toUShort (m.cpu.s.val + 2)))
              (operandByte m) (stackTop m))
            (toUChar ((operandByte m).val + 1)) (stackNext m))
    ∧ (∀ v : Short, Memory_GetByte (CPU_PushShort m v) (CPU_PushShort m v).cpu.i = 0xB6 →
      CPU_Execute (CPU_PushShort m v)
        = IO_Write
            (IO_Write (((CPU_PushShort m v).setI (toUShort (m.cpu.i.val + 2))).setS m.cpu.s)
              (operandByte (CPU_PushShort m v)) (toUChar (v.val % 256)))
            (toUChar ((operandByte (CPU_PushShort m v)).val + 1)) (toUChar (v.val / 256))) := by
  refine ⟨?_, ?_, ?_⟩
  · intro hop
    have heq := CPU_Execute_IPS_eq m hop
    have hpop := CPU_PopShort_PushByte_PushByte (m.setI (toUShort (m.cpu.i.val + 2)))
      (IO_Read m (toUChar ((operandByte m).val + 1))) (IO_Read m (operandByte m))
    rw [← heq] at hpop
    refine ⟨heq, hpop.1, ?_, hpop.2⟩
    rw [hpop.1, toUShort_TO_SHORT]
    omega
  · exact CPU_Execute_OPS_eq m
  · intro v hop
    have heq := CPU_Execute_OPS_eq (CPU_PushShort m v) hop
    have htop : stackTop (CPU_PushShort m v) = toUChar (v.val % 256) := by
      rw [stackTop, Memory_GetByte_eq, CPU_PushShort_eq]
      simp only [if_true, SHORT_LO_eq]
    have hnext : stackNext (CPU_PushShort m v) = toUChar (v.val / 256) := by
      have hne := intToUShort_pred_ne_pred2 m.cpu.s
      rw [stackNext, Memory_GetByte_eq, CPU_PushShort_eq]
      simp only [toUShort_pred2_succ, if_true, if_neg hne, SHORT_HI_eq]
      apply Fin.ext
      simp only [toUChar_val]
      omega
    have hs : toUShort ((CPU_PushShort m v).cpu.s.val + 2) = m.cpu.s := by
      rw [CPU_PushShort_eq]
      exact toUShort_pred2_add2 _
    have hi : (CPU_PushShort m v).cpu.i = m.cpu.i := by
      rw [CPU_PushShort_eq]
    rw [heq, htop, hnext, hs, hi]

set_option maxRecDepth 8192 in
/-- The 16-bit port I/O scenario, evaluated on the display data ports: `OPS 0x31` with
0x34 on top of 0x12 leaves the display data register at 0x1234 (0x34 to port 0x31, 0x12
to port 0x32) and `S = 0x1002`; the `IPS 0x31` that follows pushes 0x12 then 0x34, so
the short on top of the stack is 0x1234 again and `S = 0x1000`. -/
theorem CPU_Execute_opsExample :
    (CPU_Execute opsExample).display.data = 0x1234
    ∧ (CPU_Execute opsExample).cpu.s = 0x1002
    ∧ (CPU_Execute opsExample).cpu.i = 0x0002
    ∧ stackTop (CPU_Execute (CPU_Execute opsExample)) = 0x34
    ∧ stackNext (CPU_Execute (CPU_Execute opsExample)) = 0x12
    ∧ (CPU_PopShort (CPU_Execute (CPU_Execute opsExample))).1 = 0x1234
    ∧ (CPU_Execute (CPU_Execute opsExample)).cpu.s = 0x1000 := by
  decide

/-! ## Initialisation and the disk ports -/

/-- The layout of the status byte: bit 0 is `intEnable`, bit 1 `ready`, bit 2
`operation`. -/
theorem DiskStatus_value_bits (st : DiskStatus) :
    st.value.val.testBit 0 = st.intEnable
    ∧ st.value.val.testBit 1 = st.ready
    ∧ st.value.val.testBit 2 = st.operation := by
  obtain ⟨b0, b1, b2, u⟩ := st
  have hu := u.isLt
  simp only [DiskStatus.value, toUChar_val, Nat.testBit_to_div_mod]
  cases b0 <;> cases b1 <;> cases b2 <;> simp only [bitVal] <;>
    refine ⟨?_, ?_, ?_⟩ <;> simp <;> omega

/-- What the disk port functions do when they are called: the data ports read back
the byte written, the status port presents the status byte. -/
theorem Disk_port_functions (n : Machine) (v : Byte) :
    Disk_DataLoPortRead (Disk_DataLoPortWrite n v) = v
    ∧ Disk_DataHiPortRead (Disk_DataHiPortWrite n v) = v
    ∧ (Disk_StatusPortRead n).val.testBit 0 = n.disk.status.intEnable
    ∧ (Disk_StatusPortRead n).val.testBit 1 = n.disk.status.ready
    ∧ (Disk_StatusPortRead n).val.testBit 2 = n.disk.status.operation := by
  have hb := DiskStatus_value_bits n.disk.status
  have hv := v.isLt
  have hd := n.disk.data.isLt
  refine ⟨?_, ?_, hb.1, hb.2.1, hb.2.2⟩
  · apply Fin.ext
    simp only [Disk_DataLoPortRead, Disk_DataLoPortWrite, unionLo, unionSetLo, toUChar_val,
      toUShort_val]
    omega
  · apply Fin.ext
    simp only [Disk_DataHiPortRead, Disk_DataHiPortWrite, unionHi, unionSetHi, toUChar_val,
      toUShort_val]
    omega

/-- C20 (the code at its failing input): `Disk_Init` registers no port function, so
after the initialisation of `SDL_AppInit` (`IO_Init`, `Disk_Init`, `Display_Init`, all
succeeding) ports 0x20..0x23 still have the default handlers: a byte written to 0x21 or
0x22 is discarded and reads back as 0, a command written to 0x20 changes nothing, and
0x23 reads 0 although the disk status has `ready = 1` (bit 1 of the status byte set). -/
theorem SDL_AppInit_disk_ports (m : Machine) :
    ∃ m0, SDL_AppInit true true m = some m0
      ∧ (m0.IO_WRITE_FUNPTR DISK_PORT_COMMAND = WriteFn.IO_WRITE_DEFAULT
        ∧ m0.IO_WRITE_FUNPTR DISK_PORT_DATA_LO = WriteFn.IO_WRITE_DEFAULT
        ∧ m0.IO_WRITE_FUNPTR DISK_PORT_DATA_HI = WriteFn.IO_WRITE_DEFAULT
        ∧ m0.IO_READ_FUNPTR DISK_PORT_DATA_LO = ReadFn.IO_READ_DEFAULT
        ∧ m0.IO_READ_FUNPTR DISK_PORT_DATA_HI = ReadFn.IO_READ_DEFAULT
        ∧ m0.IO_READ_FUNPTR DISK_PORT_STATUS = ReadFn.IO_READ_DEFAULT)
      ∧ (∀ v, IO_Read (IO_Write m0 DISK_PORT_DATA_LO v) DISK_PORT_DATA_LO = 0)
      ∧ (∀ v, IO_Read (IO_Write m0 DISK_PORT_DATA_HI v) DISK_PORT_DATA_HI = 0)
      ∧ (∀ c, IO_Write m0 DISK_PORT_COMMAND c = m0)
      ∧ IO_Read m0 DISK_PORT_STATUS = 0
      ∧ m0.disk.status.ready = true
      ∧ (Disk_StatusPortRead m0).val.testBit 1 = true := by
  refine ⟨_, rfl, ⟨rfl, rfl, rfl, rfl, rfl, rfl⟩, ?_, ?_, ?_, ?_, rfl, ?_⟩
  · intro v
    rw [IO_Write_default _ _ v rfl]
    exact IO_Read_default _ _ rfl
  · intro v
    rw [IO_Write_default _ _ v rfl]
    exact IO_Read_default _ _ rfl
  · intro c
    exact IO_Write_default _ _ c rfl
  · exact IO_Read_default _ _ rfl
  · rw [(Disk_port_functions _ 0).2.2.2.1]
    rfl

set_option maxRecDepth 8192 in
/-- The failing input of C20, evaluated from the zero machine: after initialisation,
`out(0x21, 0x5A); in(0x21)` returns 0, not 0x5A; `in(0x23)` returns 0, not a byte with
bit 1 set; the display port 0x31, which `Display_Init` does register, reads back the
byte written. -/
theorem SDL_AppInit_zeroMachine :
    ∃ m0, SDL_AppInit true true zeroMachine = some m0
      ∧ IO_Read (IO_Write m0 0x21 0x5A) 0x21 = 0x00
      ∧ IO_Read (IO_Write m0 0x22 0x5A) 0x22 = 0x00
      ∧ IO_Read m0 0x23 = 0x00
      ∧ IO_Read (IO_Write m0 0x31 0x5A) 0x31 = 0x5A :=
  ⟨_, rfl, by decide⟩

/-! ## The defined opcodes -/

set_option maxRecDepth 16384 in
/-- The table entries that are not `CPU_Opcode_NO` are exactly those of the opcodes
0x00..0xB6. -/
theorem CPU_Opcode_defined_iff :
    ∀ j : Fin 256, CPU_Opcode.getD j.val OpcodeFn.NO ≠ OpcodeFn.NO ↔ j.val ≤ 0xB6 := by
  decide

set_option maxRecDepth 16384 in
/-- There are 183 table entries that are not `CPU_Opcode_NO`. -/
theorem CPU_Opcode_defined_count :
    (CPU_Opcode.filter (fun f => decide (f ≠ OpcodeFn.NO))).length = 183 := by
  decide

set_option maxRecDepth 8192 in
/-- C11, counterexample: opcode 0xB4 lies in the range 0xB4..0xFF of the claim, but
its table entry is `CPU_Opcode_OPB`, not `CPU_Opcode_NO`.  On the `OPB 0x20` scenario
`CPU_Execute` pops the stack (`S` goes from 0x1000 to 0x1001) and advances `I` by 2:
it is not the no-op that advances `I` by 1. -/
theorem CPU_Execute_OPB_defined :
    0xB4 ≤ (0xB4 : Byte).val
    ∧ Memory_GetByte opbExample opbExample.cpu.i = 0xB4
    ∧ CPU_Opcode.getD 0xB4 OpcodeFn.NO = OpcodeFn.OPB
    ∧ opbExample.cpu.s = 0x1000
    ∧ (CPU_Execute opbExample).cpu.s = 0x1001
    ∧ (CPU_Execute opbExample).cpu.i = 0x0002
    ∧ CPU_Execute opbExample ≠ opbExample.setI (toUShort (opbExample.cpu.i.val + 1)) := by
  refine ⟨by decide, by decide, by decide, by decide, by decide, by decide, ?_⟩
  intro h
  have h2 : (CPU_Execute opbExample).cpu.s
      = (opbExample.setI (toUShort (opbExample.cpu.i.val + 1))).cpu.s := by rw [h]
  revert h2
  decide

/-- C11 (amended): exactly the first 183 opcodes (0x00..0xB6) are defined: the table
entry of opcode `j` differs from `CPU_Opcode_NO` if and only if `j ≤ 0xB6`, 183 entries
in all, and the entries 0xB3..0xB6 are `IPB`, `OPB`, `IPS`, `OPS`.  For every opcode
byte `k` in 0xB7..0xFF, `CPU_Execute` on `k` is a no-op that changes nothing but `I`,
which advances by 1 modulo `2^16`. -/
theorem CPU_Execute_defined_range (m : Machine) (k : Byte) (hk : 0xB7 ≤ k.val)
    (hop : Memory_GetByte m m.cpu.i = k) :
    (∀ j : Byte, CPU_Opcode.getD j.val OpcodeFn.NO ≠ OpcodeFn.NO ↔ j.val ≤ 0xB6)
    ∧ (CPU_Opcode.filter (fun f => decide (f ≠ OpcodeFn.NO))).length = 183
    ∧ CPU_Opcode.getD 0xB3 OpcodeFn.NO = OpcodeFn.IPB
    ∧ CPU_Opcode.getD 0xB4 OpcodeFn.NO = OpcodeFn.OPB
    ∧ CPU_Opcode.getD 0xB5 OpcodeFn.NO = OpcodeFn.IPS
    ∧ CPU_Opcode.getD 0xB6 OpcodeFn.NO = OpcodeFn.OPS
    ∧ CPU_Opcode.getD k.val OpcodeFn.NO = OpcodeFn.NO
    ∧ CPU_Execute m = m.setI (toUShort (m.cpu.i.val + 1))
    ∧ (CPU_Execute m).cpu.i.val = (m.cpu.i.val + 1) % 2 ^ 16 := by
  have hex : CPU_Execute m = m.setI (toUShort (m.cpu.i.val + 1)) := by
    rw [CPU_Execute_of_opcode m k OpcodeFn.NO hop (CPU_Opcode_NO_range k hk), CPU_FetchByte_eq]
    rfl
  refine ⟨CPU_Opcode_defined_iff, CPU_Opcode_defined_count, by decide, by decide, by decide,
    by decide, CPU_Opcode_NO_range k hk, hex, ?_⟩
  rw [hex]
  rfl

/-- C11 (amended), witness: the first unused opcode 0xB7 at `I = 0x0200`. -/
theorem CPU_Execute_defined_range_witness :
    0xB7 ≤ (0xB7 : Byte).val
    ∧ Memory_GetByte firstUnusedExample firstUnusedExample.cpu.i = 0xB7
    ∧ CPU_Opcode.getD (0xB7 : Byte).val OpcodeFn.NO = OpcodeFn.NO
    ∧ CPU_Execute firstUnusedExample
        = firstUnusedExample.setI (toUShort (firstUnusedExample.cpu.i.val + 1)) :=
  ⟨by decide, by decide,
    (CPU_Execute_defined_range firstUnusedExample 0xB7 (by decide) (by decide)).2.2.2.2.2.2.1,
    (CPU_Execute_defined_range firstUnusedExample 0xB7 (by decide) (by decide)).2.2.2.2.2.2.2.1⟩

set_option maxRecDepth 8192 in
/-- The first-unused-opcode example, evaluated: `I` goes from 0x0200 to 0x0201, `A` and
`S` keep their values. -/
theorem CPU_Execute_firstUnusedExample :
    (CPU_Execute firstUnusedExample).cpu.i = 0x0201
    ∧ (CPU_Execute firstUnusedExample).cpu.a = 0x1234
    ∧ (CPU_Execute firstUnusedExample).cpu.s = 0x1000 := by
  decide

/-! ## The halt flag

`CPU_Execute` never reads the halt flag `H`; only `HT` and `POF` write it and only `PUF`
reads it.  The lemmas below show, handler by handler, that setting `H` before an
instruction is the same as setting it after. -/

theorem IO_Read_setFH (n : Machine) (p : Byte) (x : Nat) :
    IO_Read (n.setFH x) p = IO_Read n p :=
  IO_Read_eq_of n (n.setFH x) p rfl rfl rfl

theorem IO_Write_setFH (n : Machine) (p v : Byte) (x : Nat) :
    IO_Write (n.setFH x) p v = (IO_Write n p v).setFH x := by
  rw [IO_Write_eq_of n (n.setFH x) p v rfl rfl rfl]
  conv_rhs => rw [IO_Write_eq_of n n p v rfl rfl rfl]
  rfl

theorem CPU_Util_CondJM_setFH (n : Machine) (c : Byte) (x : Nat) :
    CPU_Util_CondJM (n.setFH x) c = (CPU_Util_CondJM n c).setFH x := by
  unfold CPU_Util_CondJM
  by_cases h : c.val ≠ 0
  · simp only [if_pos h]
    rfl
  · simp only [if_neg h]
    rfl

theorem CPU_Util_CondCA_setFH (n : Machine) (c : Byte) (x : Nat) :
    CPU_Util_CondCA (n.setFH x) c = (CPU_Util_CondCA n c).setFH x := by
  unfold CPU_Util_CondCA
  by_cases h : c.val ≠ 0
  · simp only [if_pos h]
    rfl
  · simp only [if_neg h]
    rfl

theorem CPU_Opcode_LDAI_setFH (m : Machine) (x : Nat) :
    CPU_Opcode_LDAI (m.setFH x) = (CPU_Opcode_LDAI m).setFH x := rfl

theorem CPU_Opcode_LDBI_setFH (m : Machine) (x : Nat) :
    CPU_Opcode_LDBI (m.setFH x) = (CPU_Opcode_LDBI m).setFH x := rfl

theorem CPU_Opcode_LDSI_setFH (m : Machine) (x : Nat) :
    CPU_Opcode_LDSI (m.setFH x) = (CPU_Opcode_LDSI m).setFH x := rfl

theorem CPU_Opcode_LDAD_setFH (m : Machine) (x : Nat) :
    CPU_Opcode_LDAD (m.setFH x) = (CPU_Opcode_LDAD m).setFH x := rfl

theorem CPU_Opcode_LDBD_setFH (m : Machine) (x : Nat) :
    CPU_Opcode_LDBD (m.setFH x) = (CPU_Opcode_LDBD m).setFH x := rfl

theorem CPU_Opcode_LDSD_setFH (m : Machine) (x : Nat) :
    CPU_Opcode_LDSD (m.setFH x) = (CPU_Opcode_LDSD m).setFH x := rfl

theorem CPU_Opcode_LDARA_setFH (m : Machine) (x : Nat) :
    CPU_Opcode_LDARA (m.setFH x) = (CPU_Opcode_LDARA m).setFH x := rfl

theorem CPU_Opcode_LDBRA_setFH (m : Machine) (x : Nat) :
    CPU_Opcode_LDBRA (m.setFH x) = (CPU_Opcode_LDBRA m).setFH x := rfl

theorem CPU_Opcode_LDSRA_setFH (m : Machine) (x : Nat) :
    CPU_Opcode_LDSRA (m.setFH x) = (CPU_Opcode_LDSRA m).setFH x := rfl

theorem CPU_Opcode_LDARB_setFH (m : Machine) (x : Nat) :
    CPU_Opcode_LDARB (m.setFH x) = (CPU_Opcode_LDARB m).setFH x := rfl

theorem CPU_Opcode_LDBRB_setFH (m : Machine) (x : Nat) :
    CPU_Opcode_LDBRB (m.setFH x) = (CPU_Opcode_LDBRB m).setFH x := rfl

theorem CPU_Opcode_LDSRB_setFH (m : Machine) (x : Nat) :
    CPU_Opcode_LDSRB (m.setFH x) = (CPU_Opcode_LDSRB m).setFH x := rfl

theorem CPU_Opcode_LDAXA_setFH (m : Machine) (x : Nat) :
    CPU_Opcode_LDAXA (m.setFH x) = (CPU_Opcode_LDAXA m).setFH x := rfl

theorem CPU_Opcode_LDBXA_setFH (m : Machine) (x : Nat) :
    CPU_Opcode_LDBXA (m.setFH x) = (CPU_Opcode_LDBXA m).setFH x := rfl

theorem CPU_Opcode_LDSXA_setFH (m : Machine) (x : Nat) :
    CPU_Opcode_LDSXA (m.setFH x) = (CPU_Opcode_LDSXA m).setFH x := rfl

theorem CPU_Opcode_LDAXB_setFH (m : Machine) (x : Nat) :
    CPU_Opcode_LDAXB (m.setFH x) = (CPU_Opcode_LDAXB m).setFH x := rfl

theorem CPU_Opcode_LDBXB_setFH (m : Machine) (x : Nat) :
    CPU_Opcode_LDBXB (m.setFH x) = (CPU_Opcode_LDBXB m).setFH x := rfl

theorem CPU_Opcode_LDSXB_setFH (m : Machine) (x : Nat) :
    CPU_Opcode_LDSXB (m.setFH x) = (CPU_Opcode_LDSXB m).setFH x := rfl

theorem CPU_Opcode_LDAYA_setFH (m : Machine) (x : Nat) :
    CPU_Opcode_LDAYA (m.setFH x) = (CPU_Opcode_LDAYA m).setFH x := rfl

theorem CPU_Opcode_LDBYA_setFH (m : Machine) (x : Nat) :
    CPU_Opcode_LDBYA (m.setFH x) = (CPU_Opcode_LDBYA m).setFH x := rfl

theorem CPU_Opcode_LDSYA_setFH (m : Machine) (x : Nat) :
    CPU_Opcode_LDSYA (m.setFH x) = (CPU_Opcode_LDSYA m).setFH x := rfl

theorem CPU_Opcode_LDAYB_setFH (m : Machine) (x : Nat) :
    CPU_Opcode_LDAYB (m.setFH x) = (CPU_Opcode_LDAYB m).setFH x := rfl

theorem CPU_Opcode_LDBYB_setFH (m : Machine) (x : Nat) :
    CPU_Opcode_LDBYB (m.setFH x) = (CPU_Opcode_LDBYB m).setFH x := rfl

theorem CPU_Opcode_LDSYB_setFH (m : Machine) (x : Nat) :
    CPU_Opcode_LDSYB (m.setFH x) = (CPU_Opcode_LDSYB m).setFH x := rfl

theorem CPU_Opcode_STAD_setFH (m : Machine) (x : Nat) :
    CPU_Opcode_STAD (m.setFH x) = (CPU_Opcode_STAD m).setFH x := rfl

theorem CPU_Opcode_STBD_setFH (m : Machine) (x : Nat) :
    CPU_Opcode_STBD (m.setFH x) = (CPU_Opcode_STBD m).setFH x := rfl

theorem CPU_Opcode_STSD_setFH (m : Machine) (x : Nat) :
    CPU_Opcode_STSD (m.setFH x) = (CPU_Opcode_STSD m).setFH x := rfl

theorem CPU_Opcode_STARA_setFH (m : Machine) (x : Nat) :
    CPU_Opcode_STARA (m.setFH x) = (CPU_Opcode_STARA m).setFH x := rfl

theorem CPU_Opcode_STBRA_setFH (m : Machine) (x : Nat) :
    CPU_Opcode_STBRA (m.setFH x) = (CPU_Opcode_STBRA m).setFH x := rfl

theorem CPU_Opcode_STSRA_setFH (m : Machine) (x : Nat) :
    CPU_Opcode_STSRA (m.setFH x) = (CPU_Opcode_STSRA m).setFH x := rfl

theorem CPU_Opcode_STARB_setFH (m : Machine) (x : Nat) :
    CPU_Opcode_STARB (m.setFH x) = (CPU_Opcode_STARB m).setFH x := rfl

theorem CPU_Opcode_STBRB_setFH (m : Machine) (x : Nat) :
    CPU_Opcode_STBRB (m.setFH x) = (CPU_Opcode_STBRB m).setFH x := rfl

theorem CPU_Opcode_STSRB_setFH (m : Machine) (x : Nat) :
    CPU_Opcode_STSRB (m.setFH x) = (CPU_Opcode_STSRB m).setFH x := rfl

theorem CPU_Opcode_STAXA_setFH (m : Machine) (x : Nat) :
    CPU_Opcode_STAXA (m.setFH x) = (CPU_Opcode_STAXA m).setFH x := rfl

theorem CPU_Opcode_STBXA_setFH (m : Machine) (x : Nat) :
    CPU_Opcode_STBXA (m.setFH x) = (CPU_Opcode_STBXA m).setFH x := rfl

theorem CPU_Opcode_STSXA_setFH (m : Machine) (x : Nat) :
    CPU_Opcode_STSXA (m.setFH x) = (CPU_Opcode_STSXA m).setFH x := rfl

theorem CPU_Opcode_STAXB_setFH (m : Machine) (x : Nat) :
    CPU_Opcode_STAXB (m.setFH x) = (CPU_Opcode_STAXB m).setFH x := rfl

theorem CPU_Opcode_STBXB_setFH (m : Machine) (x : Nat) :
    CPU_Opcode_STBXB (m.setFH x) = (CPU_Opcode_STBXB m).setFH x := rfl

theorem CPU_Opcode_STSXB_setFH (m : Machine) (x : Nat) :
    CPU_Opcode_STSXB (m.setFH x) = (CPU_Opcode_STSXB m).setFH x := rfl

theorem CPU_Opcode_STAYA_setFH (m : Machine) (x : Nat) :
    CPU_Opcode_STAYA (m.setFH x) = (CPU_Opcode_STAYA m).setFH x := rfl

theorem CPU_Opcode_STBYA_setFH (m : Machine) (x : Nat) :
    CPU_Opcode_STBYA (m.setFH x) = (CPU_Opcode_STBYA m).setFH x := rfl

theorem CPU_Opcode_STSYA_setFH (m : Machine) (x : Nat) :
    CPU_Opcode_STSYA (m.setFH x) = (CPU_Opcode_STSYA m).setFH x := rfl

theorem CPU_Opcode_STAYB_setFH (m : Machine) (x : Nat) :
    CPU_Opcode_STAYB (m.setFH x) = (CPU_Opcode_STAYB m).setFH x := rfl

theorem CPU_Opcode_STBYB_setFH (m : Machine) (x : Nat) :
    CPU_Opcode_STBYB (m.setFH x) = (CPU_Opcode_STBYB m).setFH x := rfl

theorem CPU_Opcode_STSYB_setFH (m : Machine) (x : Nat) :
    CPU_Opcode_STSYB (m.setFH x) = (CPU_Opcode_STSYB m).setFH x := rfl

theorem CPU_Opcode_MVAB_setFH (m : Machine) (x : Nat) :
    CPU_Opcode_MVAB (m.setFH x) = (CPU_Opcode_MVAB m).setFH x := rfl

theorem CPU_Opcode_MVAS_setFH (m : Machine) (x : Nat) :
    CPU_Opcode_MVAS (m.setFH x) = (CPU_Opcode_MVAS m).setFH x := rfl

theorem CPU_Opcode_MVAI_setFH (m : Machine) (x : Nat) :
    CPU_Opcode_MVAI (m.setFH x) = (CPU_Opcode_MVAI m).setFH x := rfl

theorem CPU_Opcode_MVBA_setFH (m : Machine) (x : Nat) :
    CPU_Opcode_MVBA (m.setFH x) = (CPU_Opcode_MVBA m).setFH x := rfl

theorem CPU_Opcode_MVBS_setFH (m : Machine) (x : Nat) :
    CPU_Opcode_MVBS (m.setFH x) = (CPU_Opcode_MVBS m).setFH x := rfl

theorem CPU_Opcode_MVBI_setFH (m : Machine) (x : Nat) :
    CPU_Opcode_MVBI (m.setFH x) = (CPU_Opcode_MVBI m).setFH x := rfl

theorem CPU_Opcode_MVSA_setFH (m : Machine) (x : Nat) :
    CPU_Opcode_MVSA (m.setFH x) = (CPU_Opcode_MVSA m).setFH x := rfl

theorem CPU_Opcode_MVSB_setFH (m : Machine) (x : Nat) :
    CPU_Opcode_MVSB (m.setFH x) = (CPU_Opcode_MVSB m).setFH x := rfl

theorem CPU_Opcode_MVSI_setFH (m : Machine) (x : Nat) :
    CPU_Opcode_MVSI (m.setFH x) = (CPU_Opcode_MVSI m).setFH x := rfl

theorem CPU_Opcode_MVIA_setFH (m : Machine) (x : Nat) :
    CPU_Opcode_MVIA (m.setFH x) = (CPU_Opcode_MVIA m).setFH x := rfl

theorem CPU_Opcode_MVIB_setFH (m : Machine) (x : Nat) :
    CPU_Opcode_MVIB (m.setFH x) = (CPU_Opcode_MVIB m).setFH x := rfl

theorem CPU_Opcode_MVIS_setFH (m : Machine) (x : Nat) :
    CPU_Opcode_MVIS (m.setFH x) = (CPU_Opcode_MVIS m).setFH x := rfl

theorem CPU_Opcode_PUBI_setFH (m : Machine) (x : Nat) :
    CPU_Opcode_PUBI (m.setFH x) = (CPU_Opcode_PUBI m).setFH x := rfl

theorem CPU_Opcode_PUBD_setFH (m : Machine) (x : Nat) :
    CPU_Opcode_PUBD (m.setFH x) = (CPU_Opcode_PUBD m).setFH x := rfl

theorem CPU_Opcode_PUBRA_setFH (m : Machine) (x : Nat) :
    CPU_Opcode_PUBRA (m.setFH x) = (CPU_Opcode_PUBRA m).setFH x := rfl

theorem CPU_Opcode_PUBRB_setFH (m : Machine) (x : Nat) :
    CPU_Opcode_PUBRB (m.setFH x) = (CPU_Opcode_PUBRB m).setFH x := rfl

theorem CPU_Opcode_PUBXA_setFH (m : Machine) (x : Nat) :
    CPU_Opcode_PUBXA (m.setFH x) = (CPU_Opcode_PUBXA m).setFH x := rfl

theorem CPU_Opcode_PUBXB_setFH (m : Machine) (x : Nat) :
    CPU_Opcode_PUBXB (m.setFH x) = (CPU_Opcode_PUBXB m).setFH x := rfl

theorem CPU_Opcode_PUBYA_setFH (m : Machine) (x : Nat) :
    CPU_Opcode_PUBYA (m.setFH x) = (CPU_Opcode_PUBYA m).setFH x := rfl

theorem CPU_Opcode_PUBYB_setFH (m : Machine) (x : Nat) :
    CPU_Opcode_PUBYB (m.setFH x) = (CPU_Opcode_PUBYB m).setFH x := rfl

theorem CPU_Opcode_PUSI_setFH (m : Machine) (x : Nat) :
    CPU_Opcode_PUSI (m.setFH x) = (CPU_Opcode_PUSI m).setFH x := rfl

theorem CPU_Opcode_PUSD_setFH (m : Machine) (x : Nat) :
    CPU_Opcode_PUSD (m.setFH x) = (CPU_Opcode_PUSD m).setFH x := rfl

theorem CPU_Opcode_PUSRA_setFH (m : Machine) (x : Nat) :
    CPU_Opcode_PUSRA (m.setFH x) = (CPU_Opcode_PUSRA m).setFH x := rfl

theorem CPU_Opcode_PUSRB_setFH (m : Machine) (x : Nat) :
    CPU_Opcode_PUSRB (m.setFH x) = (CPU_Opcode_PUSRB m).setFH x := rfl

theorem CPU_Opcode_PUSXA_setFH (m : Machine) (x : Nat) :
    CPU_Opcode_PUSXA (m.setFH x) = (CPU_Opcode_PUSXA m).setFH x := rfl

theorem CPU_Opcode_PUSXB_setFH (m : Machine) (x : Nat) :
    CPU_Opcode_PUSXB (m.setFH x) = (CPU_Opcode_PUSXB m).setFH x := rfl

theorem CPU_Opcode_PUSYA_setFH (m : Machine) (x : Nat) :
    CPU_Opcode_PUSYA (m.setFH x) = (CPU_Opcode_PUSYA m).setFH x := rfl

theorem CPU_Opcode_PUSYB_setFH (m : Machine) (x : Nat) :
    CPU_Opcode_PUSYB (m.setFH x) = (CPU_Opcode_PUSYB m).setFH x := rfl

theorem CPU_Opcode_PUA_setFH (m : Machine) (x : Nat) :
    CPU_Opcode_PUA (m.setFH x) = (CPU_Opcode_PUA m).setFH x := rfl

theorem CPU_Opcode_PUB_setFH (m : Machine) (x : Nat) :
    CPU_Opcode_PUB (m.setFH x) = (CPU_Opcode_PUB m).setFH x := rfl

theorem CPU_Opcode_PUS_setFH (m : Machine) (x : Nat) :
    CPU_Opcode_PUS (m.setFH x) = (CPU_Opcode_PUS m).setFH x := rfl

theorem CPU_Opcode_PUI_setFH (m : Machine) (x : Nat) :
    CPU_Opcode_PUI (m.setFH x) = (CPU_Opcode_PUI m).setFH x := rfl

theorem CPU_Opcode_POBD_setFH (m : Machine) (x : Nat) :
    CPU_Opcode_POBD (m.setFH x) = (CPU_Opcode_POBD m).setFH x := rfl

theorem CPU_Opcode_POBRA_setFH (m : Machine) (x : Nat) :
    CPU_Opcode_POBRA (m.setFH x) = (CPU_Opcode_POBRA m).setFH x := rfl

theorem CPU_Opcode_POBRB_setFH (m : Machine) (x : Nat) :
    CPU_Opcode_POBRB (m.setFH x) = (CPU_Opcode_POBRB m).setFH x := rfl

theorem CPU_Opcode_POBXA_setFH (m : Machine) (x : Nat) :
    CPU_Opcode_POBXA (m.setFH x) = (CPU_Opcode_POBXA m).setFH x := rfl

theorem CPU_Opcode_POBXB_setFH (m : Machine) (x : Nat) :
    CPU_Opcode_POBXB (m.setFH x) = (CPU_Opcode_POBXB m).setFH x := rfl

theorem CPU_Opcode_POBYA_setFH (m : Machine) (x : Nat) :
    CPU_Opcode_POBYA (m.setFH x) = (CPU_Opcode_POBYA m).setFH x := rfl

theorem CPU_Opcode_POBYB_setFH (m : Machine) (x : Nat) :
    CPU_Opcode_POBYB (m.setFH x) = (CPU_Opcode_POBYB m).setFH x := rfl

theorem CPU_Opcode_POSD_setFH (m : Machine) (x : Nat) :
    CPU_Opcode_POSD (m.setFH x) = (CPU_Opcode_POSD m).setFH x := rfl

theorem CPU_Opcode_POSRA_setFH (m : Machine) (x : Nat) :
    CPU_Opcode_POSRA (m.setFH x) = (CPU_Opcode_POSRA m).setFH x := rfl

theorem CPU_Opcode_POSRB_setFH (m : Machine) (x : Nat) :
    CPU_Opcode_POSRB (m.setFH x) = (CPU_Opcode_POSRB m).setFH x := rfl

theorem CPU_Opcode_POSXA_setFH (m : Machine) (x : Nat) :
    CPU_Opcode_POSXA (m.setFH x) = (CPU_Opcode_POSXA m).setFH x := rfl

theorem CPU_Opcode_POSXB_setFH (m : Machine) (x : Nat) :
    CPU_Opcode_POSXB (m.setFH x) = (CPU_Opcode_POSXB m).setFH x := rfl

theorem CPU_Opcode_POSYA_setFH (m : Machine) (x : Nat) :
    CPU_Opcode_POSYA (m.setFH x) = (CPU_Opcode_POSYA m).setFH x := rfl

theorem CPU_Opcode_POSYB_setFH (m : Machine) (x : Nat) :
    CPU_Opcode_POSYB (m.setFH x) = (CPU_Opcode_POSYB m).setFH x := rfl

theorem CPU_Opcode_POA_setFH (m : Machine) (x : Nat) :
    CPU_Opcode_POA (m.setFH x) = (CPU_Opcode_POA m).setFH x := rfl

theorem CPU_Opcode_POB_setFH (m : Machine) (x : Nat) :
    CPU_Opcode_POB (m.setFH x) = (CPU_Opcode_POB m).setFH x := rfl

theorem CPU_Opcode_POS_setFH (m : Machine) (x : Nat) :
    CPU_Opcode_POS (m.setFH x) = (CPU_Opcode_POS m).setFH x := rfl

theorem CPU_Opcode_POI_setFH (m : Machine) (x : Nat) :
    CPU_Opcode_POI (m.setFH x) = (CPU_Opcode_POI m).setFH x := rfl

theorem CPU_Opcode_DTS_setFH (m : Machine) (x : Nat) :
    CPU_Opcode_DTS (m.setFH x) = (CPU_Opcode_DTS m).setFH x := rfl

theorem CPU_Opcode_STS_setFH (m : Machine) (x : Nat) :
    CPU_Opcode_STS (m.setFH x) = (CPU_Opcode_STS m).setFH x := rfl

theorem CPU_Opcode_IRA_setFH (m : Machine) (x : Nat) :
    CPU_Opcode_IRA (m.setFH x) = (CPU_Opcode_IRA m).setFH x := rfl

theorem CPU_Opcode_IRB_setFH (m : Machine) (x : Nat) :
    CPU_Opcode_IRB (m.setFH x) = (CPU_Opcode_IRB m).setFH x := rfl

theorem CPU_Opcode_IRS_setFH (m : Machine) (x : Nat) :
    CPU_Opcode_IRS (m.setFH x) = (CPU_Opcode_IRS m).setFH x := rfl

theorem CPU_Opcode_DRA_setFH (m : Machine) (x : Nat) :
    CPU_Opcode_DRA (m.setFH x) = (CPU_Opcode_DRA m).setFH x := rfl

theorem CPU_Opcode_DRB_setFH (m : Machine) (x : Nat) :
    CPU_Opcode_DRB (m.setFH x) = (CPU_Opcode_DRB m).setFH x := rfl

theorem CPU_Opcode_DRS_setFH (m : Machine) (x : Nat) :
    CPU_Opcode_DRS (m.setFH x) = (CPU_Opcode_DRS m).setFH x := rfl

theorem CPU_Opcode_ADB_setFH (m : Machine) (x : Nat) :
    CPU_Opcode_ADB (m.setFH x) = (CPU_Opcode_ADB m).setFH x := rfl

theorem CPU_Opcode_SUB_setFH (m : Machine) (x : Nat) :
    CPU_Opcode_SUB (m.setFH x) = (CPU_Opcode_SUB m).setFH x := rfl

theorem CPU_Opcode_ANB_setFH (m : Machine) (x : Nat) :
    CPU_Opcode_ANB (m.setFH x) = (CPU_Opcode_ANB m).setFH x := rfl

theorem CPU_Opcode_ORB_setFH (m : Machine) (x : Nat) :
    CPU_Opcode_ORB (m.setFH x) = (CPU_Opcode_ORB m).setFH x := rfl

theorem CPU_Opcode_XRB_setFH (m : Machine) (x : Nat) :
    CPU_Opcode_XRB (m.setFH x) = (CPU_Opcode_XRB m).setFH x := rfl

theorem CPU_Opcode_CPB_setFH (m : Machine) (x : Nat) :
    CPU_Opcode_CPB (m.setFH x) = (CPU_Opcode_CPB m).setFH x := rfl

theorem CPU_Opcode_IVB_setFH (m : Machine) (x : Nat) :
    CPU_Opcode_IVB (m.setFH x) = (CPU_Opcode_IVB m).setFH x := rfl

theorem CPU_Opcode_ICB_setFH (m : Machine) (x : Nat) :
    CPU_Opcode_ICB (m.setFH x) = (CPU_Opcode_ICB m).setFH x := rfl

theorem CPU_Opcode_DCB_setFH (m : Machine) (x : Nat) :
    CPU_Opcode_DCB (m.setFH x) = (CPU_Opcode_DCB m).setFH x := rfl

theorem CPU_Opcode_RLB_setFH (m : Machine) (x : Nat) :
    CPU_Opcode_RLB (m.setFH x) = (CPU_Opcode_RLB m).setFH x := rfl

theorem CPU_Opcode_RRB_setFH (m : Machine) (x : Nat) :
    CPU_Opcode_RRB (m.setFH x) = (CPU_Opcode_RRB m).setFH x := rfl

theorem CPU_Opcode_SLB_setFH (m : Machine) (x : Nat) :
    CPU_Opcode_SLB (m.setFH x) = (CPU_Opcode_SLB m).setFH x := rfl

theorem CPU_Opcode_SRB_setFH (m : Machine) (x : Nat) :
    CPU_Opcode_SRB (m.setFH x) = (CPU_Opcode_SRB m).setFH x := rfl

theorem CPU_Opcode_SAB_setFH (m : Machine) (x : Nat) :
    CPU_Opcode_SAB (m.setFH x) = (CPU_Opcode_SAB m).setFH x := rfl

theorem CPU_Opcode_ADS_setFH (m : Machine) (x : Nat) :
    CPU_Opcode_ADS (m.setFH x) = (CPU_Opcode_ADS m).setFH x := rfl

theorem CPU_Opcode_SUS_setFH (m : Machine) (x : Nat) :
    CPU_Opcode_SUS (m.setFH x) = (CPU_Opcode_SUS m).setFH x := rfl

theorem CPU_Opcode_ANS_setFH (m : Machine) (x : Nat) :
    CPU_Opcode_ANS (m.setFH x) = (CPU_Opcode_ANS m).setFH x := rfl

theorem CPU_Opcode_ORS_setFH (m : Machine) (x : Nat) :
    CPU_Opcode_ORS (m.setFH x) = (CPU_Opcode_ORS m).setFH x := rfl

theorem CPU_Opcode_XRS_setFH (m : Machine) (x : Nat) :
    CPU_Opcode_XRS (m.setFH x) = (CPU_Opcode_XRS m).setFH x := rfl

theorem CPU_Opcode_CPS_setFH (m : Machine) (x : Nat) :
    CPU_Opcode_CPS (m.setFH x) = (CPU_Opcode_CPS m).setFH x := rfl

theorem CPU_Opcode_IVS_setFH (m : Machine) (x : Nat) :
    CPU_Opcode_IVS (m.setFH x) = (CPU_Opcode_IVS m).setFH x := rfl

theorem CPU_Opcode_ICS_setFH (m : Machine) (x : Nat) :
    CPU_Opcode_ICS (m.setFH x) = (CPU_Opcode_ICS m).setFH x := rfl

theorem CPU_SUS_setFH (n : Machine) (a b : Short) (x : Nat) :
    CPU_SUS (n.setFH x) a b = ((CPU_SUS n a b).1, (CPU_SUS n a b).2.setFH x) := rfl

theorem CPU_Opcode_DCS_setFH (m : Machine) (x : Nat) :
    CPU_Opcode_DCS (m.setFH x) = (CPU_Opcode_DCS m).setFH x := by
  have h := CPU_SUS_setFH ((CPU_PopShort m).2.setFC 1) (CPU_PopShort m).1 (toUShort 1) x
  have e : CPU_Opcode_DCS (m.setFH x)
      = CPU_PushShort (CPU_SUS (((CPU_PopShort m).2.setFC 1).setFH x) (CPU_PopShort m).1
          (toUShort 1)).2
        (CPU_SUS (((CPU_PopShort m).2.setFC 1).setFH x) (CPU_PopShort m).1 (toUShort 1)).1 := rfl
  rw [e, h]
  rfl

theorem CPU_Opcode_RLS_setFH (m : Machine) (x : Nat) :
    CPU_Opcode_RLS (m.setFH x) = (CPU_Opcode_RLS m).setFH x := rfl

theorem CPU_Opcode_RRS_setFH (m : Machine) (x : Nat) :
    CPU_Opcode_RRS (m.setFH x) = (CPU_Opcode_RRS m).setFH x := rfl

theorem CPU_Opcode_SLS_setFH (m : Machine) (x : Nat) :
    CPU_Opcode_SLS (m.setFH x) = (CPU_Opcode_SLS m).setFH x := rfl

theorem CPU_Opcode_SRS_setFH (m : Machine) (x : Nat) :
    CPU_Opcode_SRS (m.setFH x) = (CPU_Opcode_SRS m).setFH x := rfl

theorem CPU_Opcode_SAS_setFH (m : Machine) (x : Nat) :
    CPU_Opcode_SAS (m.setFH x) = (CPU_Opcode_SAS m).setFH x := rfl

theorem CPU_Opcode_SFZ_setFH (m : Machine) (x : Nat) :
    CPU_Opcode_SFZ (m.setFH x) = (CPU_Opcode_SFZ m).setFH x := rfl

theorem CPU_Opcode_SFC_setFH (m : Machine) (x : Nat) :
    CPU_Opcode_SFC (m.setFH x) = (CPU_Opcode_SFC m).setFH x := rfl

theorem CPU_Opcode_SFS_setFH (m : Machine) (x : Nat) :
    CPU_Opcode_SFS (m.setFH x) = (CPU_Opcode_SFS m).setFH x := rfl

theorem CPU_Opcode_SFV_setFH (m : Machine) (x : Nat) :
    CPU_Opcode_SFV (m.setFH x) = (CPU_Opcode_SFV m).setFH x := rfl

theorem CPU_Opcode_CFZ_setFH (m : Machine) (x : Nat) :
    CPU_Opcode_CFZ (m.setFH x) = (CPU_Opcode_CFZ m).setFH x := rfl

theorem CPU_Opcode_CFC_setFH (m : Machine) (x : Nat) :
    CPU_Opcode_CFC (m.setFH x) = (CPU_Opcode_CFC m).setFH x := rfl

theorem CPU_Opcode_CFS_setFH (m : Machine) (x : Nat) :
    CPU_Opcode_CFS (m.setFH x) = (CPU_Opcode_CFS m).setFH x := rfl

theorem CPU_Opcode_CFV_setFH (m : Machine) (x : Nat) :
    CPU_Opcode_CFV (m.setFH x) = (CPU_Opcode_CFV m).setFH x := rfl

theorem CPU_Opcode_EI_setFH (m : Machine) (x : Nat) :
    CPU_Opcode_EI (m.setFH x) = (CPU_Opcode_EI m).setFH x := rfl

theorem CPU_Opcode_DI_setFH (m : Machine) (x : Nat) :
    CPU_Opcode_DI (m.setFH x) = (CPU_Opcode_DI m).setFH x := rfl

theorem CPU_Opcode_JM_setFH (m : Machine) (x : Nat) :
    CPU_Opcode_JM (m.setFH x) = (CPU_Opcode_JM m).setFH x := rfl

theorem CPU_Opcode_CA_setFH (m : Machine) (x : Nat) :
    CPU_Opcode_CA (m.setFH x) = (CPU_Opcode_CA m).setFH x := rfl

theorem CPU_Opcode_RT_setFH (m : Machine) (x : Nat) :
    CPU_Opcode_RT (m.setFH x) = (CPU_Opcode_RT m).setFH x := rfl

theorem CPU_Opcode_SIA_setFH (m : Machine) (x : Nat) :
    CPU_Opcode_SIA (m.setFH x) = (CPU_Opcode_SIA m).setFH x := rfl

theorem CPU_Opcode_SIB_setFH (m : Machine) (x : Nat) :
    CPU_Opcode_SIB (m.setFH x) = (CPU_Opcode_SIB m).setFH x := rfl

theorem CPU_Opcode_SIC_setFH (m : Machine) (x : Nat) :
    CPU_Opcode_SIC (m.setFH x) = (CPU_Opcode_SIC m).setFH x := rfl

theorem CPU_Opcode_SID_setFH (m : Machine) (x : Nat) :
    CPU_Opcode_SID (m.setFH x) = (CPU_Opcode_SID m).setFH x := rfl

theorem CPU_Opcode_SIE_setFH (m : Machine) (x : Nat) :
    CPU_Opcode_SIE (m.setFH x) = (CPU_Opcode_SIE m).setFH x := rfl

theorem CPU_Opcode_SIF_setFH (m : Machine) (x : Nat) :
    CPU_Opcode_SIF (m.setFH x) = (CPU_Opcode_SIF m).setFH x := rfl

theorem CPU_Opcode_SIG_setFH (m : Machine) (x : Nat) :
    CPU_Opcode_SIG (m.setFH x) = (CPU_Opcode_SIG m).setFH x := rfl

theorem CPU_Opcode_SIH_setFH (m : Machine) (x : Nat) :
    CPU_Opcode_SIH (m.setFH x) = (CPU_Opcode_SIH m).setFH x := rfl

theorem CPU_Opcode_JMZ_setFH (m : Machine) (x : Nat) :
    CPU_Opcode_JMZ (m.setFH x) = (CPU_Opcode_JMZ m).setFH x :=
  CPU_Util_CondJM_setFH m _ x

theorem CPU_Opcode_JMC_setFH (m : Machine) (x : Nat) :
    CPU_Opcode_JMC (m.setFH x) = (CPU_Opcode_JMC m).setFH x :=
  CPU_Util_CondJM_setFH m _ x

theorem CPU_Opcode_JMS_setFH (m : Machine) (x : Nat) :
    CPU_Opcode_JMS (m.setFH x) = (CPU_Opcode_JMS m).setFH x :=
  CPU_Util_CondJM_setFH m _ x

theorem CPU_Opcode_JMV_setFH (m : Machine) (x : Nat) :
    CPU_Opcode_JMV (m.setFH x) = (CPU_Opcode_JMV m).setFH x :=
  CPU_Util_CondJM_setFH m _ x

theorem CPU_Opcode_JMNZ_setFH (m : Machine) (x : Nat) :
    CPU_Opcode_JMNZ (m.setFH x) = (CPU_Opcode_JMNZ m).setFH x :=
  CPU_Util_CondJM_setFH m _ x

theorem CPU_Opcode_JMNC_setFH (m : Machine) (x : Nat) :
    CPU_Opcode_JMNC (m.setFH x) = (CPU_Opcode_JMNC m).setFH x :=
  CPU_Util_CondJM_setFH m _ x

theorem CPU_Opcode_JMNS_setFH (m : Machine) (x : Nat) :
    CPU_Opcode_JMNS (m.setFH x) = (CPU_Opcode_JMNS m).setFH x :=
  CPU_Util_CondJM_setFH m _ x

theorem CPU_Opcode_JMNV_setFH (m : Machine) (x : Nat) :
    CPU_Opcode_JMNV (m.setFH x) = (CPU_Opcode_JMNV m).setFH x :=
  CPU_Util_CondJM_setFH m _ x

theorem CPU_Opcode_CAZ_setFH (m : Machine) (x : Nat) :
    CPU_Opcode_CAZ (m.setFH x) = (CPU_Opcode_CAZ m).setFH x :=
  CPU_Util_CondCA_setFH m _ x

theorem CPU_Opcode_CAC_setFH (m : Machine) (x : Nat) :
    CPU_Opcode_CAC (m.setFH x) = (CPU_Opcode_CAC m).setFH x :=
  CPU_Util_CondCA_setFH m _ x

theorem CPU_Opcode_CAS_setFH (m : Machine) (x : Nat) :
    CPU_Opcode_CAS (m.setFH x) = (CPU_Opcode_CAS m).setFH x :=
  CPU_Util_CondCA_setFH m _ x

theorem CPU_Opcode_CAV_setFH (m : Machine) (x : Nat) :
    CPU_Opcode_CAV (m.setFH x) = (CPU_Opcode_CAV m).setFH x :=
  CPU_Util_CondCA_setFH m _ x

theorem CPU_Opcode_CANZ_setFH (m : Machine) (x : Nat) :
    CPU_Opcode_CANZ (m.setFH x) = (CPU_Opcode_CANZ m).setFH x :=
  CPU_Util_CondCA_setFH m _ x

theorem CPU_Opcode_CANC_setFH (m : Machine) (x : Nat) :
    CPU_Opcode_CANC (m.setFH x) = (CPU_Opcode_CANC m).setFH x :=
  CPU_Util_CondCA_setFH m _ x

theorem CPU_Opcode_CANS_setFH (m : Machine) (x : Nat) :
    CPU_Opcode_CANS (m.setFH x) = (CPU_Opcode_CANS m).setFH x :=
  CPU_Util_CondCA_setFH m _ x

theorem CPU_Opcode_CANV_setFH (m : Machine) (x : Nat) :
    CPU_Opcode_CANV (m.setFH x) = (CPU_Opcode_CANV m).setFH x :=
  CPU_Util_CondCA_setFH m _ x

theorem CPU_Opcode_RTZ_setFH (m : Machine) (x : Nat) :
    CPU_Opcode_RTZ (m.setFH x) = (CPU_Opcode_RTZ m).setFH x := by
  unfold CPU_Opcode_RTZ
  cases hf : m.cpu.f.z
  · have hf2 : (m.setFH x).cpu.f.z = false := hf
    simp only [hf2]
    rfl
  · have hf2 : (m.setFH x).cpu.f.z = true := hf
    simp only [hf2]
    rfl

theorem CPU_Opcode_RTC_setFH (m : Machine) (x : Nat) :
    CPU_Opcode_RTC (m.setFH x) = (CPU_Opcode_RTC m).setFH x := by
  unfold CPU_Opcode_RTC
  cases hf : m.cpu.f.c
  · have hf2 : (m.setFH x).cpu.f.c = false := hf
    simp only [hf2]
    rfl
  · have hf2 : (m.setFH x).cpu.f.c = true := hf
    simp only [hf2]
    rfl

theorem CPU_Opcode_RTS_setFH (m : Machine) (x : Nat) :
    CPU_Opcode_RTS (m.setFH x) = (CPU_Opcode_RTS m).setFH x := by
  unfold CPU_Opcode_RTS
  cases hf : m.cpu.f.s
  · have hf2 : (m.setFH x).cpu.f.s = false := hf
    simp only [hf2]
    rfl
  · have hf2 : (m.setFH x).cpu.f.s = true := hf
    simp only [hf2]
    rfl

theorem CPU_Opcode_RTV_setFH (m : Machine) (x : Nat) :
    CPU_Opcode_RTV (m.setFH x) = (CPU_Opcode_RTV m).setFH x := by
  unfold CPU_Opcode_RTV
  cases hf : m.cpu.f.v
  · have hf2 : (m.setFH x).cpu.f.v = false := hf
    simp only [hf2]
    rfl
  · have hf2 : (m.setFH x).cpu.f.v = true := hf
    simp only [hf2]
    rfl

theorem CPU_Opcode_RTNZ_setFH (m : Machine) (x : Nat) :
    CPU_Opcode_RTNZ (m.setFH x) = (CPU_Opcode_RTNZ m).setFH x := by
  unfold CPU_Opcode_RTNZ
  cases hf : m.cpu.f.z
  · have hf2 : (m.setFH x).cpu.f.z = false := hf
    simp only [hf2]
    rfl
  · have hf2 : (m.setFH x).cpu.f.z = true := hf
    simp only [hf2]
    rfl

theorem CPU_Opcode_RTNC_setFH (m : Machine) (x : Nat) :
    CPU_Opcode_RTNC (m.setFH x) = (CPU_Opcode_RTNC m).setFH x := by
  unfold CPU_Opcode_RTNC
  cases hf : m.cpu.f.c
  · have hf2 : (m.setFH x).cpu.f.c = false := hf
    simp only [hf2]
    rfl
  · have hf2 : (m.setFH x).cpu.f.c = true := hf
    simp only [hf2]
    rfl

theorem CPU_Opcode_RTNS_setFH (m : Machine) (x : Nat) :
    CPU_Opcode_RTNS (m.setFH x) = (CPU_Opcode_RTNS m).setFH x := by
  unfold CPU_Opcode_RTNS
  cases hf : m.cpu.f.s
  · have hf2 : (m.setFH x).cpu.f.s = false := hf
    simp only [hf2]
    rfl
  · have hf2 : (m.setFH x).cpu.f.s = true := hf
    simp only [hf2]
    rfl

theorem CPU_Opcode_RTNV_setFH (m : Machine) (x : Nat) :
    CPU_Opcode_RTNV (m.setFH x) = (CPU_Opcode_RTNV m).setFH x := by
  unfold CPU_Opcode_RTNV
  cases hf : m.cpu.f.v
  · have hf2 : (m.setFH x).cpu.f.v = false := hf
    simp only [hf2]
    rfl
  · have hf2 : (m.setFH x).cpu.f.v = true := hf
    simp only [hf2]
    rfl

theorem CPU_Opcode_IPB_setFH (m : Machine) (x : Nat) :
    CPU_Opcode_IPB (m.setFH x) = (CPU_Opcode_IPB m).setFH x := by
  show CPU_PushByte ((CPU_FetchByte m).2.setFH x)
      (IO_Read ((CPU_FetchByte m).2.setFH x) (CPU_FetchByte m).1) = _
  rw [IO_Read_setFH]
  rfl

theorem CPU_Opcode_OPB_setFH (m : Machine) (x : Nat) :
    CPU_Opcode_OPB (m.setFH x) = (CPU_Opcode_OPB m).setFH x :=
  IO_Write_setFH (CPU_PopByte (CPU_FetchByte m).2).2 (CPU_FetchByte m).1
    (CPU_PopByte (CPU_FetchByte m).2).1 x

theorem CPU_Opcode_IPS_setFH (m : Machine) (x : Nat) :
    CPU_Opcode_IPS (m.setFH x) = (CPU_Opcode_IPS m).setFH x := by
  show CPU_PushByte
      (CPU_PushByte ((CPU_FetchByte m).2.setFH x)
        (IO_Read ((CPU_FetchByte m).2.setFH x) (toUChar ((CPU_FetchByte m).1.val + 1))))
      (IO_Read
        ((CPU_PushByte (CPU_FetchByte m).2
          (IO_Read ((CPU_FetchByte m).2.setFH x) (toUChar ((CPU_FetchByte m).1.val + 1)))).setFH x)
        (CPU_FetchByte m).1) = _
  rw [IO_Read_setFH, IO_Read_setFH]
  rfl

theorem CPU_Opcode_OPS_setFH (m : Machine) (x : Nat) :
    CPU_Opcode_OPS (m.setFH x) = (CPU_Opcode_OPS m).setFH x := by
  show IO_Write
      (CPU_PopByte (IO_Write ((CPU_PopByte (CPU_FetchByte m).2).2.setFH x) (CPU_FetchByte m).1
        (CPU_PopByte (CPU_FetchByte m).2).1)).2
      (toUChar ((CPU_FetchByte m).1.val + 1))
      (CPU_PopByte (IO_Write ((CPU_PopByte (CPU_FetchByte m).2).2.setFH x) (CPU_FetchByte m).1
        (CPU_PopByte (CPU_FetchByte m).2).1)).1 = _
  rw [IO_Write_setFH]
  exact IO_Write_setFH
    (CPU_PopByte (IO_Write (CPU_PopByte (CPU_FetchByte m).2).2 (CPU_FetchByte m).1
      (CPU_PopByte (CPU_FetchByte m).2).1)).2 _ _ x

theorem CPU_Opcode_NO_setFH (m : Machine) (x : Nat) :
    CPU_Opcode_NO (m.setFH x) = (CPU_Opcode_NO m).setFH x := rfl

/-- Every table entry other than `PUF`, `POF` and `HT` commutes with setting `H`. -/
theorem OpcodeFn_run_setFH (f : OpcodeFn) (h1 : f ≠ OpcodeFn.PUF) (h2 : f ≠ OpcodeFn.POF)
    (h3 : f ≠ OpcodeFn.HT) (n : Machine) (x : Nat) :
    f.run (n.setFH x) = (f.run n).setFH x := by
  cases f
  · exact CPU_Opcode_LDAI_setFH n x
  · exact CPU_Opcode_LDBI_setFH n x
  · exact CPU_Opcode_LDSI_setFH n x
  · exact CPU_Opcode_LDAD_setFH n x
  · exact CPU_Opcode_LDBD_setFH n x
  · exact CPU_Opcode_LDSD_setFH n x
  · exact CPU_Opcode_LDARA_setFH n x
  · exact CPU_Opcode_LDBRA_setFH n x
  · exact CPU_Opcode_LDSRA_setFH n x
  · exact CPU_Opcode_LDARB_setFH n x
  · exact CPU_Opcode_LDBRB_setFH n x
  · exact CPU_Opcode_LDSRB_setFH n x
  · exact CPU_Opcode_LDAXA_setFH n x
  · exact CPU_Opcode_LDBXA_setFH n x
  · exact CPU_Opcode_LDSXA_setFH n x
  · exact CPU_Opcode_LDAXB_setFH n x
  · exact CPU_Opcode_LDBXB_setFH n x
  · exact CPU_Opcode_LDSXB_setFH n x
  · exact CPU_Opcode_LDAYA_setFH n x
  · exact CPU_Opcode_LDBYA_setFH n x
  · exact CPU_Opcode_LDSYA_setFH n x
  · exact CPU_Opcode_LDAYB_setFH n x
  · exact CPU_Opcode_LDBYB_setFH n x
  · exact CPU_Opcode_LDSYB_setFH n x
  · exact CPU_Opcode_STAD_setFH n x
  · exact CPU_Opcode_STBD_setFH n x
  · exact CPU_Opcode_STSD_setFH n x
  · exact CPU_Opcode_STARA_setFH n x
  · exact CPU_Opcode_STBRA_setFH n x
  · exact CPU_Opcode_STSRA_setFH n x
  · exact CPU_Opcode_STARB_setFH n x
  · exact CPU_Opcode_STBRB_setFH n x
  · exact CPU_Opcode_STSRB_setFH n x
  · exact CPU_Opcode_STAXA_setFH n x
  · exact CPU_Opcode_STBXA_setFH n x
  · exact CPU_Opcode_STSXA_setFH n x
  · exact CPU_Opcode_STAXB_setFH n x
  · exact CPU_Opcode_STBXB_setFH n x
  · exact CPU_Opcode_STSXB_setFH n x
  · exact CPU_Opcode_STAYA_setFH n x
  · exact CPU_Opcode_STBYA_setFH n x
  · exact CPU_Opcode_STSYA_setFH n x
  · exact CPU_Opcode_STAYB_setFH n x
  · exact CPU_Opcode_STBYB_setFH n x
  · exact CPU_Opcode_STSYB_setFH n x
  · exact CPU_Opcode_MVAB_setFH n x
  · exact CPU_Opcode_MVAS_setFH n x
  · exact CPU_Opcode_MVAI_setFH n x
  · exact CPU_Opcode_MVBA_setFH n x
  · exact CPU_Opcode_MVBS_setFH n x
  · exact CPU_Opcode_MVBI_setFH n x
  · exact CPU_Opcode_MVSA_setFH n x
  · exact CPU_Opcode_MVSB_setFH n x
  · exact CPU_Opcode_MVSI_setFH n x
  · exact CPU_Opcode_MVIA_setFH n x
  · exact CPU_Opcode_MVIB_setFH n x
  · exact CPU_Opcode_MVIS_setFH n x
  · exact CPU_Opcode_PUBI_setFH n x
  · exact CPU_Opcode_PUBD_setFH n x
  · exact CPU_Opcode_PUBRA_setFH n x
  · exact CPU_Opcode_PUBRB_setFH n x
  · exact CPU_Opcode_PUBXA_setFH n x
  · exact CPU_Opcode_PUBXB_setFH n x
  · exact CPU_Opcode_PUBYA_setFH n x
  · exact CPU_Opcode_PUBYB_setFH n x
  · exact CPU_Opcode_PUSI_setFH n x
  · exact CPU_Opcode_PUSD_setFH n x
  · exact CPU_Opcode_PUSRA_setFH n x
  · exact CPU_Opcode_PUSRB_setFH n x
  · exact CPU_Opcode_PUSXA_setFH n x
  · exact CPU_Opcode_PUSXB_setFH n x
  · exact CPU_Opcode_PUSYA_setFH n x
  · exact CPU_Opcode_PUSYB_setFH n x
  · exact CPU_Opcode_PUA_setFH n x
  · exact CPU_Opcode_PUB_setFH n x
  · exact CPU_Opcode_PUS_setFH n x
  · exact CPU_Opcode_PUI_setFH n x
  · exact absurd rfl h1
  · exact CPU_Opcode_POBD_setFH n x
  · exact CPU_Opcode_POBRA_setFH n x
  · exact CPU_Opcode_POBRB_setFH n x
  · exact CPU_Opcode_POBXA_setFH n x
  · exact CPU_Opcode_POBXB_setFH n x
  · exact CPU_Opcode_POBYA_setFH n x
  · exact CPU_Opcode_POBYB_setFH n x
  · exact CPU_Opcode_POSD_setFH n x
  · exact CPU_Opcode_POSRA_setFH n x
  · exact CPU_Opcode_POSRB_setFH n x
  · exact CPU_Opcode_POSXA_setFH n x
  · exact CPU_Opcode_POSXB_setFH n x
  · exact CPU_Opcode_POSYA_setFH n x
  · exact CPU_Opcode_POSYB_setFH n x
  · exact CPU_Opcode_POA_setFH n x
  · exact CPU_Opcode_POB_setFH n x
  · exact CPU_Opcode_POS_setFH n x
  · exact CPU_Opcode_POI_setFH n x
  · exact absurd rfl h2
  · exact CPU_Opcode_DTS_setFH n x
  · exact CPU_Opcode_STS_setFH n x
  · exact CPU_Opcode_IRA_setFH n x
  · exact CPU_Opcode_IRB_setFH n x
  · exact CPU_Opcode_IRS_setFH n x
  · exact CPU_Opcode_DRA_setFH n x
  · exact CPU_Opcode_DRB_setFH n x
  · exact CPU_Opcode_DRS_setFH n x
  · exact CPU_Opcode_ADB_setFH n x
  · exact CPU_Opcode_SUB_setFH n x
  · exact CPU_Opcode_ANB_setFH n x
  · exact CPU_Opcode_ORB_setFH n x
  · exact CPU_Opcode_XRB_setFH n x
  · exact CPU_Opcode_CPB_setFH n x
  · exact CPU_Opcode_IVB_setFH n x
  · exact CPU_Opcode_ICB_setFH n x
  · exact CPU_Opcode_DCB_setFH n x
  · exact CPU_Opcode_RLB_setFH n x
  · exact CPU_Opcode_RRB_setFH n x
  · exact CPU_Opcode_SLB_setFH n x
  · exact CPU_Opcode_SRB_setFH n x
  · exact CPU_Opcode_SAB_setFH n x
  · exact CPU_Opcode_ADS_setFH n x
  · exact CPU_Opcode_SUS_setFH n x
  · exact CPU_Opcode_ANS_setFH n x
  · exact CPU_Opcode_ORS_setFH n x
  · exact CPU_Opcode_XRS_setFH n x
  · exact CPU_Opcode_CPS_setFH n x
  · exact CPU_Opcode_IVS_setFH n x
  · exact CPU_Opcode_ICS_setFH n x
  · exact CPU_Opcode_DCS_setFH n x
  · exact CPU_Opcode_RLS_setFH n x
  · exact CPU_Opcode_RRS_setFH n x
  · exact CPU_Opcode_SLS_setFH n x
  · exact CPU_Opcode_SRS_setFH n x
  · exact CPU_Opcode_SAS_setFH n x
  · exact CPU_Opcode_SFZ_setFH n x
  · exact CPU_Opcode_SFC_setFH n x
  · exact CPU_Opcode_SFS_setFH n x
  · exact CPU_Opcode_SFV_setFH n x
  · exact CPU_Opcode_CFZ_setFH n x
  · exact CPU_Opcode_CFC_setFH n x
  · exact CPU_Opcode_CFS_setFH n x
  · exact CPU_Opcode_CFV_setFH n x
  · exact CPU_Opcode_EI_setFH n x
  · exact CPU_Opcode_DI_setFH n x
  · exact absurd rfl h3
  · exact CPU_Opcode_JM_setFH n x
  · exact CPU_Opcode_CA_setFH n x
  · exact CPU_Opcode_RT_setFH n x
  · exact CPU_Opcode_SIA_setFH n x
  · exact CPU_Opcode_SIB_setFH n x
  · exact CPU_Opcode_SIC_setFH n x
  · exact CPU_Opcode_SID_setFH n x
  · exact CPU_Opcode_SIE_setFH n x
  · exact CPU_Opcode_SIF_setFH n x
  · exact CPU_Opcode_SIG_setFH n x
  · exact CPU_Opcode_SIH_setFH n x
  · exact CPU_Opcode_JMZ_setFH n x
  · exact CPU_Opcode_JMC_setFH n x
  · exact CPU_Opcode_JMS_setFH n x
  · exact CPU_Opcode_JMV_setFH n x
  · exact CPU_Opcode_JMNZ_setFH n x
  · exact CPU_Opcode_JMNC_setFH n x
  · exact CPU_Opcode_JMNS_setFH n x
  · exact CPU_Opcode_JMNV_setFH n x
  · exact CPU_Opcode_CAZ_setFH n x
  · exact CPU_Opcode_CAC_setFH n x
  · exact CPU_Opcode_CAS_setFH n x
  · exact CPU_Opcode_CAV_setFH n x
  · exact CPU_Opcode_CANZ_setFH n x
  · exact CPU_Opcode_CANC_setFH n x
  · exact CPU_Opcode_CANS_setFH n x
  · exact CPU_Opcode_CANV_setFH n x
  · exact CPU_Opcode_RTZ_setFH n x
  · exact CPU_Opcode_RTC_setFH n x
  · exact CPU_Opcode_RTS_setFH n x
  · exact CPU_Opcode_RTV_setFH n x
  · exact CPU_Opcode_RTNZ_setFH n x
  · exact CPU_Opcode_RTNC_setFH n x
  · exact CPU_Opcode_RTNS_setFH n x
  · exact CPU_Opcode_RTNV_setFH n x
  · exact CPU_Opcode_IPB_setFH n x
  · exact CPU_Opcode_OPB_setFH n x
  · exact CPU_Opcode_IPS_setFH n x
  · exact CPU_Opcode_OPS_setFH n x
  · exact CPU_Opcode_NO_setFH n x
set_option maxRecDepth 16384 in
/-- The instructions `PUF`, `POF` and `HT` have the opcodes 0x4D, 0x60 and 0x8F only. -/
theorem CPU_Opcode_PUF_POF_HT :
    ∀ k : Fin 256, (CPU_Opcode.getD k.val OpcodeFn.NO = OpcodeFn.PUF → k.val = 0x4D)
      ∧ (CPU_Opcode.getD k.val OpcodeFn.NO = OpcodeFn.POF → k.val = 0x60)
      ∧ (CPU_Opcode.getD k.val OpcodeFn.NO = OpcodeFn.HT → k.val = 0x8F) := by
  decide

/-- Setting `H` before executing an instruction other than `PUF`, `POF`, `HT` is the
same as setting it after. -/
theorem CPU_Execute_setFH (m : Machine) (k : Byte) (x : Nat)
    (hop : Memory_GetByte m m.cpu.i = k) (h1 : k.val ≠ 0x4D) (h2 : k.val ≠ 0x60)
    (h3 : k.val ≠ 0x8F) :
    CPU_Execute (m.setFH x) = (CPU_Execute m).setFH x := by
  have hop2 : Memory_GetByte (m.setFH x) (m.setFH x).cpu.i = k := hop
  rw [CPU_Execute_of_opcode m k _ hop rfl, CPU_Execute_of_opcode (m.setFH x) k _ hop2 rfl]
  exact OpcodeFn_run_setFH _ (fun e => h1 ((CPU_Opcode_PUF_POF_HT k).1 e))
    (fun e => h2 ((CPU_Opcode_PUF_POF_HT k).2.1 e))
    (fun e => h3 ((CPU_Opcode_PUF_POF_HT k).2.2 e)) (CPU_FetchByte m).2 x

/-- The instruction `HT` sets `H` and changes nothing else but `I`. -/
theorem CPU_Execute_HT (m : Machine) (hop : (Memory_GetByte m m.cpu.i).val = 0x8F) :
    CPU_Execute m = (m.setI (toUShort (m.cpu.i.val + 1))).setFH 1 := by
  rw [CPU_Execute_of_opcode_val m 0x8F OpcodeFn.HT hop (by decide), CPU_FetchByte_eq]
  rfl

/-- In a state with `H = 1`, setting `H` changes nothing. -/
theorem setFH_of_halted (m : Machine) (hH : m.cpu.f.h = true) : m.setFH 1 = m := by
  obtain ⟨mem, ⟨a, b, s, i, ⟨fz, fc, fs, fv, fh, fi, fu⟩⟩, rd, wr, dk, disk, disp⟩ := m
  simp only at hH
  subst hH
  rfl

/-- C12 (amended): `CPU_Execute` does not test the halt flag.  Whatever `H` is, it
runs the table entry of the opcode byte `k` at `I` on the machine left by the opcode
fetch.  `HT` (0x8F) sets `H` to 1 and changes nothing else but `I`, which advances by 1.
Every instruction other than `PUF` (0x4D), `POF` (0x60) and `HT` neither reads nor
writes `H`: setting `H` before it is the same as setting `H` after it.  So in a state
with `H = 1`, `H` stays 1 unless the instruction is `POF`; for every instruction other
than `PUF` and `POF` the step is the step of the same state with `H = 0`, with `H` put
back to 1; `HT` only advances `I`; and an unused opcode still moves `I`. -/
theorem CPU_Execute_halt_flag (m : Machine) (k : Byte)
    (hop : Memory_GetByte m m.cpu.i = k) :
    CPU_Execute m = (CPU_Opcode.getD k.val OpcodeFn.NO).run (m.setI (toUShort (m.cpu.i.val + 1)))
    ∧ (k.val = 0x8F → CPU_Execute m = (m.setI (toUShort (m.cpu.i.val + 1))).setFH 1)
    ∧ (k.val ≠ 0x4D → k.val ≠ 0x60 → k.val ≠ 0x8F →
        ∀ x, CPU_Execute (m.setFH x) = (CPU_Execute m).setFH x)
    ∧ (m.cpu.f.h = true →
        (k.val ≠ 0x60 → (CPU_Execute m).cpu.f.h = true)
        ∧ (k.val ≠ 0x4D → k.val ≠ 0x60 →
            CPU_Execute m = (CPU_Execute (m.setFH 0)).setFH 1)
        ∧ (k.val = 0x8F → CPU_Execute m = m.setI (toUShort (m.cpu.i.val + 1)))
        ∧ (0xB7 ≤ k.val → (CPU_Execute m).cpu.i ≠ m.cpu.i)) := by
  have hkv : ∀ n, k.val = n → (Memory_GetByte m m.cpu.i).val = n := by
    intro n hn
    rw [hop]
    exact hn
  have hstep : k.val ≠ 0x4D → k.val ≠ 0x60 → m.cpu.f.h = true →
      CPU_Execute m = (CPU_Execute (m.setFH 0)).setFH 1 := by
    intro h1 h2 hH
    by_cases h3 : k.val = 0x8F
    · have hop0 : (Memory_GetByte (m.setFH 0) (m.setFH 0).cpu.i).val = 0x8F := hkv _ h3
      rw [CPU_Execute_HT m (hkv _ h3), CPU_Execute_HT (m.setFH 0) hop0]
      rfl
    · have hop0 : Memory_GetByte (m.setFH 0) (m.setFH 0).cpu.i = k := hop
      rw [← CPU_Execute_setFH (m.setFH 0) k 1 hop0 h1 h2 h3]
      have e : (m.setFH 0).setFH 1 = m.setFH 1 := rfl
      rw [e, setFH_of_halted m hH]
  refine ⟨?_, fun h3 => CPU_Execute_HT m (hkv _ h3),
    fun h1 h2 h3 x => CPU_Execute_setFH m k x hop h1 h2 h3, fun hH => ⟨?_, ?_, ?_, ?_⟩⟩
  · rw [CPU_Execute_of_opcode m k _ hop rfl, CPU_FetchByte_eq]
  · intro h2
    by_cases h1 : k.val = 0x4D
    · rw [CPU_Execute_of_opcode_val m 0x4D OpcodeFn.PUF (hkv _ h1) (by decide)]
      exact hH
    · rw [hstep h1 h2 hH]
      rfl
  · exact fun h1 h2 => hstep h1 h2 hH
  · intro h3
    rw [CPU_Execute_HT m (hkv _ h3)]
    exact setFH_of_halted _ hH
  · intro hk
    rw [CPU_Execute_of_opcode m k OpcodeFn.NO hop (CPU_Opcode_NO_range k hk), CPU_FetchByte_eq]
    intro e
    have e2 : (toUShort (m.cpu.i.val + 1)).val = m.cpu.i.val := congrArg Fin.val e
    have hi := m.cpu.i.isLt
    rw [toUShort_val] at e2
    omega

set_option maxRecDepth 8192 in
/-- C12 (amended), witness: the halted state of the halt scenario (`H = 1`, `I` at
`LDAI 0x1234`).  `CPU_Execute` runs `LDAI`; `H` stays 1; the step is the step of the
state with `H = 0`, with `H` put back. -/
theorem CPU_Execute_halt_flag_witness :
    Memory_GetByte haltedExample haltedExample.cpu.i = 0x00
    ∧ haltedExample.cpu.f.h = true
    ∧ CPU_Execute haltedExample = (CPU_Opcode.getD (0x00 : Byte).val OpcodeFn.NO).run
        (haltedExample.setI (toUShort (haltedExample.cpu.i.val + 1)))
    ∧ (∀ x, CPU_Execute (haltedExample.setFH x) = (CPU_Execute haltedExample).setFH x)
    ∧ (CPU_Execute haltedExample).cpu.f.h = true
    ∧ CPU_Execute haltedExample = (CPU_Execute (haltedExample.setFH 0)).setFH 1 :=
  ⟨by decide, by decide,
    (CPU_Execute_halt_flag haltedExample 0x00 (by decide)).1,
    (CPU_Execute_halt_flag haltedExample 0x00 (by decide)).2.2.1 (by decide) (by decide)
      (by decide),
    ((CPU_Execute_halt_flag haltedExample 0x00 (by decide)).2.2.2 (by decide)).1 (by decide),
    ((CPU_Execute_halt_flag haltedExample 0x00 (by decide)).2.2.2 (by decide)).2.1 (by decide)
      (by decide)⟩

set_option maxRecDepth 8192 in
/-- C12, counterexample: the halt scenario.  `HT` takes `haltExample` to a state with
`H = 1` and `I = 1`; in the state `haltedExample` with `H = 1`, `CPU_Execute` is not a
no-op: it runs `LDAI 0x1234`, so `A` goes from 0 to 0x1234 and `I` from 1 to 4, while
`H` stays 1. -/
theorem CPU_Execute_haltedExample :
    (CPU_Execute haltExample).cpu.f.h = true
    ∧ (CPU_Execute haltExample).cpu.i = 0x0001
    ∧ (CPU_Execute (CPU_Execute haltExample)).cpu.a = 0x1234
    ∧ haltedExample.cpu.f.h = true
    ∧ haltedExample.cpu.a = 0x0000
    ∧ haltedExample.cpu.i = 0x0001
    ∧ (CPU_Execute haltedExample).cpu.a = 0x1234
    ∧ (CPU_Execute haltedExample).cpu.i = 0x0004
    ∧ (CPU_Execute haltedExample).cpu.f.h = true
    ∧ CPU_Execute haltedExample ≠ haltedExample := by
  refine ⟨by decide, by decide, by decide, by decide, by decide, by decide, by decide,
    by decide, by decide, ?_⟩
  intro h
  have h2 : (CPU_Execute haltedExample).cpu.a = haltedExample.cpu.a := by rw [h]
  revert h2
  decide

/-! ## Peripheral commands -/

/-- A disk command byte from 0x08 on falls to `default: break;`. -/
theorem Disk_CommandPortWrite_unknown (m : Machine) (c : Byte) (h : 0x08 ≤ c.val) :
    Disk_CommandPortWrite m c = m := by
  unfold Disk_CommandPortWrite
  simp only [DISK_COMMAND_ENABLE_INTERRUPTS, DISK_COMMAND_DISABLE_INTERRUPTS,
    DISK_COMMAND_GET_DISK_NUMBER, DISK_COMMAND_SET_START_SECTOR,
    DISK_COMMAND_SET_MEMORY_ADDRESS, DISK_COMMAND_SET_SECTOR_COUNT,
    DISK_COMMAND_READ_SECTORS, DISK_COMMAND_WRITE_SECTORS]
  repeat rw [if_neg (by omega)]

/-- A display command byte that is none of the fourteen `case` labels falls to
`default: break;`. -/
theorem Display_CommandPortWrite_default (m : Machine) (c : Byte)
    (h1 : 0x02 < c.val) (h2 : c.val < 0x11 ∨ 0x16 < c.val) (h3 : c.val ≠ 0x15)
    (h4 : c.val < 0x21 ∨ 0x26 < c.val) :
    Display_CommandPortWrite m c = m := by
  unfold Display_CommandPortWrite
  simp only [DISPLAY_COMMAND_GET_MEMORY_SIZE, DISPLAY_COMMAND_GET_WIDTH,
    DISPLAY_COMMAND_GET_HEIGHT, DISPLAY_COMMAND_GET_MODE, DISPLAY_COMMAND_GET_CURSOR_INDEX,
    DISPLAY_COMMAND_GET_CURSOR_X, DISPLAY_COMMAND_GET_CURSOR_Y,
    DISPLAY_COMMAND_GET_CURSOR_TYPE, DISPLAY_COMMAND_SET_MODE,
    DISPLAY_COMMAND_SET_CURSOR_INDEX, DISPLAY_COMMAND_SET_CURSOR_X,
    DISPLAY_COMMAND_SET_CURSOR_Y, DISPLAY_COMMAND_SET_CURSOR_POS,
    DISPLAY_COMMAND_SET_CURSOR_TYPE]
  repeat rw [if_neg (by omega)]

/-- C25: unknown peripheral commands are ignored.  For every byte `c1 ≥ 0x08` the disk
command handler, and for every byte `c2` outside 0x00..0x02, 0x10..0x16, 0x20..0x26
the display command handler, returns the machine as it was: every field of the disk
and of the display, their `DATA` registers included, is unchanged (and so is all the
rest of the machine). -/
theorem peripheral_unknown_command (m : Machine) (c1 c2 : Byte) (h1 : 0x08 ≤ c1.val)
    (h2 : displayCommandKnown c2 = false) :
    Disk_CommandPortWrite m c1 = m
    ∧ (Disk_CommandPortWrite m c1).disk = m.disk
    ∧ (Disk_CommandPortWrite m c1).disk.data = m.disk.data
    ∧ Display_CommandPortWrite m c2 = m
    ∧ (Display_CommandPortWrite m c2).display = m.display
    ∧ (Display_CommandPortWrite m c2).display.data = m.display.data := by
  have hd := Disk_CommandPortWrite_unknown m c1 h1
  have hs : Display_CommandPortWrite m c2 = m := by
    simp only [displayCommandKnown, Bool.or_eq_false_iff, decide_eq_false_iff_not] at h2
    exact Display_CommandPortWrite_default m c2 (by omega) (by omega) (by omega) (by omega)
  rw [hd, hs]
  exact ⟨rfl, rfl, rfl, rfl, rfl, rfl⟩

/-- C25, witness: the disk command 0x08 and the display command 0x03 on the zero
machine. -/
theorem peripheral_unknown_command_witness :
    0x08 ≤ (0x08 : Byte).val
    ∧ displayCommandKnown 0x03 = false
    ∧ Disk_CommandPortWrite zeroMachine 0x08 = zeroMachine
    ∧ Display_CommandPortWrite zeroMachine 0x03 = zeroMachine :=
  ⟨by decide, by decide,
    (peripheral_unknown_command zeroMachine 0x08 0x03 (by decide) (by decide)).1,
    (peripheral_unknown_command zeroMachine 0x08 0x03 (by decide) (by decide)).2.2.2.1⟩

/-! ## The disk transfer commands -/

/-- No tick does anything while the disk is ready. -/
theorem Disk_Update_ready (m : Machine) (h : m.disk.status.ready = true) :
    Disk_Update m = m := by
  unfold Disk_Update
  rw [h]
  rfl

theorem diskTicks_ready (n : Nat) (m : Machine) (h : m.disk.status.ready = true) :
    diskTicks n m = m := by
  induction n with
  | zero => rfl
  | succ n ih => rw [diskTicks, Disk_Update_ready m h, ih]

theorem diskTickUntilReady_ready (fuel : Nat) (m : Machine) (h : m.disk.status.ready = true) :
    diskTickUntilReady fuel m = m := by
  cases fuel with
  | zero => rfl
  | succ n => rw [diskTickUntilReady, if_pos h]

/-- C21 (the code at its failing input): `READ_SECTORS` (0x06) sets
`operation = READ` and `byteCount = sectorCount << 8`, `WRITE_SECTORS` (0x07) sets
`operation = WRITE` and `byteCount = sectorCount << 8`, and neither changes anything
else: in particular `ready` keeps its value.  After `Disk_Init`, which sets
`ready = 1`, the disk is therefore still ready after either command, and every
`Disk_Update` returns at once: the transfer never starts. -/
theorem Disk_CommandPortWrite_transfer (m : Machine) :
    Disk_CommandPortWrite m 0x06
        = { m with disk := { m.disk with
              status := { m.disk.status with operation := false }
              byteCount := toUInt (m.disk.sectorCount.val <<< 8) } }
    ∧ Disk_CommandPortWrite m 0x07
        = { m with disk := { m.disk with
              status := { m.disk.status with operation := true }
              byteCount := toUInt (m.disk.sectorCount.val <<< 8) } }
    ∧ (Disk_CommandPortWrite m 0x06).disk.byteCount.val = m.disk.sectorCount.val * 256
    ∧ (Disk_CommandPortWrite m 0x07).disk.byteCount.val = m.disk.sectorCount.val * 256
    ∧ (Disk_CommandPortWrite m 0x06).disk.status.ready = m.disk.status.ready
    ∧ (Disk_CommandPortWrite m 0x07).disk.status.ready = m.disk.status.ready
    ∧ (Disk_CommandPortWrite (Disk_Init m) 0x06).disk.status.ready = true
    ∧ (Disk_CommandPortWrite (Disk_Init m) 0x07).disk.status.ready = true
    ∧ (∀ n, diskTicks n (Disk_CommandPortWrite (Disk_Init m) 0x06)
        = Disk_CommandPortWrite (Disk_Init m) 0x06)
    ∧ (∀ n, diskTicks n (Disk_CommandPortWrite (Disk_Init m) 0x07)
        = Disk_CommandPortWrite (Disk_Init m) 0x07) := by
  have hb : (toUInt (m.disk.sectorCount.val <<< 8)).val = m.disk.sectorCount.val * 256 := by
    have h := m.disk.sectorCount.isLt
    rw [toUInt_val, Nat.shiftLeft_eq]
    omega
  exact ⟨rfl, rfl, hb, hb, rfl, rfl, rfl, rfl, fun n => diskTicks_ready n _ rfl,
    fun n => diskTicks_ready n _ rfl⟩

set_option maxRecDepth 8192 in
/-- The failing input of C21, evaluated: on the zero machine after `Disk_Init`, with
`sectorCount = 1` set by `SET_SECTOR_COUNT`, `READ_SECTORS` leaves `byteCount = 256`,
`operation = READ` and `ready = 1`, so the status byte still has bit 1 set. -/
theorem Disk_CommandPortWrite_transfer_zeroMachine :
    (diskCommand (diskCommand (Disk_Init zeroMachine) 0x05 0x0001) 0x06 0).disk.byteCount = 256
    ∧ (diskCommand (diskCommand (Disk_Init zeroMachine) 0x05 0x0001) 0x06 0).disk.status.operation
        = false
    ∧ (diskCommand (diskCommand (Disk_Init zeroMachine) 0x05 0x0001) 0x06 0).disk.status.ready
        = true
    ∧ Disk_StatusPortRead (diskCommand (diskCommand (Disk_Init zeroMachine) 0x05 0x0001) 0x06 0)
        = 0x02 := by
  decide

/-! ## Display commands -/

theorem unionLo_unionSetLo (x : Nat) (b : Byte) :
    unionLo (toUInt (unionSetLo x b)).val = b := by
  apply Fin.ext
  have h := b.isLt
  simp only [unionLo, unionSetLo, toUChar_val, toUInt_val]
  omega

theorem unionHi_unionSetHi (x : Nat) (b : Byte) :
    unionHi (toUInt (unionSetHi x b)).val = b := by
  apply Fin.ext
  have h := b.isLt
  simp only [unionHi, unionSetHi, toUChar_val, toUInt_val]
  omega

theorem unionLo_unionSetHi (x : Nat) (b : Byte) :
    unionLo (toUInt (unionSetHi x b)).val = unionLo x := by
  apply Fin.ext
  have h := b.isLt
  simp only [unionLo, unionSetHi, toUChar_val, toUInt_val]
  omega

/-- The 16-bit `DATA` register read through the two data ports is the low half of
`display.data.value`. -/
theorem displayData_eq (n : Machine) : displayData n = n.display.data.val % 65536 := by
  rw [displayData, TO_SHORT_eq _ _ (Display_DataLoRead n).isLt]
  simp only [Display_DataLoRead, Display_DataHiRead, unionLo, unionHi, toUChar_val]
  omega

set_option maxRecDepth 16384 in
/-- The mode tables of display.c against the mode table of the specification, at the
mode `SET_MODE` computes from each byte. -/
theorem DISPLAY_tables_eq_spec :
    ∀ v : Byte,
      (toUInt (v.val &&& DISPLAY_MODE_COUNT_MASK)).val = v.val % 8
      ∧ (toUInt (modeLookup DISPLAY_WIDTH (toUInt (v.val &&& DISPLAY_MODE_COUNT_MASK)))).val
          = (specMode (v.val % 8)).1
      ∧ (toUInt (modeLookup DISPLAY_HEIGHT (toUInt (v.val &&& DISPLAY_MODE_COUNT_MASK)))).val
          = (specMode (v.val % 8)).2.1
      ∧ (toUInt (modeLookup DISPLAY_MEMORY_SIZE (toUInt (v.val &&& DISPLAY_MODE_COUNT_MASK)))).val
          = (specMode (v.val % 8)).2.2 := by
  decide

theorem displaySetMode_mode (m : Machine) (v : Byte) :
    (displaySetMode m v).display.mode = toUInt (v.val &&& DISPLAY_MODE_COUNT_MASK) := by
  show toUInt ((unionLo (toUInt (unionSetLo m.display.data.val v)).val).val
    &&& DISPLAY_MODE_COUNT_MASK) = _
  rw [unionLo_unionSetLo]

/-- C26: for every machine state and every byte `v`, after `SET_MODE` with
`DATA_LO = v` the mode is `v mod 8`, and `GET_WIDTH`, `GET_HEIGHT`, `GET_MEMORY_SIZE`
then publish into `DATA` the width, height and memory size of the specification's mode
table for that mode (the three commands leave the mode as it is, so this holds in any
order); the 16-bit register read through the data ports holds the same values. -/
theorem Display_SET_MODE_GET (m : Machine) (v : Byte) :
    (displaySetMode m v).display.mode.val = v.val % 8
    ∧ (Display_CommandPortWrite (displaySetMode m v) 0x01).display.data.val
        = (specMode (v.val % 8)).1
    ∧ (Display_CommandPortWrite (displaySetMode m v) 0x02).display.data.val
        = (specMode (v.val % 8)).2.1
    ∧ (Display_CommandPortWrite (displaySetMode m v) 0x00).display.data.val
        = (specMode (v.val % 8)).2.2
    ∧ displayData (Display_CommandPortWrite (displaySetMode m v) 0x01) = (specMode (v.val % 8)).1
    ∧ displayData (Display_CommandPortWrite (displaySetMode m v) 0x02)
        = (specMode (v.val % 8)).2.1
    ∧ displayData (Display_CommandPortWrite (displaySetMode m v) 0x00)
        = (specMode (v.val % 8)).2.2
    ∧ (∀ n : Machine, (Display_CommandPortWrite n 0x00).display.mode = n.display.mode
        ∧ (Display_CommandPortWrite n 0x01).display.mode = n.display.mode
        ∧ (Display_CommandPortWrite n 0x02).display.mode = n.display.mode)
    ∧ specModeTable = [(40, 25, 1000), (40, 25, 2000), (80, 50, 4000), (80, 50, 8000),
        (320, 200, 8000), (320, 200, 32000), (320, 200, 8000), (320, 200, 32000)] := by
  have ht := DISPLAY_tables_eq_spec v
  have hm := displaySetMode_mode m v
  have hw : (Display_CommandPortWrite (displaySetMode m v) 0x01).display.data
      = toUInt (modeLookup DISPLAY_WIDTH (displaySetMode m v).display.mode) := rfl
  have hh : (Display_CommandPortWrite (displaySetMode m v) 0x02).display.data
      = toUInt (modeLookup DISPLAY_HEIGHT (displaySetMode m v).display.mode) := rfl
  have hs : (Display_CommandPortWrite (displaySetMode m v) 0x00).display.data
      = toUInt (modeLookup DISPLAY_MEMORY_SIZE (displaySetMode m v).display.mode) := rfl
  have hbound : ∀ k : Fin 8, (specMode k.val).1 < 65536 ∧ (specMode k.val).2.1 < 65536
      ∧ (specMode k.val).2.2 < 65536 := by decide
  have hb := hbound ⟨v.val % 8, Nat.mod_lt _ (by decide)⟩
  simp only [displayData_eq]
  rw [hw, hh, hs, hm, ht.1, ht.2.1, ht.2.2.1, ht.2.2.2]
  refine ⟨rfl, rfl, rfl, rfl, Nat.mod_eq_of_lt hb.1, Nat.mod_eq_of_lt hb.2.1,
    Nat.mod_eq_of_lt hb.2.2, fun n => ⟨rfl, rfl, rfl⟩, rfl⟩

set_option maxRecDepth 8192 in
/-- The `SET_MODE` scenario of the specification, evaluated on the zero machine:
`DATA_LO = 5` gives mode 5, width 320, height 200 and memory size 32000. -/
theorem Display_SET_MODE_GET_zeroMachine :
    (displaySetMode zeroMachine 5).display.mode = 5
    ∧ displayData (Display_CommandPortWrite (displaySetMode zeroMachine 5) 0x01) = 320
    ∧ displayData (Display_CommandPortWrite (displaySetMode zeroMachine 5) 0x02) = 200
    ∧ displayData (Display_CommandPortWrite (displaySetMode zeroMachine 5) 0x00) = 32000
    ∧ (displaySetMode zeroMachine 13).display.mode = 5 := by
  decide

/-! ## The cursor commands -/

/-- The width and height of each of the eight modes. -/
theorem mode_geometry (mode : Word) (h : mode.val < 8) :
    (modeLookup DISPLAY_WIDTH mode = 40 ∧ modeLookup DISPLAY_HEIGHT mode = 25)
    ∨ (modeLookup DISPLAY_WIDTH mode = 80 ∧ modeLookup DISPLAY_HEIGHT mode = 50)
    ∨ (modeLookup DISPLAY_WIDTH mode = 320 ∧ modeLookup DISPLAY_HEIGHT mode = 200) := by
  have hall : ∀ k : Fin 8,
      (DISPLAY_WIDTH.getD k.val 0 = 40 ∧ DISPLAY_HEIGHT.getD k.val 0 = 25)
      ∨ (DISPLAY_WIDTH.getD k.val 0 = 80 ∧ DISPLAY_HEIGHT.getD k.val 0 = 50)
      ∨ (DISPLAY_WIDTH.getD k.val 0 = 320 ∧ DISPLAY_HEIGHT.getD k.val 0 = 200) := by
    decide
  exact hall ⟨mode.val, h⟩

theorem Display_SET_CURSOR_INDEX_eq (m : Machine) :
    (Display_CommandPortWrite m 0x22).display
      = Display.updateCursorIndex { m.display with
          cursorX := toUChar (m.display.data.val % modeLookup DISPLAY_WIDTH m.display.mode)
          cursorY := toUChar ((toUChar (m.display.data.val
            / modeLookup DISPLAY_WIDTH m.display.mode)).val
              % modeLookup DISPLAY_HEIGHT m.display.mode) } := rfl

theorem Display_SET_CURSOR_X_eq (m : Machine) :
    (Display_CommandPortWrite m 0x23).display
      = Display.updateCursorIndex { m.display with
          cursorX := toUChar ((unionLo m.display.data.val).val
            % modeLookup DISPLAY_WIDTH m.display.mode) } := rfl

theorem Display_SET_CURSOR_Y_eq (m : Machine) :
    (Display_CommandPortWrite m 0x24).display
      = Display.updateCursorIndex { m.display with
          cursorY := toUChar ((unionLo m.display.data.val).val
            % modeLookup DISPLAY_HEIGHT m.display.mode) } := rfl

theorem Display_SET_CURSOR_POS_eq (m : Machine) :
    (Display_CommandPortWrite m 0x25).display
      = Display.updateCursorIndex { m.display with
          cursorX := toUChar ((unionLo m.display.data.val).val
            % modeLookup DISPLAY_WIDTH m.display.mode)
          cursorY := toUChar ((unionHi m.display.data.val).val
            % modeLookup DISPLAY_HEIGHT m.display.mode) } := rfl

/-- C27 (amended): for every display state with a mode in 0..7 and every `DATA` value,
after each of `SET_CURSOR_INDEX` (0x22), `SET_CURSOR_X` (0x23), `SET_CURSOR_Y` (0x24),
`SET_CURSOR_POS` (0x25): `cursor_index = cursor_y * width + cursor_x` for the current
mode.  `SET_CURSOR_INDEX` and `SET_CURSOR_POS` leave `cursor_x < width` and
`cursor_y < height`; `SET_CURSOR_X` sets `x = DATA_LO mod width < width` and leaves `y`
as it was, `SET_CURSOR_Y` sets `y = DATA_LO mod height < height` and leaves `x` as it
was (so the other bound holds after them if it held before); `SET_CURSOR_POS` sets
`x = DATA_LO mod width` and `y = DATA_HI mod height`. -/
theorem Display_SET_CURSOR (m : Machine) (hmode : m.display.mode.val < 8) :
    (cursorIndexOk (Display_CommandPortWrite m 0x22).display
      ∧ cursorXInRange (Display_CommandPortWrite m 0x22).display
      ∧ cursorYInRange (Display_CommandPortWrite m 0x22).display)
    ∧ (cursorIndexOk (Display_CommandPortWrite m 0x23).display
      ∧ cursorXInRange (Display_CommandPortWrite m 0x23).display
      ∧ (Display_CommandPortWrite m 0x23).display.cursorX.val
          = (unionLo m.display.data.val).val % modeLookup DISPLAY_WIDTH m.display.mode
      ∧ (Display_CommandPortWrite m 0x23).display.cursorY = m.display.cursorY
      ∧ (cursorYInRange m.display → cursorYInRange (Display_CommandPortWrite m 0x23).display))
    ∧ (cursorIndexOk (Display_CommandPortWrite m 0x24).display
      ∧ cursorYInRange (Display_CommandPortWrite m 0x24).display
      ∧ (Display_CommandPortWrite m 0x24).display.cursorY.val
          = (unionLo m.display.data.val).val % modeLookup DISPLAY_HEIGHT m.display.mode
      ∧ (Display_CommandPortWrite m 0x24).display.cursorX = m.display.cursorX
      ∧ (cursorXInRange m.display → cursorXInRange (Display_CommandPortWrite m 0x24).display))
    ∧ (cursorIndexOk (Display_CommandPortWrite m 0x25).display
      ∧ cursorXInRange (Display_CommandPortWrite m 0x25).display
      ∧ cursorYInRange (Display_CommandPortWrite m 0x25).display
      ∧ (Display_CommandPortWrite m 0x25).display.cursorX.val
          = (unionLo m.display.data.val).val % modeLookup DISPLAY_WIDTH m.display.mode
      ∧ (Display_CommandPortWrite m 0x25).display.cursorY.val
          = (unionHi m.display.data.val).val % modeLookup DISPLAY_HEIGHT m.display.mode) := by
  have hx := m.display.cursorX.isLt
  have hy := m.display.cursorY.isLt
  have hd := m.display.data.isLt
  simp only [cursorIndexOk, cursorXInRange, cursorYInRange, Display_SET_CURSOR_INDEX_eq,
    Display_SET_CURSOR_X_eq, Display_SET_CURSOR_Y_eq, Display_SET_CURSOR_POS_eq,
    Display.updateCursorIndex, unionLo, unionHi, toUChar_val, toUInt_val]
  rcases mode_geometry m.display.mode hmode with ⟨hW, hH⟩ | ⟨hW, hH⟩ | ⟨hW, hH⟩ <;>
    rw [hW, hH] <;>
    refine ⟨⟨?_, ?_, ?_⟩, ⟨?_, ?_, ?_, trivial, fun h => h⟩, ⟨?_, ?_, ?_, trivial, fun h => h⟩,
      ⟨?_, ?_, ?_, ?_, ?_⟩⟩ <;>
    omega

/-- C27 (amended), witness: the zero machine (mode 0, 40 x 25). -/
theorem Display_SET_CURSOR_witness :
    zeroMachine.display.mode.val < 8
    ∧ cursorIndexOk (Display_CommandPortWrite zeroMachine 0x22).display
    ∧ cursorXInRange (Display_CommandPortWrite zeroMachine 0x22).display
    ∧ cursorYInRange (Display_CommandPortWrite zeroMachine 0x22).display
    ∧ cursorIndexOk (Display_CommandPortWrite zeroMachine 0x23).display
    ∧ cursorIndexOk (Display_CommandPortWrite zeroMachine 0x24).display
    ∧ cursorIndexOk (Display_CommandPortWrite zeroMachine 0x25).display :=
  ⟨by decide, (Display_SET_CURSOR zeroMachine (by decide)).1.1,
    (Display_SET_CURSOR zeroMachine (by decide)).1.2.1,
    (Display_SET_CURSOR zeroMachine (by decide)).1.2.2,
    (Display_SET_CURSOR zeroMachine (by decide)).2.1.1,
    (Display_SET_CURSOR zeroMachine (by decide)).2.2.1.1,
    (Display_SET_CURSOR zeroMachine (by decide)).2.2.2.1⟩

set_option maxRecDepth 8192 in
/-- C27, counterexample: after `SET_MODE` 2, `SET_CURSOR_Y` 40, `SET_MODE` 0 the display
is in mode 0 (height 25) with `cursor_y = 40`.  `SET_CURSOR_X` with `DATA = 5` then sets
`cursor_x = 5` and `cursor_index = 40 * 40 + 5`, and leaves `cursor_y = 40`, which is not
below the height 25. -/
theorem Display_SET_CURSOR_X_stale :
    staleCursorExample.display.mode = 0
    ∧ modeLookup DISPLAY_HEIGHT (displayCommand staleCursorExample 0x23 5).display.mode = 25
    ∧ (displayCommand staleCursorExample 0x23 5).display.cursorX = 5
    ∧ (displayCommand staleCursorExample 0x23 5).display.cursorY = 40
    ∧ (displayCommand staleCursorExample 0x23 5).display.cursorIndex = 1605
    ∧ ¬ cursorYInRange (displayCommand staleCursorExample 0x23 5).display := by
  refine ⟨by decide, by decide, by decide, by decide, by decide, ?_⟩
  unfold cursorYInRange
  decide

/-! ## The cursor index -/

theorem mode_geometry_text (mode : Word) (h : mode.val < 4) :
    modeLookup DISPLAY_WIDTH mode ≤ 80 := by
  have hall : ∀ k : Fin 4, DISPLAY_WIDTH.getD k.val 0 ≤ 80 := by decide
  exact hall ⟨mode.val, h⟩

theorem publishByte_lo_hi (d : Display) (b : Byte) :
    unionLo (d.publishByte b).data.val = b ∧ unionHi (d.publishByte b).data.val = b := by
  simp only [Display.publishByte]
  rw [unionLo_unionSetHi, unionLo_unionSetLo, unionHi_unionSetHi]
  exact ⟨rfl, rfl⟩

/-- An index below `W * H` whose column fits a byte splits into column and row and is
put together again without loss, through the 8-bit `cursorX` and `cursorY`. -/
theorem cursor_index_arith (v W H : Nat) (hW : 0 < W) (hH : H ≤ 256) (hv : v < W * H)
    (hx : v % W < 256) (hv32 : v < 4294967296) :
    v % W % 256 = v % W
    ∧ v / W % 256 % H % 256 = v / W
    ∧ (v / W % 256 % H % 256 * W + v % W % 256) % 4294967296 = v := by
  have hq : v / W < H := (Nat.div_lt_iff_lt_mul hW).2 (by rw [Nat.mul_comm]; exact hv)
  have hq2 : v / W < 256 := Nat.lt_of_lt_of_le hq hH
  rw [Nat.mod_eq_of_lt hx, Nat.mod_eq_of_lt hq2, Nat.mod_eq_of_lt hq, Nat.mod_eq_of_lt hq2,
    Nat.div_add_mod' v W, Nat.mod_eq_of_lt hv32]
  exact ⟨rfl, rfl, rfl⟩

/-- C28 (amended): for every mode (0..7) and every index `v < width × height` of that
mode whose column `v mod width` fits the 8-bit `cursorX` (`v mod width < 256`: every
index in the text modes 0..3, whose width is at most 80), `SET_CURSOR_INDEX` with
`DATA = v` sets `cursor_x = v mod width`, `cursor_y = v div width` and
`cursor_index = v`; a following `GET_CURSOR_INDEX` publishes `DATA = v`, and
`GET_CURSOR_X` / `GET_CURSOR_Y` publish `v mod width` / `v div width` into both `DATA_LO`
and `DATA_HI`. -/
theorem Display_SET_CURSOR_INDEX_roundtrip (m : Machine) (hmode : m.display.mode.val < 8)
    (hv : m.display.data.val
      < modeLookup DISPLAY_WIDTH m.display.mode * modeLookup DISPLAY_HEIGHT m.display.mode)
    (hx : m.display.mode.val < 4
      ∨ m.display.data.val % modeLookup DISPLAY_WIDTH m.display.mode < 256) :
    (Display_CommandPortWrite m 0x22).display.cursorX.val
        = m.display.data.val % modeLookup DISPLAY_WIDTH m.display.mode
    ∧ (Display_CommandPortWrite m 0x22).display.cursorY.val
        = m.display.data.val / modeLookup DISPLAY_WIDTH m.display.mode
    ∧ (Display_CommandPortWrite m 0x22).display.cursorIndex.val = m.display.data.val
    ∧ (Display_CommandPortWrite (Display_CommandPortWrite m 0x22) 0x12).display.data.val
        = m.display.data.val
    ∧ (Display_DataLoRead (Display_CommandPortWrite (Display_CommandPortWrite m 0x22) 0x13)).val
        = m.display.data.val % modeLookup DISPLAY_WIDTH m.display.mode
    ∧ (Display_DataHiRead (Display_CommandPortWrite (Display_CommandPortWrite m 0x22) 0x13)).val
        = m.display.data.val % modeLookup DISPLAY_WIDTH m.display.mode
    ∧ (Display_DataLoRead (Display_CommandPortWrite (Display_CommandPortWrite m 0x22) 0x14)).val
        = m.display.data.val / modeLookup DISPLAY_WIDTH m.display.mode
    ∧ (Display_DataHiRead (Display_CommandPortWrite (Display_CommandPortWrite m 0x22) 0x14)).val
        = m.display.data.val / modeLookup DISPLAY_WIDTH m.display.mode := by
  have hx2 : m.display.data.val % modeLookup DISPLAY_WIDTH m.display.mode < 256 := by
    rcases hx with h4 | h
    · have hw := mode_geometry_text m.display.mode h4
      rcases mode_geometry m.display.mode hmode with ⟨hW, _⟩ | ⟨hW, _⟩ | ⟨hW, _⟩ <;>
        rw [hW] at hw ⊢ <;> omega
    · exact h
  have e12 : (Display_CommandPortWrite (Display_CommandPortWrite m 0x22) 0x12).display.data
      = (Display_CommandPortWrite m 0x22).display.cursorIndex := rfl
  have e13 : (Display_CommandPortWrite (Display_CommandPortWrite m 0x22) 0x13).display
      = (Display_CommandPortWrite m 0x22).display.publishByte
          (Display_CommandPortWrite m 0x22).display.cursorX := rfl
  have e14 : (Display_CommandPortWrite (Display_CommandPortWrite m 0x22) 0x14).display
      = (Display_CommandPortWrite m 0x22).display.publishByte
          (Display_CommandPortWrite m 0x22).display.cursorY := rfl
  have hcore : (Display_CommandPortWrite m 0x22).display.cursorX.val
        = m.display.data.val % modeLookup DISPLAY_WIDTH m.display.mode
      ∧ (Display_CommandPortWrite m 0x22).display.cursorY.val
        = m.display.data.val / modeLookup DISPLAY_WIDTH m.display.mode
      ∧ (Display_CommandPortWrite m 0x22).display.cursorIndex.val = m.display.data.val := by
    simp only [Display_SET_CURSOR_INDEX_eq, Display.updateCursorIndex, toUChar_val, toUInt_val]
    rcases mode_geometry m.display.mode hmode with ⟨hW, hH⟩ | ⟨hW, hH⟩ | ⟨hW, hH⟩ <;>
      rw [hW, hH] at hv <;> rw [hW] at hx2 <;> rw [hW, hH]
    · exact cursor_index_arith _ 40 25 (by decide) (by decide) hv hx2 m.display.data.isLt
    · exact cursor_index_arith _ 80 50 (by decide) (by decide) hv hx2 m.display.data.isLt
    · exact cursor_index_arith _ 320 200 (by decide) (by decide) hv hx2 m.display.data.isLt
  simp only [Display_DataLoRead, Display_DataHiRead]
  rw [e12, e13, e14, (publishByte_lo_hi _ _).1, (publishByte_lo_hi _ _).2,
    (publishByte_lo_hi _ _).1, (publishByte_lo_hi _ _).2]
  exact ⟨hcore.1, hcore.2.1, hcore.2.2, hcore.2.2, hcore.1, hcore.1, hcore.2.1, hcore.2.1⟩

set_option maxRecDepth 8192 in
/-- C28 (amended), witness: mode 0 (40 x 25) with `DATA = 999`, the last index:
column 39 of row 24. -/
theorem Display_SET_CURSOR_INDEX_roundtrip_witness :
    (Display_DataHiWrite (Display_DataLoWrite zeroMachine 0xE7) 0x03).display.mode.val < 8
    ∧ (Display_DataHiWrite (Display_DataLoWrite zeroMachine 0xE7) 0x03).display.data.val = 999
    ∧ (Display_CommandPortWrite
        (Display_DataHiWrite (Display_DataLoWrite zeroMachine 0xE7) 0x03) 0x22).display.cursorIndex.val
        = (Display_DataHiWrite (Display_DataLoWrite zeroMachine 0xE7) 0x03).display.data.val
    ∧ (Display_CommandPortWrite (Display_CommandPortWrite
        (Display_DataHiWrite (Display_DataLoWrite zeroMachine 0xE7) 0x03) 0x22) 0x12).display.data.val
        = (Display_DataHiWrite (Display_DataLoWrite zeroMachine 0xE7) 0x03).display.data.val :=
  ⟨by decide, by decide,
    (Display_SET_CURSOR_INDEX_roundtrip
      (Display_DataHiWrite (Display_DataLoWrite zeroMachine 0xE7) 0x03)
      (by decide) (by decide) (Or.inl (by decide))).2.2.1,
    (Display_SET_CURSOR_INDEX_roundtrip
      (Display_DataHiWrite (Display_DataLoWrite zeroMachine 0xE7) 0x03)
      (by decide) (by decide) (Or.inl (by decide))).2.2.2.1⟩

set_option maxRecDepth 8192 in
/-- C28, counterexample: mode 4 (320 x 200) and the index `v = 256 < 320 × 200`.
`SET_CURSOR_INDEX` stores `256 mod 320 = 256` into the 8-bit `cursorX`, which keeps 0;
so `cursor_x = 0`, not 256, `cursor_index = 0`, and `GET_CURSOR_INDEX` publishes 0, not
256. -/
theorem Display_SET_CURSOR_INDEX_pixel :
    pixelModeExample.display.mode = 4
    ∧ modeLookup DISPLAY_WIDTH pixelModeExample.display.mode = 320
    ∧ modeLookup DISPLAY_HEIGHT pixelModeExample.display.mode = 200
    ∧ (Display_DataHiWrite (Display_DataLoWrite pixelModeExample 0x00) 0x01).display.data = 256
    ∧ (displayCommand pixelModeExample 0x22 256).display.cursorX = 0
    ∧ (displayCommand pixelModeExample 0x22 256).display.cursorY = 0
    ∧ (displayCommand pixelModeExample 0x22 256).display.cursorIndex = 0
    ∧ (Display_CommandPortWrite (displayCommand pixelModeExample 0x22 256) 0x12).display.data = 0
    ∧ displayData (Display_CommandPortWrite (displayCommand pixelModeExample 0x22 256) 0x12)
        ≠ 256 := by
  decide

/-! ## The memory base commands -/

/-- The 16-bit `DATA` register after the host has written both data ports. -/
theorem displayData_stage (n : Machine) (lo hi : Byte) :
    displayData (Display_DataHiWrite (Display_DataLoWrite n lo) hi) = hi.val * 256 + lo.val := by
  rw [displayData, TO_SHORT_eq _ _ (Fin.isLt _)]
  simp only [Display_DataLoRead, Display_DataHiRead, Display_DataHiWrite, Display_DataLoWrite]
  rw [unionLo_unionSetHi, unionLo_unionSetLo, unionHi_unionSetHi]

/-- C29 (the code at its failing input): the switch of `Display_CommandPortWrite` has no
case for `SET_MEMORY_BASE` (0x20) nor for `GET_MEMORY_BASE` (0x10); both leave the
machine as it is.  So `SET_MEMORY_BASE` with `DATA = v` leaves the base unchanged, and a
following `GET_MEMORY_BASE`, issued after `DATA` has been overwritten with `w`, leaves
`w` in `DATA`. -/
theorem Display_MEMORY_BASE_no_case (m : Machine) (v w : Short) :
    Display_CommandPortWrite m 0x20 = m
    ∧ Display_CommandPortWrite m 0x10 = m
    ∧ (displayCommand m 0x20 v).display.base = m.display.base
    ∧ (displayCommand (displayCommand m 0x20 v) 0x10 w).display.base = m.display.base
    ∧ displayData (displayCommand (displayCommand m 0x20 v) 0x10 w) = w.val := by
  refine ⟨rfl, rfl, rfl, rfl, ?_⟩
  have e : displayCommand (displayCommand m 0x20 v) 0x10 w
      = Display_DataHiWrite (Display_DataLoWrite (displayCommand m 0x20 v)
          (toUChar (SHORT_LO w.val))) (toUChar (SHORT_HI w.val)) := rfl
  rw [e, displayData_stage]
  have hw := w.isLt
  simp only [toUChar_val, SHORT_LO_eq, SHORT_HI_eq]
  omega

set_option maxRecDepth 8192 in
/-- The failing input of C29, evaluated on the zero machine: `SET_MEMORY_BASE` with
`DATA = 0x1234` leaves the base 0; after `DATA` is overwritten with 0,
`GET_MEMORY_BASE` leaves `DATA = 0`, not 0x1234. -/
theorem Display_MEMORY_BASE_zeroMachine :
    (displayCommand zeroMachine 0x20 0x1234).display.base = 0
    ∧ displayData (displayCommand zeroMachine 0x20 0x1234) = 0x1234
    ∧ displayData (displayCommand (displayCommand zeroMachine 0x20 0x1234) 0x10 0) = 0 := by
  decide

/-! ## The 16-bit rotate right -/

theorem CPU_RRS_eq (m : Machine) (a : Short) :
    CPU_RRS m a =
      (toUShort ((a.val >>> 1) ||| (bitVal m.cpu.f.c <<< 7)),
       { m with cpu := { m.cpu with f := { m.cpu.f with
          z := decide ((toUShort ((a.val >>> 1) ||| (bitVal m.cpu.f.c <<< 7))).val = 0)
          c := toBit (a.val &&& 1)
          s := (toUShort ((a.val >>> 1) ||| (bitVal m.cpu.f.c <<< 7))).val.testBit 15
          v := false } } }) := by
  simp only [CPU_RRS, Machine.setFZ, Machine.setFC, Machine.setFS, Machine.setFV,
    toBit_LNOT, toBit_zero, toBit_shiftRight]

/-- The value `(a >> 1) | (c << 7)` of a 16-bit `a`: it fits 15 bits, bit 7 is bit 8 of
`a` or the carry, every other bit `i` is bit `i + 1` of `a`. -/
theorem rrs_value (a : Short) (c : Bool) :
    (toUShort ((a.val >>> 1) ||| (bitVal c <<< 7))).val = (a.val >>> 1) ||| (bitVal c <<< 7)
    ∧ ((a.val >>> 1) ||| (bitVal c <<< 7)) < 2 ^ 15
    ∧ ((a.val >>> 1) ||| (bitVal c <<< 7)).testBit 7 = (a.val.testBit 8 || c)
    ∧ (∀ i, i ≠ 7 → ((a.val >>> 1) ||| (bitVal c <<< 7)).testBit i = a.val.testBit (i + 1))
    ∧ ((a.val >>> 1) ||| (bitVal c <<< 7)).testBit 15 = false := by
  have ha := a.isLt
  have h1 : a.val >>> 1 < 2 ^ 15 := by
    rw [Nat.shiftRight_eq_div_pow]
    omega
  have h2 : bitVal c <<< 7 < 2 ^ 15 := by
    cases c <;> decide
  have hlt : ((a.val >>> 1) ||| (bitVal c <<< 7)) < 2 ^ 15 := Nat.or_lt_two_pow h1 h2
  have hbit : ∀ i, (bitVal c <<< 7).testBit i = (decide (i = 7) && c) := by
    intro i
    cases c
    · simp [bitVal]
    · simp only [bitVal, if_true, Nat.one_shiftLeft, Nat.testBit_two_pow, Bool.and_true]
      by_cases h : i = 7
      · subst h
        rfl
      · have h7 : ¬ (7 = i) := fun e => h e.symm
        simp [h, h7]
  refine ⟨?_, hlt, ?_, ?_, ?_⟩
  · rw [toUShort_val]
    exact Nat.mod_eq_of_lt (Nat.lt_of_lt_of_le hlt (by decide))
  · rw [Nat.testBit_or, Nat.testBit_shiftRight, hbit]
    simp
  · intro i hi
    rw [Nat.testBit_or, Nat.testBit_shiftRight, hbit]
    simp [hi, Nat.add_comm]
  · exact Nat.testBit_lt_two_pow hlt

theorem toBit_and_one (a : Nat) : toBit (a &&& 1) = a.testBit 0 := by
  rw [Nat.and_one_is_mod, toBit, Nat.testBit_zero]
  simp

/-- What a 16-bit handler that pops `a`, optionally sets the carry to `x`, and pushes
`CPU_RRS(a)` leaves: the result on top of the stack, the flags of `CPU_RRS`, `S`
unchanged. -/
theorem CPU_PushShort_RRS_spec (n : Machine) (c0 : Bool)
    (n1 : Machine) (h1 : n1.cpu.s = toUShort (n.cpu.s.val + 2)) (hc : n1.cpu.f.c = c0) :
    stackTopShort (CPU_PushShort (CPU_RRS n1 (stackTopShort n)).2 (CPU_RRS n1 (stackTopShort n)).1)
        = toUShort (((stackTopShort n).val >>> 1) ||| (bitVal c0 <<< 7))
    ∧ (CPU_PushShort (CPU_RRS n1 (stackTopShort n)).2 (CPU_RRS n1 (stackTopShort n)).1).cpu.f.c
        = (stackTopShort n).val.testBit 0
    ∧ (CPU_PushShort (CPU_RRS n1 (stackTopShort n)).2 (CPU_RRS n1 (stackTopShort n)).1).cpu.f.s
        = (toUShort (((stackTopShort n).val >>> 1) ||| (bitVal c0 <<< 7))).val.testBit 15
    ∧ (CPU_PushShort (CPU_RRS n1 (stackTopShort n)).2 (CPU_RRS n1 (stackTopShort n)).1).cpu.s
        = n.cpu.s := by
  refine ⟨?_, ?_, ?_, ?_⟩
  · rw [stackTopShort_PushShort, CPU_RRS_eq, hc]
  · rw [CPU_PushShort_f, CPU_RRS_eq]
    exact toBit_and_one _
  · rw [CPU_PushShort_f, CPU_RRS_eq, hc]
  · rw [CPU_PushShort_eq, CPU_RRS_eq]
    show intToUShort ((n1.cpu.s.val : Int) - 2) = n.cpu.s
    rw [h1]
    exact intToUShort_add2_pred2 n.cpu.s

/-- C30: for every 16-bit `a` and carry-in `c` (every machine state), `CPU_RRS` returns
`(a >> 1) | (c << 7)`: the carry enters bit 7 (bit 7 of the result is bit 8 of `a` or
the carry; every other bit `i` is bit `i + 1` of `a`, so bit 15 is 0), the new carry is
bit 0 of `a` and the new `S` flag is bit 15 of the result.  The handler of `RRS` pops
`a` and pushes that value; the handler of `SRS`, which clears the carry first, pushes
exactly `a >> 1`, whatever the carry was; and so does `CPU_Execute` on the opcodes 0x81
(`RRS`) and 0x83 (`SRS`). -/
theorem CPU_RRS_SRS (m : Machine) :
    (∀ a : Short,
      (CPU_RRS m a).1.val = (a.val >>> 1) ||| (bitVal m.cpu.f.c <<< 7)
      ∧ (CPU_RRS m a).1.val.testBit 7 = (a.val.testBit 8 || m.cpu.f.c)
      ∧ (∀ i, i ≠ 7 → (CPU_RRS m a).1.val.testBit i = a.val.testBit (i + 1))
      ∧ (CPU_RRS m a).1.val.testBit 15 = false
      ∧ (CPU_RRS m a).2.cpu.f.c = a.val.testBit 0
      ∧ (CPU_RRS m a).2.cpu.f.s = (CPU_RRS m a).1.val.testBit 15)
    ∧ ((stackTopShort (CPU_Opcode_RRS m)).val
          = ((stackTopShort m).val >>> 1) ||| (bitVal m.cpu.f.c <<< 7)
      ∧ (CPU_Opcode_RRS m).cpu.f.c = (stackTopShort m).val.testBit 0
      ∧ (CPU_Opcode_RRS m).cpu.f.s = (stackTopShort (CPU_Opcode_RRS m)).val.testBit 15
      ∧ (CPU_Opcode_RRS m).cpu.s = m.cpu.s)
    ∧ ((stackTopShort (CPU_Opcode_SRS m)).val = (stackTopShort m).val >>> 1
      ∧ (stackTopShort (CPU_Opcode_SRS m)).val = (stackTopShort m).val / 2
      ∧ (CPU_Opcode_SRS m).cpu.f.c = (stackTopShort m).val.testBit 0
      ∧ (CPU_Opcode_SRS m).cpu.s = m.cpu.s)
    ∧ (Memory_GetByte m m.cpu.i = 0x81 →
        (stackTopShort (CPU_Execute m)).val
          = ((stackTopShort m).val >>> 1) ||| (bitVal m.cpu.f.c <<< 7)
        ∧ (CPU_Execute m).cpu.f.c = (stackTopShort m).val.testBit 0
        ∧ (CPU_Execute m).cpu.s = m.cpu.s)
    ∧ (Memory_GetByte m m.cpu.i = 0x83 →
        (stackTopShort (CPU_Execute m)).val = (stackTopShort m).val >>> 1
        ∧ (CPU_Execute m).cpu.f.c = (stackTopShort m).val.testBit 0
        ∧ (CPU_Execute m).cpu.s = m.cpu.s) := by
  have hR : ∀ n : Machine,
      (stackTopShort (CPU_Opcode_RRS n)).val
          = ((stackTopShort n).val >>> 1) ||| (bitVal n.cpu.f.c <<< 7)
      ∧ (CPU_Opcode_RRS n).cpu.f.c = (stackTopShort n).val.testBit 0
      ∧ (CPU_Opcode_RRS n).cpu.f.s = (stackTopShort (CPU_Opcode_RRS n)).val.testBit 15
      ∧ (CPU_Opcode_RRS n).cpu.s = n.cpu.s := by
    intro n
    have h := CPU_PushShort_RRS_spec n n.cpu.f.c (CPU_PopShort n).2
      (by rw [CPU_PopShort_eq]) (by rw [CPU_PopShort_eq])
    have e : CPU_Opcode_RRS n
        = CPU_PushShort (CPU_RRS (CPU_PopShort n).2 (stackTopShort n)).2
            (CPU_RRS (CPU_PopShort n).2 (stackTopShort n)).1 := rfl
    rw [e, h.1, h.2.1, h.2.2.1, h.2.2.2, (rrs_value _ _).1]
    exact ⟨rfl, rfl, rfl, rfl⟩
  have hS : ∀ n : Machine,
      (stackTopShort (CPU_Opcode_SRS n)).val = (stackTopShort n).val >>> 1
      ∧ (CPU_Opcode_SRS n).cpu.f.c = (stackTopShort n).val.testBit 0
      ∧ (CPU_Opcode_SRS n).cpu.s = n.cpu.s := by
    intro n
    have h := CPU_PushShort_RRS_spec n false ((CPU_PopShort n).2.setFC 0)
      (by rw [CPU_PopShort_eq]; rfl) rfl
    have e : CPU_Opcode_SRS n
        = CPU_PushShort (CPU_RRS ((CPU_PopShort n).2.setFC 0) (stackTopShort n)).2
            (CPU_RRS ((CPU_PopShort n).2.setFC 0) (stackTopShort n)).1 := rfl
    rw [e, h.1, h.2.1, h.2.2.2, (rrs_value _ _).1]
    refine ⟨?_, rfl, rfl⟩
    simp [bitVal]
  refine ⟨?_, hR m, ⟨(hS m).1, ?_, (hS m).2.1, (hS m).2.2⟩, ?_, ?_⟩
  · intro a
    have hv := rrs_value a m.cpu.f.c
    rw [CPU_RRS_eq, hv.1]
    exact ⟨rfl, hv.2.2.1, hv.2.2.2.1, hv.2.2.2.2, toBit_and_one _, rfl⟩
  · rw [(hS m).1, Nat.shiftRight_eq_div_pow]
  · intro hop
    have e : CPU_Execute m = CPU_Opcode_RRS (CPU_FetchByte m).2 :=
      CPU_Execute_of_opcode m 0x81 OpcodeFn.RRS hop (by decide)
    rw [e]
    have h := hR (CPU_FetchByte m).2
    exact ⟨h.1, h.2.1, h.2.2.2⟩
  · intro hop
    have e : CPU_Execute m = CPU_Opcode_SRS (CPU_FetchByte m).2 :=
      CPU_Execute_of_opcode m 0x83 OpcodeFn.SRS hop (by decide)
    rw [e]
    exact hS (CPU_FetchByte m).2

set_option maxRecDepth 8192 in
/-- C30, witness: `RRS` and `SRS` on 0x8001 with the carry set: `RRS` leaves 0x4080
(the carry in bit 7, bit 15 clear), `SRS` leaves 0x4000; both leave the carry set (bit
0 of 0x8001). -/
theorem CPU_RRS_SRS_witness :
    Memory_GetByte rrsExample rrsExample.cpu.i = 0x81
    ∧ Memory_GetByte srsExample srsExample.cpu.i = 0x83
    ∧ ((stackTopShort (CPU_Execute rrsExample)).val
          = ((stackTopShort rrsExample).val >>> 1) ||| (bitVal rrsExample.cpu.f.c <<< 7)
        ∧ (CPU_Execute rrsExample).cpu.f.c = (stackTopShort rrsExample).val.testBit 0
        ∧ (CPU_Execute rrsExample).cpu.s = rrsExample.cpu.s)
    ∧ ((stackTopShort (CPU_Execute srsExample)).val = (stackTopShort srsExample).val >>> 1
        ∧ (CPU_Execute srsExample).cpu.f.c = (stackTopShort srsExample).val.testBit 0
        ∧ (CPU_Execute srsExample).cpu.s = srsExample.cpu.s) :=
  ⟨by decide, by decide, (CPU_RRS_SRS rrsExample).2.2.2.1 (by decide),
    (CPU_RRS_SRS srsExample).2.2.2.2 (by decide)⟩

set_option maxRecDepth 8192 in
/-- The rotate and shift scenarios, evaluated. -/
theorem CPU_Execute_rrsExample :
    stackTopShort rrsExample = 0x8001
    ∧ stackTopShort (CPU_Execute rrsExample) = 0x4080
    ∧ (CPU_Execute rrsExample).cpu.f.c = true
    ∧ (CPU_Execute rrsExample).cpu.f.s = false
    ∧ stackTopShort (CPU_Execute srsExample) = 0x4000
    ∧ (CPU_Execute srsExample).cpu.f.c = true := by
  decide

/-! ## The disk transfer engine -/

theorem diskIndex_val (n : Nat) : (diskIndex n).val = n % 16384 := by
  have h := Nat.and_pow_two_sub_one_eq_mod n 14
  simpa [diskIndex, DISK_SIZE_MASK, DISK_SIZE] using h

theorem intToUInt_val (z : Int) : (intToUInt z).val = (z % 4294967296).toNat := rfl

theorem Disk_ReadByte_eq (m : Machine) :
    Disk_ReadByte m =
      { m with
        MEMORY := fun j => if j = m.disk.memoryAddress
          then m.DISK (diskIndex m.disk.diskAddress.val) else m.MEMORY j
        disk := { m.disk with
          memoryAddress := toUShort (m.disk.memoryAddress.val + 1)
          status := { m.disk.status with ready := decide (m.disk.byteCount.val = 0) }
          diskAddress := toUShort (m.disk.diskAddress.val + 1)
          byteCount := intToUInt ((m.disk.byteCount.val : Int) - 1) } } := by
  simp only [Disk_ReadByte, Memory_SetByte_eq, DISK_GETBYTE, toBit_LNOT]

theorem Disk_WriteByte_eq (m : Machine) :
    Disk_WriteByte m =
      { m with
        DISK := fun j => if j = diskIndex m.disk.diskAddress.val
          then m.MEMORY m.disk.memoryAddress else m.DISK j
        disk := { m.disk with
          memoryAddress := toUShort (m.disk.memoryAddress.val + 1)
          status := { m.disk.status with ready := decide (m.disk.byteCount.val = 0) }
          diskAddress := toUShort (m.disk.diskAddress.val + 1)
          byteCount := intToUInt ((m.disk.byteCount.val : Int) - 1) } } := by
  simp only [Disk_WriteByte, DISK_SETBYTE, Memory_GetByte_eq, toBit_LNOT]

/-- The function `Disk_Update` by cases on `ready` and `operation`. -/
theorem Disk_Update_eq (m : Machine) :
    Disk_Update m = if m.disk.status.ready = true then m
      else if m.disk.status.operation = true then Disk_WriteByte m else Disk_ReadByte m := by
  obtain ⟨mem, cpu, rd, wr, dk, ⟨ma, data, ⟨ie, rdy, op, un⟩, da, sc, bc⟩, disp⟩ := m
  cases rdy <;> cases op <;> rfl

theorem Disk_Update_read (m : Machine) (hr : m.disk.status.ready = false)
    (ho : m.disk.status.operation = false) : Disk_Update m = Disk_ReadByte m := by
  rw [Disk_Update_eq, hr, ho]
  rfl

theorem Disk_Update_write (m : Machine) (hr : m.disk.status.ready = false)
    (ho : m.disk.status.operation = true) : Disk_Update m = Disk_WriteByte m := by
  rw [Disk_Update_eq, hr, ho]
  rfl

/-- What one tick of a busy disk does to the disk registers, whatever the operation,
and what it leaves alone. -/
theorem Disk_Update_busy_disk (m : Machine) (hr : m.disk.status.ready = false) :
    (Disk_Update m).disk
        = { m.disk with
            memoryAddress := toUShort (m.disk.memoryAddress.val + 1)
            status := { m.disk.status with ready := decide (m.disk.byteCount.val = 0) }
            diskAddress := toUShort (m.disk.diskAddress.val + 1)
            byteCount := intToUInt ((m.disk.byteCount.val : Int) - 1) }
    ∧ (Disk_Update m).cpu = m.cpu
    ∧ (Disk_Update m).IO_READ_FUNPTR = m.IO_READ_FUNPTR
    ∧ (Disk_Update m).IO_WRITE_FUNPTR = m.IO_WRITE_FUNPTR
    ∧ (Disk_Update m).display = m.display := by
  cases ho : m.disk.status.operation
  · rw [Disk_Update_read m hr ho, Disk_ReadByte_eq]
    exact ⟨rfl, rfl, rfl, rfl, rfl⟩
  · rw [Disk_Update_write m hr ho, Disk_WriteByte_eq]
    exact ⟨rfl, rfl, rfl, rfl, rfl⟩

theorem diskTicks_succ (j : Nat) (m : Machine) :
    diskTicks (j + 1) m = Disk_Update (diskTicks j m) := by
  induction j generalizing m with
  | zero => rfl
  | succ j ih =>
    show diskTicks (j + 1) (Disk_Update m) = _
    rw [ih]
    rfl

theorem diskTicks_add (a b : Nat) (m : Machine) :
    diskTicks (a + b) m = diskTicks b (diskTicks a m) := by
  induction b with
  | zero => rfl
  | succ b ih => rw [← Nat.add_assoc, diskTicks_succ, diskTicks_succ, ih]

/-- The disk registers after `j` ticks of a busy disk, `j` at most the byte count:
both addresses have advanced by `j`, the byte count has gone down by `j`, and the
status (so `ready = 0`) is as it was. -/
theorem diskTicks_registers (j : Nat) (m : Machine) (hr : m.disk.status.ready = false)
    (hj : j ≤ m.disk.byteCount.val) :
    (diskTicks j m).disk
        = { m.disk with
            memoryAddress := toUShort (m.disk.memoryAddress.val + j)
            diskAddress := toUShort (m.disk.diskAddress.val + j)
            byteCount := toUInt (m.disk.byteCount.val - j) }
    ∧ (diskTicks j m).cpu = m.cpu
    ∧ (diskTicks j m).IO_READ_FUNPTR = m.IO_READ_FUNPTR
    ∧ (diskTicks j m).IO_WRITE_FUNPTR = m.IO_WRITE_FUNPTR
    ∧ (diskTicks j m).display = m.display := by
  induction j with
  | zero =>
    refine ⟨?_, rfl, rfl, rfl, rfl⟩
    show m.disk = _
    simp only [Nat.add_zero, Nat.sub_zero, toUShort_of_val]
    have hb : toUInt m.disk.byteCount.val = m.disk.byteCount :=
      Fin.ext (Nat.mod_eq_of_lt m.disk.byteCount.isLt)
    rw [hb]
  | succ j ih =>
    have ih2 := ih (by omega)
    have hr2 : (diskTicks j m).disk.status.ready = false := by rw [ih2.1]; exact hr
    have hs := Disk_Update_busy_disk (diskTicks j m) hr2
    rw [diskTicks_succ, hs.1, hs.2.1, hs.2.2.1, hs.2.2.2.1, hs.2.2.2.2, ih2.1]
    refine ⟨?_, ih2.2.1, ih2.2.2.1, ih2.2.2.2.1, ih2.2.2.2.2⟩
    have hbc := m.disk.byteCount.isLt
    have h1 : toUShort ((toUShort (m.disk.memoryAddress.val + j)).val + 1)
        = toUShort (m.disk.memoryAddress.val + (j + 1)) := by
      apply Fin.ext
      simp only [toUShort_val]
      omega
    have h2 : toUShort ((toUShort (m.disk.diskAddress.val + j)).val + 1)
        = toUShort (m.disk.diskAddress.val + (j + 1)) := by
      apply Fin.ext
      simp only [toUShort_val]
      omega
    have h3 : intToUInt (((toUInt (m.disk.byteCount.val - j)).val : Int) - 1)
        = toUInt (m.disk.byteCount.val - (j + 1)) := by
      apply Fin.ext
      simp only [toUInt_val, intToUInt_val]
      omega
    have h4 : decide ((toUInt (m.disk.byteCount.val - j)).val = 0) = false := by
      simp only [toUInt_val, decide_eq_false_iff_not]
      omega
    simp only [h1, h2, h3, h4]
    rw [← hr]

/-- The memory after `j` read ticks of a busy disk (`j` at most the byte count and at
most `2^16`): the `j` bytes from `memoryAddress` on (modulo `2^16`) hold the disk bytes
from `diskAddress` on (modulo 16384), every other byte is as it was; the disk is
unchanged. -/
theorem diskTicks_read (j : Nat) (m : Machine) (hr : m.disk.status.ready = false)
    (ho : m.disk.status.operation = false) (hj : j ≤ m.disk.byteCount.val)
    (hj2 : j ≤ 65536) :
    (diskTicks j m).DISK = m.DISK
    ∧ ∀ a : Short, (diskTicks j m).MEMORY a
        = if (a.val + 65536 - m.disk.memoryAddress.val) % 65536 < j
          then m.DISK (diskIndex (m.disk.diskAddress.val
            + (a.val + 65536 - m.disk.memoryAddress.val) % 65536))
          else m.MEMORY a := by
  induction j with
  | zero =>
    refine ⟨rfl, fun a => ?_⟩
    rw [if_neg (Nat.not_lt_zero _)]
    rfl
  | succ j ih =>
    have ih2 := ih (by omega) (by omega)
    have hreg := (diskTicks_registers j m hr (by omega)).1
    have hr2 : (diskTicks j m).disk.status.ready = false := by rw [hreg]; exact hr
    have ho2 : (diskTicks j m).disk.status.operation = false := by rw [hreg]; exact ho
    rw [diskTicks_succ, Disk_Update_read _ hr2 ho2, Disk_ReadByte_eq]
    refine ⟨ih2.1, fun a => ?_⟩
    show (if a = (diskTicks j m).disk.memoryAddress
      then (diskTicks j m).DISK (diskIndex (diskTicks j m).disk.diskAddress.val)
      else (diskTicks j m).MEMORY a) = _
    rw [hreg, ih2.1, ih2.2 a]
    show (if a = toUShort (m.disk.memoryAddress.val + j)
      then m.DISK (diskIndex (toUShort (m.disk.diskAddress.val + j)).val) else _) = _
    have ha := a.isLt
    have hM := m.disk.memoryAddress.isLt
    by_cases hc : a = toUShort (m.disk.memoryAddress.val + j)
    · have hoff : (a.val + 65536 - m.disk.memoryAddress.val) % 65536 = j := by
        rw [hc, toUShort_val]
        omega
      rw [if_pos hc, hoff, if_pos (Nat.lt_succ_self j)]
      congr 1
      apply Fin.ext
      rw [diskIndex_val, diskIndex_val, toUShort_val]
      omega
    · have hoff : (a.val + 65536 - m.disk.memoryAddress.val) % 65536 ≠ j := by
        intro e
        apply hc
        apply Fin.ext
        rw [toUShort_val]
        omega
      rw [if_neg hc]
      by_cases hlt : (a.val + 65536 - m.disk.memoryAddress.val) % 65536 < j
      · rw [if_pos hlt, if_pos (by omega)]
      · rw [if_neg hlt, if_neg (by omega)]

/-- The disk after `j` write ticks of a busy disk (`j` at most the byte count and at
most 16384): the `j` bytes from `diskAddress` on (modulo 16384) hold the memory bytes
from `memoryAddress` on (modulo `2^16`), every other byte is as it was; the memory is
unchanged. -/
theorem diskTicks_write (j : Nat) (m : Machine) (hr : m.disk.status.ready = false)
    (ho : m.disk.status.operation = true) (hj : j ≤ m.disk.byteCount.val)
    (hj2 : j ≤ 16384) :
    (diskTicks j m).MEMORY = m.MEMORY
    ∧ ∀ x : Fin 16384, (diskTicks j m).DISK x
        = if (x.val + 16384 - m.disk.diskAddress.val % 16384) % 16384 < j
          then m.MEMORY (toUShort (m.disk.memoryAddress.val
            + (x.val + 16384 - m.disk.diskAddress.val % 16384) % 16384))
          else m.DISK x := by
  induction j with
  | zero =>
    refine ⟨rfl, fun x => ?_⟩
    rw [if_neg (Nat.not_lt_zero _)]
    rfl
  | succ j ih =>
    have ih2 := ih (by omega) (by omega)
    have hreg := (diskTicks_registers j m hr (by omega)).1
    have hr2 : (diskTicks j m).disk.status.ready = false := by rw [hreg]; exact hr
    have ho2 : (diskTicks j m).disk.status.operation = true := by rw [hreg]; exact ho
    rw [diskTicks_succ, Disk_Update_write _ hr2 ho2, Disk_WriteByte_eq]
    refine ⟨ih2.1, fun x => ?_⟩
    show (if x = diskIndex (diskTicks j m).disk.diskAddress.val
      then (diskTicks j m).MEMORY (diskTicks j m).disk.memoryAddress
      else (diskTicks j m).DISK x) = _
    rw [hreg, ih2.1, ih2.2 x]
    show (if x = diskIndex (toUShort (m.disk.diskAddress.val + j)).val
      then m.MEMORY (toUShort (m.disk.memoryAddress.val + j)) else _) = _
    have hx := x.isLt
    by_cases hc : x = diskIndex (toUShort (m.disk.diskAddress.val + j)).val
    · have hoff : (x.val + 16384 - m.disk.diskAddress.val % 16384) % 16384 = j := by
        rw [hc, diskIndex_val, toUShort_val]
        omega
      rw [if_pos hc, hoff, if_pos (Nat.lt_succ_self j)]
    · have hoff : (x.val + 16384 - m.disk.diskAddress.val % 16384) % 16384 ≠ j := by
        intro e
        apply hc
        apply Fin.ext
        rw [diskIndex_val, toUShort_val]
        omega
      rw [if_neg hc]
      by_cases hlt : (x.val + 16384 - m.disk.diskAddress.val % 16384) % 16384 < j
      · rw [if_pos hlt, if_pos (by omega)]
      · rw [if_neg hlt, if_neg (by omega)]

/-! ## One tick -/

/-- C22 (amended): for every disk state with `ready = 0`, one `Disk_Update` transfers
exactly one byte: for `operation = READ`, `memory[memory_address]` becomes
`disk[disk_address mod 16384]` and no other memory byte and no disk byte changes; for
`WRITE`, `disk[disk_address mod 16384]` becomes `memory[memory_address]` and no other
disk byte and no memory byte changes.  Then `disk_address` is incremented modulo `2^16`
(it is an `unsigned short`; only the byte index `disk_address mod 16384` wraps modulo
16384), `memory_address` is incremented modulo `2^16`, and `byte_count` is decremented by
1 modulo `2^32`.  `ready` becomes `byte_count == 0` (the count before the decrement); the
other disk registers, the CPU, the port tables and the display are unchanged. -/
theorem Disk_Update_busy (m : Machine) (hr : m.disk.status.ready = false) :
    (m.disk.status.operation = false →
      (Disk_Update m).MEMORY
          = (fun j => if j = m.disk.memoryAddress
              then m.DISK (diskIndex m.disk.diskAddress.val) else m.MEMORY j)
      ∧ (Disk_Update m).DISK = m.DISK)
    ∧ (m.disk.status.operation = true →
      (Disk_Update m).DISK
          = (fun x => if x = diskIndex m.disk.diskAddress.val
              then m.MEMORY m.disk.memoryAddress else m.DISK x)
      ∧ (Disk_Update m).MEMORY = m.MEMORY)
    ∧ (diskIndex m.disk.diskAddress.val).val = m.disk.diskAddress.val % 16384
    ∧ (Disk_Update m).disk.diskAddress.val = (m.disk.diskAddress.val + 1) % 65536
    ∧ (diskIndex (Disk_Update m).disk.diskAddress.val).val
        = (m.disk.diskAddress.val % 16384 + 1) % 16384
    ∧ (Disk_Update m).disk.memoryAddress.val = (m.disk.memoryAddress.val + 1) % 65536
    ∧ (Disk_Update m).disk.byteCount.val = (m.disk.byteCount.val + 4294967295) % 4294967296
    ∧ (0 < m.disk.byteCount.val →
        (Disk_Update m).disk.byteCount.val = m.disk.byteCount.val - 1)
    ∧ (Disk_Update m).disk.status.ready = decide (m.disk.byteCount.val = 0)
    ∧ (Disk_Update m).disk.status.intEnable = m.disk.status.intEnable
    ∧ (Disk_Update m).disk.status.operation = m.disk.status.operation
    ∧ (Disk_Update m).disk.data = m.disk.data
    ∧ (Disk_Update m).disk.sectorCount = m.disk.sectorCount
    ∧ (Disk_Update m).cpu = m.cpu
    ∧ (Disk_Update m).IO_READ_FUNPTR = m.IO_READ_FUNPTR
    ∧ (Disk_Update m).IO_WRITE_FUNPTR = m.IO_WRITE_FUNPTR
    ∧ (Disk_Update m).display = m.display := by
  have hs := Disk_Update_busy_disk m hr
  have hbc := m.disk.byteCount.isLt
  have hbv : (intToUInt ((m.disk.byteCount.val : Int) - 1)).val
      = (m.disk.byteCount.val + 4294967295) % 4294967296 := by
    rw [intToUInt_val]
    omega
  refine ⟨?_, ?_, diskIndex_val _, ?_, ?_, ?_, ?_, ?_, ?_, ?_, ?_, ?_, ?_, hs.2.1, hs.2.2.1,
    hs.2.2.2.1, hs.2.2.2.2⟩
  · intro ho
    rw [Disk_Update_read m hr ho, Disk_ReadByte_eq]
    exact ⟨rfl, rfl⟩
  · intro ho
    rw [Disk_Update_write m hr ho, Disk_WriteByte_eq]
    exact ⟨rfl, rfl⟩
  · rw [hs.1]
    rfl
  · rw [hs.1, diskIndex_val]
    show (toUShort (m.disk.diskAddress.val + 1)).val % 16384 = _
    rw [toUShort_val]
    omega
  · rw [hs.1]
    rfl
  · rw [hs.1]
    exact hbv
  · intro hpos
    rw [hs.1]
    show (intToUInt ((m.disk.byteCount.val : Int) - 1)).val = _
    rw [hbv]
    omega
  · rw [hs.1]
  · rw [hs.1]
  · rw [hs.1]
  · rw [hs.1]
  · rw [hs.1]

set_option maxRecDepth 8192 in
/-- C22 (amended), witness: the last byte of the last sector, read to 0x8000. -/
theorem Disk_Update_busy_witness :
    lastByteExample.disk.status.ready = false
    ∧ lastByteExample.disk.status.operation = false
    ∧ ((Disk_Update lastByteExample).MEMORY
          = (fun j => if j = lastByteExample.disk.memoryAddress
              then lastByteExample.DISK (diskIndex lastByteExample.disk.diskAddress.val)
              else lastByteExample.MEMORY j)
      ∧ (Disk_Update lastByteExample).DISK = lastByteExample.DISK)
    ∧ (Disk_Update lastByteExample).disk.diskAddress.val
        = (lastByteExample.disk.diskAddress.val + 1) % 65536
    ∧ (Disk_Update lastByteExample).disk.byteCount.val
        = lastByteExample.disk.byteCount.val - 1 :=
  ⟨by decide, by decide, (Disk_Update_busy lastByteExample (by decide)).1 (by decide),
    (Disk_Update_busy lastByteExample (by decide)).2.2.2.1,
    (Disk_Update_busy lastByteExample (by decide)).2.2.2.2.2.2.2.1 (by decide)⟩

set_option maxRecDepth 8192 in
/-- C22, counterexample: a busy disk with `disk_address = 0x3FFF` (the last byte of the
disk).  One `Disk_Update` copies the disk byte 0xEF to `memory[0x8000]` and leaves
`disk_address = 0x4000`: it has not wrapped modulo 16384 to 0. -/
theorem Disk_Update_lastByteExample :
    lastByteExample.disk.status.ready = false
    ∧ lastByteExample.disk.diskAddress = 0x3FFF
    ∧ (Disk_Update lastByteExample).MEMORY 0x8000 = 0xEF
    ∧ (Disk_Update lastByteExample).disk.diskAddress = 0x4000
    ∧ (Disk_Update lastByteExample).disk.diskAddress.val
        ≠ (lastByteExample.disk.diskAddress.val + 1) % 16384
    ∧ (Disk_Update lastByteExample).disk.memoryAddress = 0x8001
    ∧ (Disk_Update lastByteExample).disk.byteCount = 0 := by
  decide

/-! ## The end of a transfer -/

/-- A transfer of `byteCount = N` bytes on a busy disk: after `N` ticks the byte count
is 0 and both addresses have advanced by `N`, but `ready` is still 0; tick `N + 1`
sets `ready = 1`, transfers one more byte (at the addresses `N` further on) and leaves
the byte count at `2^32 - 1`; later ticks do nothing. -/
theorem diskTicks_overrun (m : Machine) (N : Nat) (hr : m.disk.status.ready = false)
    (hN : m.disk.byteCount.val = N)
    (N1 : Nat) (hN1 : N1 = N + 1) :
    ((diskTicks N m).disk.byteCount.val = 0
      ∧ (diskTicks N m).disk.status.ready = false
      ∧ (diskTicks N m).disk.memoryAddress = toUShort (m.disk.memoryAddress.val + N)
      ∧ (diskTicks N m).disk.diskAddress = toUShort (m.disk.diskAddress.val + N))
    ∧ ((diskTicks N1 m).disk.status.ready = true
      ∧ (diskTicks N1 m).disk.byteCount.val = 4294967295
      ∧ (diskTicks N1 m).disk.memoryAddress = toUShort (m.disk.memoryAddress.val + N + 1)
      ∧ (diskTicks N1 m).disk.diskAddress = toUShort (m.disk.diskAddress.val + N + 1))
    ∧ (m.disk.status.operation = false →
        (diskTicks N1 m).MEMORY (toUShort (m.disk.memoryAddress.val + N))
          = (diskTicks N m).DISK (diskIndex (m.disk.diskAddress.val + N)))
    ∧ (m.disk.status.operation = true →
        (diskTicks N1 m).DISK (diskIndex (m.disk.diskAddress.val + N))
          = (diskTicks N m).MEMORY (toUShort (m.disk.memoryAddress.val + N)))
    ∧ ∀ k, diskTicks (N1 + k) m = diskTicks N1 m := by
  subst hN1
  have hreg := (diskTicks_registers N m hr (by omega)).1
  have hr2 : (diskTicks N m).disk.status.ready = false := by rw [hreg]; exact hr
  have hb0 : (diskTicks N m).disk.byteCount.val = 0 := by
    rw [hreg]
    show (toUInt (m.disk.byteCount.val - N)).val = 0
    rw [hN, Nat.sub_self]
    rfl
  have hone := Disk_Update_busy_disk (diskTicks N m) hr2
  have hidx : diskIndex (toUShort (m.disk.diskAddress.val + N)).val
      = diskIndex (m.disk.diskAddress.val + N) := by
    apply Fin.ext
    rw [diskIndex_val, diskIndex_val, toUShort_val]
    omega
  have hready : (diskTicks (N + 1) m).disk.status.ready = true := by
    rw [diskTicks_succ, hone.1]
    show decide ((diskTicks N m).disk.byteCount.val = 0) = true
    rw [hb0]
    rfl
  refine ⟨⟨hb0, hr2, by rw [hreg], by rw [hreg]⟩, ⟨hready, ?_, ?_, ?_⟩, ?_, ?_, ?_⟩
  · rw [diskTicks_succ, hone.1]
    show (intToUInt (((diskTicks N m).disk.byteCount.val : Int) - 1)).val = _
    rw [hb0]
    rfl
  · rw [diskTicks_succ, hone.1, hreg]
    apply Fin.ext
    show (toUShort ((toUShort (m.disk.memoryAddress.val + N)).val + 1)).val = _
    simp only [toUShort_val]
    omega
  · rw [diskTicks_succ, hone.1, hreg]
    apply Fin.ext
    show (toUShort ((toUShort (m.disk.diskAddress.val + N)).val + 1)).val = _
    simp only [toUShort_val]
    omega
  · intro ho
    have ho2 : (diskTicks N m).disk.status.operation = false := by rw [hreg]; exact ho
    rw [diskTicks_succ, Disk_Update_read _ hr2 ho2, Disk_ReadByte_eq]
    show (if toUShort (m.disk.memoryAddress.val + N) = (diskTicks N m).disk.memoryAddress
      then (diskTicks N m).DISK (diskIndex (diskTicks N m).disk.diskAddress.val)
      else _) = _
    rw [hreg]
    show (if toUShort (m.disk.memoryAddress.val + N) = toUShort (m.disk.memoryAddress.val + N)
      then (diskTicks N m).DISK (diskIndex (toUShort (m.disk.diskAddress.val + N)).val)
      else _) = _
    rw [if_pos rfl, hidx]
  · intro ho
    have ho2 : (diskTicks N m).disk.status.operation = true := by rw [hreg]; exact ho
    rw [diskTicks_succ, Disk_Update_write _ hr2 ho2, Disk_WriteByte_eq]
    show (if diskIndex (m.disk.diskAddress.val + N)
        = diskIndex (diskTicks N m).disk.diskAddress.val
      then (diskTicks N m).MEMORY (diskTicks N m).disk.memoryAddress else _) = _
    rw [hreg]
    show (if diskIndex (m.disk.diskAddress.val + N)
        = diskIndex (toUShort (m.disk.diskAddress.val + N)).val
      then (diskTicks N m).MEMORY (toUShort (m.disk.memoryAddress.val + N)) else _) = _
    rw [if_pos hidx.symm]
  · intro k
    rw [diskTicks_add, diskTicks_ready k _ hready]

set_option maxRecDepth 8192 in
/-- C24 (the code at its failing input): the read scenario, one sector
(`byteCount = 256`) from sector 0 to 0x8000 on a busy disk.  After 256 ticks the 256
bytes are in memory (0xDE, 0xAD, 0xBE, 0xEF at 0x8000..0x8003) and `byteCount = 0`, but
`ready` is still 0: `disk.status.ready = !disk.byteCount` is computed before the
decrement.  Tick 257 sets `ready = 1` but transfers a 257th byte (`memory[0x8100]`
becomes `disk[0x100] = 0x99`) and leaves `byteCount = 2^32 - 1`; only after it do further
ticks transfer nothing. -/
theorem diskTicks_readExample :
    readExample.disk.status.ready = false
    ∧ readExample.disk.byteCount = 256
    ∧ ((diskTicks 256 readExample).MEMORY 0x8000 = 0xDE
      ∧ (diskTicks 256 readExample).MEMORY 0x8001 = 0xAD
      ∧ (diskTicks 256 readExample).MEMORY 0x8002 = 0xBE
      ∧ (diskTicks 256 readExample).MEMORY 0x8003 = 0xEF
      ∧ (diskTicks 256 readExample).MEMORY 0x8100 = 0x00)
    ∧ (diskTicks 256 readExample).disk.byteCount.val = 0
    ∧ (diskTicks 256 readExample).disk.status.ready = false
    ∧ (diskTicks 257 readExample).disk.status.ready = true
    ∧ (diskTicks 257 readExample).MEMORY 0x8100 = 0x99
    ∧ (diskTicks 257 readExample).disk.memoryAddress = 0x8101
    ∧ (diskTicks 257 readExample).disk.byteCount.val = 4294967295
    ∧ ∀ k, diskTicks (257 + k) readExample = diskTicks 257 readExample := by
  have hr : readExample.disk.status.ready = false := by decide
  have ho : readExample.disk.status.operation = false := by decide
  have hN : readExample.disk.byteCount.val = 256 := by decide
  have hrd := diskTicks_read 256 readExample hr ho (by rw [hN]) (by decide)
  have hov := diskTicks_overrun readExample 256 hr hN 257 rfl
  refine ⟨hr, by decide, ⟨?_, ?_, ?_, ?_, ?_⟩, hov.1.1, hov.1.2.1, hov.2.1.1, ?_, ?_,
    hov.2.1.2.1, hov.2.2.2.2⟩
  · rw [hrd.2]
    decide
  · rw [hrd.2]
    decide
  · rw [hrd.2]
    decide
  · rw [hrd.2]
    decide
  · rw [hrd.2]
    decide
  · have h := hov.2.2.1 ho
    rw [hrd.1] at h
    have e : toUShort (readExample.disk.memoryAddress.val + 256) = 0x8100 := by decide
    rw [e] at h
    rw [h]
    decide
  · rw [hov.2.1.2.2.1]
    decide

/-! ## The disk round trip -/

theorem unionLo_unionSetLo_short (x : Nat) (b : Byte) :
    unionLo (toUShort (unionSetLo x b)).val = b := by
  apply Fin.ext
  have h := b.isLt
  simp only [unionLo, unionSetLo, toUChar_val, toUShort_val]
  omega

/-- The 16-bit disk `DATA` register after the host has written both data ports. -/
theorem disk_data_stage (x : Nat) (v : Short) :
    toUShort (unionSetHi (toUShort (unionSetLo x (toUChar (SHORT_LO v.val)))).val
      (toUChar (SHORT_HI v.val))) = v := by
  apply Fin.ext
  have h := v.isLt
  simp only [unionSetHi, unionSetLo, toUChar_val, toUShort_val, SHORT_LO_eq, SHORT_HI_eq]
  omega

theorem Disk_SET_START_SECTOR_eq (x : Machine) :
    Disk_CommandPortWrite x (toUChar DISK_COMMAND_SET_START_SECTOR)
      = { x with disk := { x.disk with
            diskAddress := toUShort ((unionLo x.disk.data.val).val <<< DISK_SECTOR_SIZE_SHIFT) } } :=
  rfl

theorem Disk_SET_MEMORY_ADDRESS_eq (x : Machine) :
    Disk_CommandPortWrite x (toUChar DISK_COMMAND_SET_MEMORY_ADDRESS)
      = { x with disk := { x.disk with memoryAddress := x.disk.data } } := rfl

theorem Disk_SET_SECTOR_COUNT_eq (x : Machine) :
    Disk_CommandPortWrite x (toUChar DISK_COMMAND_SET_SECTOR_COUNT)
      = { x with disk := { x.disk with sectorCount := unionLo x.disk.data.val } } := rfl

theorem Disk_READ_SECTORS_eq (x : Machine) :
    Disk_CommandPortWrite x (toUChar DISK_COMMAND_READ_SECTORS)
      = { x with disk := { x.disk with
            status := { x.disk.status with operation := false }
            byteCount := toUInt (x.disk.sectorCount.val <<< DISK_SECTOR_SIZE_SHIFT) } } := rfl

theorem Disk_WRITE_SECTORS_eq (x : Machine) :
    Disk_CommandPortWrite x (toUChar DISK_COMMAND_WRITE_SECTORS)
      = { x with disk := { x.disk with
            status := { x.disk.status with operation := true }
            byteCount := toUInt (x.disk.sectorCount.val <<< DISK_SECTOR_SIZE_SHIFT) } } := rfl

/-- What the host's transfer set-up leaves, the last command being `WRITE_SECTORS`:
the start address `K << 8`, the memory address, `byteCount = n << 8` and the operation;
`ready`, the memory and the disk contents are as they were. -/
theorem diskStartTransfer_write (m : Machine) (K : Byte) (M : Short) (n : Byte) :
    (diskStartTransfer m K M n (toUChar DISK_COMMAND_WRITE_SECTORS)).disk.diskAddress.val
        = K.val * 256
    ∧ (diskStartTransfer m K M n (toUChar DISK_COMMAND_WRITE_SECTORS)).disk.memoryAddress = M
    ∧ (diskStartTransfer m K M n (toUChar DISK_COMMAND_WRITE_SECTORS)).disk.byteCount.val
        = 256 * n.val
    ∧ (diskStartTransfer m K M n (toUChar DISK_COMMAND_WRITE_SECTORS)).disk.status.operation
        = true
    ∧ (diskStartTransfer m K M n (toUChar DISK_COMMAND_WRITE_SECTORS)).disk.status.ready
        = m.disk.status.ready
    ∧ (diskStartTransfer m K M n (toUChar DISK_COMMAND_WRITE_SECTORS)).MEMORY = m.MEMORY
    ∧ (diskStartTransfer m K M n (toUChar DISK_COMMAND_WRITE_SECTORS)).DISK = m.DISK := by
  have hK := K.isLt
  have hn := n.isLt
  simp only [diskStartTransfer, diskCommand, Disk_SET_START_SECTOR_eq,
    Disk_SET_MEMORY_ADDRESS_eq, Disk_SET_SECTOR_COUNT_eq, Disk_WRITE_SECTORS_eq,
    Disk_DataLoPortWrite, Disk_DataHiPortWrite, unionLo_unionSetLo_short, disk_data_stage,
    DISK_SECTOR_SIZE_SHIFT, Nat.shiftLeft_eq]
  refine ⟨?_, trivial, ?_, trivial, trivial, trivial, trivial⟩
  · rw [toUShort_val]
    omega
  · rw [toUInt_val]
    omega

/-- The same, the last command being `READ_SECTORS`. -/
theorem diskStartTransfer_read (m : Machine) (K : Byte) (M : Short) (n : Byte) :
    (diskStartTransfer m K M n (toUChar DISK_COMMAND_READ_SECTORS)).disk.diskAddress.val
        = K.val * 256
    ∧ (diskStartTransfer m K M n (toUChar DISK_COMMAND_READ_SECTORS)).disk.memoryAddress = M
    ∧ (diskStartTransfer m K M n (toUChar DISK_COMMAND_READ_SECTORS)).disk.byteCount.val
        = 256 * n.val
    ∧ (diskStartTransfer m K M n (toUChar DISK_COMMAND_READ_SECTORS)).disk.status.operation
        = false
    ∧ (diskStartTransfer m K M n (toUChar DISK_COMMAND_READ_SECTORS)).disk.status.ready
        = m.disk.status.ready
    ∧ (diskStartTransfer m K M n (toUChar DISK_COMMAND_READ_SECTORS)).MEMORY = m.MEMORY
    ∧ (diskStartTransfer m K M n (toUChar DISK_COMMAND_READ_SECTORS)).DISK = m.DISK := by
  have hK := K.isLt
  have hn := n.isLt
  simp only [diskStartTransfer, diskCommand, Disk_SET_START_SECTOR_eq,
    Disk_SET_MEMORY_ADDRESS_eq, Disk_SET_SECTOR_COUNT_eq, Disk_READ_SECTORS_eq,
    Disk_DataLoPortWrite, Disk_DataHiPortWrite, unionLo_unionSetLo_short, disk_data_stage,
    DISK_SECTOR_SIZE_SHIFT, Nat.shiftLeft_eq]
  refine ⟨?_, trivial, ?_, trivial, trivial, trivial, trivial⟩
  · rw [toUShort_val]
    omega
  · rw [toUInt_val]
    omega

/-- The transfer engine on a busy disk, `N` ticks per transfer, does the write/read round
trip.  For every sector `K`, every sector count `n ≤ 64` (so that the `N = 256·n` bytes fit the
16384-byte disk) and memory addresses `M`, `M2` whose `N`-byte ranges do not overlap
(modulo `2^16`): from a state whose disk is busy (`ready = 0`), `SET_START_SECTOR K`,
`SET_MEMORY_ADDRESS M`, `SET_SECTOR_COUNT n`, `WRITE_SECTORS` and `N` ticks, then
`SET_START_SECTOR K`, `SET_MEMORY_ADDRESS M2`, `SET_SECTOR_COUNT n`, `READ_SECTORS` and `N`
ticks leave `memory[M2..M2+N)` equal to `memory[M..M+N)`, which is as it was before. -/
theorem diskRoundTrip_busy (m : Machine) (K : Byte) (M M2 : Short) (n : Byte)
    (hr : m.disk.status.ready = false) (hn : n.val ≤ 64)
    (hdisj : ∀ s t, s < 256 * n.val → t < 256 * n.val →
      toUShort (M.val + s) ≠ toUShort (M2.val + t)) :
    ∀ t, t < 256 * n.val →
      (diskRoundTrip (256 * n.val) m K M M2 n).MEMORY (toUShort (M2.val + t))
          = (diskRoundTrip (256 * n.val) m K M M2 n).MEMORY (toUShort (M.val + t))
      ∧ (diskRoundTrip (256 * n.val) m K M M2 n).MEMORY (toUShort (M.val + t))
          = m.MEMORY (toUShort (M.val + t)) := by
  intro t ht
  have hs0 := diskStartTransfer_write m K M n
  have hr0 : (diskStartTransfer m K M n (toUChar DISK_COMMAND_WRITE_SECTORS)).disk.status.ready
      = false := by rw [hs0.2.2.2.2.1]; exact hr
  have hw := diskTicks_write (256 * n.val) _ hr0 hs0.2.2.2.1 (by rw [hs0.2.2.1]) (by omega)
  have hwreg := (diskTicks_registers (256 * n.val) _ hr0 (by rw [hs0.2.2.1])).1
  have hwr : (diskTicks (256 * n.val)
      (diskStartTransfer m K M n (toUChar DISK_COMMAND_WRITE_SECTORS))).disk.status.ready
      = false := by rw [hwreg]; exact hr0
  have hs1 := diskStartTransfer_read (diskTicks (256 * n.val)
      (diskStartTransfer m K M n (toUChar DISK_COMMAND_WRITE_SECTORS))) K M2 n
  have hr1 : (diskStartTransfer (diskTicks (256 * n.val)
      (diskStartTransfer m K M n (toUChar DISK_COMMAND_WRITE_SECTORS))) K M2 n
      (toUChar DISK_COMMAND_READ_SECTORS)).disk.status.ready = false := by
    rw [hs1.2.2.2.2.1]; exact hwr
  have hrd := diskTicks_read (256 * n.val) _ hr1 hs1.2.2.2.1 (by rw [hs1.2.2.1]) (by omega)
  have hfin : ∀ a : Short, (diskRoundTrip (256 * n.val) m K M M2 n).MEMORY a
      = if (a.val + 65536 - M2.val) % 65536 < 256 * n.val
        then (if ((diskIndex (K.val * 256 + (a.val + 65536 - M2.val) % 65536)).val + 16384
              - K.val * 256 % 16384) % 16384 < 256 * n.val
          then m.MEMORY (toUShort (M.val
            + ((diskIndex (K.val * 256 + (a.val + 65536 - M2.val) % 65536)).val + 16384
              - K.val * 256 % 16384) % 16384))
          else m.DISK (diskIndex (K.val * 256 + (a.val + 65536 - M2.val) % 65536)))
        else m.MEMORY a := by
    intro a
    show (diskTicks (256 * n.val) (diskStartTransfer (diskTicks (256 * n.val)
      (diskStartTransfer m K M n (toUChar DISK_COMMAND_WRITE_SECTORS))) K M2 n
      (toUChar DISK_COMMAND_READ_SECTORS))).MEMORY a = _
    rw [hrd.2 a, hs1.1, hs1.2.1, hs1.2.2.2.2.2.1, hs1.2.2.2.2.2.2, hw.1, hw.2, hs0.1, hs0.2.1,
      hs0.2.2.2.2.2.1, hs0.2.2.2.2.2.2]
  have hK := K.isLt
  have hM := M.isLt
  have hM2 := M2.isLt
  have hsame : (diskRoundTrip (256 * n.val) m K M M2 n).MEMORY (toUShort (M.val + t))
      = m.MEMORY (toUShort (M.val + t)) := by
    rw [hfin]
    by_cases hc : ((toUShort (M.val + t)).val + 65536 - M2.val) % 65536 < 256 * n.val
    · exfalso
      apply hdisj t _ ht hc
      apply Fin.ext
      simp only [toUShort_val] at hc ⊢
      omega
    · rw [if_neg hc]
  refine ⟨?_, hsame⟩
  rw [hsame, hfin]
  have hoff : ((toUShort (M2.val + t)).val + 65536 - M2.val) % 65536 = t := by
    rw [toUShort_val]
    omega
  rw [hoff, if_pos ht]
  have hoffd : ((diskIndex (K.val * 256 + t)).val + 16384 - K.val * 256 % 16384) % 16384 = t := by
    rw [diskIndex_val]
    omega
  rw [hoffd, if_pos ht]

/-- An instance of the round trip on a busy disk: one sector (256 bytes) from memory 0x0000 through sector 0
to memory 0x0100, on the busy example machine. -/
theorem diskRoundTrip_busy_witness :
    busyExample.disk.status.ready = false
    ∧ (1 : Byte).val ≤ 64
    ∧ ∀ t, t < 256 * (1 : Byte).val →
      (diskRoundTrip (256 * (1 : Byte).val) busyExample 0 0x0000 0x0100 1).MEMORY
          (toUShort ((0x0100 : Short).val + t))
        = (diskRoundTrip (256 * (1 : Byte).val) busyExample 0 0x0000 0x0100 1).MEMORY
          (toUShort ((0x0000 : Short).val + t))
      ∧ (diskRoundTrip (256 * (1 : Byte).val) busyExample 0 0x0000 0x0100 1).MEMORY
          (toUShort ((0x0000 : Short).val + t))
        = busyExample.MEMORY (toUShort ((0x0000 : Short).val + t)) :=
  ⟨by decide, by decide,
    diskRoundTrip_busy busyExample 0 0x0000 0x0100 1 (by decide) (by decide) (by
      intro s t hs ht h
      have h2 := congrArg Fin.val h
      have e0 : (0x0000 : Short).val = 0 := rfl
      have e1 : (0x0100 : Short).val = 256 := rfl
      have e2 : (1 : Byte).val = 1 := rfl
      rw [e2] at hs ht
      rw [toUShort_val, toUShort_val, e0, e1] at h2
      omega)⟩

theorem diskTicks_split (a b c : Nat) (h : c = a + b) (m : Machine) :
    diskTicks c m = diskTicks b (diskTicks a m) := by
  subst h
  exact diskTicks_add a b m

/-- On a ready disk the transfer commands leave the disk ready, and ticking until ready
does not tick at all: the round trip leaves the memory and the disk contents as they
were, and the disk ready. -/
theorem diskRoundTripUntilReady_ready (fuel : Nat) (m : Machine) (K : Byte) (M M2 : Short)
    (n : Byte) (hr : m.disk.status.ready = true) :
    (diskRoundTripUntilReady fuel m K M M2 n).MEMORY = m.MEMORY
    ∧ (diskRoundTripUntilReady fuel m K M M2 n).DISK = m.DISK
    ∧ (diskRoundTripUntilReady fuel m K M M2 n).disk.status.ready = true := by
  have hs0 := diskStartTransfer_write m K M n
  have hr0 : (diskStartTransfer m K M n (toUChar DISK_COMMAND_WRITE_SECTORS)).disk.status.ready
      = true := by rw [hs0.2.2.2.2.1]; exact hr
  have hs1 := diskStartTransfer_read
    (diskStartTransfer m K M n (toUChar DISK_COMMAND_WRITE_SECTORS)) K M2 n
  have hr1 : (diskStartTransfer (diskStartTransfer m K M n (toUChar DISK_COMMAND_WRITE_SECTORS))
      K M2 n (toUChar DISK_COMMAND_READ_SECTORS)).disk.status.ready = true := by
    rw [hs1.2.2.2.2.1]; exact hr0
  have e : diskRoundTripUntilReady fuel m K M M2 n
      = diskStartTransfer (diskStartTransfer m K M n (toUChar DISK_COMMAND_WRITE_SECTORS))
        K M2 n (toUChar DISK_COMMAND_READ_SECTORS) := by
    show diskTickUntilReady fuel (diskStartTransfer (diskTickUntilReady fuel
      (diskStartTransfer m K M n (toUChar DISK_COMMAND_WRITE_SECTORS))) K M2 n
      (toUChar DISK_COMMAND_READ_SECTORS)) = _
    rw [diskTickUntilReady_ready fuel _ hr0, diskTickUntilReady_ready fuel _ hr1]
  rw [e]
  exact ⟨hs1.2.2.2.2.2.1.trans hs0.2.2.2.2.2.1, hs1.2.2.2.2.2.2.trans hs0.2.2.2.2.2.2, hr1⟩

/-- The round trip with more sectors than the disk has: 65 sectors (16640 bytes) from
memory 0x0000 through sector 0 to memory 0x8000 on the busy example machine, 16640 ticks
per transfer.  The last 256 bytes written wrap round the 16384-byte disk and overwrite
the first 256: the byte read back to 0x8000 is `memory[0x4000] = 0`, not
`memory[0x0000] = 1`. -/
theorem diskRoundTrip_wraps :
    (diskRoundTrip (256 * (65 : Byte).val) busyExample 0 0x0000 0x8000 65).MEMORY 0x8000 = 0
    ∧ (diskRoundTrip (256 * (65 : Byte).val) busyExample 0 0x0000 0x8000 65).MEMORY 0x0000
        = 1 := by
  obtain ⟨s0, hs0def⟩ : ∃ s, s = diskStartTransfer busyExample 0 0x0000 65
    (toUChar DISK_COMMAND_WRITE_SECTORS) := ⟨_, rfl⟩
  have hs0 := diskStartTransfer_write busyExample 0 0x0000 65
  rw [← hs0def] at hs0
  have hbc : 256 * (65 : Byte).val = 16384 + 256 := rfl
  have hr0 : s0.disk.status.ready = false := by rw [hs0.2.2.2.2.1]; rfl
  have hd0 : s0.disk.diskAddress.val = 0 := hs0.1
  have hm0 : s0.disk.memoryAddress.val = 0 := by rw [hs0.2.1]; rfl
  have hb0 : s0.disk.byteCount.val = 16384 + 256 := hs0.2.2.1.trans hbc
  -- the first 16384 write ticks
  obtain ⟨s1, hs1def⟩ : ∃ s, s = diskTicks 16384 s0 := ⟨_, rfl⟩
  have hreg1 := (diskTicks_registers 16384 s0 hr0 (by omega)).1
  have hw1 := (diskTicks_write 16384 s0 hr0 hs0.2.2.2.1 (by omega) (Nat.le_refl _)).1
  rw [← hs1def] at hreg1 hw1
  have hr1 : s1.disk.status.ready = false := by rw [hreg1]; exact hr0
  have ho1 : s1.disk.status.operation = true := by rw [hreg1]; exact hs0.2.2.2.1
  have hd1 : s1.disk.diskAddress.val = 16384 := by
    rw [hreg1]
    show (toUShort (s0.disk.diskAddress.val + 16384)).val = _
    rw [hd0]
    rfl
  have hm1 : s1.disk.memoryAddress.val = 16384 := by
    rw [hreg1]
    show (toUShort (s0.disk.memoryAddress.val + 16384)).val = _
    rw [hm0]
    rfl
  have hb1 : s1.disk.byteCount.val = 256 := by
    rw [hreg1]
    show (toUInt (s0.disk.byteCount.val - 16384)).val = _
    rw [hb0]
    rfl
  -- the last 256 write ticks
  obtain ⟨w, hwdef⟩ : ∃ s, s = diskTicks 256 s1 := ⟨_, rfl⟩
  have hreg2 := (diskTicks_registers 256 s1 hr1 (by omega)).1
  have hw2 := diskTicks_write 256 s1 hr1 ho1 (by omega) (by omega)
  rw [← hwdef] at hreg2 hw2
  have hrw : w.disk.status.ready = false := by rw [hreg2]; exact hr1
  have hwm : w.MEMORY = busyExample.MEMORY := by rw [hw2.1, hw1, hs0.2.2.2.2.2.1]
  have hwd : w.DISK (diskIndex 0) = 0 := by
    rw [hw2.2, hd1, hm1, hw1, hs0.2.2.2.2.2.1, if_pos (by decide)]
    decide
  have hsplit : diskTicks (256 * (65 : Byte).val) s0 = w := by
    rw [hwdef, hs1def]
    exact diskTicks_split 16384 256 _ hbc s0
  -- the read
  obtain ⟨r0, hr0def⟩ : ∃ s, s = diskStartTransfer w 0 0x8000 65
    (toUChar DISK_COMMAND_READ_SECTORS) := ⟨_, rfl⟩
  have hs2 := diskStartTransfer_read w 0 0x8000 65
  rw [← hr0def] at hs2
  have hrr : r0.disk.status.ready = false := by rw [hs2.2.2.2.2.1]; exact hrw
  have hrd := (diskTicks_read (256 * (65 : Byte).val) r0 hrr hs2.2.2.2.1
    (by rw [hs2.2.2.1]) (by decide)).2
  have hfin : diskRoundTrip (256 * (65 : Byte).val) busyExample 0 0x0000 0x8000 65
      = diskTicks (256 * (65 : Byte).val) r0 := by
    rw [hr0def, ← hsplit, hs0def]
    rfl
  have hdr : r0.disk.diskAddress.val = 0 := hs2.1
  rw [hfin, hrd, hrd, hs2.2.1, hdr, hs2.2.2.2.2.2.2, hs2.2.2.2.2.2.1, hwm]
  constructor
  · have e : (((0x8000 : Short).val + 65536 - (0x8000 : Short).val) % 65536) = 0 := rfl
    rw [e, if_pos (by decide), hwd]
  · rw [if_neg (by decide)]
    decide

/-- C23: the write/read round trip through the command protocol, run after `Disk_Init`,
transfers nothing.  `Disk_Init` leaves `ready = 1`; neither `WRITE_SECTORS` nor
`READ_SECTORS` clears it, so the disk is still ready after each command, ticking until
ready calls `Disk_Update` not once, and for every machine, sector `K`, sector count `n`
and addresses `M`, `M2` the memory and the disk contents after the round trip are those
before it.  On the initialised example machine (`memory[0x0000] = 1`, zeros elsewhere),
with `K = 0`, `n = 1`, `M = 0x0000`, `M2 = 0x0100`: after the round trip
`memory[0x0100] = 0` differs from `memory[0x0000] = 1`. -/
theorem diskRoundTripUntilReady_init :
    (∀ (fuel : Nat) (m : Machine) (K : Byte) (M M2 : Short) (n : Byte),
      (Disk_Init m).disk.status.ready = true
      ∧ (diskStartTransfer (Disk_Init m) K M n
          (toUChar DISK_COMMAND_WRITE_SECTORS)).disk.status.ready = true
      ∧ (diskRoundTripUntilReady fuel (Disk_Init m) K M M2 n).MEMORY = m.MEMORY
      ∧ (diskRoundTripUntilReady fuel (Disk_Init m) K M M2 n).DISK = m.DISK
      ∧ (diskRoundTripUntilReady fuel (Disk_Init m) K M M2 n).disk.status.ready = true)
    ∧ (diskRoundTripUntilReady 65536 initExample 0 0x0000 0x0100 1).MEMORY 0x0100 = 0
    ∧ (diskRoundTripUntilReady 65536 initExample 0 0x0000 0x0100 1).MEMORY 0x0000 = 1 := by
  refine ⟨?_, ?_⟩
  · intro fuel m K M M2 n
    have hi : (Disk_Init m).disk.status.ready = true := rfl
    have h := diskRoundTripUntilReady_ready fuel (Disk_Init m) K M M2 n hi
    exact ⟨hi, (diskStartTransfer_write (Disk_Init m) K M n).2.2.2.2.1.trans hi, h.1, h.2.1,
      h.2.2⟩
  · have h := (diskRoundTripUntilReady_ready 65536 initExample 0 0x0000 0x0100 1
      (by decide)).1
    rw [h]
    exact ⟨by decide, by decide⟩
/-! ## Compare -/

theorem intToUChar_BITNOT_val (b : Byte) : (intToUChar (BITNOT b.val)).val = 255 - b.val := by
  have h := b.isLt
  rw [intToUChar_val, BITNOT]
  omega

/-- With the carry set, `CPU_SUB(a, b)` leaves the flags of an unsigned compare. -/
theorem CPU_SUB_carry_flags (n : Machine) (a b : Byte) (hc : n.cpu.f.c = true) :
    (CPU_SUB n a b).2 = { n with cpu := { n.cpu with f := { n.cpu.f with
      z := decide (a = b)
      c := decide (b.val ≤ a.val)
      s := (intToUChar ((a.val : Int) - (b.val : Int))).val.testBit 7
      v := false } } } := by
  have ha := a.isLt
  have hb := b.isLt
  have hn := intToUChar_BITNOT_val b
  have hval : toUChar (a.val + (intToUChar (BITNOT b.val)).val + 1)
      = intToUChar ((a.val : Int) - (b.val : Int)) := by
    apply Fin.ext
    rw [toUChar_val, hn, intToUChar_val]
    omega
  have hz : decide ((intToUChar ((a.val : Int) - (b.val : Int))).val = 0) = decide (a = b) := by
    apply decide_eq_decide.2
    rw [intToUChar_val]
    constructor
    · intro h
      apply Fin.ext
      omega
    · intro h
      rw [h]
      simp
  have hcarry : decide (a.val + (intToUChar (BITNOT b.val)).val + 1 > 0xFF)
      = decide (b.val ≤ a.val) := by
    apply decide_eq_decide.2
    rw [hn]
    omega
  rw [CPU_SUB, CPU_ADB_eq]
  simp only [hc, bitVal, if_true, hval, hz, hcarry]

/-- C31: `CPB` is an unsigned compare of the stack top `a` against the next byte `b`,
whatever the incoming carry.  For every machine state the handler pops both bytes and
pushes nothing (`S` goes up by 2 modulo `2^16`, the memory is unchanged) and sets
`Z = (a == b)`, `C = (a ≥ b)`, the `S` flag to bit 7 of `(a − b) mod 256` and `V = 0`;
it leaves `H`, `E` and the registers `A`, `B`, `I` alone; and so does `CPU_Execute` on
opcode 0x6E. -/
theorem CPU_Opcode_CPB_compare (m : Machine) :
    ((CPU_Opcode_CPB m).cpu.s = toUShort (m.cpu.s.val + 2)
      ∧ (CPU_Opcode_CPB m).MEMORY = m.MEMORY
      ∧ (CPU_Opcode_CPB m).cpu.f.z = decide (stackTop m = stackNext m)
      ∧ (CPU_Opcode_CPB m).cpu.f.c = decide ((stackNext m).val ≤ (stackTop m).val)
      ∧ (CPU_Opcode_CPB m).cpu.f.s
          = (intToUChar (((stackTop m).val : Int) - ((stackNext m).val : Int))).val.testBit 7
      ∧ (CPU_Opcode_CPB m).cpu.f.v = false
      ∧ (CPU_Opcode_CPB m).cpu.f.h = m.cpu.f.h
      ∧ (CPU_Opcode_CPB m).cpu.f.i = m.cpu.f.i
      ∧ (CPU_Opcode_CPB m).cpu.a = m.cpu.a
      ∧ (CPU_Opcode_CPB m).cpu.b = m.cpu.b
      ∧ (CPU_Opcode_CPB m).cpu.i = m.cpu.i)
    ∧ (∀ x, CPU_Opcode_CPB (m.setFC x) = CPU_Opcode_CPB m)
    ∧ (Memory_GetByte m m.cpu.i = 0x6E →
        (CPU_Execute m).cpu.s = toUShort (m.cpu.s.val + 2)
        ∧ (CPU_Execute m).MEMORY = m.MEMORY
        ∧ (CPU_Execute m).cpu.f.z = decide (stackTop m = stackNext m)
        ∧ (CPU_Execute m).cpu.f.c = decide ((stackNext m).val ≤ (stackTop m).val)
        ∧ (CPU_Execute m).cpu.f.s
            = (intToUChar (((stackTop m).val : Int) - ((stackNext m).val : Int))).val.testBit 7
        ∧ (CPU_Execute m).cpu.f.v = false) := by
  have hH : ∀ n : Machine,
      CPU_Opcode_CPB n = { n with cpu := { n.cpu with
        s := toUShort (n.cpu.s.val + 2)
        f := { n.cpu.f with
          z := decide (stackTop n = stackNext n)
          c := decide ((stackNext n).val ≤ (stackTop n).val)
          s := (intToUChar (((stackTop n).val : Int) - ((stackNext n).val : Int))).val.testBit 7
          v := false } } } := by
    intro n
    have e : CPU_Opcode_CPB n
        = (CPU_SUB ((CPU_PopByte (CPU_PopByte n).2).2.setFC 1) (stackTop n) (stackNext n)).2 := rfl
    rw [e, CPU_SUB_carry_flags _ _ _ rfl]
    have h2 : toUShort ((toUShort (n.cpu.s.val + 1)).val + 1) = toUShort (n.cpu.s.val + 2) := by
      apply Fin.ext
      simp only [toUShort_val]
      omega
    simp only [CPU_PopByte_eq, Machine.setFC, h2]
  refine ⟨?_, fun x => rfl, ?_⟩
  · rw [hH m]
    exact ⟨rfl, rfl, rfl, rfl, rfl, rfl, rfl, rfl, rfl, rfl, rfl⟩
  · intro hop
    have e : CPU_Execute m = CPU_Opcode_CPB (CPU_FetchByte m).2 :=
      CPU_Execute_of_opcode m 0x6E OpcodeFn.CPB hop (by decide)
    rw [e, hH]
    exact ⟨rfl, rfl, rfl, rfl, rfl, rfl⟩

set_option maxRecDepth 8192 in
/-- C31, witness: `CPB` with 0x10 on top of 0x20: `Z = 0`, `C = 0` (0x10 < 0x20), the
`S` flag set (bit 7 of 0xF0). -/
theorem CPU_Opcode_CPB_compare_witness :
    Memory_GetByte cpbExample cpbExample.cpu.i = 0x6E
    ∧ ((CPU_Execute cpbExample).cpu.s = toUShort (cpbExample.cpu.s.val + 2)
      ∧ (CPU_Execute cpbExample).MEMORY = cpbExample.MEMORY
      ∧ (CPU_Execute cpbExample).cpu.f.z = decide (stackTop cpbExample = stackNext cpbExample)
      ∧ (CPU_Execute cpbExample).cpu.f.c
          = decide ((stackNext cpbExample).val ≤ (stackTop cpbExample).val)
      ∧ (CPU_Execute cpbExample).cpu.f.s
          = (intToUChar (((stackTop cpbExample).val : Int)
              - ((stackNext cpbExample).val : Int))).val.testBit 7
      ∧ (CPU_Execute cpbExample).cpu.f.v = false) :=
  ⟨by decide, (CPU_Opcode_CPB_compare cpbExample).2.2 (by decide)⟩

set_option maxRecDepth 8192 in
/-- The compare scenario, evaluated. -/
theorem CPU_Execute_cpbExample :
    (CPU_Execute cpbExample).cpu.s = 0x1002
    ∧ (CPU_Execute cpbExample).cpu.f.z = false
    ∧ (CPU_Execute cpbExample).cpu.f.c = false
    ∧ (CPU_Execute cpbExample).cpu.f.s = true
    ∧ (CPU_Execute cpbExample).cpu.f.v = false := by
  decide

/-! ## The 8-bit arithmetic shift -/

set_option maxRecDepth 8192 in
/-- The value `(a >> 1) | 0x80` of a byte `a`: it fits a byte, and it is the
arithmetic right shift of `a` exactly when bit 7 of `a` is set. -/
theorem sab_value :
    ∀ a : Byte,
      (toUChar ((a.val >>> 1) ||| (bitVal true <<< 7))).val = (a.val >>> 1) ||| 0x80
      ∧ (toUChar ((a.val >>> 1) ||| 0x80) = arithShiftRight8 a ↔ a.val.testBit 7 = true)
      ∧ toBit (a.val &&& 1) = a.val.testBit 0 := by
  decide

/-- What the handler of `SAB` leaves: `(a >> 1) | 0x80` on top of the stack, bit 0 of
`a` in the carry, `S` unchanged. -/
theorem CPU_Opcode_SAB_spec (n : Machine) :
    stackTop (CPU_Opcode_SAB n) = toUChar (((stackTop n).val >>> 1) ||| (bitVal true <<< 7))
    ∧ (CPU_Opcode_SAB n).cpu.f.c = toBit ((stackTop n).val &&& 1)
    ∧ (CPU_Opcode_SAB n).cpu.s = n.cpu.s := by
  simp only [CPU_Opcode_SAB, CPU_PopByte_eq, CPU_RRB_eq, CPU_PushByte_eq, Machine.setFC,
    toBit_one, intToUShort_succ_pred, stackTop, Memory_GetByte_eq, if_true, and_self]

/-- C32: for every byte `a` on top of the stack and any incoming carry, `SAB` pushes
`(a >> 1) | 0x80` in its place with `C = a bit 0` (`S` unchanged), and so does
`CPU_Execute` on opcode 0x76; for every byte `a`, `(a >> 1) | 0x80` equals the
arithmetic right shift of `a` by one (the floor of half its signed value) exactly when
`a` has bit 7 set. -/
theorem CPU_Opcode_SAB_shift (m : Machine) :
    ((stackTop (CPU_Opcode_SAB m)).val = ((stackTop m).val >>> 1) ||| 0x80
      ∧ (CPU_Opcode_SAB m).cpu.f.c = (stackTop m).val.testBit 0
      ∧ (CPU_Opcode_SAB m).cpu.s = m.cpu.s)
    ∧ (∀ x, CPU_Opcode_SAB (m.setFC x) = CPU_Opcode_SAB m)
    ∧ (∀ a : Byte,
        toUChar ((a.val >>> 1) ||| 0x80) = arithShiftRight8 a ↔ a.val.testBit 7 = true)
    ∧ (stackTop (CPU_Opcode_SAB m) = arithShiftRight8 (stackTop m)
        ↔ (stackTop m).val.testBit 7 = true)
    ∧ (Memory_GetByte m m.cpu.i = 0x76 →
        (stackTop (CPU_Execute m)).val = ((stackTop m).val >>> 1) ||| 0x80
        ∧ (CPU_Execute m).cpu.f.c = (stackTop m).val.testBit 0
        ∧ (CPU_Execute m).cpu.s = m.cpu.s) := by
  have hH : ∀ n : Machine,
      (stackTop (CPU_Opcode_SAB n)).val = ((stackTop n).val >>> 1) ||| 0x80
      ∧ (CPU_Opcode_SAB n).cpu.f.c = (stackTop n).val.testBit 0
      ∧ (CPU_Opcode_SAB n).cpu.s = n.cpu.s := by
    intro n
    have h := CPU_Opcode_SAB_spec n
    have hv := sab_value (stackTop n)
    rw [h.1, h.2.1, h.2.2, hv.1, hv.2.2]
    exact ⟨rfl, rfl, rfl⟩
  refine ⟨hH m, fun x => rfl, fun a => (sab_value a).2.1, ?_, ?_⟩
  · have h := (CPU_Opcode_SAB_spec m).1
    have hv := sab_value (stackTop m)
    have e : toUChar (((stackTop m).val >>> 1) ||| (bitVal true <<< 7))
        = toUChar (((stackTop m).val >>> 1) ||| 0x80) := rfl
    rw [h, e]
    exact hv.2.1
  · intro hop
    have e : CPU_Execute m = CPU_Opcode_SAB (CPU_FetchByte m).2 :=
      CPU_Execute_of_opcode m 0x76 OpcodeFn.SAB hop (by decide)
    rw [e]
    exact hH (CPU_FetchByte m).2

set_option maxRecDepth 8192 in
/-- C32, witness: `SAB` on 0x41 (bit 7 clear) with the carry clear: the result is
0xA0, the carry is set (bit 0 of 0x41). -/
theorem CPU_Opcode_SAB_shift_witness :
    Memory_GetByte sabExample sabExample.cpu.i = 0x76
    ∧ ((stackTop (CPU_Execute sabExample)).val = ((stackTop sabExample).val >>> 1) ||| 0x80
        ∧ (CPU_Execute sabExample).cpu.f.c = (stackTop sabExample).val.testBit 0
        ∧ (CPU_Execute sabExample).cpu.s = sabExample.cpu.s) :=
  ⟨by decide, (CPU_Opcode_SAB_shift sabExample).2.2.2.2 (by decide)⟩

set_option maxRecDepth 8192 in
/-- The shift scenario, evaluated: 0x41 becomes 0xA0, which is not its arithmetic
shift 0x20; 0xC1 would become 0xE0, which is. -/
theorem CPU_Execute_sabExample :
    stackTop (CPU_Execute sabExample) = 0xA0
    ∧ (CPU_Execute sabExample).cpu.f.c = true
    ∧ arithShiftRight8 0x41 = 0x20
    ∧ arithShiftRight8 0xC1 = 0xE0
    ∧ toUChar (((0xC1 : Byte).val >>> 1) ||| 0x80) = 0xE0 := by
  decide

/-! ## Carry chaining -/

theorem CPU_ADS_eq (m : Machine) (a b : Short) :
    CPU_ADS m a b =
      (toUShort (a.val + b.val + bitVal m.cpu.f.c),
       { m with cpu := { m.cpu with f := { m.cpu.f with
          z := decide ((toUShort (a.val + b.val + bitVal m.cpu.f.c)).val = 0)
          c := decide (a.val + b.val + bitVal m.cpu.f.c > 0xFFFF)
          s := (toUShort (a.val + b.val + bitVal m.cpu.f.c)).val.testBit 15
          v := false } } }) := by
  have ha := a.isLt
  have hb := b.isLt
  have hc := bitVal_le m.cpu.f.c
  have h1 : (a.val + b.val + bitVal m.cpu.f.c) % 4294967296 = a.val + b.val + bitVal m.cpu.f.c :=
    Nat.mod_eq_of_lt (by omega)
  simp only [CPU_ADS, Machine.setFZ, Machine.setFC, Machine.setFS, Machine.setFV, toUInt_val,
    h1, toBit_LNOT, toBit_cmpVal, toBit_zero, toBit_shiftRight]

theorem addBytesChained_eq (m : Machine) (a b : Short) :
    addBytesChained m a b =
      ((CPU_ADB m (toUChar (SHORT_LO a.val)) (toUChar (SHORT_LO b.val))).1,
       (CPU_ADB (CPU_ADB m (toUChar (SHORT_LO a.val)) (toUChar (SHORT_LO b.val))).2
          (toUChar (SHORT_HI a.val)) (toUChar (SHORT_HI b.val))).1,
       (CPU_ADB (CPU_ADB m (toUChar (SHORT_LO a.val)) (toUChar (SHORT_LO b.val))).2
          (toUChar (SHORT_HI a.val)) (toUChar (SHORT_HI b.val))).2) := rfl

/-- Bit 7 of the high byte is bit 15 of the short. -/
theorem testBit_high_byte (x : Nat) : (x / 256 % 256).testBit 7 = (x % 65536).testBit 15 := by
  rw [Nat.testBit_to_div_mod, Nat.testBit_to_div_mod]
  apply decide_eq_decide.2
  omega

/-- C35: carry chaining makes two 8-bit adds one 16-bit add.  For every 16-bit `a`, `b`
and every machine state (every carry-in), `CPU_ADB` on the low bytes and then `CPU_ADB`
on the high bytes with the carry of the first give bytes `lo`, `hi` with
`lo | (hi << 8)` equal to the result of `CPU_ADS(a, b)` from the same state, and the
same final `C` and `S` flags (and `V`, `H`, `E`; the `Z` flag of `CPU_ADS` is the
conjunction of the `Z` flags of the two byte adds). -/
theorem CPU_ADB_chain (m : Machine) (a b : Short) :
    TO_SHORT (addBytesChained m a b).1.val (addBytesChained m a b).2.1.val
        = (CPU_ADS m a b).1.val
    ∧ (addBytesChained m a b).2.2.cpu.f.c = (CPU_ADS m a b).2.cpu.f.c
    ∧ (addBytesChained m a b).2.2.cpu.f.s = (CPU_ADS m a b).2.cpu.f.s
    ∧ (addBytesChained m a b).2.2.cpu.f.v = (CPU_ADS m a b).2.cpu.f.v
    ∧ (addBytesChained m a b).2.2.cpu.f.h = (CPU_ADS m a b).2.cpu.f.h
    ∧ (addBytesChained m a b).2.2.cpu.f.i = (CPU_ADS m a b).2.cpu.f.i
    ∧ (CPU_ADS m a b).2.cpu.f.z
        = ((CPU_ADB m (toUChar (SHORT_LO a.val)) (toUChar (SHORT_LO b.val))).2.cpu.f.z
            && (addBytesChained m a b).2.2.cpu.f.z) := by
  have ha := a.isLt
  have hb := b.isLt
  have hlo : ∀ x : Nat, (toUChar (SHORT_LO x)).val = x % 256 := by
    intro x
    rw [toUChar_val, SHORT_LO_eq]
    omega
  have hhi : ∀ x : Nat, (toUChar (SHORT_HI x)).val = x / 256 % 256 := by
    intro x
    rw [toUChar_val, SHORT_HI_eq]
    omega
  rw [addBytesChained_eq, CPU_ADS_eq]
  simp only [CPU_ADB_eq, hlo, hhi]
  rw [TO_SHORT_eq _ _ (Fin.isLt _)]
  have hc0 := bitVal_le m.cpu.f.c
  generalize bitVal m.cpu.f.c = c0 at hc0 ⊢
  simp only [bitVal, decide_eq_true_eq, toUChar_val, toUShort_val, ← testBit_high_byte]
  refine ⟨?_, ?_, ?_, trivial, trivial, trivial, ?_⟩
  · split_ifs <;> omega
  · apply decide_eq_decide.2
    split_ifs <;> omega
  · rw [Nat.testBit_to_div_mod, Nat.testBit_to_div_mod]
    apply decide_eq_decide.2
    split_ifs <;> omega
  · rw [← Bool.decide_and]
    apply decide_eq_decide.2
    split_ifs <;> omega

/-! ## Invariants of the peripherals -/

/-- A display command byte is one of the fourteen `case` labels of the switch, or it
falls to `default: break;`. -/
theorem Display_CommandPortWrite_cases (v : Byte) :
    (v = 0x00 ∨ v = 0x01 ∨ v = 0x02 ∨ v = 0x11 ∨ v = 0x12 ∨ v = 0x13 ∨ v = 0x14 ∨ v = 0x16
      ∨ v = 0x21 ∨ v = 0x22 ∨ v = 0x23 ∨ v = 0x24 ∨ v = 0x25 ∨ v = 0x26)
    ∨ (v ≠ 0x21 ∧ ∀ n : Machine, Display_CommandPortWrite n v = n) := by
  by_cases h : v.val = 0x00 ∨ v.val = 0x01 ∨ v.val = 0x02 ∨ v.val = 0x11 ∨ v.val = 0x12
      ∨ v.val = 0x13 ∨ v.val = 0x14 ∨ v.val = 0x16 ∨ v.val = 0x21 ∨ v.val = 0x22
      ∨ v.val = 0x23 ∨ v.val = 0x24 ∨ v.val = 0x25 ∨ v.val = 0x26
  · left
    rcases h with h | h | h | h | h | h | h | h | h | h | h | h | h | h
    · exact Or.inl (Fin.ext h)
    · exact Or.inr (Or.inl (Fin.ext h))
    · exact Or.inr (Or.inr (Or.inl (Fin.ext h)))
    · exact Or.inr (Or.inr (Or.inr (Or.inl (Fin.ext h))))
    · exact Or.inr (Or.inr (Or.inr (Or.inr (Or.inl (Fin.ext h)))))
    · exact Or.inr (Or.inr (Or.inr (Or.inr (Or.inr (Or.inl (Fin.ext h))))))
    · exact Or.inr (Or.inr (Or.inr (Or.inr (Or.inr (Or.inr (Or.inl (Fin.ext h)))))))
    · exact Or.inr (Or.inr (Or.inr (Or.inr (Or.inr (Or.inr (Or.inr (Or.inl (Fin.ext h))))))))
    · exact Or.inr (Or.inr (Or.inr (Or.inr (Or.inr (Or.inr (Or.inr (Or.inr
        (Or.inl (Fin.ext h)))))))))
    · exact Or.inr (Or.inr (Or.inr (Or.inr (Or.inr (Or.inr (Or.inr (Or.inr
        (Or.inr (Or.inl (Fin.ext h))))))))))
    · exact Or.inr (Or.inr (Or.inr (Or.inr (Or.inr (Or.inr (Or.inr (Or.inr
        (Or.inr (Or.inr (Or.inl (Fin.ext h)))))))))))
    · exact Or.inr (Or.inr (Or.inr (Or.inr (Or.inr (Or.inr (Or.inr (Or.inr
        (Or.inr (Or.inr (Or.inr (Or.inl (Fin.ext h))))))))))))
    · exact Or.inr (Or.inr (Or.inr (Or.inr (Or.inr (Or.inr (Or.inr (Or.inr
        (Or.inr (Or.inr (Or.inr (Or.inr (Or.inl (Fin.ext h)))))))))))))
    · exact Or.inr (Or.inr (Or.inr (Or.inr (Or.inr (Or.inr (Or.inr (Or.inr
        (Or.inr (Or.inr (Or.inr (Or.inr (Or.inr (Fin.ext h)))))))))))))
  · right
    simp only [not_or] at h
    refine ⟨fun e => h.2.2.2.2.2.2.2.2.1 (congrArg Fin.val e), fun n => ?_⟩
    unfold Display_CommandPortWrite
    simp only [DISPLAY_COMMAND_GET_MEMORY_SIZE, DISPLAY_COMMAND_GET_WIDTH,
      DISPLAY_COMMAND_GET_HEIGHT, DISPLAY_COMMAND_GET_MODE, DISPLAY_COMMAND_GET_CURSOR_INDEX,
      DISPLAY_COMMAND_GET_CURSOR_X, DISPLAY_COMMAND_GET_CURSOR_Y,
      DISPLAY_COMMAND_GET_CURSOR_TYPE, DISPLAY_COMMAND_SET_MODE,
      DISPLAY_COMMAND_SET_CURSOR_INDEX, DISPLAY_COMMAND_SET_CURSOR_X,
      DISPLAY_COMMAND_SET_CURSOR_Y, DISPLAY_COMMAND_SET_CURSOR_POS,
      DISPLAY_COMMAND_SET_CURSOR_TYPE]
    repeat rw [if_neg (by omega)]

/-- The only display command that changes the mode is `SET_MODE`. -/
theorem Display_CommandPortWrite_mode (n : Machine) (v : Byte) :
    (Display_CommandPortWrite n v).display.mode
      = if v = 0x21
        then toUInt ((unionLo n.display.data.val).val &&& DISPLAY_MODE_COUNT_MASK)
        else n.display.mode := by
  rcases Display_CommandPortWrite_cases v with
    (h | h | h | h | h | h | h | h | h | h | h | h | h | h) | h
  all_goals first
    | (subst h; rfl)
    | rw [h.2 n, if_neg h.1]

/-- One access to the display keeps the mode at most 7. -/
theorem DisplayEvent_apply_mode (e : DisplayEvent) (n : Machine)
    (h : n.display.mode.val ≤ 7) : (e.apply n).display.mode.val ≤ 7 := by
  cases e with
  | command v =>
    show (Display_CommandPortWrite n v).display.mode.val ≤ 7
    rw [Display_CommandPortWrite_mode]
    split_ifs
    · rw [toUInt_val, DISPLAY_MODE_COUNT_MASK]
      have h7 : (unionLo n.display.data.val).val &&& 7 ≤ 7 := Nat.and_le_right
      omega
    · exact h
  | dataLo v => exact h
  | dataHi v => exact h

theorem displayRun_mode (evs : List DisplayEvent) (n : Machine)
    (h : n.display.mode.val ≤ 7) : (displayRun evs n).display.mode.val ≤ 7 := by
  induction evs generalizing n with
  | nil => exact h
  | cons e evs ih => exact ih (e.apply n) (DisplayEvent_apply_mode e n h)

set_option maxRecDepth 8192 in
/-- Every mode up to 7 indexes inside the three mode tables, whose widths and heights
are positive. -/
theorem mode_tables_bounds :
    ∀ k : Fin 8, k.val < DISPLAY_WIDTH.length ∧ k.val < DISPLAY_HEIGHT.length
      ∧ k.val < DISPLAY_MEMORY_SIZE.length
      ∧ 0 < DISPLAY_WIDTH.getD k.val 0 ∧ 0 < DISPLAY_HEIGHT.getD k.val 0 := by
  decide

/-- C36: `Display_Init` (the window created) leaves a state from which every sequence
of writes to the display command handler and to its two data-port handlers reaches a
state with `mode ≤ 7`; so the mode indexes inside `DISPLAY_WIDTH`, `DISPLAY_HEIGHT` and
`DISPLAY_MEMORY_SIZE` (eight entries each), and the width and height of the current
mode, the divisors of the `SET_CURSOR_*` commands, are not zero. -/
theorem Display_mode_invariant (m : Machine) :
    ∃ m0, Display_Init true m = some m0
      ∧ m0.display.mode = 0
      ∧ ∀ evs : List DisplayEvent,
          (displayRun evs m0).display.mode.val ≤ 7
          ∧ (displayRun evs m0).display.mode.val < DISPLAY_WIDTH.length
          ∧ (displayRun evs m0).display.mode.val < DISPLAY_HEIGHT.length
          ∧ (displayRun evs m0).display.mode.val < DISPLAY_MEMORY_SIZE.length
          ∧ 0 < modeLookup DISPLAY_WIDTH (displayRun evs m0).display.mode
          ∧ 0 < modeLookup DISPLAY_HEIGHT (displayRun evs m0).display.mode := by
  have h0 : ∃ m0, Display_Init true m = some m0 ∧ m0.display.mode = 0 := ⟨_, rfl, rfl⟩
  obtain ⟨m0, h1, h2⟩ := h0
  refine ⟨m0, h1, h2, fun evs => ?_⟩
  have h := displayRun_mode evs m0 (by rw [h2]; decide)
  have hb := mode_tables_bounds ⟨_, Nat.lt_succ_of_le h⟩
  exact ⟨h, hb.1, hb.2.1, hb.2.2.1, hb.2.2.2.1, hb.2.2.2.2⟩

set_option maxRecDepth 8192 in
/-- A run of display accesses from the initialised zero machine, evaluated: `SET_MODE`
with `DATA_LO = 0xFF` gives mode 7, then `SET_MODE` with `DATA_LO = 0x0A` gives mode 2. -/
theorem displayRun_zeroMachine :
    ∃ m0, Display_Init true zeroMachine = some m0
      ∧ (displayRun [.dataLo 0xFF, .command 0x21] m0).display.mode = 7
      ∧ (displayRun [.dataLo 0xFF, .command 0x21, .dataLo 0x0A, .command 0x21]
          m0).display.mode = 2 :=
  ⟨_, rfl, by decide⟩

/-- No disk command changes `ready`. -/
theorem Disk_CommandPortWrite_ready (n : Machine) (v : Byte) :
    (Disk_CommandPortWrite n v).disk.status.ready = n.disk.status.ready := by
  by_cases h : 0x08 ≤ v.val
  · rw [Disk_CommandPortWrite_unknown n v h]
  · have hk : v = 0x00 ∨ v = 0x01 ∨ v = 0x02 ∨ v = 0x03 ∨ v = 0x04 ∨ v = 0x05 ∨ v = 0x06
        ∨ v = 0x07 := by
      have hv : v.val = 0 ∨ v.val = 1 ∨ v.val = 2 ∨ v.val = 3 ∨ v.val = 4 ∨ v.val = 5
          ∨ v.val = 6 ∨ v.val = 7 := by omega
      rcases hv with e | e | e | e | e | e | e | e
      · exact Or.inl (Fin.ext e)
      · exact Or.inr (Or.inl (Fin.ext e))
      · exact Or.inr (Or.inr (Or.inl (Fin.ext e)))
      · exact Or.inr (Or.inr (Or.inr (Or.inl (Fin.ext e))))
      · exact Or.inr (Or.inr (Or.inr (Or.inr (Or.inl (Fin.ext e)))))
      · exact Or.inr (Or.inr (Or.inr (Or.inr (Or.inr (Or.inl (Fin.ext e))))))
      · exact Or.inr (Or.inr (Or.inr (Or.inr (Or.inr (Or.inr (Or.inl (Fin.ext e)))))))
      · exact Or.inr (Or.inr (Or.inr (Or.inr (Or.inr (Or.inr (Or.inr (Fin.ext e)))))))
    rcases hk with e | e | e | e | e | e | e | e <;> subst e <;> rfl

/-- One access to a ready disk leaves it ready. -/
theorem DiskEvent_apply_ready (e : DiskEvent) (n : Machine)
    (h : n.disk.status.ready = true) : (e.apply n).disk.status.ready = true := by
  cases e with
  | command v =>
    show (Disk_CommandPortWrite n v).disk.status.ready = true
    rw [Disk_CommandPortWrite_ready]
    exact h
  | dataLo v => exact h
  | dataHi v => exact h
  | update =>
    show (Disk_Update n).disk.status.ready = true
    rw [Disk_Update_ready n h]
    exact h

theorem diskRun_ready (evs : List DiskEvent) (n : Machine)
    (h : n.disk.status.ready = true) : (diskRun evs n).disk.status.ready = true := by
  induction evs generalizing n with
  | nil => exact h
  | cons e evs ih => exact ih (e.apply n) (DiskEvent_apply_ready e n h)

/-- C34: in every state reached from `Disk_Init` by a sequence of writes to the disk
command handler, writes to its two data-port handlers and calls of `Disk_Update`,
`status.ready` is 1; so `Disk_Update` returns the machine as it is: main memory, the
disk backing store, `disk_address`, `memory_address` and `byte_count` are unchanged. -/
theorem Disk_ready_invariant (m : Machine) (evs : List DiskEvent) :
    (diskRun evs (Disk_Init m)).disk.status.ready = true
    ∧ Disk_Update (diskRun evs (Disk_Init m)) = diskRun evs (Disk_Init m)
    ∧ (Disk_Update (diskRun evs (Disk_Init m))).MEMORY = (diskRun evs (Disk_Init m)).MEMORY
    ∧ (Disk_Update (diskRun evs (Disk_Init m))).DISK = (diskRun evs (Disk_Init m)).DISK
    ∧ (Disk_Update (diskRun evs (Disk_Init m))).disk.diskAddress
        = (diskRun evs (Disk_Init m)).disk.diskAddress
    ∧ (Disk_Update (diskRun evs (Disk_Init m))).disk.memoryAddress
        = (diskRun evs (Disk_Init m)).disk.memoryAddress
    ∧ (Disk_Update (diskRun evs (Disk_Init m))).disk.byteCount
        = (diskRun evs (Disk_Init m)).disk.byteCount
    ∧ (diskRun evs (Disk_Init m)).MEMORY = m.MEMORY
    ∧ (diskRun evs (Disk_Init m)).DISK = m.DISK := by
  have hr := diskRun_ready evs (Disk_Init m) rfl
  have hu := Disk_Update_ready _ hr
  have hframe : ∀ (l : List DiskEvent) (n : Machine), n.disk.status.ready = true →
      (diskRun l n).MEMORY = n.MEMORY ∧ (diskRun l n).DISK = n.DISK := by
    intro l
    induction l with
    | nil => exact fun n _ => ⟨rfl, rfl⟩
    | cons e l ih =>
      intro n hn
      have h1 := ih (e.apply n) (DiskEvent_apply_ready e n hn)
      have h2 : (e.apply n).MEMORY = n.MEMORY ∧ (e.apply n).DISK = n.DISK := by
        cases e with
        | command v =>
          have hc : (Disk_CommandPortWrite n v).MEMORY = n.MEMORY
              ∧ (Disk_CommandPortWrite n v).DISK = n.DISK := by
            have hp : Disk_CommandPortWrite n v
                = { n with disk := (Disk_CommandPortWrite n v).disk,
                           display := (Disk_CommandPortWrite n v).display } :=
              (Disk_CommandPortWrite_periphOnly v) n n rfl rfl
            rw [hp]
            exact ⟨rfl, rfl⟩
          exact hc
        | dataLo v => exact ⟨rfl, rfl⟩
        | dataHi v => exact ⟨rfl, rfl⟩
        | update =>
          show (Disk_Update n).MEMORY = n.MEMORY ∧ (Disk_Update n).DISK = n.DISK
          rw [Disk_Update_ready n hn]
          exact ⟨rfl, rfl⟩
      exact ⟨h1.1.trans h2.1, h1.2.trans h2.2⟩
  have hf := hframe evs (Disk_Init m) rfl
  rw [hu]
  exact ⟨hr, rfl, rfl, rfl, rfl, rfl, rfl, hf.1, hf.2⟩

set_option maxRecDepth 8192 in
/-- A run of disk accesses from the initialised zero machine, evaluated:
`SET_SECTOR_COUNT 1`, `READ_SECTORS` and three ticks leave `ready = 1`,
`byteCount = 256` and the addresses at 0. -/
theorem diskRun_zeroMachine :
    (diskRun [.dataLo 1, .command 0x05, .command 0x06, .update, .update, .update]
        (Disk_Init zeroMachine)).disk.status.ready = true
    ∧ (diskRun [.dataLo 1, .command 0x05, .command 0x06, .update, .update, .update]
        (Disk_Init zeroMachine)).disk.byteCount = 256
    ∧ (diskRun [.dataLo 1, .command 0x05, .command 0x06, .update, .update, .update]
        (Disk_Init zeroMachine)).disk.memoryAddress = 0 := by
  decide

/-! ## The frame of `SET_MODE` -/

/-- C37: `SET_MODE` changes only the mode field.  For every state (so every `DATA_LO`),
`Display_CommandPortWrite` on 0x21 sets `mode = DATA_LO & 7` and leaves `base`,
`cursor_x`, `cursor_y`, `cursor_index`, `cursor_type` and `DATA` as they are, and the
rest of the machine too: the cursor is not recomputed for the new mode. -/
theorem Display_SET_MODE_frame (m : Machine) :
    Display_CommandPortWrite m 0x21
        = { m with display := { m.display with
              mode := toUInt ((unionLo m.display.data.val).val &&& DISPLAY_MODE_COUNT_MASK) } }
    ∧ (Display_CommandPortWrite m 0x21).display.base = m.display.base
    ∧ (Display_CommandPortWrite m 0x21).display.cursorX = m.display.cursorX
    ∧ (Display_CommandPortWrite m 0x21).display.cursorY = m.display.cursorY
    ∧ (Display_CommandPortWrite m 0x21).display.cursorIndex = m.display.cursorIndex
    ∧ (Display_CommandPortWrite m 0x21).display.cursorType = m.display.cursorType
    ∧ (Display_CommandPortWrite m 0x21).display.data = m.display.data
    ∧ (∀ v : Byte, (displaySetMode m v).display.base = m.display.base
        ∧ (displaySetMode m v).display.cursorX = m.display.cursorX
        ∧ (displaySetMode m v).display.cursorY = m.display.cursorY
        ∧ (displaySetMode m v).display.cursorIndex = m.display.cursorIndex
        ∧ (displaySetMode m v).display.cursorType = m.display.cursorType
        ∧ (displaySetMode m v).display.mode.val = v.val % 8) := by
  refine ⟨rfl, rfl, rfl, rfl, rfl, rfl, rfl, fun v => ⟨rfl, rfl, rfl, rfl, rfl, ?_⟩⟩
  rw [displaySetMode_mode]
  exact (DISPLAY_tables_eq_spec v).1

set_option maxRecDepth 8192 in
/-- The frame of `SET_MODE`, evaluated: in mode 0 (40 x 25) `SET_CURSOR_POS` (39, 24)
gives the index 999; after `SET_MODE` 2 (80 x 50) the cursor is still (39, 24) and the
index still 999, not `24 * 80 + 39 = 1959`. -/
theorem Display_SET_MODE_frame_zeroMachine :
    (displayCommand zeroMachine 0x25 0x1827).display.cursorIndex = 999
    ∧ (displaySetMode (displayCommand zeroMachine 0x25 0x1827) 2).display.mode = 2
    ∧ (displaySetMode (displayCommand zeroMachine 0x25 0x1827) 2).display.cursorX = 39
    ∧ (displaySetMode (displayCommand zeroMachine 0x25 0x1827) 2).display.cursorY = 24
    ∧ (displaySetMode (displayCommand zeroMachine 0x25 0x1827) 2).display.cursorIndex = 999 := by
  decide

/-! ## Drawing in the 16-colour pixel modes -/

/-- The host pixels of the 2 x 2 block of the logical pixel `(j, i)` are the pixels
that belong to it. -/
theorem block_iff (i j k : Nat) (hi : i < 200) (hj : j < 320) :
    (k = 1280 * i + 2 * j ∨ k = 1280 * i + 2 * j + 1 ∨ k = 1280 * i + 2 * j + 640
      ∨ k = 1280 * i + 2 * j + 641)
    ↔ (k < 256000 ∧ k / 1280 * 320 + k % 640 / 2 = i * 320 + j) := by
  omega

theorem Display_SetPixelDouble_eq (s : Surface) (i j : Nat) (c : Word) (hi : i < 200)
    (hj : j < 320) :
    Display_SetPixelDouble 640 s (toUInt j) (toUInt i) c
      = fun k => if k = 1280 * i + 2 * j ∨ k = 1280 * i + 2 * j + 1
          ∨ k = 1280 * i + 2 * j + 640 ∨ k = 1280 * i + 2 * j + 641 then c else s k := by
  have hr : List.range 2 = [0, 1] := rfl
  have hx : (toUInt (SDL_min (toUInt j).val (WINDOW_HW - 1) <<< 1)).val = 2 * j := by
    have e : WINDOW_HW - 1 = 319 := rfl
    rw [e, SDL_min, toUInt_val, toUInt_val, Nat.shiftLeft_eq]
    split_ifs <;> omega
  have hy : (toUInt ((toUInt (SDL_min (toUInt i).val (WINDOW_HH - 1) <<< 1)).val * 640)).val
      = 1280 * i := by
    have e : WINDOW_HH - 1 = 199 := rfl
    rw [e, SDL_min, toUInt_val, toUInt_val, toUInt_val, Nat.shiftLeft_eq]
    split_ifs <;> omega
  unfold Display_SetPixelDouble
  simp only [hr, List.foldl_cons, List.foldl_nil, hx, hy]
  funext k
  split_ifs <;> first | rfl | (exfalso; omega)

set_option maxRecDepth 8192 in
/-- The two nibbles of a byte as the draw loop extracts them. -/
theorem nibble_extract :
    ∀ b : Byte, (toUChar ((b.val >>> (toUChar (4 &&& 0)).val) &&& 15)).val = b.val % 16
      ∧ (toUChar ((b.val >>> (toUChar (4 &&& 4294967295)).val) &&& 15)).val = b.val / 16 := by
  decide

/-- The palette index the draw loop computes at pixel counter `i * 320 + j` is the one
the specification gives for the logical pixel `(j, i)`. -/
theorem Display_DrawPixel16_pixel (m : Machine) (i j : Nat) (hi : i < 200) (hj : j < 320) :
    (toUChar (((Memory_GetByte m (toUShort (toUInt (((toUInt (i * 320 + j)).val >>> 1)
        + m.display.base.val)).val)).val
      >>> (toUChar (4 &&& (intToUInt (-((((toUInt (i * 320 + j)).val &&& 1 : Nat) : Int)))).val)).val)
      &&& 15)).val = specPixel16 m j i := by
  have hb := m.display.base.isLt
  have hp : (toUInt (i * 320 + j)).val = i * 320 + j := by
    rw [toUInt_val]
    omega
  have haddr : toUShort (toUInt (((i * 320 + j) >>> 1) + m.display.base.val)).val
      = toUShort (m.display.base.val + (i * 320 + j) / 2) := by
    apply Fin.ext
    rw [toUShort_val, toUInt_val, toUShort_val, Nat.shiftRight_eq_div_pow]
    omega
  rw [hp, haddr, Memory_GetByte_eq, Nat.and_one_is_mod, specPixel16]
  by_cases hpar : j % 2 = 0
  · have h0 : (i * 320 + j) % 2 = 0 := by omega
    have e : (intToUInt (-(((0 : Nat)) : Int))).val = 0 := rfl
    rw [h0, e, if_pos hpar]
    exact (nibble_extract _).1
  · have h1 : (i * 320 + j) % 2 = 1 := by omega
    have e : (intToUInt (-(((1 : Nat)) : Int))).val = 4294967295 := rfl
    rw [h1, e, if_neg hpar]
    exact (nibble_extract _).2

/-- One pass of the inner loop body: the next logical pixel is drawn. -/
theorem Display_DrawPixel16_body_eq (m : Machine) (s : Surface) (i j : Nat) (hi : i < 200)
    (hj : j < 320) :
    Display_DrawPixel16_body 640 m (toUInt (i * 320 + j), surfaceAfter16 m s (i * 320 + j)) i j
      = (toUInt (i * 320 + j + 1), surfaceAfter16 m s (i * 320 + j + 1)) := by
  have hpix := Display_DrawPixel16_pixel m i j hi hj
  have hnext : toUInt ((toUInt (i * 320 + j)).val + 1) = toUInt (i * 320 + j + 1) := by
    apply Fin.ext
    simp only [toUInt_val]
    omega
  unfold Display_DrawPixel16_body
  simp only [hpix, hnext, Display_SetPixelDouble_eq _ i j _ hi hj]
  congr 1
  funext k
  have hblock := block_iff i j k hi hj
  unfold surfaceAfter16
  by_cases hk : k = 1280 * i + 2 * j ∨ k = 1280 * i + 2 * j + 1 ∨ k = 1280 * i + 2 * j + 640
      ∨ k = 1280 * i + 2 * j + 641
  · have h2 := hblock.1 hk
    have hx : k % 640 / 2 = j := by omega
    have hy : k / 1280 = i := by omega
    rw [if_pos hk, if_pos ⟨h2.1, by omega⟩, hx, hy]
  · have h2 : ¬ (k < 256000 ∧ k / 1280 * 320 + k % 640 / 2 = i * 320 + j) :=
      fun h => hk (hblock.2 h)
    rw [if_neg hk]
    by_cases hc : k < 256000 ∧ k / 1280 * 320 + k % 640 / 2 < i * 320 + j
    · rw [if_pos hc, if_pos ⟨hc.1, by omega⟩]
    · rw [if_neg hc, if_neg (fun h => hc ⟨h.1, by
        have h3 := h.2
        have h4 : k / 1280 * 320 + k % 640 / 2 ≠ i * 320 + j := fun e => h2 ⟨h.1, e⟩
        omega⟩)]

/-- The inner loop over the first `n` columns of row `i`. -/
theorem Display_DrawPixel16_row (m : Machine) (s : Surface) (i n : Nat) (hi : i < 200)
    (hn : n ≤ 320) :
    (List.range n).foldl
        (fun (st2 : Word × Surface) (j : Nat) => Display_DrawPixel16_body 640 m st2 i j)
        (toUInt (i * 320), surfaceAfter16 m s (i * 320))
      = (toUInt (i * 320 + n), surfaceAfter16 m s (i * 320 + n)) := by
  induction n with
  | zero => simp only [List.range_zero, List.foldl_nil, Nat.add_zero]
  | succ n ih =>
    have e : i * 320 + (n + 1) = i * 320 + n + 1 := (Nat.add_assoc _ _ _).symm
    rw [List.range_succ, List.foldl_append, ih (by omega), List.foldl_cons, List.foldl_nil, e]
    exact Display_DrawPixel16_body_eq m s i n hi (by omega)

/-- The outer loop over the first `n` rows. -/
theorem Display_DrawPixel16_rows (m : Machine) (s : Surface) (n : Nat) (hn : n ≤ 200) :
    (List.range n).foldl
        (fun (st : Word × Surface) (i : Nat) =>
          (List.range 320).foldl
            (fun (st2 : Word × Surface) (j : Nat) => Display_DrawPixel16_body 640 m st2 i j) st)
        (toUInt 0, surfaceAfter16 m s 0)
      = (toUInt (n * 320), surfaceAfter16 m s (n * 320)) := by
  induction n with
  | zero => simp only [List.range_zero, List.foldl_nil, Nat.zero_mul]
  | succ n ih =>
    have h := Display_DrawPixel16_row m s n 320 (by omega) (Nat.le_refl _)
    have e : n * 320 + 320 = (n + 1) * 320 := by omega
    rw [e] at h
    rw [List.range_succ n, List.foldl_append, ih (by omega), List.foldl_cons, List.foldl_nil]
    exact h

theorem surfaceAfter16_zero (m : Machine) (s : Surface) : surfaceAfter16 m s 0 = s := by
  funext k
  unfold surfaceAfter16
  rw [if_neg (fun h => Nat.not_lt_zero _ h.2)]

/-- In the modes 5 and 7 one call of `Display_DrawPixel16` on the 640-pixel-wide
surface draws all 64000 logical pixels. -/
theorem Display_DrawPixel16_eq (m : Machine) (s : Surface)
    (hmode : m.display.mode.val = 5 ∨ m.display.mode.val = 7) :
    Display_DrawPixel16 640 m s = surfaceAfter16 m s 64000 := by
  have hW : modeLookup DISPLAY_WIDTH m.display.mode = 320 := by
    rcases hmode with h | h <;> rw [modeLookup, h] <;> rfl
  have hH : modeLookup DISPLAY_HEIGHT m.display.mode = 200 := by
    rcases hmode with h | h <;> rw [modeLookup, h] <;> rfl
  unfold Display_DrawPixel16
  rw [hW, hH]
  have h := Display_DrawPixel16_rows m s 200 (Nat.le_refl _)
  rw [surfaceAfter16_zero] at h
  rw [h]

/-- C33: in the 16-colour pixel modes 5 and 7, for every logical pixel `(x, y)` with
`x < 320`, `y < 200`, one call of `Display_DrawPixel16` (the draw function of both modes)
on the 640 x 400 surface leaves the four host pixels `(2x + dx, 2y + dy)`, `dx, dy < 2`,
equal to `DISPLAY_PALETTE[n]`, where `n` is the low nibble of
`memory[(base + (y·320 + x) div 2) mod 2^16]` when `x` is even and the high nibble when
`x` is odd; pixels past the 640 x 400 surface are not written; and the frame depends on
the memory only through the 32000 bytes from `base` on (each of which gives two logical
pixels). -/
theorem Display_DrawPixel16_spec (m : Machine) (s : Surface)
    (hmode : m.display.mode.val = 5 ∨ m.display.mode.val = 7) :
    (∀ x y dx dy, x < 320 → y < 200 → dx < 2 → dy < 2 →
      Display_DrawPixel16 640 m s ((2 * y + dy) * 640 + (2 * x + dx))
        = toUInt (DISPLAY_PALETTE.getD (specPixel16 m x y) 0))
    ∧ (∀ x y, specPixel16 m x y < DISPLAY_PALETTE.length)
    ∧ (∀ k, 640 * 400 ≤ k → Display_DrawPixel16 640 m s k = s k)
    ∧ (∀ m2 : Machine, m2.display = m.display →
        (∀ k, k < 32000 → m2.MEMORY (toUShort (m.display.base.val + k))
          = m.MEMORY (toUShort (m.display.base.val + k))) →
        Display_DrawPixel16 640 m2 s = Display_DrawPixel16 640 m s)
    ∧ Display_DrawFunction.get? 5 = some DrawFn.Display_DrawPixel16
    ∧ Display_DrawFunction.get? 7 = some DrawFn.Display_DrawPixel16 := by
  have hdraw := Display_DrawPixel16_eq m s hmode
  refine ⟨?_, ?_, ?_, ?_, rfl, rfl⟩
  · intro x y dx dy hx hy hdx hdy
    rw [hdraw]
    unfold surfaceAfter16
    have h1 : ((2 * y + dy) * 640 + (2 * x + dx)) % 640 / 2 = x := by omega
    have h2 : ((2 * y + dy) * 640 + (2 * x + dx)) / 1280 = y := by omega
    rw [if_pos ⟨by omega, by rw [h1, h2]; omega⟩, h1, h2]
  · intro x y
    have hb := (m.MEMORY (toUShort (m.display.base.val + (y * 320 + x) / 2))).isLt
    have hl : DISPLAY_PALETTE.length = 16 := rfl
    rw [hl, specPixel16]
    split_ifs <;> omega
  · intro k hk
    rw [hdraw]
    unfold surfaceAfter16
    rw [if_neg (fun h => by omega)]
  · intro m2 hd hmem
    have hmode2 : m2.display.mode.val = 5 ∨ m2.display.mode.val = 7 := by rw [hd]; exact hmode
    rw [hdraw, Display_DrawPixel16_eq m2 s hmode2]
    funext k
    unfold surfaceAfter16
    by_cases hc : k < 256000 ∧ k / 1280 * 320 + k % 640 / 2 < 64000
    · rw [if_pos hc, if_pos hc]
      have hk : (k / 1280 * 320 + k % 640 / 2) / 2 < 32000 := by omega
      have hm := hmem _ hk
      unfold specPixel16
      rw [hd, hm]
    · rw [if_neg hc, if_neg hc]

set_option maxRecDepth 8192 in
/-- C33, witness: mode 5 with the byte 0x21 at the start of video memory, drawn on a
black surface: the host pixel (0, 0) gets the colour of the low nibble, the host pixel
(2, 0) the colour of the high nibble. -/
theorem Display_DrawPixel16_spec_witness :
    (pixel16Example.display.mode.val = 5 ∨ pixel16Example.display.mode.val = 7)
    ∧ Display_DrawPixel16 640 pixel16Example (fun _ => 0) ((2 * 0 + 0) * 640 + (2 * 0 + 0))
        = toUInt (DISPLAY_PALETTE.getD (specPixel16 pixel16Example 0 0) 0)
    ∧ Display_DrawPixel16 640 pixel16Example (fun _ => 0) ((2 * 0 + 0) * 640 + (2 * 1 + 0))
        = toUInt (DISPLAY_PALETTE.getD (specPixel16 pixel16Example 1 0) 0)
    ∧ specPixel16 pixel16Example 0 0 = 1
    ∧ specPixel16 pixel16Example 1 0 = 2 :=
  ⟨Or.inl (by decide),
    (Display_DrawPixel16_spec pixel16Example (fun _ => 0) (Or.inl (by decide))).1 0 0 0 0
      (by decide) (by decide) (by decide) (by decide),
    (Display_DrawPixel16_spec pixel16Example (fun _ => 0) (Or.inl (by decide))).1 1 0 0 0
      (by decide) (by decide) (by decide) (by decide),
    by decide, by decide⟩

set_option maxRecDepth 8192 in
/-- The body of the draw loop, evaluated at the first two pixels of the example, from
a black surface: the counter goes to 1 and 2, the host pixels 0, 1, 640, 641 get
palette entry 1 (0x00000080) and the host pixels 2, 3 get palette entry 2
(0x00008000). -/
theorem Display_DrawPixel16_body_pixel16Example :
    (Display_DrawPixel16_body 640 pixel16Example (0, fun _ => 0) 0 0).1 = 1
    ∧ (Display_DrawPixel16_body 640 pixel16Example (0, fun _ => 0) 0 0).2 0 = 0x00000080
    ∧ (Display_DrawPixel16_body 640 pixel16Example (0, fun _ => 0) 0 0).2 1 = 0x00000080
    ∧ (Display_DrawPixel16_body 640 pixel16Example (0, fun _ => 0) 0 0).2 640 = 0x00000080
    ∧ (Display_DrawPixel16_body 640 pixel16Example (0, fun _ => 0) 0 0).2 641 = 0x00000080
    ∧ (Display_DrawPixel16_body 640 pixel16Example (0, fun _ => 0) 0 0).2 2 = 0
    ∧ (Display_DrawPixel16_body 640 pixel16Example
        (Display_DrawPixel16_body 640 pixel16Example (0, fun _ => 0) 0 0) 0 1).1 = 2
    ∧ (Display_DrawPixel16_body 640 pixel16Example
        (Display_DrawPixel16_body 640 pixel16Example (0, fun _ => 0) 0 0) 0 1).2 2 = 0x00008000
    ∧ (Display_DrawPixel16_body 640 pixel16Example
        (Display_DrawPixel16_body 640 pixel16Example (0, fun _ => 0) 0 0) 0 1).2 3
        = 0x00008000 := by
  decide

end StackVM
